import Mathlib

/-!
The gamescope backends: the deferred backend, and the framebuffers, planes,
connector, listeners and input thread of the Wayland backend.

A shallow embedding of `src/Backends/DeferredBackend.h` and of the parts of
`src/Backends/WaylandBackend.cpp` that the verified properties are about.

Conventions of the embedding.

* A C++ object is a structure holding its member variables; a method is a
  function taking the object (named `self`) and returning its result together
  with the updated object.  `const` methods return only their result.
* Pointers are handles (`Nat`), nullable pointers are `Option Nat`.
* The child backend of a `CDeferredBackend` is reached through the virtual
  interface `IBackend`; it is embedded as a record of functions over an
  arbitrary child state `σ`.  Whatever the child reads from the outside world
  belongs to `σ`, so every sequence of answers a child can give is covered.
* Locks are not modelled: the embedding is the sequential behaviour.
* `assert( e )` with `e` false aborts the process; a method that aborts has
  no return value (`Call.ret = none`).
* What a method does to the outside world (calls of other objects, requests to
  the host compositor) is kept as a list of events, in order.
* Framebuffers are shared objects: they live in a store `fbs` from handles to
  `CWaylandFb`, which the methods that touch them take and return.
* A listener of the host compositor is a function of the arguments of its
  event; a sequence of events is a list of operations, run in order.
-/

namespace gamescope

/-! ## The backend interface -/

/-- Screen types of `GetConnector`. -/
inductive GamescopeScreenType
  | GAMESCOPE_SCREEN_TYPE_INTERNAL
  | GAMESCOPE_SCREEN_TYPE_EXTERNAL
  deriving DecidableEq

/-- Vulkan image layouts are kept by their numeric value. -/
abbrev VkImageLayout := Nat

/-- Value of the Vulkan enumerator `VK_IMAGE_LAYOUT_GENERAL`. -/
def VK_IMAGE_LAYOUT_GENERAL : VkImageLayout := 1

/-- Value of the Vulkan enumerator `VK_FORMAT_A2B10G10R10_UNORM_PACK32`. -/
def VK_FORMAT_A2B10G10R10_UNORM_PACK32 : Nat := 64

/-- Value of the Vulkan enumerator `VK_FORMAT_B8G8R8A8_UNORM`. -/
def VK_FORMAT_B8G8R8A8_UNORM : Nat := 44

/-- The virtual methods of `IBackend` that `CDeferredBackend` overrides or
calls on its child, as functions over the child's state `σ`.  Non-`const`
methods also return the child's next state. -/
structure IBackend (σ : Type) where
  Init : σ → Bool × σ
  PostInit : σ → Bool × σ
  GetInstanceExtensions : σ → List String
  GetDeviceExtensions : σ → Nat → List String
  GetPresentLayout : σ → VkImageLayout
  GetPreferredOutputFormat : σ → Nat × Nat
  ValidPhysicalDevice : σ → Nat → Bool
  DirtyState : Bool → Bool → σ → σ
  PollState : σ → Bool × σ
  UsesModifiers : σ → Bool
  GetSupportedModifiers : σ → Nat → List Nat
  GetCurrentConnector : σ → Option Nat × σ
  GetConnector : GamescopeScreenType → σ → Option Nat × σ
  SupportsPlaneHardwareCursor : σ → Bool
  SupportsTearing : σ → Bool
  UsesVulkanSwapchain : σ → Bool
  IsSessionBased : σ → Bool
  SupportsExplicitSync : σ → Bool
  IsPaused : σ → Bool
  IsVisible : σ → Bool
  CursorSurfaceSize : σ → Nat × Nat → Nat × Nat
  HackTemporarySetDynamicRefresh : Int → σ → Bool × σ
  HackUpdatePatchedEdid : σ → σ
  NeedsFrameSync : σ → Bool
  GetTouchClickMode : σ → Nat × σ
  DumpDebugInfo : σ → σ
  UsesVirtualConnectors : σ → Bool × σ
  CreateVirtualConnector : Nat → σ → Option Nat × σ
  NotifyPhysicalInput : Nat → σ → σ
  SupportsVROverlayForwarding : σ → Bool × σ
  ForwardFramebuffer : Nat → Nat → Nat → σ → σ
  ShouldFitWindows : σ → Bool × σ

/-- Free functions of the repository that `CDeferredBackend` calls and whose
definitions are in other files. -/
structure Externals where
  GetSupportedSampleModifiers : Nat → List Nat
  VulkanFormatToDRM : Nat → Nat

/-- Modelled from the spec: `ConvertHztomHz` of the absent `refresh_rate.h`,
the refresh rate in mHz of a rate given in Hz. -/
def ConvertHztomHz (nRefreshHz : Int) : Int := nRefreshHz * 1000

/-- Conversion of an `int` to `uint32_t`. -/
def toU32 (n : Int) : Nat := (n % 4294967296).toNat

/-- The process globals that `Init` reads and assigns.  `g_nOutputWidth` and
`g_nOutputHeight` are `uint32_t`, the others are `int`. -/
structure Globals where
  g_nPreferredOutputWidth : Int
  g_nPreferredOutputHeight : Int
  g_nNestedRefresh : Int
  g_nOutputWidth : Nat
  g_nOutputHeight : Nat
  g_nOutputRefresh : Int
  deriving DecidableEq

/-! ## CDeferredBackend -/

/-- Member variables of `CDeferredBackend`; `m_pChild` is the child object
itself, which the deferred backend owns. -/
structure CDeferredBackend (σ : Type) where
  m_pChild : σ
  m_bDonePostInit : Bool
  m_bInittedChild : Bool
  m_bJustInittedClient : Bool
  m_bJustInittedPoll : Bool

/-- A call that the deferred backend made on its child, with what it returned. -/
inductive ChildCall
  | Init (bRet : Bool)
  | PostInit (bRet : Bool)
  | PollState (bRet : Bool)
  deriving DecidableEq

/-- Outcome of a non-`const` method: the value returned (`none` when an
assertion failed and the process aborted), the object afterwards, and the
calls made on the child's `Init`, `PostInit` and `PollState`, in order. -/
structure Call (σ α : Type) where
  ret : Option α
  self : CDeferredBackend σ
  calls : List ChildCall

namespace CDeferredBackend

variable {σ : Type}

/-- The constructor `CDeferredBackend( IBackend *pChild )`. -/
def new (pChild : σ) : CDeferredBackend σ :=
  ⟨pChild, false, false, false, false⟩

/-- Method `TryInittingChild()`.  The test of `m_bInittedChild` repeated under the
lock is the same test in a sequential run. -/
def TryInittingChild (B : IBackend σ) (self : CDeferredBackend σ) : Call σ Unit :=
  if !self.m_bInittedChild then
    if (B.Init self.m_pChild).1 then
      if self.m_bDonePostInit then
        if (B.PostInit (B.Init self.m_pChild).2).1 then
          ⟨some (), ⟨(B.PostInit (B.Init self.m_pChild).2).2, self.m_bDonePostInit, true, true, true⟩,
            [ChildCall.Init true, ChildCall.PostInit true]⟩
        else
          -- assert( bRet && "PostInit failed!" )
          ⟨none, ⟨(B.PostInit (B.Init self.m_pChild).2).2, self.m_bDonePostInit, true,
            self.m_bJustInittedClient, self.m_bJustInittedPoll⟩,
            [ChildCall.Init true, ChildCall.PostInit false]⟩
      else
        ⟨some (), ⟨(B.Init self.m_pChild).2, self.m_bDonePostInit, true, true, true⟩,
          [ChildCall.Init true]⟩
    else
      ⟨some (), ⟨(B.Init self.m_pChild).2, self.m_bDonePostInit, self.m_bInittedChild,
        self.m_bJustInittedClient, self.m_bJustInittedPoll⟩, [ChildCall.Init false]⟩
  else
    ⟨some (), self, []⟩

/-- Method `Init()`.  `vulkan_init` and `wlsession_init` are the results that the two
external calls give when they are reached. -/
def Init (B : IBackend σ) (vulkan_init wlsession_init : Bool) (g : Globals)
    (self : CDeferredBackend σ) : Globals × Call σ Bool :=
  let g1 : Globals :=
    { g with
      g_nOutputWidth := toU32 g.g_nPreferredOutputWidth
      g_nOutputHeight := toU32 g.g_nPreferredOutputHeight
      g_nOutputRefresh := g.g_nNestedRefresh }
  if g1.g_nOutputHeight = 0 ∧ g1.g_nOutputWidth ≠ 0 then
    (g1, ⟨some false, self, []⟩)
  else
    let g2 : Globals := if g1.g_nOutputHeight = 0 then { g1 with g_nOutputHeight := 720 } else g1
    let g3 : Globals :=
      if g2.g_nOutputWidth = 0 then
        { g2 with g_nOutputWidth := g2.g_nOutputHeight * 16 % 4294967296 / 9 }
      else g2
    let g4 : Globals :=
      if g3.g_nOutputRefresh = 0 then { g3 with g_nOutputRefresh := ConvertHztomHz 60 } else g3
    if !vulkan_init then
      (g4, ⟨some false, self, []⟩)
    else if !wlsession_init then
      (g4, ⟨some false, self, []⟩)
    else
      (g4, ⟨(TryInittingChild B self).ret.map (fun _ => true), (TryInittingChild B self).self,
        (TryInittingChild B self).calls⟩)

/-- Method `PostInit()`. -/
def PostInit (B : IBackend σ) (self : CDeferredBackend σ) : Call σ Bool :=
  if self.m_bInittedChild then
    ⟨some (B.PostInit self.m_pChild).1,
      ⟨(B.PostInit self.m_pChild).2, true, self.m_bInittedChild, self.m_bJustInittedClient,
        self.m_bJustInittedPoll⟩,
      [ChildCall.PostInit (B.PostInit self.m_pChild).1]⟩
  else
    ⟨some true, ⟨self.m_pChild, true, self.m_bInittedChild, self.m_bJustInittedClient,
      self.m_bJustInittedPoll⟩, []⟩

/-- Method `GetInstanceExtensions()`: the static array `requiredInstanceExts`. -/
def GetInstanceExtensions (_self : CDeferredBackend σ) : List String :=
  [ "VK_KHR_EXTERNAL_MEMORY_CAPABILITIES_EXTENSION_NAME",
    "VK_KHR_GET_PHYSICAL_DEVICE_PROPERTIES_2_EXTENSION_NAME",
    "VK_KHR_EXTERNAL_FENCE_CAPABILITIES_EXTENSION_NAME",
    "VK_KHR_SURFACE_EXTENSION_NAME",
    "VK_KHR_xcb_surface",
    "VK_KHR_xlib_surface",
    "VK_KHR_wayland_surface",
    "VK_KHR_EXTERNAL_SEMAPHORE_CAPABILITIES_EXTENSION_NAME" ]

/-- Method `GetDeviceExtensions( pVkPhysicalDevice )`: the static array
`requiredDeviceExts`. -/
def GetDeviceExtensions (_self : CDeferredBackend σ) (_pVkPhysicalDevice : Nat) : List String :=
  [ "VK_KHR_EXTERNAL_MEMORY_EXTENSION_NAME",
    "VK_KHR_EXTERNAL_SEMAPHORE_EXTENSION_NAME",
    "VK_KHR_TIMELINE_SEMAPHORE_EXTENSION_NAME",
    "VK_KHR_DEDICATED_ALLOCATION_EXTENSION_NAME",
    "VK_KHR_GET_MEMORY_REQUIREMENTS_2_EXTENSION_NAME",
    "VK_KHR_EXTERNAL_MEMORY_FD_EXTENSION_NAME",
    "VK_KHR_EXTERNAL_SEMAPHORE_FD_EXTENSION_NAME",
    "VK_KHR_IMAGE_FORMAT_LIST_EXTENSION_NAME" ]

/-- Method `GetPresentLayout()`. -/
def GetPresentLayout (B : IBackend σ) (self : CDeferredBackend σ) : VkImageLayout :=
  if self.m_bInittedChild then B.GetPresentLayout self.m_pChild else VK_IMAGE_LAYOUT_GENERAL

/-- Method `GetPreferredOutputFormat( pPrimaryPlaneFormat, pOverlayPlaneFormat )`; the
pair returned is what the two out-parameters receive. -/
def GetPreferredOutputFormat (X : Externals) (_self : CDeferredBackend σ) : Nat × Nat :=
  (X.VulkanFormatToDRM VK_FORMAT_A2B10G10R10_UNORM_PACK32,
    X.VulkanFormatToDRM VK_FORMAT_B8G8R8A8_UNORM)

/-- Method `ValidPhysicalDevice( pVkPhysicalDevice )`. -/
def ValidPhysicalDevice (_self : CDeferredBackend σ) (_pVkPhysicalDevice : Nat) : Bool := true

/-- Method `DirtyState( bForce, bForceModeset )`. -/
def DirtyState (B : IBackend σ) (bForce bForceModeset : Bool) (self : CDeferredBackend σ) :
    Call σ Unit :=
  if self.m_bInittedChild then
    ⟨some (), { self with m_pChild := B.DirtyState bForce bForceModeset self.m_pChild }, []⟩
  else
    ⟨some (), self, []⟩

/-- Method `PollState()`.  The right operand of `||` is evaluated only when the
child's `PollState()` returned false. -/
def PollState (B : IBackend σ) (self : CDeferredBackend σ) : Call σ Bool :=
  let t := TryInittingChild B self
  match t.ret with
  | none => ⟨none, t.self, t.calls⟩
  | some _ =>
    if t.self.m_bInittedChild then
      if (B.PollState t.self.m_pChild).1 then
        ⟨some true, { t.self with m_pChild := (B.PollState t.self.m_pChild).2 },
          t.calls ++ [ChildCall.PollState true]⟩
      else
        ⟨some t.self.m_bJustInittedPoll,
          { t.self with
            m_pChild := (B.PollState t.self.m_pChild).2
            m_bJustInittedPoll := false },
          t.calls ++ [ChildCall.PollState false]⟩
    else
      ⟨some false, t.self, t.calls⟩

/-- Method `UsesModifiers()`. -/
def UsesModifiers (_self : CDeferredBackend σ) : Bool := true

/-- Method `GetSupportedModifiers( uDrmFormat )`. -/
def GetSupportedModifiers (X : Externals) (_self : CDeferredBackend σ) (uDrmFormat : Nat) :
    List Nat :=
  X.GetSupportedSampleModifiers uDrmFormat

/-- Method `GetCurrentConnector()`. -/
def GetCurrentConnector (B : IBackend σ) (self : CDeferredBackend σ) : Call σ (Option Nat) :=
  if self.m_bInittedChild then
    ⟨some (B.GetCurrentConnector self.m_pChild).1,
      { self with m_pChild := (B.GetCurrentConnector self.m_pChild).2 }, []⟩
  else
    ⟨some none, self, []⟩

/-- Method `GetConnector( eScreenType )`. -/
def GetConnector (B : IBackend σ) (eScreenType : GamescopeScreenType)
    (self : CDeferredBackend σ) : Call σ (Option Nat) :=
  if self.m_bInittedChild then
    ⟨some (B.GetConnector eScreenType self.m_pChild).1,
      { self with m_pChild := (B.GetConnector eScreenType self.m_pChild).2 }, []⟩
  else
    ⟨some none, self, []⟩

/-- Method `SupportsPlaneHardwareCursor()`. -/
def SupportsPlaneHardwareCursor (B : IBackend σ) (self : CDeferredBackend σ) : Bool :=
  B.SupportsPlaneHardwareCursor self.m_pChild

/-- Method `SupportsTearing()`. -/
def SupportsTearing (B : IBackend σ) (self : CDeferredBackend σ) : Bool :=
  if self.m_bInittedChild then B.SupportsTearing self.m_pChild else false

/-- Method `UsesVulkanSwapchain()`. -/
def UsesVulkanSwapchain (B : IBackend σ) (self : CDeferredBackend σ) : Bool :=
  B.UsesVulkanSwapchain self.m_pChild

/-- Method `IsSessionBased()`. -/
def IsSessionBased (B : IBackend σ) (self : CDeferredBackend σ) : Bool :=
  B.IsSessionBased self.m_pChild

/-- Method `SupportsExplicitSync()`. -/
def SupportsExplicitSync (B : IBackend σ) (self : CDeferredBackend σ) : Bool :=
  B.SupportsExplicitSync self.m_pChild

/-- Method `IsPaused()`. -/
def IsPaused (B : IBackend σ) (self : CDeferredBackend σ) : Bool :=
  if self.m_bInittedChild then B.IsPaused self.m_pChild else true

/-- Method `IsVisible()`. -/
def IsVisible (B : IBackend σ) (self : CDeferredBackend σ) : Bool :=
  if self.m_bInittedChild then B.IsVisible self.m_pChild else true

/-- Method `CursorSurfaceSize( uvecSize )`. -/
def CursorSurfaceSize (B : IBackend σ) (self : CDeferredBackend σ) (uvecSize : Nat × Nat) :
    Nat × Nat :=
  if self.m_bInittedChild then B.CursorSurfaceSize self.m_pChild uvecSize else uvecSize

/-- Method `HackTemporarySetDynamicRefresh( nRefresh )`. -/
def HackTemporarySetDynamicRefresh (B : IBackend σ) (nRefresh : Int)
    (self : CDeferredBackend σ) : Call σ Bool :=
  if self.m_bInittedChild then
    ⟨some (B.HackTemporarySetDynamicRefresh nRefresh self.m_pChild).1,
      { self with m_pChild := (B.HackTemporarySetDynamicRefresh nRefresh self.m_pChild).2 }, []⟩
  else
    ⟨some false, self, []⟩

/-- Method `HackUpdatePatchedEdid()`. -/
def HackUpdatePatchedEdid (B : IBackend σ) (self : CDeferredBackend σ) : Call σ Unit :=
  if self.m_bInittedChild then
    ⟨some (), { self with m_pChild := B.HackUpdatePatchedEdid self.m_pChild }, []⟩
  else
    ⟨some (), self, []⟩

/-- Method `NeedsFrameSync()`. -/
def NeedsFrameSync (_self : CDeferredBackend σ) : Bool := false

/-- Method `GetTouchClickMode()`. -/
def GetTouchClickMode (B : IBackend σ) (self : CDeferredBackend σ) : Call σ Nat :=
  ⟨some (B.GetTouchClickMode self.m_pChild).1,
    { self with m_pChild := (B.GetTouchClickMode self.m_pChild).2 }, []⟩

/-- Method `DumpDebugInfo()`. -/
def DumpDebugInfo (B : IBackend σ) (self : CDeferredBackend σ) : Call σ Unit :=
  ⟨some (), { self with m_pChild := B.DumpDebugInfo self.m_pChild }, []⟩

/-- Method `UsesVirtualConnectors()`. -/
def UsesVirtualConnectors (B : IBackend σ) (self : CDeferredBackend σ) : Call σ Bool :=
  ⟨some (B.UsesVirtualConnectors self.m_pChild).1,
    { self with m_pChild := (B.UsesVirtualConnectors self.m_pChild).2 }, []⟩

/-- Method `CreateVirtualConnector( ulVirtualConnectorKey )`. -/
def CreateVirtualConnector (B : IBackend σ) (ulVirtualConnectorKey : Nat)
    (self : CDeferredBackend σ) : Call σ (Option Nat) :=
  if self.m_bInittedChild then
    ⟨some (B.CreateVirtualConnector ulVirtualConnectorKey self.m_pChild).1,
      { self with m_pChild := (B.CreateVirtualConnector ulVirtualConnectorKey self.m_pChild).2 },
      []⟩
  else
    ⟨some none, self, []⟩

/-- Method `NotifyPhysicalInput( eInputType )`. -/
def NotifyPhysicalInput (B : IBackend σ) (eInputType : Nat) (self : CDeferredBackend σ) :
    Call σ Unit :=
  if self.m_bInittedChild then
    ⟨some (), { self with m_pChild := B.NotifyPhysicalInput eInputType self.m_pChild }, []⟩
  else
    ⟨some (), self, []⟩

/-- Method `SupportsVROverlayForwarding()`. -/
def SupportsVROverlayForwarding (B : IBackend σ) (self : CDeferredBackend σ) : Call σ Bool :=
  ⟨some (B.SupportsVROverlayForwarding self.m_pChild).1,
    { self with m_pChild := (B.SupportsVROverlayForwarding self.m_pChild).2 }, []⟩

/-- Method `ForwardFramebuffer( pPlane, pFramebuffer, pData )`. -/
def ForwardFramebuffer (B : IBackend σ) (pPlane pFramebuffer pData : Nat)
    (self : CDeferredBackend σ) : Call σ Unit :=
  if self.m_bInittedChild then
    ⟨some (), { self with m_pChild := B.ForwardFramebuffer pPlane pFramebuffer pData self.m_pChild },
      []⟩
  else
    ⟨some (), self, []⟩

/-- Method `IsChildInitted()`. -/
def IsChildInitted (self : CDeferredBackend σ) : Bool := self.m_bInittedChild

/-- Method `NewlyInitted()`: `m_bJustInittedClient.exchange( false )`. -/
def NewlyInitted (self : CDeferredBackend σ) : Call σ Bool :=
  ⟨some self.m_bJustInittedClient, { self with m_bJustInittedClient := false }, []⟩

/-- Method `ShouldFitWindows()`. -/
def ShouldFitWindows (B : IBackend σ) (self : CDeferredBackend σ) : Call σ Bool :=
  ⟨some (B.ShouldFitWindows self.m_pChild).1,
    { self with m_pChild := (B.ShouldFitWindows self.m_pChild).2 }, []⟩

end CDeferredBackend

/-! ## Runs of a deferred backend -/

/-- A call of a public method of `CDeferredBackend`, with its arguments.  For
`Init` the arguments are the results of the two external calls.  The methods
that neither read the member flags nor call the child (`CreateBackendBlob`,
`ImportDmabufToBackend`, `GetChild`) are left out. -/
inductive Op
  | Init (vulkan_init wlsession_init : Bool)
  | PostInit
  | GetInstanceExtensions
  | GetDeviceExtensions (pVkPhysicalDevice : Nat)
  | GetPresentLayout
  | GetPreferredOutputFormat
  | ValidPhysicalDevice (pVkPhysicalDevice : Nat)
  | DirtyState (bForce bForceModeset : Bool)
  | PollState
  | UsesModifiers
  | GetSupportedModifiers (uDrmFormat : Nat)
  | GetCurrentConnector
  | GetConnector (eScreenType : GamescopeScreenType)
  | SupportsPlaneHardwareCursor
  | SupportsTearing
  | UsesVulkanSwapchain
  | IsSessionBased
  | SupportsExplicitSync
  | IsPaused
  | IsVisible
  | CursorSurfaceSize (uvecSize : Nat × Nat)
  | HackTemporarySetDynamicRefresh (nRefresh : Int)
  | HackUpdatePatchedEdid
  | NeedsFrameSync
  | GetTouchClickMode
  | DumpDebugInfo
  | UsesVirtualConnectors
  | CreateVirtualConnector (ulVirtualConnectorKey : Nat)
  | NotifyPhysicalInput (eInputType : Nat)
  | SupportsVROverlayForwarding
  | ForwardFramebuffer (pPlane pFramebuffer pData : Nat)
  | IsChildInitted
  | NewlyInitted
  | ShouldFitWindows
  deriving DecidableEq

/-- A value returned by a method. -/
inductive Ret
  | void
  | bool (b : Bool)
  | connector (p : Option Nat)
  | layout (l : VkImageLayout)
  | formats (p : Nat × Nat)
  | names (l : List String)
  | modifiers (l : List Nat)
  | size (s : Nat × Nat)
  | mode (n : Nat)
  deriving DecidableEq

/-- A `const` method: the object is unchanged and the child's `Init`,
`PostInit` and `PollState` are not called. -/
def Call.const {σ : Type} (self : CDeferredBackend σ) (r : Ret) : Call σ Ret :=
  ⟨some r, self, []⟩

/-- The same call with its return value wrapped. -/
def Call.wrap {σ α : Type} (f : α → Ret) (c : Call σ α) : Call σ Ret :=
  ⟨c.ret.map f, c.self, c.calls⟩

open CDeferredBackend in
/-- Dispatch of one call on the deferred backend. -/
def perform {σ : Type} (X : Externals) (B : IBackend σ) (op : Op) (g : Globals)
    (self : CDeferredBackend σ) : Globals × Call σ Ret :=
  match op with
  | .Init v w => ((Init B v w g self).1, (Init B v w g self).2.wrap Ret.bool)
  | .PostInit => (g, (PostInit B self).wrap Ret.bool)
  | .GetInstanceExtensions => (g, Call.const self (.names (GetInstanceExtensions self)))
  | .GetDeviceExtensions d => (g, Call.const self (.names (GetDeviceExtensions self d)))
  | .GetPresentLayout => (g, Call.const self (.layout (GetPresentLayout B self)))
  | .GetPreferredOutputFormat => (g, Call.const self (.formats (GetPreferredOutputFormat X self)))
  | .ValidPhysicalDevice d => (g, Call.const self (.bool (ValidPhysicalDevice self d)))
  | .DirtyState f m => (g, (DirtyState B f m self).wrap (fun _ => Ret.void))
  | .PollState => (g, (PollState B self).wrap Ret.bool)
  | .UsesModifiers => (g, Call.const self (.bool (UsesModifiers self)))
  | .GetSupportedModifiers f => (g, Call.const self (.modifiers (GetSupportedModifiers X self f)))
  | .GetCurrentConnector => (g, (GetCurrentConnector B self).wrap Ret.connector)
  | .GetConnector t => (g, (GetConnector B t self).wrap Ret.connector)
  | .SupportsPlaneHardwareCursor =>
      (g, Call.const self (.bool (SupportsPlaneHardwareCursor B self)))
  | .SupportsTearing => (g, Call.const self (.bool (SupportsTearing B self)))
  | .UsesVulkanSwapchain => (g, Call.const self (.bool (UsesVulkanSwapchain B self)))
  | .IsSessionBased => (g, Call.const self (.bool (IsSessionBased B self)))
  | .SupportsExplicitSync => (g, Call.const self (.bool (SupportsExplicitSync B self)))
  | .IsPaused => (g, Call.const self (.bool (IsPaused B self)))
  | .IsVisible => (g, Call.const self (.bool (IsVisible B self)))
  | .CursorSurfaceSize s => (g, Call.const self (.size (CursorSurfaceSize B self s)))
  | .HackTemporarySetDynamicRefresh n =>
      (g, (HackTemporarySetDynamicRefresh B n self).wrap Ret.bool)
  | .HackUpdatePatchedEdid => (g, (HackUpdatePatchedEdid B self).wrap (fun _ => Ret.void))
  | .NeedsFrameSync => (g, Call.const self (.bool (NeedsFrameSync self)))
  | .GetTouchClickMode => (g, (GetTouchClickMode B self).wrap Ret.mode)
  | .DumpDebugInfo => (g, (DumpDebugInfo B self).wrap (fun _ => Ret.void))
  | .UsesVirtualConnectors => (g, (UsesVirtualConnectors B self).wrap Ret.bool)
  | .CreateVirtualConnector k => (g, (CreateVirtualConnector B k self).wrap Ret.connector)
  | .NotifyPhysicalInput t => (g, (NotifyPhysicalInput B t self).wrap (fun _ => Ret.void))
  | .SupportsVROverlayForwarding => (g, (SupportsVROverlayForwarding B self).wrap Ret.bool)
  | .ForwardFramebuffer p f d => (g, (ForwardFramebuffer B p f d self).wrap (fun _ => Ret.void))
  | .IsChildInitted => (g, Call.const self (.bool (IsChildInitted self)))
  | .NewlyInitted => (g, (NewlyInitted self).wrap Ret.bool)
  | .ShouldFitWindows => (g, (ShouldFitWindows B self).wrap Ret.bool)

/-- A process running a deferred backend: the globals, the backend, every
call made so far on the child's `Init`, `PostInit` and `PollState` (oldest
first), and whether an assertion has aborted the process. -/
structure Process (σ : Type) where
  globals : Globals
  backend : CDeferredBackend σ
  calls : List ChildCall
  aborted : Bool

/-- The process right after `new CDeferredBackend( pChild )`. -/
def Process.start {σ : Type} (g : Globals) (pChild : σ) : Process σ :=
  ⟨g, CDeferredBackend.new pChild, [], false⟩

/-- One call; an aborted process makes no further call. -/
def Process.step {σ : Type} (X : Externals) (B : IBackend σ) (p : Process σ) (op : Op) :
    Process σ :=
  if p.aborted then p
  else
    ⟨(perform X B op p.globals p.backend).1, (perform X B op p.globals p.backend).2.self,
      p.calls ++ (perform X B op p.globals p.backend).2.calls,
      (perform X B op p.globals p.backend).2.ret.isNone⟩

/-- A sequence of calls, first to last. -/
def Process.run {σ : Type} (X : Externals) (B : IBackend σ) (p : Process σ) (ops : List Op) :
    Process σ :=
  ops.foldl (Process.step X B) p

/-- Invariant of a process: the backend is ready exactly when some call of the
child's `Init` has returned true, and until then the process has not aborted
and both latches are down. -/
def Process.Inv {σ : Type} (p : Process σ) : Prop :=
  (p.backend.m_bInittedChild = true ↔ ChildCall.Init true ∈ p.calls) ∧
  (p.backend.m_bInittedChild = false →
    p.aborted = false ∧ p.backend.m_bJustInittedClient = false ∧
      p.backend.m_bJustInittedPoll = false)

/-- Whether a call on the child is a call of its `Init()`. -/
def ChildCall.isInit : ChildCall → Bool
  | .Init _ => true
  | _ => false

/-- Whether a call on the child is a call of its `PostInit()`. -/
def ChildCall.isPostInit : ChildCall → Bool
  | .PostInit _ => true
  | _ => false

/-- Whether `PollState()` on this backend returns true on account of the
readiness latch: the child is ready after the retry, the child's own
`PollState()` returns false, and `m_bJustInittedPoll.exchange( false )` gives
true. -/
def CDeferredBackend.PollStateByLatch {σ : Type} (B : IBackend σ) (self : CDeferredBackend σ) :
    Bool :=
  (CDeferredBackend.TryInittingChild B self).ret.isSome &&
  (CDeferredBackend.TryInittingChild B self).self.m_bInittedChild &&
  !(B.PollState (CDeferredBackend.TryInittingChild B self).self.m_pChild).1 &&
  (CDeferredBackend.TryInittingChild B self).self.m_bJustInittedPoll

/-- The number of `PollState()` calls of a run that return true on account of
the readiness latch. -/
def Process.latchPolls {σ : Type} (X : Externals) (B : IBackend σ) :
    Process σ → List Op → Nat
  | _, [] => 0
  | p, op :: ops =>
    (if op = Op.PollState ∧ p.aborted = false ∧
        CDeferredBackend.PollStateByLatch B p.backend = true then 1 else 0) +
      Process.latchPolls X B (Process.step X B p op) ops

/-- How many `PollState()` calls can still return true on account of the
readiness latch: none after an abort, one while the backend is not ready, and
on a ready backend one exactly when `m_bJustInittedPoll` is up. -/
def Process.latchBudget {σ : Type} (p : Process σ) : Nat :=
  if p.aborted then 0
  else if p.backend.m_bInittedChild then (if p.backend.m_bJustInittedPoll then 1 else 0)
  else 1

/-- In a log of calls on the child, every `PostInit()` call comes after an
`Init()` call that returned true. -/
def PostInitAfterInit (calls : List ChildCall) : Prop :=
  ∀ l1 b l2, calls = l1 ++ ChildCall.PostInit b :: l2 → ChildCall.Init true ∈ l1

/-- The same check on the calls of one method, scanned from the left;
`bReady` tells whether an `Init()` call has returned true before them. -/
def PostInitGuarded : Bool → List ChildCall → Bool
  | _, [] => true
  | _, ChildCall.Init true :: l => PostInitGuarded true l
  | bReady, ChildCall.Init false :: l => PostInitGuarded bReady l
  | bReady, ChildCall.PostInit _ :: l => bReady && PostInitGuarded bReady l
  | bReady, ChildCall.PollState _ :: l => PostInitGuarded bReady l

/-- Invariant of a process in which `PostInit()` is called at most once: the
number of calls of the child's `PostInit()` is one when `PostInit()` has been
called and the child is ready, and zero otherwise; and a process in which
`PostInit()` has not been called has not aborted. -/
def Process.PostInitInv {σ : Type} (p : Process σ) : Prop :=
  (p.calls.filter ChildCall.isPostInit).length =
    (p.backend.m_bDonePostInit && p.backend.m_bInittedChild).toNat ∧
  (p.backend.m_bDonePostInit = false → p.aborted = false)

/-! ## CWaylandBackend as a child -/

/-- The member variables of `CWaylandBackend` that its `IBackend` queries read.
`m_FormatModifiers` is the map from a DRM format to its modifiers. -/
structure CWaylandBackend where
  m_pFocusConnector : Option Nat
  m_bCanUseModifiers : Bool
  m_FormatModifiers : List (Nat × List Nat)
  deriving DecidableEq

namespace CWaylandBackend

/-- Method `CWaylandBackend::GetInstanceExtensions()`: an empty span. -/
def GetInstanceExtensions (_self : CWaylandBackend) : List String := []

/-- Method `CWaylandBackend::GetDeviceExtensions( pVkPhysicalDevice )`: an empty span. -/
def GetDeviceExtensions (_self : CWaylandBackend) (_pVkPhysicalDevice : Nat) : List String := []

/-- Method `CWaylandBackend::GetPresentLayout()`. -/
def GetPresentLayout (_self : CWaylandBackend) : VkImageLayout := VK_IMAGE_LAYOUT_GENERAL

/-- Method `CWaylandBackend::DirtyState( bForce, bForceModeset )`: an empty body. -/
def DirtyState (_bForce _bForceModeset : Bool) (self : CWaylandBackend) : CWaylandBackend := self

/-- Method `CWaylandBackend::UsesModifiers()`; `cv_wayland_use_modifiers` is the
value of the console variable of that name. -/
def UsesModifiers (cv_wayland_use_modifiers : Bool) (self : CWaylandBackend) : Bool :=
  if !cv_wayland_use_modifiers then false else self.m_bCanUseModifiers

/-- Method `CWaylandBackend::GetSupportedModifiers( uDrmFormat )`. -/
def GetSupportedModifiers (self : CWaylandBackend) (uDrmFormat : Nat) : List Nat :=
  match self.m_FormatModifiers.lookup uDrmFormat with
  | none => []
  | some modifiers => modifiers

/-- Method `CWaylandBackend::GetCurrentConnector()`. -/
def GetCurrentConnector (self : CWaylandBackend) : Option Nat := self.m_pFocusConnector

/-- Method `CWaylandBackend::GetConnector( eScreenType )`. -/
def GetConnector (eScreenType : GamescopeScreenType) (self : CWaylandBackend) : Option Nat :=
  if eScreenType = GamescopeScreenType.GAMESCOPE_SCREEN_TYPE_INTERNAL then
    GetCurrentConnector self
  else none

/-- Method `CWaylandBackend::SupportsPlaneHardwareCursor()`. -/
def SupportsPlaneHardwareCursor (_self : CWaylandBackend) : Bool := false

/-- Method `CWaylandBackend::SupportsTearing()`. -/
def SupportsTearing (_self : CWaylandBackend) : Bool := false

/-- Method `CWaylandBackend::UsesVulkanSwapchain()`. -/
def UsesVulkanSwapchain (_self : CWaylandBackend) : Bool := false

/-- Method `CWaylandBackend::IsSessionBased()`. -/
def IsSessionBased (_self : CWaylandBackend) : Bool := false

/-- Method `CWaylandBackend::SupportsExplicitSync()`. -/
def SupportsExplicitSync (_self : CWaylandBackend) : Bool := true

/-- Method `CWaylandBackend::IsVisible()`. -/
def IsVisible (_self : CWaylandBackend) : Bool := true

/-- Method `CWaylandBackend::CursorSurfaceSize( uvecSize )`. -/
def CursorSurfaceSize (_self : CWaylandBackend) (uvecSize : Nat × Nat) : Nat × Nat := uvecSize

/-- Method `CWaylandBackend::UsesVirtualConnectors()`. -/
def UsesVirtualConnectors (self : CWaylandBackend) : Bool × CWaylandBackend := (true, self)

/-- The virtual table of a `CWaylandBackend`.  `host` gives what is not taken
from `WaylandBackend.cpp` here: `Init`, `PostInit` and `CreateVirtualConnector`,
whose outcome the host compositor session decides; the state changes made by
the listeners that `PollState` dispatches (its result is always false);
`GetPreferredOutputFormat` and `HackUpdatePatchedEdid`, which rest on functions
declared in other files; and the members inherited from `CBaseBackend`. -/
def vtable (cv_wayland_use_modifiers : Bool) (host : IBackend CWaylandBackend) :
    IBackend CWaylandBackend :=
  { host with
    GetInstanceExtensions := GetInstanceExtensions
    GetDeviceExtensions := GetDeviceExtensions
    GetPresentLayout := GetPresentLayout
    DirtyState := DirtyState
    PollState := fun self => (false, (host.PollState self).2)
    UsesModifiers := UsesModifiers cv_wayland_use_modifiers
    GetSupportedModifiers := GetSupportedModifiers
    GetCurrentConnector := fun self => (GetCurrentConnector self, self)
    GetConnector := fun eScreenType self => (GetConnector eScreenType self, self)
    SupportsPlaneHardwareCursor := SupportsPlaneHardwareCursor
    SupportsTearing := SupportsTearing
    UsesVulkanSwapchain := UsesVulkanSwapchain
    IsSessionBased := IsSessionBased
    SupportsExplicitSync := SupportsExplicitSync
    IsVisible := IsVisible
    CursorSurfaceSize := CursorSurfaceSize
    UsesVirtualConnectors := UsesVirtualConnectors }

end CWaylandBackend

/-- A host session for concrete runs: `Init()` gives `bInit`, `PostInit()`
succeeds, nothing else happens. -/
def plainHost (bInit : Bool) : IBackend CWaylandBackend where
  Init s := (bInit, s)
  PostInit s := (true, s)
  GetInstanceExtensions _ := []
  GetDeviceExtensions _ _ := []
  GetPresentLayout _ := VK_IMAGE_LAYOUT_GENERAL
  GetPreferredOutputFormat _ := (0, 0)
  ValidPhysicalDevice _ _ := true
  DirtyState _ _ s := s
  PollState s := (false, s)
  UsesModifiers _ := false
  GetSupportedModifiers _ _ := []
  GetCurrentConnector s := (none, s)
  GetConnector _ s := (none, s)
  SupportsPlaneHardwareCursor _ := false
  SupportsTearing _ := false
  UsesVulkanSwapchain _ := false
  IsSessionBased _ := false
  SupportsExplicitSync _ := false
  IsPaused _ := false
  IsVisible _ := true
  CursorSurfaceSize _ sz := sz
  HackTemporarySetDynamicRefresh _ s := (false, s)
  HackUpdatePatchedEdid s := s
  NeedsFrameSync _ := false
  GetTouchClickMode s := (0, s)
  DumpDebugInfo s := s
  UsesVirtualConnectors s := (false, s)
  CreateVirtualConnector _ s := (none, s)
  NotifyPhysicalInput _ s := s
  SupportsVROverlayForwarding s := (false, s)
  ForwardFramebuffer _ _ _ s := s
  ShouldFitWindows s := (false, s)

/-! ## WaylandPlaneState and ClipPlane -/

/-- Values of a C++ `double`: a finite value is kept as an exact rational
number, the infinities and NaN are as in IEEE 754.  The operations `mul` and
`div` give the exact result of finite operands; `Double.round` below gives the
rounding of an exact result to binary64.  The sign of zero is not modelled. -/
inductive Double
  | finite (q : ℚ)
  | inf (bNegative : Bool)
  | nan
  deriving DecidableEq

namespace Double

/-- Conversion `double( n )` of an `int32_t`, which is exact. -/
def ofInt (n : Int) : Double := finite n

/-- Product of two doubles. -/
def mul : Double → Double → Double
  | finite a, finite b => finite (a * b)
  | finite a, inf s => if a = 0 then nan else inf (xor s (decide (a < 0)))
  | inf s, finite b => if b = 0 then nan else inf (xor s (decide (b < 0)))
  | inf s, inf t => inf (xor s t)
  | nan, _ => nan
  | _, nan => nan

/-- Quotient of two doubles; a zero divisor is `+0.0`. -/
def div : Double → Double → Double
  | finite a, finite b =>
    if b = 0 then (if a = 0 then nan else inf (decide (a < 0))) else finite (a / b)
  | finite _, inf _ => finite 0
  | inf s, finite b => inf (xor s (decide (b < 0)))
  | inf _, inf _ => nan
  | nan, _ => nan
  | _, nan => nan

/-- The comparison `x <= y` of two doubles; it is false when either is NaN. -/
def le : Double → Double → Bool
  | finite a, finite b => decide (a ≤ b)
  | finite _, inf bNegative => !bNegative
  | inf bNegative, finite _ => bNegative
  | inf s, inf t => s || !t
  | nan, _ => false
  | _, nan => false

end Double

/-- The enumeration `GamescopeAppTextureColorspace`. -/
inductive GamescopeAppTextureColorspace
  | GAMESCOPE_APP_TEXTURE_COLORSPACE_LINEAR
  | GAMESCOPE_APP_TEXTURE_COLORSPACE_SRGB
  | GAMESCOPE_APP_TEXTURE_COLORSPACE_SCRGB
  | GAMESCOPE_APP_TEXTURE_COLORSPACE_HDR10_PQ
  | GAMESCOPE_APP_TEXTURE_COLORSPACE_PASSTHRU
  deriving DecidableEq

/-- The struct `WaylandPlaneState`.  `pBuffer` and `pHDRMetadata` are handles;
the `int32_t` fields are integers. -/
structure WaylandPlaneState where
  pBuffer : Option Nat
  nDestX : Int
  nDestY : Int
  flSrcX : Double
  flSrcY : Double
  flSrcWidth : Double
  flSrcHeight : Double
  nDstWidth : Int
  nDstHeight : Int
  eColorspace : GamescopeAppTextureColorspace
  pHDRMetadata : Option Nat
  bOpaque : Bool
  uFractionalScale : Nat
  deriving DecidableEq

/-- Function `ClipPlane( state )`.  `g_nOutputWidth` and `g_nOutputHeight` are the
globals as the `int32_t` values that `std::min<int32_t>` compares.  The
`int32_t` sums and differences are exact: signed overflow is undefined
behaviour and is not modelled. -/
def ClipPlane (g_nOutputWidth g_nOutputHeight : Int) (state : WaylandPlaneState) :
    WaylandPlaneState :=
  let nClippedDstWidth : Int := min g_nOutputWidth (state.nDstWidth + state.nDestX) - state.nDestX
  let nClippedDstHeight : Int :=
    min g_nOutputHeight (state.nDstHeight + state.nDestY) - state.nDestY
  let flClippedSrcWidth : Double :=
    Double.mul state.flSrcWidth
      (Double.div (Double.ofInt nClippedDstWidth) (Double.ofInt state.nDstWidth))
  let flClippedSrcHeight : Double :=
    Double.mul state.flSrcHeight
      (Double.div (Double.ofInt nClippedDstHeight) (Double.ofInt state.nDstHeight))
  { state with
    nDstWidth := nClippedDstWidth
    nDstHeight := nClippedDstHeight
    flSrcWidth := flClippedSrcWidth
    flSrcHeight := flClippedSrcHeight }

/-- Whether an integer is a value of the type `int32_t`. -/
def fitsInt32 (n : Int) : Prop := -2147483648 ≤ n ∧ n ≤ 2147483647

/-- Whether `ClipPlane( state )` computes without signed overflow: the two
globals as `int32_t`, the four destination members of the state, the sums
`nDstWidth + nDestX` and `nDstHeight + nDestY`, and the differences that give
the clipped width and height are all values of `int32_t`. -/
def ClipPlaneInRange (g_nOutputWidth g_nOutputHeight : Int) (state : WaylandPlaneState) :
    Prop :=
  fitsInt32 g_nOutputWidth ∧ fitsInt32 g_nOutputHeight ∧
    fitsInt32 state.nDestX ∧ fitsInt32 state.nDestY ∧
    fitsInt32 state.nDstWidth ∧ fitsInt32 state.nDstHeight ∧
    fitsInt32 (state.nDstWidth + state.nDestX) ∧
    fitsInt32 (state.nDstHeight + state.nDestY) ∧
    fitsInt32 (min g_nOutputWidth (state.nDstWidth + state.nDestX) - state.nDestX) ∧
    fitsInt32 (min g_nOutputHeight (state.nDstHeight + state.nDestY) - state.nDestY)

namespace Double

/-- The exponent of the binade of a finite value in binary64: the greatest `e`
with `2 ^ e <= |q|`, and -1022 below the smallest normal value, where the
subnormal values have the spacing of the smallest normal binade. -/
def binade (q : ℚ) : Int := max (Int.log 2 |q|) (-1022)

/-- The spacing of the binary64 values in the binade of `q`: 52 bits below the
leading one. -/
def ulp (q : ℚ) : ℚ := (2 : ℚ) ^ (binade q - 52)

/-- The integer nearest to `x`, the even one of the two when `x` is half-way
between them. -/
def roundHalfEven (x : ℚ) : Int :=
  if x - ⌊x⌋ < 1 / 2 then ⌊x⌋
  else if 1 / 2 < x - ⌊x⌋ then ⌊x⌋ + 1
  else if ⌊x⌋ % 2 = 0 then ⌊x⌋
  else ⌊x⌋ + 1

/-- The binary64 value of an exact result in the default rounding mode of
IEEE 754, round to nearest with ties to even: the multiple of the spacing that
is nearest to `q`, and an infinity when that multiple is `2 ^ 1024` or more in
magnitude. -/
def round (q : ℚ) : Double :=
  if (2 : ℚ) ^ 1024 ≤ |(roundHalfEven (q / ulp q) : ℚ) * ulp q| then inf (decide (q < 0))
  else finite ((roundHalfEven (q / ulp q) : ℚ) * ulp q)

/-- The binary64 value of the result of an operation: a finite result is
rounded, an infinity or NaN is kept. -/
def rounded : Double → Double
  | finite q => round q
  | inf bNegative => inf bNegative
  | nan => nan

/-- Whether a rational number is a value of binary64. -/
def isBinary64 (q : ℚ) : Prop := round q = finite q

end Double

/-- Function `ClipPlane( state )` with the quotient and the product of doubles
rounded to binary64, as the machine computes them; `ClipPlane` above leaves
them exact.  The conversions of the `int32_t` values to `double` are exact. -/
def ClipPlaneRounded (g_nOutputWidth g_nOutputHeight : Int) (state : WaylandPlaneState) :
    WaylandPlaneState :=
  let nClippedDstWidth : Int := min g_nOutputWidth (state.nDstWidth + state.nDestX) - state.nDestX
  let nClippedDstHeight : Int :=
    min g_nOutputHeight (state.nDstHeight + state.nDestY) - state.nDestY
  let flClippedSrcWidth : Double :=
    Double.rounded (Double.mul state.flSrcWidth
      (Double.rounded
        (Double.div (Double.ofInt nClippedDstWidth) (Double.ofInt state.nDstWidth))))
  let flClippedSrcHeight : Double :=
    Double.rounded (Double.mul state.flSrcHeight
      (Double.rounded
        (Double.div (Double.ofInt nClippedDstHeight) (Double.ofInt state.nDstHeight))))
  { state with
    nDstWidth := nClippedDstWidth
    nDstHeight := nClippedDstHeight
    flSrcWidth := flClippedSrcWidth
    flSrcHeight := flClippedSrcHeight }

/-! ## Fractional scale -/

/-- Value of the macro `WL_FRACTIONAL_SCALE_DENOMINATOR`. -/
def WL_FRACTIONAL_SCALE_DENOMINATOR : Nat := 120

/-- Modelled from the spec: `div_roundup`, which is defined outside the two
files; the quotient rounded up, as in "logical = ceil(physical*denominator/scale)",
computed as `( x + ( y - 1 ) ) / y` in `uint32_t` arithmetic (the specification
asks that `p*120 + s` stay below 2^32). -/
def div_roundup (x y : Nat) : Nat := (x + (y - 1)) % 4294967296 / y

/-- Function `WaylandScaleToPhysical( pValue, pFactor )`, in `uint32_t` arithmetic. -/
def WaylandScaleToPhysical (pValue pFactor : Nat) : Nat :=
  pValue * pFactor % 4294967296 / WL_FRACTIONAL_SCALE_DENOMINATOR

/-- Function `WaylandScaleToLogical( pValue, pFactor )`, in `uint32_t` arithmetic. -/
def WaylandScaleToLogical (pValue pFactor : Nat) : Nat :=
  div_roundup (pValue * WL_FRACTIONAL_SCALE_DENOMINATOR % 4294967296) pFactor

/-! ## CWaylandFb -/

/-- Member variables of `CWaylandFb`; `m_uRefCount` is the reference count
kept by the base class. -/
structure CWaylandFb where
  m_uRefCount : Nat
  m_pHostBuffer : Option Nat
  m_bCompositorAcquired : Bool
  deriving DecidableEq

/-- What a notification on a framebuffer does besides changing its members. -/
inductive FbEvent
  | IncRef
  | DecRef
  | errorf
  | debugf
  deriving DecidableEq

/-- Outcome of a method of `CWaylandFb`: whether it returned (false when an
assertion failed), the object afterwards, and what it did, in order. -/
structure FbCall where
  bReturned : Bool
  self : CWaylandFb
  events : List FbEvent
  deriving DecidableEq

namespace CWaylandFb

/-- Modelled from the spec: `IncRef` of the base class `CBaseBackendFb`, which
is defined outside the two files: the reference count goes up by one. -/
def IncRef (self : CWaylandFb) : CWaylandFb :=
  { self with m_uRefCount := self.m_uRefCount + 1 }

/-- Modelled from the spec: `DecRef` of the base class `CBaseBackendFb`, which
is defined outside the two files: the reference count goes down by one (at
zero the object is unreferenced and destroyed). -/
def DecRef (self : CWaylandFb) : CWaylandFb :=
  { self with m_uRefCount := self.m_uRefCount - 1 }

/-- Method `CWaylandFb::OnCompositorAcquire()`. -/
def OnCompositorAcquire (self : CWaylandFb) : FbCall :=
  if !self.m_bCompositorAcquired then
    ⟨true, IncRef { self with m_bCompositorAcquired := true }, [FbEvent.IncRef]⟩
  else
    ⟨true, self, []⟩

/-- Method `CWaylandFb::OnCompositorRelease()`. -/
def OnCompositorRelease (self : CWaylandFb) : FbCall :=
  if self.m_bCompositorAcquired then
    ⟨true, DecRef { self with m_bCompositorAcquired := false }, [FbEvent.DecRef]⟩
  else
    ⟨true, self, [FbEvent.errorf]⟩

/-- Method `CWaylandFb::Wayland_Buffer_Release( pBuffer )`, the `release`
listener of the host buffer. -/
def Wayland_Buffer_Release (pBuffer : Option Nat) (self : CWaylandFb) : FbCall :=
  if self.m_pHostBuffer = none then ⟨false, self, []⟩
  else if self.m_pHostBuffer ≠ pBuffer then ⟨false, self, []⟩
  else
    ⟨(OnCompositorRelease self).bReturned, (OnCompositorRelease self).self,
      FbEvent.debugf :: (OnCompositorRelease self).events⟩

end CWaylandFb

/-- A notification that a framebuffer receives. -/
inductive FbOp
  | OnCompositorAcquire
  | OnCompositorRelease
  | Wayland_Buffer_Release (pBuffer : Option Nat)
  deriving DecidableEq

/-- Dispatch of one notification. -/
def FbOp.perform (op : FbOp) (self : CWaylandFb) : FbCall :=
  match op with
  | .OnCompositorAcquire => self.OnCompositorAcquire
  | .OnCompositorRelease => self.OnCompositorRelease
  | .Wayland_Buffer_Release pBuffer => self.Wayland_Buffer_Release pBuffer

/-- A sequence of notifications, first to last; it stops at a failed assertion. -/
def CWaylandFb.run : CWaylandFb → List FbOp → FbCall
  | self, [] => ⟨true, self, []⟩
  | self, op :: ops =>
    if (op.perform self).bReturned then
      ⟨(CWaylandFb.run (op.perform self).self ops).bReturned,
        (CWaylandFb.run (op.perform self).self ops).self,
        (op.perform self).events ++ (CWaylandFb.run (op.perform self).self ops).events⟩
    else op.perform self

/-! ## Frames -/

namespace Double

/-- The negation `-x`. -/
def neg : Double → Double
  | finite q => finite (-q)
  | inf bNegative => inf (!bNegative)
  | nan => nan

/-- The function `ceil( x )`. -/
def ceil : Double → Double
  | finite q => finite ((⌈q⌉ : Int) : ℚ)
  | inf bNegative => inf bNegative
  | nan => nan

/-- The conversion `int32_t( x )`: a finite value is truncated towards zero.
For a value outside the range of `int32_t`, an infinity or NaN the conversion
is undefined in C++; the model gives the value that x86-64 produces,
`INT32_MIN`. -/
def toInt32 : Double → Int
  | finite q =>
    if -2147483649 < q ∧ q < 2147483648 then (if 0 ≤ q then ⌊q⌋ else ⌈q⌉) else -2147483648
  | inf _ => -2147483648
  | nan => -2147483648

end Double

/-- Conversion of an integer to `int32_t`. -/
def toI32 (n : Int) : Int := (n + 2147483648) % 4294967296 - 2147483648

/-- Value of the macro `EINVAL` of `errno.h` on Linux. -/
def EINVAL : Int := 22

/-- The enumeration `GamescopeUpscaleFilter`, which is declared outside the two
files, with the enumerators that the two files name. -/
inductive GamescopeUpscaleFilter
  | LINEAR
  | NEAREST
  | FSR
  | NIS
  | PIXEL
  deriving DecidableEq

/-- The enumeration `EOTF`, which is declared outside the two files, with the
enumerators that the two files name. -/
inductive EOTF
  | EOTF_Gamma22
  | EOTF_PQ
  deriving DecidableEq

/-- The struct `vec2_t` of two `float`s; a `float` is modelled as a `Double`. -/
structure vec2_t where
  x : Double
  y : Double
  deriving DecidableEq

/-- What the two files read of a `CVulkanTexture`: `width()`, `height()` and
`GetBackendFb()`, the latter as the handle of a framebuffer or null. -/
structure CVulkanTexture where
  m_width : Nat
  m_height : Nat
  m_pBackendFb : Option Nat
  deriving DecidableEq

/-- The members of `FrameInfo_t::Layer_t` that the two files read or assign.
The struct is declared outside the two files. `tex`, `ctm` and
`hdr_metadata_blob` are pointers that may be null. -/
structure Layer_t where
  tex : Option CVulkanTexture
  zpos : Int
  offset : vec2_t
  scale : vec2_t
  opacity : Double
  filter : GamescopeUpscaleFilter
  applyColorMgmt : Bool
  ctm : Option Nat
  colorspace : GamescopeAppTextureColorspace
  hdr_metadata_blob : Option Nat
  deriving DecidableEq

/-- The members of `FrameInfo_t` that the two files read.  `blurLayer0` is an
enumeration whose zero value is "off"; `layers` is the array of layers, of
which the first `layerCount` are the layers of the frame. -/
structure FrameInfo_t where
  useFSRLayer0 : Bool
  useNISLayer0 : Bool
  bFadingOut : Bool
  blurLayer0 : Nat
  outputEncodingEOTF : EOTF
  layerCount : Int
  layers : Nat → Layer_t

/-- The process globals and convars that the Wayland connector and its planes
read.  `g_uCompositeDebug` is a mask of `CompositeDebugFlag` bits. -/
structure WaylandGlobals where
  g_nOutputWidth : Nat
  g_nOutputHeight : Nat
  g_bFullscreen : Bool
  cv_composite_force : Bool
  g_upscaleFilter : GamescopeUpscaleFilter
  g_bColorSliderInUse : Bool
  g_reshade_effect : String
  g_bOutputHDREnabled : Bool
  g_bHDRItmEnable : Bool
  g_uCompositeDebug : Nat
  cv_wayland_hdr10_saturation_scale : Double

/-- Functions and constants of the repository and of the host libraries that
the Wayland connector and its planes use and whose definitions are in other
files.  `Heatmap` is the constant `CompositeDebugFlag::Heatmap`;
`vulkan_composite` gives the sequence number of the composite, or nothing when
it fails; the last two are the image descriptions that the host compositor
hands out. -/
structure WaylandExternals where
  close_enough : Double → Double → Bool
  ColorspaceIsHDR : GamescopeAppTextureColorspace → Bool
  isScreenSize : Layer_t → Bool
  hasAlpha : Layer_t → Bool
  g_zposBase : Int
  Heatmap : Nat
  vulkan_composite : FrameInfo_t → Option Nat
  vulkan_get_last_output_image : Option CVulkanTexture
  wp_color_manager_v1_create_windows_scrgb : Option Nat
  wp_image_description_creator_params_v1_create : Option Nat

/-- The member variables of `CWaylandBackend` that presenting a frame reads:
the colour-management globals bound from the registry and the black
framebuffer, as a handle. -/
structure CWaylandBackendObjects where
  m_pFrogColorMgmtFactory : Option Nat := none
  m_pWPColorManager : Option Nat := none
  bSupportsGamescopeColorManagement : Bool := false
  m_BlackFb : Nat
  deriving DecidableEq

/-- Method `CWaylandBackend::SupportsColorManagement()`. -/
def CWaylandBackend.SupportsColorManagement (self : CWaylandBackendObjects) : Bool :=
  self.m_pFrogColorMgmtFactory != none ||
    (self.m_pWPColorManager != none && self.bSupportsGamescopeColorManagement)

/-! ## CWaylandPlane -/

/-- The struct `WaylandPlaneColorState`. -/
structure WaylandPlaneColorState where
  eColorspace : GamescopeAppTextureColorspace
  pHDRMetadata : Option Nat
  deriving DecidableEq

/-- The member variables of `CWaylandPlane` that presenting, committing and
the listeners of the surface read or assign.  `m_pParent` is the index, in the
array `m_Planes` of the connector, of the plane pointed to; the other pointers
are handles, and `m_pOutputs` holds the handles of the outputs that the
surface has entered. -/
structure CWaylandPlane where
  m_pParent : Option Nat := none
  m_pFrame : Option Nat := none
  m_pSubsurface : Option Nat := none
  m_pWPColorManagedSurface : Option Nat := none
  m_pFrogColorManagedSurface : Option Nat := none
  m_bNeedsDecorCommit : Bool := false
  m_uFractionalScale : Nat := 120
  m_ColorState : Option WaylandPlaneColorState := none
  m_pCurrentImageDescription : Option Nat := none
  m_oCurrentPlaneState : Option WaylandPlaneState := none
  m_pOutputs : List Nat := []
  deriving DecidableEq

/-- The constants of the protocol `frog_color_management_v1` that
`CWaylandPlane::Present` passes, by name. -/
inductive FrogConstant
  | FROG_COLOR_MANAGED_SURFACE_PRIMARIES_UNDEFINED
  | FROG_COLOR_MANAGED_SURFACE_PRIMARIES_REC709
  | FROG_COLOR_MANAGED_SURFACE_PRIMARIES_REC2020
  | FROG_COLOR_MANAGED_SURFACE_TRANSFER_FUNCTION_UNDEFINED
  | FROG_COLOR_MANAGED_SURFACE_TRANSFER_FUNCTION_GAMMA_22
  | FROG_COLOR_MANAGED_SURFACE_TRANSFER_FUNCTION_SCRGB_LINEAR
  | FROG_COLOR_MANAGED_SURFACE_TRANSFER_FUNCTION_ST2084_PQ
  deriving DecidableEq

/-- What a plane does, in order: the calls of its own methods `Present` and
`Commit`, the call of `OnCompositorAcquire` on a framebuffer, and the requests
on the objects of its surface.  Of the requests on a parametric image
description creator only the names are kept. -/
inductive PlaneEvent
  | PresentLayer (pLayer : Option Layer_t)
  | Present (oState : Option WaylandPlaneState)
  | Commit
  | OnCompositorAcquire (pFb : Nat)
  | wp_presentation_feedback
  | wp_image_description_v1_destroy (pImageDescription : Nat)
  | wp_color_manager_v1_create_windows_scrgb
  | wp_color_manager_v1_create_parametric_creator
  | set_primaries_named
  | set_primaries
  | set_tf_named
  | set_mastering_display_primaries
  | set_mastering_luminance
  | set_max_cll
  | set_max_fall
  | wp_image_description_creator_params_v1_create
  | set_image_description (pImageDescription : Nat)
  | unset_image_description
  | frog_set_render_intent
  | frog_set_known_container_color_volume (uValue : FrogConstant)
  | frog_set_known_transfer_function (uValue : FrogConstant)
  | wp_viewport_set_source (flX flY flWidth flHeight : Double)
  | wp_viewport_set_destination (nWidth nHeight : Int)
  | wl_subsurface_set_position (nX nY : Int)
  | wl_surface_attach (pBuffer : Option Nat)
  | wl_surface_damage
  | wl_surface_set_opaque_region (bFullRegion : Bool)
  | wl_surface_set_buffer_scale
  | libdecor_frame_commit (nWidth nHeight : Int)
  | wl_surface_commit
  deriving DecidableEq

/-- Outcome of a method of `CWaylandPlane`: whether it returned (false when an
assertion failed or a recursion did not end), the plane and the framebuffers
afterwards, and what it did, in order. -/
structure PlaneCall where
  bReturned : Bool
  self : CWaylandPlane
  fbs : Nat → CWaylandFb
  events : List PlaneEvent

namespace CWaylandPlane

/-- Method `CWaylandPlane::GetScale()`.  `m_Planes` is the array that
`m_pParent` points into and `uDepth` bounds the nesting of the recursive call:
the result is nothing when the chain of parents does not end within it. -/
def GetScale (m_Planes : Nat → CWaylandPlane) : Nat → CWaylandPlane → Option Nat
  | 0, _ => none
  | uDepth + 1, self =>
    match self.m_pParent with
    | some uParent => GetScale m_Planes uDepth (m_Planes uParent)
    | none => some self.m_uFractionalScale

/-- The statement `if ( !m_ColorState || *m_ColorState != colorState ) ...` of
`CWaylandPlane::Present`, which makes the image description of a new colour
state: the plane afterwards and the requests made. -/
def UpdateColorState (X : WaylandExternals) (g : WaylandGlobals)
    (colorState : WaylandPlaneColorState) (self : CWaylandPlane) :
    CWaylandPlane × List PlaneEvent :=
  if self.m_ColorState ≠ some colorState then
    let destroyed : List PlaneEvent :=
      match self.m_pCurrentImageDescription with
      | some pImageDescription => [PlaneEvent.wp_image_description_v1_destroy pImageDescription]
      | none => []
    if colorState.eColorspace =
        GamescopeAppTextureColorspace.GAMESCOPE_APP_TEXTURE_COLORSPACE_SCRGB then
      ({ self with
          m_ColorState := some colorState
          m_pCurrentImageDescription := X.wp_color_manager_v1_create_windows_scrgb },
        destroyed ++ [PlaneEvent.wp_color_manager_v1_create_windows_scrgb])
    else if colorState.eColorspace =
        GamescopeAppTextureColorspace.GAMESCOPE_APP_TEXTURE_COLORSPACE_HDR10_PQ then
      ({ self with
          m_ColorState := some colorState
          m_pCurrentImageDescription := X.wp_image_description_creator_params_v1_create },
        destroyed ++ [PlaneEvent.wp_color_manager_v1_create_parametric_creator] ++
          (if X.close_enough g.cv_wayland_hdr10_saturation_scale (Double.finite 1) then
            [PlaneEvent.set_primaries_named]
          else [PlaneEvent.set_primaries]) ++
          [PlaneEvent.set_tf_named] ++
          (if colorState.pHDRMetadata ≠ none then
            [PlaneEvent.set_mastering_display_primaries, PlaneEvent.set_mastering_luminance,
              PlaneEvent.set_max_cll, PlaneEvent.set_max_fall]
          else []) ++
          [PlaneEvent.wp_image_description_creator_params_v1_create])
    else
      ({ self with m_ColorState := some colorState, m_pCurrentImageDescription := none },
        destroyed)
  else (self, [])

/-- The statement `if ( m_pWPColorManagedSurface ) ... else if
( m_pFrogColorManagedSurface ) ...` of `CWaylandPlane::Present`: the plane
afterwards and the requests made. -/
def PresentColorManagement (X : WaylandExternals) (g : WaylandGlobals)
    (oState : WaylandPlaneState) (self : CWaylandPlane) : CWaylandPlane × List PlaneEvent :=
  if self.m_pWPColorManagedSurface ≠ none then
    match (UpdateColorState X g ⟨oState.eColorspace, oState.pHDRMetadata⟩
        self).1.m_pCurrentImageDescription with
    | some pImageDescription =>
      ((UpdateColorState X g ⟨oState.eColorspace, oState.pHDRMetadata⟩ self).1,
        (UpdateColorState X g ⟨oState.eColorspace, oState.pHDRMetadata⟩ self).2 ++
          [PlaneEvent.set_image_description pImageDescription])
    | none =>
      ((UpdateColorState X g ⟨oState.eColorspace, oState.pHDRMetadata⟩ self).1,
        (UpdateColorState X g ⟨oState.eColorspace, oState.pHDRMetadata⟩ self).2 ++
          [PlaneEvent.unset_image_description])
  else if self.m_pFrogColorManagedSurface ≠ none then
    (self, PlaneEvent.frog_set_render_intent ::
      (match oState.eColorspace with
      | .GAMESCOPE_APP_TEXTURE_COLORSPACE_PASSTHRU =>
        [PlaneEvent.frog_set_known_container_color_volume
            FrogConstant.FROG_COLOR_MANAGED_SURFACE_PRIMARIES_UNDEFINED,
          PlaneEvent.frog_set_known_container_color_volume
            FrogConstant.FROG_COLOR_MANAGED_SURFACE_TRANSFER_FUNCTION_UNDEFINED]
      | .GAMESCOPE_APP_TEXTURE_COLORSPACE_LINEAR =>
        [PlaneEvent.frog_set_known_container_color_volume
            FrogConstant.FROG_COLOR_MANAGED_SURFACE_PRIMARIES_REC709,
          PlaneEvent.frog_set_known_transfer_function
            FrogConstant.FROG_COLOR_MANAGED_SURFACE_TRANSFER_FUNCTION_GAMMA_22]
      | .GAMESCOPE_APP_TEXTURE_COLORSPACE_SRGB =>
        [PlaneEvent.frog_set_known_container_color_volume
            FrogConstant.FROG_COLOR_MANAGED_SURFACE_PRIMARIES_REC709,
          PlaneEvent.frog_set_known_transfer_function
            FrogConstant.FROG_COLOR_MANAGED_SURFACE_TRANSFER_FUNCTION_GAMMA_22]
      | .GAMESCOPE_APP_TEXTURE_COLORSPACE_HDR10_PQ =>
        [PlaneEvent.frog_set_known_container_color_volume
            FrogConstant.FROG_COLOR_MANAGED_SURFACE_PRIMARIES_REC2020,
          PlaneEvent.frog_set_known_transfer_function
            FrogConstant.FROG_COLOR_MANAGED_SURFACE_TRANSFER_FUNCTION_ST2084_PQ]
      | .GAMESCOPE_APP_TEXTURE_COLORSPACE_SCRGB =>
        [PlaneEvent.frog_set_known_container_color_volume
            FrogConstant.FROG_COLOR_MANAGED_SURFACE_PRIMARIES_REC709,
          PlaneEvent.frog_set_known_transfer_function
            FrogConstant.FROG_COLOR_MANAGED_SURFACE_TRANSFER_FUNCTION_SCRGB_LINEAR]))
  else (self, [])

/-- Method `CWaylandPlane::Present( std::optional<WaylandPlaneState> oState )`.
The arguments of `wp_viewport_set_source` are kept as doubles. -/
def Present (X : WaylandExternals) (g : WaylandGlobals) (oState : Option WaylandPlaneState)
    (fbs : Nat → CWaylandFb) (self : CWaylandPlane) : PlaneCall :=
  match oState with
  | some state =>
    if state.pBuffer = none then
      ⟨false, { self with m_oCurrentPlaneState := oState }, fbs, [PlaneEvent.Present oState]⟩
    else
      ⟨true,
        (PresentColorManagement X g state { self with m_oCurrentPlaneState := oState }).1,
        fbs,
        [PlaneEvent.Present oState] ++
          (if self.m_pFrame ≠ none then [PlaneEvent.wp_presentation_feedback] else []) ++
          (PresentColorManagement X g state { self with m_oCurrentPlaneState := oState }).2 ++
          [PlaneEvent.wp_viewport_set_source state.flSrcX state.flSrcY state.flSrcWidth
              state.flSrcHeight,
            PlaneEvent.wp_viewport_set_destination
              (toI32 (WaylandScaleToLogical (toU32 state.nDstWidth) state.uFractionalScale))
              (toI32 (WaylandScaleToLogical (toU32 state.nDstHeight) state.uFractionalScale))] ++
          (if self.m_pSubsurface ≠ none then
            [PlaneEvent.wl_subsurface_set_position
              (toI32 (WaylandScaleToLogical (toU32 state.nDestX) state.uFractionalScale))
              (toI32 (WaylandScaleToLogical (toU32 state.nDestY) state.uFractionalScale))]
          else []) ++
          [PlaneEvent.wl_surface_attach state.pBuffer, PlaneEvent.wl_surface_damage,
            PlaneEvent.wl_surface_set_opaque_region state.bOpaque,
            PlaneEvent.wl_surface_set_buffer_scale]⟩
  | none =>
    ⟨true, { self with m_oCurrentPlaneState := none }, fbs,
      [PlaneEvent.Present none, PlaneEvent.wl_surface_attach none, PlaneEvent.wl_surface_damage]⟩

/-- Method `CWaylandPlane::CommitLibDecor( pConfiguration )`: the request made,
or nothing when `GetScale()` does not return. -/
def CommitLibDecor (g : WaylandGlobals) (m_Planes : Nat → CWaylandPlane)
    (self : CWaylandPlane) : Option (List PlaneEvent) :=
  match GetScale m_Planes 8 self with
  | some uScale =>
    some [PlaneEvent.libdecor_frame_commit
      (toI32 (WaylandScaleToLogical g.g_nOutputWidth (toU32 (toI32 uScale))))
      (toI32 (WaylandScaleToLogical g.g_nOutputHeight (toU32 (toI32 uScale))))]
  | none => none

/-- Method `CWaylandPlane::Commit()`. -/
def Commit (g : WaylandGlobals) (m_Planes : Nat → CWaylandPlane) (fbs : Nat → CWaylandFb)
    (self : CWaylandPlane) : PlaneCall :=
  if self.m_bNeedsDecorCommit then
    match CommitLibDecor g m_Planes self with
    | some events =>
      ⟨true, { self with m_bNeedsDecorCommit := false }, fbs,
        [PlaneEvent.Commit] ++ events ++ [PlaneEvent.wl_surface_commit]⟩
    | none => ⟨false, self, fbs, [PlaneEvent.Commit]⟩
  else
    ⟨true, self, fbs, [PlaneEvent.Commit, PlaneEvent.wl_surface_commit]⟩

/-- The value of the local variable `pBuffer` of
`CWaylandPlane::Present( const FrameInfo_t::Layer_t *pLayer )`: the host buffer
of the framebuffer of the texture of the layer, null when one of them is. -/
def LayerHostBuffer (fbs : Nat → CWaylandFb) (pLayer : Option Layer_t) : Option Nat :=
  ((pLayer.bind Layer_t.tex).bind CVulkanTexture.m_pBackendFb).bind
    (fun pFb => (fbs pFb).m_pHostBuffer)

/-- What `CWaylandPlane::Present( const FrameInfo_t::Layer_t *pLayer )` reaches
from a layer whose `pBuffer` is not null: the layer, its texture, the handle
`pWaylandFb` of the framebuffer of the texture, and `pBuffer`. -/
def LayerBuffer (fbs : Nat → CWaylandFb) (pLayer : Option Layer_t) :
    Option (Layer_t × CVulkanTexture × Nat × Nat) :=
  pLayer.bind (fun layer =>
    layer.tex.bind (fun tex =>
      tex.m_pBackendFb.bind (fun pFb =>
        (fbs pFb).m_pHostBuffer.bind (fun pHostBuffer => some (layer, tex, pFb, pHostBuffer)))))

/-- Method `CWaylandPlane::Present( const FrameInfo_t::Layer_t *pLayer )`.
`fbs` gives the framebuffer behind each handle. -/
def PresentLayer (X : WaylandExternals) (g : WaylandGlobals) (m_Planes : Nat → CWaylandPlane)
    (pLayer : Option Layer_t) (fbs : Nat → CWaylandFb) (self : CWaylandPlane) : PlaneCall :=
  match LayerBuffer fbs pLayer with
  | some (layer, tex, pFb, pHostBuffer) =>
    match GetScale m_Planes 8 self with
    | some uScale =>
      let c := Present X g
        (some (ClipPlane (toI32 g.g_nOutputWidth) (toI32 g.g_nOutputHeight)
          { pBuffer := some pHostBuffer
            nDestX := Double.toInt32 (Double.neg layer.offset.x)
            nDestY := Double.toInt32 (Double.neg layer.offset.y)
            flSrcX := Double.finite 0
            flSrcY := Double.finite 0
            flSrcWidth := Double.ofInt tex.m_width
            flSrcHeight := Double.ofInt tex.m_height
            nDstWidth :=
              Double.toInt32 (Double.ceil (Double.div (Double.ofInt tex.m_width) layer.scale.x))
            nDstHeight :=
              Double.toInt32 (Double.ceil (Double.div (Double.ofInt tex.m_height) layer.scale.y))
            eColorspace := layer.colorspace
            pHDRMetadata := layer.hdr_metadata_blob
            bOpaque := decide (layer.zpos = X.g_zposBase)
            uFractionalScale := uScale }))
        (Function.update fbs pFb (fbs pFb).OnCompositorAcquire.self) self
      ⟨c.bReturned, c.self, c.fbs,
        [PlaneEvent.PresentLayer pLayer, PlaneEvent.OnCompositorAcquire pFb] ++ c.events⟩
    | none =>
      ⟨false, self, Function.update fbs pFb (fbs pFb).OnCompositorAcquire.self,
        [PlaneEvent.PresentLayer pLayer, PlaneEvent.OnCompositorAcquire pFb]⟩
  | none =>
    ⟨(Present X g none fbs self).bReturned, (Present X g none fbs self).self,
      (Present X g none fbs self).fbs,
      [PlaneEvent.PresentLayer pLayer] ++ (Present X g none fbs self).events⟩

end CWaylandPlane

/-! ## CWaylandConnector -/

/-- Modelled from the spec: the struct `BackendConnectorHDRInfo`, the HDR
capability record of a connector, which is declared outside the two files.
Of its members the four that say whether HDR is exposed and with which
output EOTF are kept, with the values that a record has before anything is
assigned: HDR is not exposed and the output EOTF is gamma 2.2. -/
structure BackendConnectorHDRInfo where
  bExposeHDRSupport : Bool := false
  bAlwaysPatchEdid : Bool := false
  eOutputEncodingEOTF : EOTF := EOTF.EOTF_Gamma22
  deriving DecidableEq

/-- Modelled from the spec: member `IsHDR10()` of `BackendConnectorHDRInfo`:
HDR is exposed and the output encoding is PQ. -/
def BackendConnectorHDRInfo.IsHDR10 (self : BackendConnectorHDRInfo) : Bool :=
  self.bExposeHDRSupport && self.eOutputEncodingEOTF == EOTF.EOTF_PQ

/-- The member variables of `CWaylandConnector` that presenting and the
listeners of its planes read or assign.  `m_Planes` is the array of 8 planes,
at the indices 0 to 7. -/
structure CWaylandConnector where
  m_Planes : Nat → CWaylandPlane
  m_bVisible : Bool := true
  m_bDesiredFullscreenState : Bool := false
  m_HDRInfo : BackendConnectorHDRInfo := {}
  m_bHostCompositorIsCurrentlyVRR : Bool := false

/-- What `CWaylandConnector::Present` does, in order: what each plane does,
with the index of the plane, and the calls outside the planes. -/
inductive PresentEvent
  | plane (uPlane : Nat) (e : PlaneEvent)
  | libdecor_frame_set_fullscreen
  | libdecor_frame_unset_fullscreen
  | OnCompositorAcquire (pFb : Nat)
  | vulkan_composite
  | errorf
  | vulkan_wait (uSequence : Nat)
  | vulkan_get_last_output_image
  | wl_display_flush
  | UpdateWasCompositing (bCompositing : Bool)
  | UpdateLastDrawTime
  | PollState
  deriving DecidableEq

/-- A call of `CWaylandConnector::Present` in progress: whether it is still
running (false once an assertion has failed or a call did not return), the
connector and the framebuffers, and what was done so far. -/
structure Presenting where
  bRunning : Bool
  self : CWaylandConnector
  fbs : Nat → CWaylandFb
  events : List PresentEvent

/-- One call of a method of the plane `m_Planes[uPlane]` within a call in
progress. -/
def Presenting.plane (uPlane : Nat)
    (f : (Nat → CWaylandPlane) → (Nat → CWaylandFb) → CWaylandPlane → PlaneCall)
    (p : Presenting) : Presenting :=
  if p.bRunning then
    { bRunning := (f p.self.m_Planes p.fbs (p.self.m_Planes uPlane)).bReturned
      self :=
        { p.self with
          m_Planes :=
            Function.update p.self.m_Planes uPlane
              (f p.self.m_Planes p.fbs (p.self.m_Planes uPlane)).self }
      fbs := (f p.self.m_Planes p.fbs (p.self.m_Planes uPlane)).fbs
      events :=
        p.events ++
          (f p.self.m_Planes p.fbs (p.self.m_Planes uPlane)).events.map
            (PresentEvent.plane uPlane) }
  else p

/-- Something done outside the planes within a call in progress. -/
def Presenting.log (events : List PresentEvent) (p : Presenting) : Presenting :=
  if p.bRunning then { p with events := p.events ++ events } else p

/-- Outcome of `CWaylandConnector::Present`: the value returned (nothing when
the call did not return), the connector, the framebuffers and `g_bFullscreen`
afterwards, and what was done, in order. -/
structure PresentCall where
  ret : Option Int
  self : CWaylandConnector
  fbs : Nat → CWaylandFb
  g_bFullscreen : Bool
  events : List PresentEvent

namespace CWaylandConnector

/-- Method `CWaylandConnector::UpdateFullscreenState()`: `g_bFullscreen`
afterwards and the request made. -/
def UpdateFullscreenState (g_bFullscreen : Bool) (self : CWaylandConnector) :
    Bool × List PresentEvent :=
  let g1 : Bool := if !self.m_bVisible then false else g_bFullscreen
  if self.m_bDesiredFullscreenState != g1 && self.m_bVisible then
    (self.m_bDesiredFullscreenState,
      [if self.m_bDesiredFullscreenState then PresentEvent.libdecor_frame_set_fullscreen
        else PresentEvent.libdecor_frame_unset_fullscreen])
  else (g1, [])

/-- The value of the local variable `bNeedsFullComposite` of
`CWaylandConnector::Present` on a visible connector, after the last of the
statements that assign it. -/
def bNeedsFullComposite (X : WaylandExternals) (g : WaylandGlobals)
    (backend : CWaylandBackendObjects) (pFrameInfo : FrameInfo_t) : Bool :=
  let bLayer0ScreenSize : Bool :=
    X.close_enough (pFrameInfo.layers 0).scale.x (Double.finite 1) &&
      X.close_enough (pFrameInfo.layers 0).scale.y (Double.finite 1)
  let bNeedsCompositeFromFilter : Bool :=
    (g.g_upscaleFilter == GamescopeUpscaleFilter.NEAREST ||
      g.g_upscaleFilter == GamescopeUpscaleFilter.PIXEL) && !bLayer0ScreenSize
  let b0 : Bool := false
  let b1 : Bool := b0 || g.cv_composite_force
  let b2 : Bool := b1 || pFrameInfo.useFSRLayer0
  let b3 : Bool := b2 || pFrameInfo.useNISLayer0
  let b4 : Bool := b3 || (pFrameInfo.blurLayer0 != 0)
  let b5 : Bool := b4 || bNeedsCompositeFromFilter
  let b6 : Bool := b5 || g.g_bColorSliderInUse
  let b7 : Bool := b6 || pFrameInfo.bFadingOut
  let b8 : Bool := b7 || !g.g_reshade_effect.isEmpty
  let b9 : Bool := if g.g_bOutputHDREnabled then b8 || g.g_bHDRItmEnable else b8
  let b10 : Bool :=
    if !CWaylandBackend.SupportsColorManagement backend then
      b9 || X.ColorspaceIsHDR (pFrameInfo.layers 0).colorspace
    else b9
  b10 || (Nat.land g.g_uCompositeDebug X.Heatmap != 0)

/-- The value of the local variable `bNeedsBacking` of
`CWaylandConnector::Present` when the planes are presented. -/
def bNeedsBacking (X : WaylandExternals) (pFrameInfo : FrameInfo_t) : Bool :=
  if pFrameInfo.layerCount ≥ 1 then
    (if X.isScreenSize (pFrameInfo.layers 0) && !X.hasAlpha (pFrameInfo.layers 0) then false
      else true)
  else true

/-- The argument `i < pFrameInfo->layerCount ? &pFrameInfo->layers[i] : nullptr`
of `CWaylandConnector::Present`. -/
def pLayerAt (pFrameInfo : FrameInfo_t) (i : Nat) : Option Layer_t :=
  if (i : Int) < pFrameInfo.layerCount then some (pFrameInfo.layers i) else none

/-- The value of the local variable `compositeLayer` of
`CWaylandConnector::Present` when it is presented. -/
def compositeLayer (X : WaylandExternals) (pFrameInfo : FrameInfo_t) : Layer_t :=
  { tex := X.vulkan_get_last_output_image
    zpos := X.g_zposBase
    offset := ⟨Double.finite 0, Double.finite 0⟩
    scale := ⟨Double.finite 1, Double.finite 1⟩
    opacity := Double.finite 1
    filter := GamescopeUpscaleFilter.NEAREST
    applyColorMgmt := false
    ctm := none
    colorspace :=
      if pFrameInfo.outputEncodingEOTF = EOTF.EOTF_PQ then
        GamescopeAppTextureColorspace.GAMESCOPE_APP_TEXTURE_COLORSPACE_HDR10_PQ
      else GamescopeAppTextureColorspace.GAMESCOPE_APP_TEXTURE_COLORSPACE_SRGB
    hdr_metadata_blob := none }

/-- The loop `for ( int i = 0; i < 8 && uCurrentPlane < 8; i++ )
m_Planes[uCurrentPlane++].Present( pLayerAt( i ) )` of
`CWaylandConnector::Present`, over the values of `i` that are left. -/
def PresentPlanes (X : WaylandExternals) (g : WaylandGlobals) (pLayerAt : Nat → Option Layer_t) :
    List Nat → Nat → Presenting → Presenting
  | [], _, p => p
  | i :: rest, uCurrentPlane, p =>
    if uCurrentPlane < 8 then
      PresentPlanes X g pLayerAt rest (uCurrentPlane + 1)
        (p.plane uCurrentPlane
          (fun m_Planes fbs self =>
            CWaylandPlane.PresentLayer X g m_Planes (pLayerAt i) fbs self))
    else p

/-- The loop `for ( int i = 1; i < 8; i++ ) m_Planes[i].Present( nullptr )` of
`CWaylandConnector::Present`, over the values of `i` that are left. -/
def PresentNoBuffer (X : WaylandExternals) (g : WaylandGlobals) :
    List Nat → Presenting → Presenting
  | [], p => p
  | i :: rest, p =>
    PresentNoBuffer X g rest
      (p.plane i
        (fun m_Planes fbs self => CWaylandPlane.PresentLayer X g m_Planes none fbs self))

/-- The loop `for ( int i = 7; i >= 0; i-- ) m_Planes[i].Commit()` of
`CWaylandConnector::Present`, over the values of `i` that are left. -/
def CommitPlanes (g : WaylandGlobals) : List Nat → Presenting → Presenting
  | [], p => p
  | i :: rest, p =>
    CommitPlanes g rest
      (p.plane i (fun m_Planes fbs self => CWaylandPlane.Commit g m_Planes fbs self))

/-- The statements of `CWaylandConnector::Present` after the planes have been
presented, from the commits to `return 0`. -/
def PresentFinish (g : WaylandGlobals) (g_bFullscreen : Bool) (bCompositing : Bool)
    (p : Presenting) : PresentCall :=
  let q : Presenting :=
    (CommitPlanes g [7, 6, 5, 4, 3, 2, 1, 0] p).log
      [PresentEvent.wl_display_flush, PresentEvent.UpdateWasCompositing bCompositing,
        PresentEvent.UpdateLastDrawTime, PresentEvent.PollState]
  ⟨if q.bRunning then some 0 else none, q.self, q.fbs, g_bFullscreen, q.events⟩

/-- The call `pPlane->Present( WaylandPlaneState{ ... } )` of
`CWaylandConnector::Present`, which presents the black framebuffer; the
members that the initialiser does not name are zero. -/
def PresentBacking (X : WaylandExternals) (g : WaylandGlobals) (backend : CWaylandBackendObjects)
    (m_Planes : Nat → CWaylandPlane) (fbs : Nat → CWaylandFb) (pPlane : CWaylandPlane) :
    PlaneCall :=
  match CWaylandPlane.GetScale m_Planes 8 pPlane with
  | some uScale =>
    CWaylandPlane.Present X g
      (some
        { pBuffer := (fbs backend.m_BlackFb).m_pHostBuffer
          nDestX := 0
          nDestY := 0
          flSrcX := Double.finite 0
          flSrcY := Double.finite 0
          flSrcWidth := Double.finite 1
          flSrcHeight := Double.finite 1
          nDstWidth := toI32 g.g_nOutputWidth
          nDstHeight := toI32 g.g_nOutputHeight
          eColorspace := GamescopeAppTextureColorspace.GAMESCOPE_APP_TEXTURE_COLORSPACE_PASSTHRU
          pHDRMetadata := none
          bOpaque := true
          uFractionalScale := uScale })
      fbs pPlane
  | none => ⟨false, pPlane, fbs, []⟩

/-- Method `CWaylandConnector::Present( pFrameInfo, bAsync )`.  The listeners
that the final `m_pBackend->PollState()` may dispatch are not run. -/
def Present (X : WaylandExternals) (g : WaylandGlobals) (backend : CWaylandBackendObjects)
    (fbs : Nat → CWaylandFb) (pFrameInfo : FrameInfo_t) (_bAsync : Bool)
    (self : CWaylandConnector) : PresentCall :=
  let p0 : Presenting := ⟨true, self, fbs, (self.UpdateFullscreenState g.g_bFullscreen).2⟩
  let g_bFullscreen : Bool := (self.UpdateFullscreenState g.g_bFullscreen).1
  if !self.m_bVisible then
    PresentFinish g g_bFullscreen false
      (PresentPlanes X g (fun _ => none) [0, 1, 2, 3, 4, 5, 6, 7] 0 p0)
  else if !bNeedsFullComposite X g backend pFrameInfo then
    if bNeedsBacking X pFrameInfo then
      let p1 : Presenting :=
        (p0.log [PresentEvent.OnCompositorAcquire backend.m_BlackFb])
      let p2 : Presenting :=
        { p1 with
          fbs := Function.update p1.fbs backend.m_BlackFb
            (p1.fbs backend.m_BlackFb).OnCompositorAcquire.self }
      let p3 : Presenting := p2.plane 0 (PresentBacking X g backend)
      PresentFinish g g_bFullscreen false
        (PresentPlanes X g (pLayerAt pFrameInfo) [0, 1, 2, 3, 4, 5, 6, 7] 1 p3)
    else
      PresentFinish g g_bFullscreen false
        (PresentPlanes X g (pLayerAt pFrameInfo) [0, 1, 2, 3, 4, 5, 6, 7] 0 p0)
  else
    match X.vulkan_composite pFrameInfo with
    | none =>
      ⟨some (-EINVAL), self, fbs, g_bFullscreen,
        p0.events ++ [PresentEvent.vulkan_composite, PresentEvent.errorf]⟩
    | some uSequence =>
      let p1 : Presenting :=
        p0.log [PresentEvent.vulkan_composite, PresentEvent.vulkan_wait uSequence,
          PresentEvent.vulkan_get_last_output_image]
      let p2 : Presenting :=
        p1.plane 0 (fun m_Planes fbs plane =>
          CWaylandPlane.PresentLayer X g m_Planes (some (compositeLayer X pFrameInfo)) fbs plane)
      PresentFinish g g_bFullscreen true
        (PresentNoBuffer X g [1, 2, 3, 4, 5, 6, 7] p2)

end CWaylandConnector

/-! ## Reading what a call of Present did -/

/-- The layer of a call of `CWaylandPlane::Present( pLayer )`. -/
def PlaneEvent.asPresentLayer : PlaneEvent → Option (Option Layer_t)
  | .PresentLayer pLayer => some pLayer
  | _ => none

/-- The state of a call of `CWaylandPlane::Present( oState )`. -/
def PlaneEvent.asPresent : PlaneEvent → Option (Option WaylandPlaneState)
  | .Present oState => some oState
  | _ => none

/-- Whether this is a call of `CWaylandPlane::Commit()`. -/
def PlaneEvent.isCommit : PlaneEvent → Bool
  | .Commit => true
  | _ => false

/-- The calls of `CWaylandPlane::Present( pLayer )`, in order, each with the
index of the plane. -/
def layerCalls (events : List PresentEvent) : List (Nat × Option Layer_t) :=
  events.filterMap (fun e =>
    match e with
    | .plane uPlane e => e.asPresentLayer.map (fun pLayer => (uPlane, pLayer))
    | _ => none)

/-- The calls of `CWaylandPlane::Present( oState )`, in order, each with the
index of the plane. -/
def presentCalls (events : List PresentEvent) : List (Nat × Option WaylandPlaneState) :=
  events.filterMap (fun e =>
    match e with
    | .plane uPlane e => e.asPresent.map (fun oState => (uPlane, oState))
    | _ => none)

/-- The indices of the planes on which `CWaylandPlane::Commit()` was called, in
order. -/
def commitCalls (events : List PresentEvent) : List Nat :=
  events.filterMap (fun e =>
    match e with
    | .plane uPlane e => if e.isCommit then some uPlane else none
    | _ => none)

/-- What was done outside the planes, in order. -/
def outsideCalls (events : List PresentEvent) : List PresentEvent :=
  events.filter (fun e =>
    match e with
    | .plane _ _ => false
    | _ => true)

/-- The parents that `CWaylandConnector::Init` gives the planes: `m_Planes[0]`
has none and is the parent of the seven others. -/
def CWaylandConnector.ParentsAsInit (self : CWaylandConnector) : Prop :=
  (self.m_Planes 0).m_pParent = none ∧
    ∀ i, i ≠ 0 → i < 8 → (self.m_Planes i).m_pParent = some 0

/-- The eleven conditions that the specification lists for the composite
decision, in its order. -/
def compositeConditions (X : WaylandExternals) (g : WaylandGlobals)
    (backend : CWaylandBackendObjects) (pFrameInfo : FrameInfo_t) : List Bool :=
  [g.cv_composite_force,
    pFrameInfo.useFSRLayer0,
    pFrameInfo.useNISLayer0,
    pFrameInfo.blurLayer0 != 0,
    (g.g_upscaleFilter == GamescopeUpscaleFilter.NEAREST ||
        g.g_upscaleFilter == GamescopeUpscaleFilter.PIXEL) &&
      !(X.close_enough (pFrameInfo.layers 0).scale.x (Double.finite 1) &&
        X.close_enough (pFrameInfo.layers 0).scale.y (Double.finite 1)),
    g.g_bColorSliderInUse,
    pFrameInfo.bFadingOut,
    !g.g_reshade_effect.isEmpty,
    g.g_bOutputHDREnabled && g.g_bHDRItmEnable,
    !CWaylandBackend.SupportsColorManagement backend &&
      X.ColorspaceIsHDR (pFrameInfo.layers 0).colorspace,
    Nat.land g.g_uCompositeDebug X.Heatmap != 0]

/-- Whether this is a call of a method of the plane rather than a request. -/
def PlaneEvent.isCall : PlaneEvent → Bool
  | .PresentLayer _ => true
  | .Present _ => true
  | .Commit => true
  | _ => false

/-- Whether this is a call rather than a request on an object of a plane. -/
def PresentEvent.isCall : PresentEvent → Bool
  | .plane _ e => e.isCall
  | _ => true

/-- The calls among what was done, in order. -/
def callsOf (events : List PresentEvent) : List PresentEvent :=
  events.filter PresentEvent.isCall

/-- The calls that presenting the layers `pLayerAt i`, for `i` in the list, on
the planes `uPlane`, `uPlane + 1`, ... makes, when `states` gives the state that
each plane is presented with. -/
def presentCallsOf (pLayerAt : Nat → Option Layer_t) (states : Nat → Option WaylandPlaneState) :
    List Nat → Nat → List PresentEvent
  | [], _ => []
  | i :: rest, uPlane =>
    PresentEvent.plane uPlane (PlaneEvent.PresentLayer (pLayerAt i)) ::
      PresentEvent.plane uPlane (PlaneEvent.Present (states uPlane)) ::
      presentCallsOf pLayerAt states rest (uPlane + 1)

/-- The calls that `CWaylandConnector::Present` makes from the commits to
`return 0`. -/
def finishCallsOf (bCompositing : Bool) : List PresentEvent :=
  [PresentEvent.plane 7 PlaneEvent.Commit, PresentEvent.plane 6 PlaneEvent.Commit,
    PresentEvent.plane 5 PlaneEvent.Commit, PresentEvent.plane 4 PlaneEvent.Commit,
    PresentEvent.plane 3 PlaneEvent.Commit, PresentEvent.plane 2 PlaneEvent.Commit,
    PresentEvent.plane 1 PlaneEvent.Commit, PresentEvent.plane 0 PlaneEvent.Commit,
    PresentEvent.wl_display_flush, PresentEvent.UpdateWasCompositing bCompositing,
    PresentEvent.UpdateLastDrawTime, PresentEvent.PollState]

/-! ## Requests on the surfaces of the planes -/

/-- Whether this is a request on the `wl_surface` of a plane or on its
viewport. -/
def PlaneEvent.isSurfaceRequest : PlaneEvent → Bool
  | .wp_viewport_set_source _ _ _ _ => true
  | .wp_viewport_set_destination _ _ => true
  | .wl_surface_attach _ => true
  | .wl_surface_damage => true
  | .wl_surface_set_opaque_region _ => true
  | .wl_surface_set_buffer_scale => true
  | .wl_surface_commit => true
  | _ => false

/-- The requests on the surfaces of the planes and on their viewports, in
order, each with the index of the plane. -/
def surfaceRequests (events : List PresentEvent) : List (Nat × PlaneEvent) :=
  events.filterMap (fun e =>
    match e with
    | .plane uPlane e => if e.isSurfaceRequest then some (uPlane, e) else none
    | _ => none)

/-- The requests on the surface of the plane `uPlane` and on its viewport, in
order. -/
def surfaceRequestsOn (uPlane : Nat) (events : List PresentEvent) : List PlaneEvent :=
  (surfaceRequests events).filterMap (fun r => if r.1 = uPlane then some r.2 else none)

/-- The buffers of the requests `wl_surface_attach` on the surface of the plane
`uPlane`, in order; nothing stands for the null buffer. -/
def attachesOn (uPlane : Nat) (events : List PresentEvent) : List (Option Nat) :=
  (surfaceRequestsOn uPlane events).filterMap (fun e =>
    match e with
    | .wl_surface_attach pBuffer => some pBuffer
    | _ => none)

/-- The requests on the surface of a plane and on its viewport that
`CWaylandPlane::Present( oState )` makes when it returns, in order: with a
state, the source and the destination of the viewport, the attach of the
buffer of the state, the damage, the opaque region and the buffer scale;
without one, the attach of the null buffer and the damage. -/
def presentRequestsOf : Option WaylandPlaneState → List PlaneEvent
  | some state =>
    [PlaneEvent.wp_viewport_set_source state.flSrcX state.flSrcY state.flSrcWidth
        state.flSrcHeight,
      PlaneEvent.wp_viewport_set_destination
        (toI32 (WaylandScaleToLogical (toU32 state.nDstWidth) state.uFractionalScale))
        (toI32 (WaylandScaleToLogical (toU32 state.nDstHeight) state.uFractionalScale)),
      PlaneEvent.wl_surface_attach state.pBuffer, PlaneEvent.wl_surface_damage,
      PlaneEvent.wl_surface_set_opaque_region state.bOpaque,
      PlaneEvent.wl_surface_set_buffer_scale]
  | none => [PlaneEvent.wl_surface_attach none, PlaneEvent.wl_surface_damage]

/-- The requests on the surface of the plane that follow from a call of one of
its methods when the call returns: those of `Present( oState )`, the
`wl_surface_commit` of `Commit()`, none for `Present( pLayer )` itself. -/
def PlaneEvent.requestsOfCall : PlaneEvent → List PlaneEvent
  | .Present oState => presentRequestsOf oState
  | .Commit => [PlaneEvent.wl_surface_commit]
  | _ => []

/-- The requests on the surfaces of the planes that follow from a call, each
with the index of the plane. -/
def PresentEvent.requestsOfCall : PresentEvent → List (Nat × PlaneEvent)
  | .plane uPlane e => e.requestsOfCall.map (fun r => (uPlane, r))
  | _ => []

/-- The requests on the surfaces of the planes that follow from a sequence of
calls which all return. -/
def requestsOfCalls (calls : List PresentEvent) : List (Nat × PlaneEvent) :=
  calls.flatMap PresentEvent.requestsOfCall

/-- While a call of `CWaylandConnector::Present` is running, the requests made
so far on the surfaces of the planes are those that follow from the calls made
so far. -/
def Presenting.RequestsFollow (p : Presenting) : Prop :=
  p.bRunning = true → surfaceRequests p.events = requestsOfCalls (callsOf p.events)

/-- The requests that presenting the planes of the list, each with the state
that `states` gives, makes on their surfaces, in the order of the list. -/
def presentRequestsOn (states : Nat → Option WaylandPlaneState) (planes : List Nat) :
    List (Nat × PlaneEvent) :=
  planes.flatMap (fun v => (presentRequestsOf (states v)).map (fun r => (v, r)))

/-! ## A scripted child, for concrete runs -/

/-- A child backend whose answers follow a script: the results of its
successive `Init()` calls (false once the script is used up), the result of
its `PostInit()`, and the results of its successive `PollState()` calls (false
once used up).  Concrete runs of the deferred backend are written with it. -/
structure ScriptedChild where
  initResults : List Bool
  postInitResult : Bool
  pollResults : List Bool
  deriving DecidableEq

/-- The methods of a scripted child; every query that is not scripted gives
a fixed answer. -/
def ScriptedChild.vtable : IBackend ScriptedChild where
  Init s := (s.initResults.headD false, ⟨s.initResults.tail, s.postInitResult, s.pollResults⟩)
  PostInit s := (s.postInitResult, s)
  GetInstanceExtensions _ := []
  GetDeviceExtensions _ _ := []
  GetPresentLayout _ := VK_IMAGE_LAYOUT_GENERAL
  GetPreferredOutputFormat _ := (0, 0)
  ValidPhysicalDevice _ _ := true
  DirtyState _ _ s := s
  PollState s := (s.pollResults.headD false, ⟨s.initResults, s.postInitResult, s.pollResults.tail⟩)
  UsesModifiers _ := false
  GetSupportedModifiers _ _ := []
  GetCurrentConnector s := (some 1, s)
  GetConnector _ s := (some 1, s)
  SupportsPlaneHardwareCursor _ := false
  SupportsTearing _ := true
  UsesVulkanSwapchain _ := false
  IsSessionBased _ := false
  SupportsExplicitSync _ := false
  IsPaused _ := false
  IsVisible _ := true
  CursorSurfaceSize _ sz := sz
  HackTemporarySetDynamicRefresh _ s := (false, s)
  HackUpdatePatchedEdid s := s
  NeedsFrameSync _ := false
  GetTouchClickMode s := (0, s)
  DumpDebugInfo s := s
  UsesVirtualConnectors s := (false, s)
  CreateVirtualConnector _ s := (none, s)
  NotifyPhysicalInput _ s := s
  SupportsVROverlayForwarding s := (false, s)
  ForwardFramebuffer _ _ _ s := s
  ShouldFitWindows s := (false, s)

/-- External functions used in concrete runs: no sample modifier, and the
format conversion left as the identity. -/
def plainExternals : Externals := ⟨fun _ => [], fun n => n⟩

/-- Globals of a process started without `-W`, `-H` and `-r`. -/
def defaultGlobals : Globals := ⟨0, 0, 0, 0, 0, 0⟩

/-! ## A frame and a connector, for concrete calls -/

/-- Externals for concrete calls: values are close enough when equal, the HDR
colourspaces are scRGB and HDR10 PQ, every layer is screen-sized without alpha,
the composite succeeds or not as `bComposite` says. -/
def plainWaylandExternals (bComposite : Bool) : WaylandExternals where
  close_enough a b := decide (a = b)
  ColorspaceIsHDR c :=
    decide (c = GamescopeAppTextureColorspace.GAMESCOPE_APP_TEXTURE_COLORSPACE_SCRGB ∨
      c = GamescopeAppTextureColorspace.GAMESCOPE_APP_TEXTURE_COLORSPACE_HDR10_PQ)
  isScreenSize _ := true
  hasAlpha _ := false
  g_zposBase := 0
  Heatmap := 4
  vulkan_composite _ := if bComposite then some 1 else none
  vulkan_get_last_output_image := some ⟨1280, 720, some 9⟩
  wp_color_manager_v1_create_windows_scrgb := some 21
  wp_image_description_creator_params_v1_create := some 22

/-- Globals for concrete calls: a 1280x720 output, no effect in use, composite
forced or not as `bForce` says. -/
def plainWaylandGlobals (bForce : Bool) : WaylandGlobals where
  g_nOutputWidth := 1280
  g_nOutputHeight := 720
  g_bFullscreen := false
  cv_composite_force := bForce
  g_upscaleFilter := GamescopeUpscaleFilter.LINEAR
  g_bColorSliderInUse := false
  g_reshade_effect := ""
  g_bOutputHDREnabled := false
  g_bHDRItmEnable := false
  g_uCompositeDebug := 0
  cv_wayland_hdr10_saturation_scale := Double.finite 1

/-- A backend whose black framebuffer is the framebuffer 0. -/
def plainBackendObjects : CWaylandBackendObjects where
  m_BlackFb := 0

/-- Framebuffers for concrete calls: the framebuffer `n` has the host buffer
`100 + n` and one reference. -/
def plainFbs : Nat → CWaylandFb := fun n => ⟨1, some (100 + n), false⟩

/-- A 1280x720 sRGB layer at the origin, at scale 1x1, on the framebuffer `pFb`. -/
def plainLayer (pFb : Nat) : Layer_t where
  tex := some ⟨1280, 720, some pFb⟩
  zpos := 0
  offset := ⟨Double.finite 0, Double.finite 0⟩
  scale := ⟨Double.finite 1, Double.finite 1⟩
  opacity := Double.finite 1
  filter := GamescopeUpscaleFilter.LINEAR
  applyColorMgmt := false
  ctm := none
  colorspace := GamescopeAppTextureColorspace.GAMESCOPE_APP_TEXTURE_COLORSPACE_SRGB
  hdr_metadata_blob := none

/-- A frame of `layerCount` layers without effects; the layer `i` is on the
framebuffer `i + 1`. -/
def plainFrame (layerCount : Int) : FrameInfo_t where
  useFSRLayer0 := false
  useNISLayer0 := false
  bFadingOut := false
  blurLayer0 := 0
  outputEncodingEOTF := EOTF.EOTF_Gamma22
  layerCount := layerCount
  layers i := plainLayer (i + 1)

/-- A connector as `CWaylandConnector::Init` leaves it, visible or not. -/
def plainConnector (bVisible : Bool) : CWaylandConnector where
  m_Planes i :=
    if i = 0 then { m_pFrame := some 50 } else { m_pParent := some 0, m_pSubsurface := some (60 + i) }
  m_bVisible := bVisible

/-- Whether this request destroys an image description or takes part in
creating one: `wp_image_description_v1_destroy`,
`wp_color_manager_v1_create_windows_scrgb`, or a request on a parametric
creator up to its `create`. -/
def PlaneEvent.isImageDescriptionChange : PlaneEvent → Bool
  | .wp_image_description_v1_destroy _ => true
  | .wp_color_manager_v1_create_windows_scrgb => true
  | .wp_color_manager_v1_create_parametric_creator => true
  | .set_primaries_named => true
  | .set_primaries => true
  | .set_tf_named => true
  | .set_mastering_display_primaries => true
  | .set_mastering_luminance => true
  | .set_max_cll => true
  | .set_max_fall => true
  | .wp_image_description_creator_params_v1_create => true
  | _ => false

/-- Whether this request submits a colour description to the surface:
`wp_color_management_surface_v1_set_image_description` or
`wp_color_management_surface_v1_unset_image_description`. -/
def PlaneEvent.isImageDescriptionSubmit : PlaneEvent → Bool
  | .set_image_description _ => true
  | .unset_image_description => true
  | _ => false

/-- A plane state for concrete calls: the buffer 101, 1280x720 at the origin,
in the colourspace given. -/
def plainPlaneState (eColorspace : GamescopeAppTextureColorspace) : WaylandPlaneState where
  pBuffer := some 101
  nDestX := 0
  nDestY := 0
  flSrcX := Double.finite 0
  flSrcY := Double.finite 0
  flSrcWidth := Double.finite 1280
  flSrcHeight := Double.finite 720
  nDstWidth := 1280
  nDstHeight := 720
  eColorspace := eColorspace
  pHDRMetadata := none
  bOpaque := true
  uFractionalScale := 120

/-- A plane for concrete calls whose surface has the colour-managed surface 70
of the protocol `wp_color_management_v1`. -/
def colourManagedPlane : CWaylandPlane where
  m_pWPColorManagedSurface := some 70

/-! ## Refresh rate and HDR information from the host compositor -/

/-- The struct `WaylandOutputInfo`, what the backend knows of an output of the
host compositor. -/
structure WaylandOutputInfo where
  nRefresh : Int := 60
  nScale : Int := 1
  deriving DecidableEq

/-- What the listeners of a plane reach outside the connector: the function
`RefreshCycleTomHz` of the absent `refresh_rate.h`, from the `uint32_t` refresh
cycle to the `int32_t` rate in mHz; the method `GetOutputInfo` of the backend,
nothing for an output that is not in its map `m_pOutputs`; the variable
`cv_hdr_enabled`; and the values of the enumerators
`WP_COLOR_MANAGER_V1_TRANSFER_FUNCTION_ST2084_PQ` and
`FROG_COLOR_MANAGED_SURFACE_TRANSFER_FUNCTION_ST2084_PQ` of the protocol
headers. -/
structure ListenerExternals where
  RefreshCycleTomHz : Nat → Int
  GetOutputInfo : Nat → Option WaylandOutputInfo
  cv_hdr_enabled : Bool
  WP_COLOR_MANAGER_V1_TRANSFER_FUNCTION_ST2084_PQ : Nat
  FROG_COLOR_MANAGED_SURFACE_TRANSFER_FUNCTION_ST2084_PQ : Nat

/-- Outcome of a listener of a plane: the connector `m_pConnector` and the
global `g_nOutputRefresh` afterwards. -/
structure ListenerCall where
  m_pConnector : CWaylandConnector
  g_nOutputRefresh : Int

/-- The value of the local variable `nLargestRefreshRateMhz` of
`CWaylandPlane::UpdateVRRRefreshRate()` after the loop over the outputs that
are left, from its value before. -/
def CWaylandPlane.nLargestRefreshRateMhz (X : ListenerExternals) :
    List Nat → Int → Int
  | [], nLargest => nLargest
  | pOutput :: rest, nLargest =>
    match X.GetOutputInfo pOutput with
    | none => CWaylandPlane.nLargestRefreshRateMhz X rest nLargest
    | some pOutputInfo =>
      CWaylandPlane.nLargestRefreshRateMhz X rest (max nLargest pOutputInfo.nRefresh)

/-- Method `CWaylandPlane::UpdateVRRRefreshRate()`: the global
`g_nOutputRefresh` afterwards.  `m_pConnector` is the connector of the plane. -/
def CWaylandPlane.UpdateVRRRefreshRate (X : ListenerExternals)
    (m_pConnector : CWaylandConnector) (g_nOutputRefresh : Int) (self : CWaylandPlane) : Int :=
  if self.m_pParent ≠ none then g_nOutputRefresh
  else if !m_pConnector.m_bHostCompositorIsCurrentlyVRR then g_nOutputRefresh
  else if self.m_pOutputs.isEmpty then g_nOutputRefresh
  else if CWaylandPlane.nLargestRefreshRateMhz X self.m_pOutputs 0 ≠ 0 ∧
      CWaylandPlane.nLargestRefreshRateMhz X self.m_pOutputs 0 ≠ g_nOutputRefresh then
    CWaylandPlane.nLargestRefreshRateMhz X self.m_pOutputs 0
  else g_nOutputRefresh

/-- Method `CWaylandPlane::Wayland_PresentationFeedback_Presented`, with the
refresh cycle that the host compositor reports.  The calls that end it
(`MarkVBlank`, `wp_presentation_feedback_destroy`, `nudge_steamcompmgr`) touch
neither the connector nor `g_nOutputRefresh` and are left out. -/
def CWaylandPlane.Wayland_PresentationFeedback_Presented (X : ListenerExternals)
    (uRefreshCycle : Nat) (m_pConnector : CWaylandConnector) (g_nOutputRefresh : Int)
    (self : CWaylandPlane) : ListenerCall :=
  if uRefreshCycle ≠ 0 then
    { m_pConnector := { m_pConnector with m_bHostCompositorIsCurrentlyVRR := false }
      g_nOutputRefresh :=
        if X.RefreshCycleTomHz uRefreshCycle ≠ 0 ∧
            X.RefreshCycleTomHz uRefreshCycle ≠ g_nOutputRefresh then
          X.RefreshCycleTomHz uRefreshCycle
        else g_nOutputRefresh }
  else
    { m_pConnector := { m_pConnector with m_bHostCompositorIsCurrentlyVRR := true }
      g_nOutputRefresh :=
        CWaylandPlane.UpdateVRRRefreshRate X
          { m_pConnector with m_bHostCompositorIsCurrentlyVRR := true } g_nOutputRefresh self }

/-- Externals for concrete calls of the listeners: a refresh cycle of `n`
nanoseconds is the rate `10^12 / n` mHz, the outputs 1 and 2 are known with
60 Hz and 144 Hz, HDR is enabled, and ST2084 PQ is 11 in the protocol
`wp_color_management_v1` and 3 in `frog_color_management_v1`. -/
def plainListenerExternals : ListenerExternals where
  RefreshCycleTomHz n := (1000000000000 / n : Nat)
  GetOutputInfo pOutput :=
    if pOutput = 1 then some { nRefresh := 60000 }
    else if pOutput = 2 then some { nRefresh := 144000 }
    else none
  cv_hdr_enabled := true
  WP_COLOR_MANAGER_V1_TRANSFER_FUNCTION_ST2084_PQ := 11
  FROG_COLOR_MANAGED_SURFACE_TRANSFER_FUNCTION_ST2084_PQ := 3

/-- Constructor `CWaylandConnector::CWaylandConnector( pBackend,
ulVirtualConnectorKey )`: the members have their initial values, eight planes
are constructed, and `m_HDRInfo.bAlwaysPatchEdid` is set. -/
def CWaylandConnector.ctor : CWaylandConnector where
  m_Planes _ := {}
  m_HDRInfo := { bAlwaysPatchEdid := true }

/-- Method `CWaylandConnector::GetHDRInfo()`. -/
def CWaylandConnector.GetHDRInfo (self : CWaylandConnector) : BackendConnectorHDRInfo :=
  self.m_HDRInfo

/-- Method `CWaylandConnector::SupportsHDR()`. -/
def CWaylandConnector.SupportsHDR (self : CWaylandConnector) : Bool :=
  self.GetHDRInfo.IsHDR10

/-- Method `CWaylandPlane::Wayland_WPImageDescriptionInfo_TFNamed`, with the
transfer function `uTF` that the host compositor prefers: the connector
`m_pConnector` afterwards.  The log messages are left out. -/
def CWaylandPlane.Wayland_WPImageDescriptionInfo_TFNamed (X : ListenerExternals) (uTF : Nat)
    (m_pConnector : CWaylandConnector) : CWaylandConnector :=
  { m_pConnector with
    m_HDRInfo :=
      { m_pConnector.m_HDRInfo with
        bExposeHDRSupport :=
          X.cv_hdr_enabled && uTF == X.WP_COLOR_MANAGER_V1_TRANSFER_FUNCTION_ST2084_PQ
        eOutputEncodingEOTF :=
          if X.cv_hdr_enabled && uTF == X.WP_COLOR_MANAGER_V1_TRANSFER_FUNCTION_ST2084_PQ then
            EOTF.EOTF_PQ
          else EOTF.EOTF_Gamma22 } }

/-- Method `CWaylandPlane::Wayland_FrogColorManagedSurface_PreferredMetadata`,
with the transfer function `uTransferFunction` that the host compositor
prefers: the connector `m_pConnector` afterwards.  The luminance members of
the HDR record and the colorimetry of the display, which it also assigns from
its other arguments, are not among the members kept, and the log message is
left out. -/
def CWaylandPlane.Wayland_FrogColorManagedSurface_PreferredMetadata (X : ListenerExternals)
    (uTransferFunction : Nat) (m_pConnector : CWaylandConnector) : CWaylandConnector :=
  { m_pConnector with
    m_HDRInfo :=
      { m_pConnector.m_HDRInfo with
        bExposeHDRSupport :=
          X.cv_hdr_enabled &&
            uTransferFunction == X.FROG_COLOR_MANAGED_SURFACE_TRANSFER_FUNCTION_ST2084_PQ
        eOutputEncodingEOTF :=
          if X.cv_hdr_enabled &&
              uTransferFunction == X.FROG_COLOR_MANAGED_SURFACE_TRANSFER_FUNCTION_ST2084_PQ then
            EOTF.EOTF_PQ
          else EOTF.EOTF_Gamma22 } }

/-! ## The focus connector of the backend -/

/-- Method `CWaylandBackend::OnConnectorDestroyed( pConnector )`:
`m_pFocusConnector.compare_exchange_strong( pConnector, nullptr )`. -/
def CWaylandBackend.OnConnectorDestroyed (pConnector : Nat) (self : CWaylandBackend) :
    CWaylandBackend :=
  if self.m_pFocusConnector = some pConnector then { self with m_pFocusConnector := none }
  else self

/-- Destructor `CWaylandConnector::~CWaylandConnector()` of the connector at
the address `pConnector`: its backend `m_pBackend` afterwards. -/
def CWaylandConnector.dtor (pConnector : Nat) (m_pBackend : CWaylandBackend) :
    CWaylandBackend :=
  m_pBackend.OnConnectorDestroyed pConnector

/-- Method `CWaylandBackend::CreateVirtualConnector( ulVirtualConnectorKey )`:
the pointer returned and the backend afterwards.  `pConnector` is the address
of the connector that `std::make_shared` constructs and `bInit` is the result
of its `Init()`.  When `Init()` fails the only shared pointer to the connector
goes out of scope at `return nullptr`, which destroys the connector. -/
def CWaylandBackend.CreateVirtualConnector (pConnector : Nat) (bInit : Bool)
    (self : CWaylandBackend) : Option Nat × CWaylandBackend :=
  if !bInit then
    (none, CWaylandConnector.dtor pConnector { self with m_pFocusConnector := some pConnector })
  else
    (some pConnector, { self with m_pFocusConnector := some pConnector })

/-- The backend together with the addresses of the connectors that have been
constructed and not destroyed. -/
structure ConnectorHeap where
  backend : CWaylandBackend
  alive : List Nat

/-- What is done to the connectors of a backend: a call of
`CreateVirtualConnector`, which constructs a connector at `pConnector`, and
the destruction of the connector at `pConnector`, when the last shared pointer
to it is dropped. -/
inductive ConnectorOp
  | CreateVirtualConnector (pConnector : Nat) (bInit : Bool)
  | Destroy (pConnector : Nat)
  deriving DecidableEq

/-- One operation on the connectors.  A connector is constructed at an address
that no connector alive has, and only a connector alive is destroyed: an
operation that is not so does nothing. -/
def ConnectorOp.perform : ConnectorOp → ConnectorHeap → ConnectorHeap
  | .CreateVirtualConnector pConnector bInit, h =>
    if pConnector ∈ h.alive then h
    else
      { backend := (h.backend.CreateVirtualConnector pConnector bInit).2
        alive := if bInit then pConnector :: h.alive else h.alive }
  | .Destroy pConnector, h =>
    if pConnector ∈ h.alive then
      { backend := CWaylandConnector.dtor pConnector h.backend
        alive := h.alive.filter (fun p => p ≠ pConnector) }
    else h

/-- The operations of a list, in order. -/
def ConnectorHeap.run (h : ConnectorHeap) : List ConnectorOp → ConnectorHeap
  | [] => h
  | op :: ops => ConnectorHeap.run (op.perform h) ops

/-- A backend that has no focus connector, as its constructor leaves it. -/
def plainWaylandBackend : CWaylandBackend where
  m_pFocusConnector := none
  m_bCanUseModifiers := false
  m_FormatModifiers := []

/-- The first statements of method `CWaylandBackend::Init()`, which resolve
the output geometry: the globals afterwards, and whether `Init()` goes on to
connect to the display (false when it has returned false). -/
def CWaylandBackend.Init (g : Globals) : Globals × Bool :=
  let g1 : Globals :=
    { g with
      g_nOutputWidth := toU32 g.g_nPreferredOutputWidth
      g_nOutputHeight := toU32 g.g_nPreferredOutputHeight
      g_nOutputRefresh := g.g_nNestedRefresh }
  if g1.g_nOutputHeight = 0 ∧ g1.g_nOutputWidth ≠ 0 then
    (g1, false)
  else
    let g2 : Globals := if g1.g_nOutputHeight = 0 then { g1 with g_nOutputHeight := 720 } else g1
    let g3 : Globals :=
      if g2.g_nOutputWidth = 0 then
        { g2 with g_nOutputWidth := g2.g_nOutputHeight * 16 % 4294967296 / 9 }
      else g2
    let g4 : Globals :=
      if g3.g_nOutputRefresh = 0 then { g3 with g_nOutputRefresh := ConvertHztomHz 60 } else g3
    (g4, true)

/-- Method `CWaylandPlane::LibDecor_Frame_Configure( pFrame, pConfiguration )`:
the globals afterwards and the request that `CommitLibDecor` makes, or nothing
when `GetScale()` does not return.  `oContentSize` is what
`libdecor_configuration_get_content_size` gives, nothing when it returns
false; the local variables `uScale`, `nWidth` and `nHeight` are `int32_t`.
The window state `m_eWindowState` is not among the members kept and
`force_repaint` is left out. -/
def CWaylandPlane.LibDecor_Frame_Configure (g : WaylandGlobals)
    (m_Planes : Nat → CWaylandPlane) (oContentSize : Option (Int × Int))
    (self : CWaylandPlane) : Option (WaylandGlobals × List PlaneEvent) :=
  match CWaylandPlane.GetScale m_Planes 8 self with
  | none => none
  | some uScale =>
    let nWidth : Int :=
      match oContentSize with
      | some size => size.1
      | none => toI32 (WaylandScaleToLogical g.g_nOutputWidth (toU32 (toI32 uScale)))
    let nHeight : Int :=
      match oContentSize with
      | some size => size.2
      | none => toI32 (WaylandScaleToLogical g.g_nOutputHeight (toU32 (toI32 uScale)))
    let g1 : WaylandGlobals :=
      { g with
        g_nOutputWidth := WaylandScaleToPhysical (toU32 nWidth) (toU32 (toI32 uScale))
        g_nOutputHeight := WaylandScaleToPhysical (toU32 nHeight) (toU32 (toI32 uScale)) }
    match CWaylandPlane.CommitLibDecor g1 m_Planes self with
    | some events => some (g1, events)
    | none => none

/-- A root plane for concrete calls, with the fractional scale given. -/
def scaledPlane (uFractionalScale : Nat) : CWaylandPlane where
  m_pFrame := some 50
  m_uFractionalScale := uFractionalScale

/-! ## CWaylandInputThread: keys -/

/-- Value of the macro `KEY_F` of `linux/input-event-codes.h`. -/
def KEY_F : Nat := 33

/-- Value of the macro `KEY_N` of `linux/input-event-codes.h`. -/
def KEY_N : Nat := 49

/-- Value of the macro `KEY_B` of `linux/input-event-codes.h`. -/
def KEY_B : Nat := 48

/-- Value of the macro `KEY_U` of `linux/input-event-codes.h`. -/
def KEY_U : Nat := 22

/-- Value of the macro `KEY_Y` of `linux/input-event-codes.h`. -/
def KEY_Y : Nat := 21

/-- Value of the macro `KEY_I` of `linux/input-event-codes.h`. -/
def KEY_I : Nat := 23

/-- Value of the macro `KEY_O` of `linux/input-event-codes.h`. -/
def KEY_O : Nat := 24

/-- Value of the macro `KEY_S` of `linux/input-event-codes.h`. -/
def KEY_S : Nat := 31

/-- Value of the enumerator `GAMESCOPE_WAYLAND_MOD_META` of
`WaylandModifierIndex`. -/
def GAMESCOPE_WAYLAND_MOD_META : Nat := 3

/-- Value of the enumerator `WL_KEYBOARD_KEY_STATE_PRESSED` of the protocol
header. -/
def WL_KEYBOARD_KEY_STATE_PRESSED : Nat := 1

/-- The member variables of `CWaylandInputThread` that the handling of keys
and of the relative pointer reads or assigns.  The `std::unordered_set`
`m_uScancodesHeld` is a list without repetition, and a loop over it takes the
keys in the order of the list; `m_pRelativePointer` is the handle of the
relative pointer that the shared pointer owns. -/
structure CWaylandInputThread where
  m_bKeyboardEntered : Bool := false
  m_uFakeTimestamp : Nat := 0
  m_uKeyModifiers : Nat := 0
  m_uModMask : Nat → Nat
  m_pRelativePointer : Option Nat := none
  m_uScancodesHeld : List Nat := []

/-- The process globals that `CWaylandInputThread::HandleKey` reads or
assigns. -/
structure InputGlobals where
  g_bFullscreen : Bool
  g_wantedUpscaleFilter : GamescopeUpscaleFilter
  g_upscaleFilterSharpness : Int
  deriving DecidableEq

/-- What the handling of input calls outside the input thread, in order:
`wlserver_key( uKey, bPressed, uTime )`, `SetFullscreen( bFullscreen )` on the
current connector, `TakeScreenshot( true )` on the screenshot manager, and
`wlserver_touchmotion` with its time. -/
inductive InputEvent
  | wlserver_key (uKey : Nat) (bPressed : Bool) (uTime : Nat)
  | SetFullscreen (bFullscreen : Bool)
  | TakeScreenshot
  | wlserver_touchmotion (uTime : Nat)
  deriving DecidableEq

/-- Outcome of a method of `CWaylandInputThread`: the input thread and the
globals afterwards, and what it called, in order. -/
structure InputCall where
  self : CWaylandInputThread
  g : InputGlobals
  events : List InputEvent

namespace CWaylandInputThread

/-- The statement `switch ( uKey )` of `CWaylandInputThread::HandleKey`, which
is reached while the Meta modifier is held: the outcome of the case that
returns, and nothing for `default: break`. -/
def HandleKeyHotkey (uKey : Nat) (bPressed : Bool) (g : InputGlobals)
    (self : CWaylandInputThread) : Option InputCall :=
  if uKey = KEY_F then
    some (if !bPressed then ⟨self, g, [InputEvent.SetFullscreen (!g.g_bFullscreen)]⟩
      else ⟨self, g, []⟩)
  else if uKey = KEY_N then
    some (if !bPressed then
        ⟨self, { g with g_wantedUpscaleFilter := GamescopeUpscaleFilter.PIXEL }, []⟩
      else ⟨self, g, []⟩)
  else if uKey = KEY_B then
    some (if !bPressed then
        ⟨self, { g with g_wantedUpscaleFilter := GamescopeUpscaleFilter.LINEAR }, []⟩
      else ⟨self, g, []⟩)
  else if uKey = KEY_U then
    some (if !bPressed then
        ⟨self,
          { g with
            g_wantedUpscaleFilter :=
              if g.g_wantedUpscaleFilter = GamescopeUpscaleFilter.FSR then
                GamescopeUpscaleFilter.LINEAR
              else GamescopeUpscaleFilter.FSR },
          []⟩
      else ⟨self, g, []⟩)
  else if uKey = KEY_Y then
    some (if !bPressed then
        ⟨self,
          { g with
            g_wantedUpscaleFilter :=
              if g.g_wantedUpscaleFilter = GamescopeUpscaleFilter.NIS then
                GamescopeUpscaleFilter.LINEAR
              else GamescopeUpscaleFilter.NIS },
          []⟩
      else ⟨self, g, []⟩)
  else if uKey = KEY_I then
    some (if !bPressed then
        ⟨self, { g with g_upscaleFilterSharpness := min 20 (g.g_upscaleFilterSharpness + 1) },
          []⟩
      else ⟨self, g, []⟩)
  else if uKey = KEY_O then
    some (if !bPressed then
        ⟨self, { g with g_upscaleFilterSharpness := max 0 (g.g_upscaleFilterSharpness - 1) },
          []⟩
      else ⟨self, g, []⟩)
  else if uKey = KEY_S then
    some (if !bPressed then ⟨self, g, [InputEvent.TakeScreenshot]⟩ else ⟨self, g, []⟩)
  else none

/-- Method `CWaylandInputThread::HandleKey( uKey, bPressed )`.  The counter
`m_uFakeTimestamp` is a `uint32_t`; the `int` sums of the sharpness are exact. -/
def HandleKey (uKey : Nat) (bPressed : Bool) (g : InputGlobals)
    (self : CWaylandInputThread) : InputCall :=
  match
    (if Nat.land self.m_uKeyModifiers (self.m_uModMask GAMESCOPE_WAYLAND_MOD_META) ≠ 0 then
      HandleKeyHotkey uKey bPressed g self
    else none) with
  | some call => call
  | none =>
    ⟨{ self with m_uFakeTimestamp := (self.m_uFakeTimestamp + 1) % 4294967296 }, g,
      [InputEvent.wlserver_key uKey bPressed ((self.m_uFakeTimestamp + 1) % 4294967296)]⟩

end CWaylandInputThread

/-- The eight keys that `CWaylandInputThread::HandleKey` handles itself while
the Meta modifier is held. -/
def hotkeys : List Nat := [KEY_F, KEY_N, KEY_B, KEY_U, KEY_Y, KEY_I, KEY_O, KEY_S]

/-- Whether this is a call of `wlserver_key`. -/
def InputEvent.isKey : InputEvent → Bool
  | .wlserver_key _ _ _ => true
  | _ => false

/-- An input thread for concrete calls, with the keymap mask 64 for the Meta
modifier and the modifiers given. -/
def plainInputThread (uKeyModifiers : Nat) : CWaylandInputThread where
  m_uKeyModifiers := uKeyModifiers
  m_uModMask _ := 64

/-- Globals for concrete calls of the input thread: not fullscreen, linear
filter, sharpness 2. -/
def plainInputGlobals : InputGlobals where
  g_bFullscreen := false
  g_wantedUpscaleFilter := GamescopeUpscaleFilter.LINEAR
  g_upscaleFilterSharpness := 2

namespace CWaylandInputThread

/-- The loop `for ( uint32_t uKey : keys ) { HandleKey( uKey, true );
m_uScancodesHeld.insert( uKey ); }` of `Wayland_Keyboard_Enter`, over the keys
that are left. -/
def EnterKeys : List Nat → InputCall → InputCall
  | [], call => call
  | uKey :: rest, call =>
    EnterKeys rest
      ⟨{ (call.self.HandleKey uKey true call.g).self with
          m_uScancodesHeld :=
            (call.self.HandleKey uKey true call.g).self.m_uScancodesHeld.insert uKey },
        (call.self.HandleKey uKey true call.g).g,
        call.events ++ (call.self.HandleKey uKey true call.g).events⟩

/-- Method `CWaylandInputThread::Wayland_Keyboard_Enter`, with the keys of the
array `pKeys`.  `bPendingMotion` says whether a pointer position is pending
and the call of `Wayland_Pointer_Motion` that replays it reaches
`wlserver_touchmotion`, which takes the next timestamp. -/
def Wayland_Keyboard_Enter (pKeys : List Nat) (bPendingMotion : Bool) (g : InputGlobals)
    (self : CWaylandInputThread) : InputCall :=
  let call : InputCall :=
    EnterKeys pKeys ⟨{ self with m_bKeyboardEntered := true, m_uScancodesHeld := [] }, g, []⟩
  if bPendingMotion then
    ⟨{ call.self with m_uFakeTimestamp := (call.self.m_uFakeTimestamp + 1) % 4294967296 },
      call.g,
      call.events ++
        [InputEvent.wlserver_touchmotion ((call.self.m_uFakeTimestamp + 1) % 4294967296)]⟩
  else call

/-- The loop `for ( uint32_t uKey : m_uScancodesHeld ) HandleKey( uKey, false )`
of `Wayland_Keyboard_Leave`, over the keys that are left. -/
def LeaveKeys : List Nat → InputCall → InputCall
  | [], call => call
  | uKey :: rest, call =>
    LeaveKeys rest
      ⟨(call.self.HandleKey uKey false call.g).self, (call.self.HandleKey uKey false call.g).g,
        call.events ++ (call.self.HandleKey uKey false call.g).events⟩

/-- Method `CWaylandInputThread::Wayland_Keyboard_Leave`. -/
def Wayland_Keyboard_Leave (g : InputGlobals) (self : CWaylandInputThread) : InputCall :=
  let call : InputCall :=
    LeaveKeys self.m_uScancodesHeld
      ⟨{ self with m_bKeyboardEntered := false, m_uKeyModifiers := 0 }, g, []⟩
  ⟨{ call.self with m_uScancodesHeld := [] }, call.g, call.events⟩

/-- Method `CWaylandInputThread::Wayland_Keyboard_Key`, with the key and its
state. -/
def Wayland_Keyboard_Key (uKey uState : Nat) (g : InputGlobals)
    (self : CWaylandInputThread) : InputCall :=
  if !self.m_bKeyboardEntered then ⟨self, g, []⟩
  else if decide (uKey ∈ self.m_uScancodesHeld) =
      decide (uState = WL_KEYBOARD_KEY_STATE_PRESSED) then
    ⟨self, g, []⟩
  else
    ⟨{ (self.HandleKey uKey (decide (uState = WL_KEYBOARD_KEY_STATE_PRESSED)) g).self with
        m_uScancodesHeld :=
          if uKey ∈ self.m_uScancodesHeld then
            (self.HandleKey uKey (decide (uState = WL_KEYBOARD_KEY_STATE_PRESSED))
              g).self.m_uScancodesHeld.filter (fun k => k ≠ uKey)
          else
            (self.HandleKey uKey (decide (uState = WL_KEYBOARD_KEY_STATE_PRESSED))
              g).self.m_uScancodesHeld.insert uKey },
      (self.HandleKey uKey (decide (uState = WL_KEYBOARD_KEY_STATE_PRESSED)) g).g,
      (self.HandleKey uKey (decide (uState = WL_KEYBOARD_KEY_STATE_PRESSED)) g).events⟩

/-- Method `CWaylandInputThread::Wayland_Keyboard_Modifiers`. -/
def Wayland_Keyboard_Modifiers (uModsDepressed uModsLatched uModsLocked : Nat)
    (g : InputGlobals) (self : CWaylandInputThread) : InputCall :=
  ⟨{ self with
      m_uKeyModifiers := Nat.lor (Nat.lor uModsDepressed uModsLatched) uModsLocked },
    g, []⟩

end CWaylandInputThread

/-- An event of the keyboard of the host compositor, as the listener of the
input thread receives it. -/
inductive KeyboardOp
  | Wayland_Keyboard_Enter (pKeys : List Nat) (bPendingMotion : Bool)
  | Wayland_Keyboard_Leave
  | Wayland_Keyboard_Key (uKey uState : Nat)
  | Wayland_Keyboard_Modifiers (uModsDepressed uModsLatched uModsLocked : Nat)
  deriving DecidableEq

/-- The listener called for an event of the keyboard. -/
def KeyboardOp.perform : KeyboardOp → InputGlobals → CWaylandInputThread → InputCall
  | .Wayland_Keyboard_Enter pKeys bPendingMotion, g, self =>
    self.Wayland_Keyboard_Enter pKeys bPendingMotion g
  | .Wayland_Keyboard_Leave, g, self => self.Wayland_Keyboard_Leave g
  | .Wayland_Keyboard_Key uKey uState, g, self => self.Wayland_Keyboard_Key uKey uState g
  | .Wayland_Keyboard_Modifiers uModsDepressed uModsLatched uModsLocked, g, self =>
    self.Wayland_Keyboard_Modifiers uModsDepressed uModsLatched uModsLocked g

/-- The listeners called for a sequence of events of the keyboard, in order,
after what `call` holds. -/
def InputCall.run (call : InputCall) : List KeyboardOp → InputCall
  | [] => call
  | op :: ops =>
    InputCall.run
      ⟨(op.perform call.g call.self).self, (op.perform call.g call.self).g,
        call.events ++ (op.perform call.g call.self).events⟩
      ops

/-- The presses (true) and releases (false) of the key `uKey` that were
forwarded to `wlserver_key`, in order. -/
def forwardedKey (uKey : Nat) (events : List InputEvent) : List Bool :=
  events.filterMap (fun e =>
    match e with
    | .wlserver_key k bPressed _ => if k = uKey then some bPressed else none
    | _ => none)

/-- Whether the presses and releases of a list alternate, the first of them
being `bNext`. -/
def alternates : Bool → List Bool → Bool
  | _, [] => true
  | bNext, bPressed :: rest => bPressed == bNext && alternates (!bNext) rest

/-- Whether a sequence of events of the keyboard is as the protocol sends it
to a keyboard that is entered or not as `bEntered` says: an enter event comes
only while the keyboard is not entered, and names no key twice. -/
def KeyboardOp.conforms : Bool → List KeyboardOp → Bool
  | _, [] => true
  | bEntered, .Wayland_Keyboard_Enter pKeys _ :: rest =>
    !bEntered && decide pKeys.Nodup && KeyboardOp.conforms true rest
  | _, .Wayland_Keyboard_Leave :: rest => KeyboardOp.conforms false rest
  | bEntered, _ :: rest => KeyboardOp.conforms bEntered rest

/-- Whether an event of the keyboard leaves the Meta modifier, of mask
`uMetaMask`, not held. -/
def KeyboardOp.withoutMeta (uMetaMask : Nat) : KeyboardOp → Bool
  | .Wayland_Keyboard_Modifiers uModsDepressed uModsLatched uModsLocked =>
    Nat.land (Nat.lor (Nat.lor uModsDepressed uModsLatched) uModsLocked) uMetaMask == 0
  | _ => true

/-- What holds of the key `uKey` between two events of the keyboard, when no
`HandleKey` call for it is taken by a hotkey: the held keys are without
repetition and there is none while the keyboard is not entered, the forwarded
presses and releases of `uKey` alternate from a press, `uKey` is held exactly
when a press is the last of them, and `uKey` is none of the hotkeys or the Meta
modifier, of mask `uMetaMask`, is not held. -/
def CWaylandInputThread.KeyInv (uKey uMetaMask : Nat) (self : CWaylandInputThread)
    (events : List InputEvent) : Prop :=
  self.m_uScancodesHeld.Nodup ∧
  (self.m_bKeyboardEntered = false → self.m_uScancodesHeld = []) ∧
  alternates true (forwardedKey uKey events) = true ∧
  (uKey ∈ self.m_uScancodesHeld ↔ (forwardedKey uKey events).length % 2 = 1) ∧
  (uKey ∉ hotkeys ∨
    (self.m_uModMask GAMESCOPE_WAYLAND_MOD_META = uMetaMask ∧
      Nat.land self.m_uKeyModifiers uMetaMask = 0))

/-! ## Relative mouse mode -/

/-- The requests on the pointer objects of the host compositor, in order, and
the call of `CWaylandBackend::UpdateCursor()`. -/
inductive PointerEvent
  | zwp_locked_pointer_v1_destroy (pLockedPointer : Nat)
  | zwp_relative_pointer_v1_destroy (pRelativePointer : Nat)
  | zwp_pointer_constraints_v1_lock_pointer (pSurface : Option Nat)
  | zwp_relative_pointer_manager_v1_get_relative_pointer
  | UpdateCursor
  deriving DecidableEq

/-- The objects that the two requests which create an object return, null
when the request fails. -/
structure PointerExternals where
  zwp_pointer_constraints_v1_lock_pointer : Option Nat
  zwp_relative_pointer_manager_v1_get_relative_pointer : Option Nat

/-- The member variables of `CWaylandBackend` that
`CWaylandBackend::SetRelativeMouseMode` reads or assigns, with the input
thread `m_InputThread`. -/
structure CWaylandBackendPointer where
  m_pPointer : Option Nat := none
  m_pLockedPointer : Option Nat := none
  m_pLockedSurface : Option Nat := none
  m_pRelativePointer : Option Nat := none
  m_InputThread : CWaylandInputThread

/-- Outcome of `SetRelativeMouseMode`: whether it returned (false when the
assertion failed), the members afterwards, and the requests made, in order. -/
structure PointerCall where
  bReturned : Bool
  self : CWaylandBackendPointer
  events : List PointerEvent

/-- Method `CWaylandInputThread::SetRelativePointer( bRelative )`: the input
thread afterwards and the requests made.  Setting the shared pointer
`m_pRelativePointer` to null destroys the relative pointer that it owns; when
a relative pointer is created the shared pointer owns none. -/
def CWaylandInputThread.SetRelativePointer (X : PointerExternals) (bRelative : Bool)
    (self : CWaylandInputThread) : CWaylandInputThread × List PointerEvent :=
  if bRelative = self.m_pRelativePointer.isSome then (self, [])
  else if !bRelative then
    ({ self with m_pRelativePointer := none },
      match self.m_pRelativePointer with
      | some pRelativePointer => [PointerEvent.zwp_relative_pointer_v1_destroy pRelativePointer]
      | none => [])
  else
    ({ self with
        m_pRelativePointer := X.zwp_relative_pointer_manager_v1_get_relative_pointer },
      [PointerEvent.zwp_relative_pointer_manager_v1_get_relative_pointer])

/-- Method `CWaylandBackend::SetRelativeMouseMode( pSurface, bRelative )`.  No
statement of it assigns `m_pLockedSurface`. -/
def CWaylandBackendPointer.SetRelativeMouseMode (X : PointerExternals)
    (pSurface : Option Nat) (bRelative : Bool) (self : CWaylandBackendPointer) : PointerCall :=
  if self.m_pPointer = none then ⟨true, self, []⟩
  else if bRelative != self.m_pLockedPointer.isSome ||
      (decide (pSurface ≠ self.m_pLockedSurface) && bRelative) then
    if self.m_pLockedPointer ≠ none ∧ self.m_pRelativePointer = none then ⟨false, self, []⟩
    else
      let unlocked : CWaylandBackendPointer :=
        if self.m_pLockedPointer ≠ none then
          { self with m_pLockedPointer := none, m_pRelativePointer := none }
        else self
      let unlocking : List PointerEvent :=
        match self.m_pLockedPointer, self.m_pRelativePointer with
        | some pLockedPointer, some pRelativePointer =>
          [PointerEvent.zwp_locked_pointer_v1_destroy pLockedPointer,
            PointerEvent.zwp_relative_pointer_v1_destroy pRelativePointer]
        | _, _ => []
      let locked : CWaylandBackendPointer :=
        if bRelative then
          { unlocked with
            m_pLockedPointer := X.zwp_pointer_constraints_v1_lock_pointer
            m_pRelativePointer := X.zwp_relative_pointer_manager_v1_get_relative_pointer }
        else unlocked
      let locking : List PointerEvent :=
        if bRelative then
          [PointerEvent.zwp_pointer_constraints_v1_lock_pointer pSurface,
            PointerEvent.zwp_relative_pointer_manager_v1_get_relative_pointer]
        else []
      ⟨true,
        { locked with
          m_InputThread := (locked.m_InputThread.SetRelativePointer X bRelative).1 },
        unlocking ++ locking ++ (locked.m_InputThread.SetRelativePointer X bRelative).2 ++
          [PointerEvent.UpdateCursor]⟩
  else ⟨true, self, []⟩

/-- Externals for concrete calls: the lock request returns the object 81 and
the relative pointer request the object 82. -/
def plainPointerExternals : PointerExternals where
  zwp_pointer_constraints_v1_lock_pointer := some 81
  zwp_relative_pointer_manager_v1_get_relative_pointer := some 82

/-- A backend for concrete calls that has the pointer 80, is not locked, and
whose input thread has no relative pointer. -/
def plainBackendPointer : CWaylandBackendPointer where
  m_pPointer := some 80
  m_InputThread := plainInputThread 0

end gamescope

/-! # Theorems -/

namespace gamescope

open CDeferredBackend

variable {σ : Type}

/-! ## Basic facts about runs -/

theorem Process.run_nil (X : Externals) (B : IBackend σ) (p : Process σ) :
    Process.run X B p [] = p := rfl

theorem Process.run_cons (X : Externals) (B : IBackend σ) (p : Process σ) (op : Op)
    (ops : List Op) :
    Process.run X B p (op :: ops) = Process.run X B (Process.step X B p op) ops := rfl

theorem Process.run_append (X : Externals) (B : IBackend σ) (p : Process σ) (ops ops2 : List Op) :
    Process.run X B p (ops ++ ops2) = Process.run X B (Process.run X B p ops) ops2 := by
  simp [Process.run, List.foldl_append]

theorem Process.step_of_aborted (X : Externals) (B : IBackend σ) (p : Process σ) (op : Op)
    (h : p.aborted = true) : Process.step X B p op = p := by
  simp [Process.step, h]

theorem Process.run_of_aborted (X : Externals) (B : IBackend σ) (p : Process σ) (ops : List Op)
    (h : p.aborted = true) : Process.run X B p ops = p := by
  induction ops with
  | nil => rfl
  | cons op ops ih => rw [Process.run_cons, Process.step_of_aborted X B p op h, ih]

/-- On a ready backend `TryInittingChild()` does nothing. -/
theorem TryInittingChild_of_ready (B : IBackend σ) (self : CDeferredBackend σ)
    (h : self.m_bInittedChild = true) : TryInittingChild B self = ⟨some (), self, []⟩ := by
  simp [TryInittingChild, h]

/-- Every method other than `Init()`, `PostInit()` and `PollState()` returns,
makes none of the logged calls on the child, leaves `m_bDonePostInit`,
`m_bInittedChild` and `m_bJustInittedPoll` as they were, and leaves
`m_bJustInittedClient` as it was unless it is `NewlyInitted()`, which lowers
it. -/
theorem perform_plain (X : Externals) (B : IBackend σ) (op : Op) (g : Globals)
    (self : CDeferredBackend σ) :
    (∃ v w, op = Op.Init v w) ∨ op = Op.PostInit ∨ op = Op.PollState ∨
    ((perform X B op g self).2.calls = [] ∧
      (perform X B op g self).2.ret.isSome = true ∧
      (perform X B op g self).2.self.m_bDonePostInit = self.m_bDonePostInit ∧
      (perform X B op g self).2.self.m_bInittedChild = self.m_bInittedChild ∧
      (perform X B op g self).2.self.m_bJustInittedPoll = self.m_bJustInittedPoll ∧
      (op ≠ Op.NewlyInitted →
        (perform X B op g self).2.self.m_bJustInittedClient = self.m_bJustInittedClient) ∧
      (self.m_bJustInittedClient = false →
        (perform X B op g self).2.self.m_bJustInittedClient = false)) := by
  cases op <;>
    simp [perform, Call.const, Call.wrap, DirtyState,
      GetCurrentConnector, GetConnector, HackTemporarySetDynamicRefresh, HackUpdatePatchedEdid,
      GetTouchClickMode, DumpDebugInfo, UsesVirtualConnectors, CreateVirtualConnector,
      NotifyPhysicalInput, SupportsVROverlayForwarding, ForwardFramebuffer, NewlyInitted,
      ShouldFitWindows] <;>
    (repeat' split) <;> simp_all

/-- The outcome of `Init()` apart from the globals: either it returns false
before reaching the child, or it is the outcome of `TryInittingChild()` with
the return value true. -/
theorem Init_call (B : IBackend σ) (v w : Bool) (g : Globals) (self : CDeferredBackend σ) :
    (Init B v w g self).2 = ⟨some false, self, []⟩ ∨
    (Init B v w g self).2 = ⟨(TryInittingChild B self).ret.map (fun _ => true),
      (TryInittingChild B self).self, (TryInittingChild B self).calls⟩ := by
  unfold Init
  dsimp only
  split
  · exact Or.inl rfl
  · split
    · exact Or.inl rfl
    · split
      · exact Or.inl rfl
      · exact Or.inr rfl

/-- What a call on a ready backend keeps: the backend stays ready, the call
returns, the child's `Init` is not called, `m_bDonePostInit` is only ever
raised, and the two latches are lowered only by their own consumer. -/
theorem perform_of_ready (X : Externals) (B : IBackend σ) (op : Op) (g : Globals)
    (self : CDeferredBackend σ) (h : self.m_bInittedChild = true) :
    (perform X B op g self).2.self.m_bInittedChild = true ∧
    (perform X B op g self).2.ret.isSome = true ∧
    (∀ b, ChildCall.Init b ∉ (perform X B op g self).2.calls) ∧
    (op ≠ Op.NewlyInitted →
      (perform X B op g self).2.self.m_bJustInittedClient = self.m_bJustInittedClient) ∧
    (op ≠ Op.PollState →
      (perform X B op g self).2.self.m_bJustInittedPoll = self.m_bJustInittedPoll) ∧
    (self.m_bJustInittedClient = false →
      (perform X B op g self).2.self.m_bJustInittedClient = false) ∧
    (self.m_bJustInittedPoll = false →
      (perform X B op g self).2.self.m_bJustInittedPoll = false) := by
  rcases perform_plain X B op g self with ⟨v, w, rfl⟩ | rfl | rfl | ⟨k1, k2, k3, k4, k5, k6, k7⟩
  · simp only [perform, Call.wrap]
    rcases Init_call B v w g self with hi | hi <;> rw [hi] <;>
      simp [TryInittingChild_of_ready B self h, h]
  · simp [perform, Call.wrap, PostInit, h]
  · simp only [perform, Call.wrap, PollState, TryInittingChild_of_ready B self h]
    (repeat' split) <;> simp_all
  · rw [k1, k4, k5]
    exact ⟨h, k2, by simp, k6, fun _ => rfl, k7, fun h => h⟩

/-- What a call on a backend that is not ready does: the backend is ready
afterwards exactly when the child's `Init` was called and returned true, an
assertion can fail only in that case, and while the backend stays not ready
a latch that is down stays down. -/
theorem perform_of_not_ready (X : Externals) (B : IBackend σ) (op : Op) (g : Globals)
    (self : CDeferredBackend σ) (h : self.m_bInittedChild = false) :
    ((perform X B op g self).2.self.m_bInittedChild = true ↔
      ChildCall.Init true ∈ (perform X B op g self).2.calls) ∧
    ((perform X B op g self).2.ret = none →
      (perform X B op g self).2.self.m_bInittedChild = true) ∧
    (self.m_bJustInittedClient = false →
      (perform X B op g self).2.self.m_bInittedChild = false →
      (perform X B op g self).2.self.m_bJustInittedClient = false) ∧
    (self.m_bJustInittedPoll = false →
      (perform X B op g self).2.self.m_bInittedChild = false →
      (perform X B op g self).2.self.m_bJustInittedPoll = false) := by
  rcases perform_plain X B op g self with ⟨v, w, rfl⟩ | rfl | rfl | ⟨k1, k2, k3, k4, k5, k6, k7⟩
  · simp only [perform, Call.wrap]
    rcases Init_call B v w g self with hi | hi <;> rw [hi] <;>
      simp only [TryInittingChild, h] <;> (repeat' split) <;> simp_all
  · simp [perform, Call.wrap, PostInit, h]
  · simp only [perform, Call.wrap, PollState, TryInittingChild, h]
    (repeat' split) <;> simp_all
  · rw [k1, k4, k5]
    refine ⟨by simp [h], ?_, fun hc _ => k7 hc, fun hl _ => hl⟩
    intro hn
    rw [hn] at k2
    simp at k2

theorem Process.Inv_start (g : Globals) (pChild : σ) : (Process.start g pChild).Inv := by
  simp [Process.Inv, Process.start, CDeferredBackend.new]

theorem Process.Inv_step (X : Externals) (B : IBackend σ) (p : Process σ) (op : Op)
    (hp : p.Inv) : (Process.step X B p op).Inv := by
  by_cases ha : p.aborted = true
  · rw [Process.step_of_aborted X B p op ha]; exact hp
  · obtain ⟨h1, h2⟩ := hp
    cases hr : p.backend.m_bInittedChild with
    | true =>
      have hk := perform_of_ready X B op p.globals p.backend hr
      have hm : ChildCall.Init true ∈ p.calls := h1.mp hr
      simp [Process.Inv, Process.step, ha, hk.1, hm]
    | false =>
      have hk := perform_of_not_ready X B op p.globals p.backend hr
      have hn : ChildCall.Init true ∉ p.calls := fun hm => by
        have := h1.mpr hm; simp [hr] at this
      obtain ⟨-, hc, hl⟩ := h2 hr
      refine ⟨?_, ?_⟩
      · simp [Process.step, ha, hn, hk.1]
      · intro hnr
        simp only [Process.step, ha, Bool.false_eq_true, if_false] at hnr ⊢
        refine ⟨?_, hk.2.2.1 hc hnr, hk.2.2.2 hl hnr⟩
        cases hret : (perform X B op p.globals p.backend).2.ret with
        | none => have := hk.2.1 hret; simp [hnr] at this
        | some r => rfl

theorem Process.Inv_run (X : Externals) (B : IBackend σ) (p : Process σ) (ops : List Op)
    (hp : p.Inv) : (Process.run X B p ops).Inv := by
  induction ops generalizing p with
  | nil => exact hp
  | cons op ops ih => exact ih _ (Process.Inv_step X B p op hp)

/-- The three guarded queries leave a process whose backend is not ready as it is. -/
theorem Process.step_guarded_query (X : Externals) (B : IBackend σ) (p : Process σ) (q : Op)
    (hq : q = Op.IsPaused ∨ q = Op.GetCurrentConnector ∨ q = Op.SupportsTearing)
    (hr : p.backend.m_bInittedChild = false) (ha : p.aborted = false) :
    Process.step X B p q = p := by
  obtain ⟨g, b, c, a⟩ := p
  simp only at hr ha
  subst ha
  rcases hq with rfl | rfl | rfl <;>
    simp [Process.step, perform, Call.const, Call.wrap, GetCurrentConnector, hr]

/-- A call on a backend that is not ready calls the child's `Init` at most once. -/
theorem perform_count_Init (X : Externals) (B : IBackend σ) (op : Op) (g : Globals)
    (self : CDeferredBackend σ) (h : self.m_bInittedChild = false) :
    (perform X B op g self).2.calls.count (ChildCall.Init true) ≤ 1 := by
  rcases perform_plain X B op g self with ⟨v, w, rfl⟩ | rfl | rfl | ⟨k1, -⟩
  · simp only [perform, Call.wrap]
    rcases Init_call B v w g self with hi | hi <;> rw [hi] <;>
      simp only [TryInittingChild, h] <;> (repeat' split) <;> simp_all [List.count_cons]
  · simp [perform, Call.wrap, PostInit, h]
  · simp only [perform, Call.wrap, PollState, TryInittingChild, h]
    (repeat' split) <;> simp_all [List.count_cons]
  · simp [k1]

theorem Process.count_Init_step (X : Externals) (B : IBackend σ) (p : Process σ) (op : Op)
    (hp : p.Inv) (hc : p.calls.count (ChildCall.Init true) ≤ 1) :
    (Process.step X B p op).calls.count (ChildCall.Init true) ≤ 1 := by
  by_cases ha : p.aborted = true
  · rw [Process.step_of_aborted X B p op ha]; exact hc
  · cases hr : p.backend.m_bInittedChild with
    | true =>
      have hk := (perform_of_ready X B op p.globals p.backend hr).2.2.1 true
      simp [Process.step, ha, List.count_append, List.count_eq_zero.mpr hk, hc]
    | false =>
      have hn : ChildCall.Init true ∉ p.calls := fun hm => by
        have := hp.1.mpr hm; simp [hr] at this
      simp [Process.step, ha, List.count_append, List.count_eq_zero.mpr hn,
        perform_count_Init X B op p.globals p.backend hr]

theorem Process.count_Init_run (X : Externals) (B : IBackend σ) (p : Process σ) (ops : List Op)
    (hp : p.Inv) (hc : p.calls.count (ChildCall.Init true) ≤ 1) :
    (Process.run X B p ops).calls.count (ChildCall.Init true) ≤ 1 := by
  induction ops generalizing p with
  | nil => exact hc
  | cons op ops ih =>
    exact ih _ (Process.Inv_step X B p op hp) (Process.count_Init_step X B p op hp hc)

/-- The call that makes the backend ready, when it returns, leaves the
`NewlyInitted` latch up, and leaves the `PollState` latch up unless the call
is `PollState()` itself. -/
theorem perform_transition (X : Externals) (B : IBackend σ) (op : Op) (g : Globals)
    (self : CDeferredBackend σ) (h : self.m_bInittedChild = false)
    (hr : (perform X B op g self).2.self.m_bInittedChild = true)
    (hret : (perform X B op g self).2.ret.isSome = true) :
    (perform X B op g self).2.self.m_bJustInittedClient = true ∧
    (op ≠ Op.PollState → (perform X B op g self).2.self.m_bJustInittedPoll = true) := by
  revert hr hret
  rcases perform_plain X B op g self with ⟨v, w, rfl⟩ | rfl | rfl | ⟨k1, k2, k3, k4, k5, k6, k7⟩
  · simp only [perform, Call.wrap]
    rcases Init_call B v w g self with hi | hi <;> rw [hi] <;>
      simp only [TryInittingChild, h] <;> (repeat' split) <;> simp_all
  · simp [perform, Call.wrap, PostInit, h]
  · simp only [perform, Call.wrap, PollState, TryInittingChild, h]
    (repeat' split) <;> simp_all
  · intro hr
    rw [k4, h] at hr
    simp at hr

/-- One call in a process whose backend is ready. -/
theorem Process.step_of_ready (X : Externals) (B : IBackend σ) (p : Process σ) (op : Op)
    (h : p.backend.m_bInittedChild = true) :
    (Process.step X B p op).backend.m_bInittedChild = true ∧
    (Process.step X B p op).aborted = p.aborted ∧
    (Process.step X B p op).calls.filter ChildCall.isInit = p.calls.filter ChildCall.isInit ∧
    (op ≠ Op.NewlyInitted →
      (Process.step X B p op).backend.m_bJustInittedClient = p.backend.m_bJustInittedClient) ∧
    (op ≠ Op.PollState →
      (Process.step X B p op).backend.m_bJustInittedPoll = p.backend.m_bJustInittedPoll) ∧
    (p.backend.m_bJustInittedClient = false →
      (Process.step X B p op).backend.m_bJustInittedClient = false) ∧
    (p.backend.m_bJustInittedPoll = false →
      (Process.step X B p op).backend.m_bJustInittedPoll = false) := by
  by_cases ha : p.aborted = true
  · rw [Process.step_of_aborted X B p op ha]; simp [h]
  · obtain ⟨k1, k2, k3, k4, k5, k6, k7⟩ := perform_of_ready X B op p.globals p.backend h
    have hf : (perform X B op p.globals p.backend).2.calls.filter ChildCall.isInit = [] := by
      rw [List.filter_eq_nil_iff]
      intro c hc
      cases c with
      | Init b => exact absurd hc (k3 b)
      | PostInit b => simp [ChildCall.isInit]
      | PollState b => simp [ChildCall.isInit]
    simp only [Bool.not_eq_true] at ha
    refine ⟨?_, ?_, ?_, ?_, ?_, ?_, ?_⟩ <;>
      simp only [Process.step, ha, Bool.false_eq_true, if_false]
    · exact k1
    · cases hret : (perform X B op p.globals p.backend).2.ret with
      | none => simp [hret] at k2
      | some r => rfl
    · simp [List.filter_append, hf]
    · exact k4
    · exact k5
    · exact k6
    · exact k7

/-- Any run of a process whose backend is ready: it stays ready, it aborts
no more than it had, the child's `Init` is not called again, and each latch
is lowered only by its own consumer and never raised again. -/
theorem Process.run_of_ready (X : Externals) (B : IBackend σ) (p : Process σ) (ops : List Op)
    (h : p.backend.m_bInittedChild = true) :
    (Process.run X B p ops).backend.m_bInittedChild = true ∧
    (Process.run X B p ops).aborted = p.aborted ∧
    (Process.run X B p ops).calls.filter ChildCall.isInit = p.calls.filter ChildCall.isInit ∧
    ((∀ o ∈ ops, o ≠ Op.NewlyInitted) →
      (Process.run X B p ops).backend.m_bJustInittedClient = p.backend.m_bJustInittedClient) ∧
    ((∀ o ∈ ops, o ≠ Op.PollState) →
      (Process.run X B p ops).backend.m_bJustInittedPoll = p.backend.m_bJustInittedPoll) ∧
    (p.backend.m_bJustInittedClient = false →
      (Process.run X B p ops).backend.m_bJustInittedClient = false) ∧
    (p.backend.m_bJustInittedPoll = false →
      (Process.run X B p ops).backend.m_bJustInittedPoll = false) := by
  induction ops generalizing p with
  | nil => simp [Process.run_nil, h]
  | cons op ops ih =>
    obtain ⟨k1, k2, k3, k4, k5, k6, k7⟩ := Process.step_of_ready X B p op h
    obtain ⟨j1, j2, j3, j4, j5, j6, j7⟩ := ih (Process.step X B p op) k1
    rw [Process.run_cons]
    refine ⟨j1, j2.trans k2, j3.trans k3, ?_, ?_, fun hc => j6 (k6 hc), fun hc => j7 (k7 hc)⟩
    · intro ho
      rw [j4 (fun o ho' => ho o (by simp [ho'])), k4 (ho op (by simp))]
    · intro ho
      rw [j5 (fun o ho' => ho o (by simp [ho'])), k5 (ho op (by simp))]

/-! ## C1 -/

/-- C1: in every run of a deferred backend in which no call of the child's
`Init()` has returned true, the process has not aborted, `IsPaused()` returns
true, `GetCurrentConnector()` returns null and leaves the backend unchanged,
`SupportsTearing()` returns false, and any number of these three queries
leaves the whole process state as it was. -/
theorem C1_safe_defaults_until_child_ready (X : Externals) (B : IBackend σ) (g : Globals)
    (pChild : σ) (ops : List Op)
    (h : ChildCall.Init true ∉ (Process.run X B (Process.start g pChild) ops).calls) :
    (Process.run X B (Process.start g pChild) ops).aborted = false ∧
    IsPaused B (Process.run X B (Process.start g pChild) ops).backend = true ∧
    GetCurrentConnector B (Process.run X B (Process.start g pChild) ops).backend =
      ⟨some none, (Process.run X B (Process.start g pChild) ops).backend, []⟩ ∧
    SupportsTearing B (Process.run X B (Process.start g pChild) ops).backend = false ∧
    ∀ qs : List Op,
      (∀ q ∈ qs, q = Op.IsPaused ∨ q = Op.GetCurrentConnector ∨ q = Op.SupportsTearing) →
      Process.run X B (Process.run X B (Process.start g pChild) ops) qs =
        Process.run X B (Process.start g pChild) ops := by
  have hinv := Process.Inv_run X B _ ops (Process.Inv_start g pChild)
  generalize Process.run X B (Process.start g pChild) ops = p at h hinv
  have hr : p.backend.m_bInittedChild = false := by
    cases hb : p.backend.m_bInittedChild with
    | false => rfl
    | true => exact absurd (hinv.1.mp hb) h
  obtain ⟨ha, -, -⟩ := hinv.2 hr
  refine ⟨ha, by simp [IsPaused, hr], by simp [GetCurrentConnector, hr],
    by simp [SupportsTearing, hr], ?_⟩
  intro qs hqs
  induction qs with
  | nil => rfl
  | cons q qs ih =>
    rw [Process.run_cons, Process.step_guarded_query X B p q (hqs q (by simp)) hr ha]
    exact ih (fun q' hq' => hqs q' (by simp [hq']))

/-- C1 on a concrete run: a child whose first two `Init()` calls fail, driven
through `Init`, `PollState`, `PostInit` and queries. -/
theorem C1_safe_defaults_until_child_ready_witness :
    ChildCall.Init true ∉
      (Process.run plainExternals ScriptedChild.vtable
        (Process.start defaultGlobals ⟨[false, false], true, []⟩)
        [Op.Init true true, Op.IsPaused, Op.PostInit, Op.PollState, Op.GetCurrentConnector]).calls ∧
    IsPaused ScriptedChild.vtable
      (Process.run plainExternals ScriptedChild.vtable
        (Process.start defaultGlobals ⟨[false, false], true, []⟩)
        [Op.Init true true, Op.IsPaused, Op.PostInit, Op.PollState, Op.GetCurrentConnector]).backend
      = true :=
  ⟨by decide,
    (C1_safe_defaults_until_child_ready plainExternals ScriptedChild.vtable defaultGlobals
      ⟨[false, false], true, []⟩
      [Op.Init true true, Op.IsPaused, Op.PostInit, Op.PollState, Op.GetCurrentConnector]
      (by decide)).2.1⟩

/-! ## C2 -/

/-- C2: `NewlyInitted()` returns false as long as no call of the child's
`Init()` has returned true.  When a call `op` makes the child ready and
returns, then after any calls `mid` other than `NewlyInitted()` (any number of
`PollState()` among them) `NewlyInitted()` returns true, and after that call
and any further calls `post` whatsoever `NewlyInitted()` returns false. -/
theorem C2_NewlyInitted_true_exactly_once (X : Externals) (B : IBackend σ) (g : Globals)
    (pChild : σ) (pre mid post : List Op) (op : Op)
    (hpre : ChildCall.Init true ∉ (Process.run X B (Process.start g pChild) pre).calls) :
    (NewlyInitted (Process.run X B (Process.start g pChild) pre).backend).ret = some false ∧
    (ChildCall.Init true ∈
        (Process.step X B (Process.run X B (Process.start g pChild) pre) op).calls →
      (Process.step X B (Process.run X B (Process.start g pChild) pre) op).aborted = false →
      (∀ o ∈ mid, o ≠ Op.NewlyInitted) →
      (NewlyInitted (Process.run X B
        (Process.step X B (Process.run X B (Process.start g pChild) pre) op) mid).backend).ret
        = some true ∧
      (NewlyInitted (Process.run X B (Process.step X B (Process.run X B
        (Process.step X B (Process.run X B (Process.start g pChild) pre) op) mid)
          Op.NewlyInitted) post).backend).ret = some false) := by
  have hinv := Process.Inv_run X B _ pre (Process.Inv_start g pChild)
  generalize Process.run X B (Process.start g pChild) pre = p0 at hpre hinv
  have hr0 : p0.backend.m_bInittedChild = false := by
    cases hb : p0.backend.m_bInittedChild with
    | false => rfl
    | true => exact absurd (hinv.1.mp hb) hpre
  obtain ⟨ha0, hc0, -⟩ := hinv.2 hr0
  refine ⟨by simp [NewlyInitted, hc0], ?_⟩
  intro hin hab hmid
  have hinv1 := Process.Inv_step X B p0 op hinv
  have hr1 : (Process.step X B p0 op).backend.m_bInittedChild = true := hinv1.1.mpr hin
  have hc1 : (Process.step X B p0 op).backend.m_bJustInittedClient = true := by
    simp only [Process.step, ha0, Bool.false_eq_true, if_false] at hr1 hab ⊢
    refine (perform_transition X B op p0.globals p0.backend hr0 hr1 ?_).1
    cases hret : (perform X B op p0.globals p0.backend).2.ret with
    | none => simp [hret] at hab
    | some r => rfl
  generalize Process.step X B p0 op = p1 at hab hr1 hc1
  obtain ⟨hr2, ha2, -, hc2, -, -, -⟩ := Process.run_of_ready X B p1 mid hr1
  have hc2 := (hc2 hmid).trans hc1
  generalize Process.run X B p1 mid = p2 at hr2 ha2 hc2
  refine ⟨by simp [NewlyInitted, hc2], ?_⟩
  have hr3 : (Process.step X B p2 Op.NewlyInitted).backend.m_bInittedChild = true :=
    (Process.step_of_ready X B p2 Op.NewlyInitted hr2).1
  have hc3 : (Process.step X B p2 Op.NewlyInitted).backend.m_bJustInittedClient = false := by
    simp [Process.step, ha2, hab, perform, Call.wrap, NewlyInitted]
  have hc4 := (Process.run_of_ready X B _ post hr3).2.2.2.2.2.1 hc3
  simp [NewlyInitted, hc4]

/-- C2 on a concrete run: the child's `Init()` fails in `Init()` and succeeds
in the first `PollState()`; two more `PollState()` calls later `NewlyInitted()`
returns true, and after a further `PollState()` it returns false. -/
theorem C2_NewlyInitted_true_exactly_once_witness :
    ChildCall.Init true ∉
      (Process.run plainExternals ScriptedChild.vtable
        (Process.start defaultGlobals ⟨[false, true], true, []⟩) [Op.Init true true]).calls ∧
    (NewlyInitted (Process.run plainExternals ScriptedChild.vtable
      (Process.step plainExternals ScriptedChild.vtable
        (Process.run plainExternals ScriptedChild.vtable
          (Process.start defaultGlobals ⟨[false, true], true, []⟩) [Op.Init true true])
        Op.PollState) [Op.PollState, Op.PollState]).backend).ret = some true ∧
    (NewlyInitted (Process.run plainExternals ScriptedChild.vtable
      (Process.step plainExternals ScriptedChild.vtable
        (Process.run plainExternals ScriptedChild.vtable
          (Process.step plainExternals ScriptedChild.vtable
            (Process.run plainExternals ScriptedChild.vtable
              (Process.start defaultGlobals ⟨[false, true], true, []⟩) [Op.Init true true])
            Op.PollState) [Op.PollState, Op.PollState])
        Op.NewlyInitted) [Op.PollState]).backend).ret = some false :=
  ⟨by decide,
    (C2_NewlyInitted_true_exactly_once plainExternals ScriptedChild.vtable defaultGlobals
      ⟨[false, true], true, []⟩ [Op.Init true true] [Op.PollState, Op.PollState] [Op.PollState]
      Op.PollState (by decide)).2 (by decide) (by decide) (by decide)⟩

/-! ## C3 -/

/-- C3: readiness only moves from not ready to ready.  On a backend that is
not ready, `PollState()` calls the child's `Init()` exactly once and the
backend is ready afterwards exactly when that call returned true.  Once the
backend is ready, every run leaves it ready and adds no call of the child's
`Init()`.  Over any run from construction the backend is ready exactly when a
call of the child's `Init()` has returned true, and that has happened at most
once. -/
theorem C3_readiness_only_moves_forward (X : Externals) (B : IBackend σ) :
    (∀ self : CDeferredBackend σ, self.m_bInittedChild = false →
      (PollState B self).calls.filter ChildCall.isInit =
        [ChildCall.Init (B.Init self.m_pChild).1] ∧
      (PollState B self).self.m_bInittedChild = (B.Init self.m_pChild).1) ∧
    (∀ (p : Process σ) (ops : List Op), p.backend.m_bInittedChild = true →
      (Process.run X B p ops).backend.m_bInittedChild = true ∧
      (Process.run X B p ops).calls.filter ChildCall.isInit =
        p.calls.filter ChildCall.isInit) ∧
    (∀ (g : Globals) (pChild : σ) (ops : List Op),
      ((Process.run X B (Process.start g pChild) ops).backend.m_bInittedChild = true ↔
        ChildCall.Init true ∈ (Process.run X B (Process.start g pChild) ops).calls) ∧
      (Process.run X B (Process.start g pChild) ops).calls.count (ChildCall.Init true) ≤ 1) := by
  refine ⟨?_, ?_, ?_⟩
  · intro self h
    simp only [PollState, TryInittingChild, h]
    (repeat' split) <;> simp_all [ChildCall.isInit]
  · intro p ops h
    exact ⟨(Process.run_of_ready X B p ops h).1, (Process.run_of_ready X B p ops h).2.2.1⟩
  · intro g pChild ops
    exact ⟨(Process.Inv_run X B _ ops (Process.Inv_start g pChild)).1,
      Process.count_Init_run X B _ ops (Process.Inv_start g pChild) (by simp [Process.start])⟩

/-- C3 on concrete backends: a `PollState()` whose retry succeeds makes the
backend ready, and a ready backend stays ready through further calls. -/
theorem C3_readiness_only_moves_forward_witness :
    (PollState ScriptedChild.vtable (CDeferredBackend.new ⟨[true], true, []⟩)).self.m_bInittedChild
      = (ScriptedChild.vtable.Init ⟨[true], true, []⟩).1 ∧
    (Process.run plainExternals ScriptedChild.vtable
      ⟨defaultGlobals, ⟨⟨[], true, []⟩, false, true, true, true⟩, [ChildCall.Init true], false⟩
      [Op.PollState, Op.Init true true]).backend.m_bInittedChild = true :=
  ⟨((C3_readiness_only_moves_forward plainExternals ScriptedChild.vtable).1
      (CDeferredBackend.new ⟨[true], true, []⟩) rfl).2,
    ((C3_readiness_only_moves_forward plainExternals ScriptedChild.vtable).2.1
      ⟨defaultGlobals, ⟨⟨[], true, []⟩, false, true, true, true⟩, [ChildCall.Init true], false⟩
      [Op.PollState, Op.Init true true] rfl).1⟩

/-! ## C4 -/

/-- C4: when the preferred output size passes the size check and `vulkan_init`
and `wlsession_init` succeed, `Init()` returns true whatever the child's
`Init()` returns, provided the assertion on the child's `PostInit()` is not
violated (it cannot be when `PostInit()` has not been called yet, when the
child is already ready, or when the child's `Init()` fails); and when the
child's `Init()` was called and returned false the backend is left not ready. -/
theorem C4_Init_succeeds_without_ready_child (B : IBackend σ) (g : Globals)
    (self : CDeferredBackend σ)
    (hsize : ¬ (toU32 g.g_nPreferredOutputHeight = 0 ∧ toU32 g.g_nPreferredOutputWidth ≠ 0))
    (hassert : self.m_bDonePostInit = true → self.m_bInittedChild = false →
      (B.Init self.m_pChild).1 = true → (B.PostInit (B.Init self.m_pChild).2).1 = true) :
    (Init B true true g self).2.ret = some true ∧
    (self.m_bInittedChild = false →
      (Init B true true g self).2.calls.filter ChildCall.isInit =
        [ChildCall.Init (B.Init self.m_pChild).1] ∧
      (Init B true true g self).2.self.m_bInittedChild = (B.Init self.m_pChild).1) ∧
    (ChildCall.Init false ∈ (Init B true true g self).2.calls →
      (Init B true true g self).2.self.m_bInittedChild = false) := by
  have hsize2 : ¬ (toU32 g.g_nPreferredOutputHeight = 0 ∧ ¬ toU32 g.g_nPreferredOutputWidth = 0) :=
    hsize
  refine ⟨?_, ?_, ?_⟩
  · simp only [Init, hsize2, if_false, Bool.not_true, Bool.false_eq_true, TryInittingChild]
    (repeat' split) <;> simp_all
  · intro h
    simp only [Init, hsize2, if_false, Bool.not_true, Bool.false_eq_true, TryInittingChild, h]
    (repeat' split) <;> simp_all [ChildCall.isInit]
  · simp only [Init, hsize2, if_false, Bool.not_true, Bool.false_eq_true, TryInittingChild]
    (repeat' split) <;> simp_all

/-- C4 at startup: on a freshly constructed backend whose child's `Init()`
fails, with no size given, `Init()` returns true and the backend is not ready. -/
theorem C4_Init_succeeds_without_ready_child_witness :
    (Init ScriptedChild.vtable true true defaultGlobals
      (CDeferredBackend.new ⟨[false], true, []⟩)).2.ret = some true ∧
    (Init ScriptedChild.vtable true true defaultGlobals
      (CDeferredBackend.new ⟨[false], true, []⟩)).2.self.m_bInittedChild = false :=
  ⟨(C4_Init_succeeds_without_ready_child ScriptedChild.vtable defaultGlobals
      (CDeferredBackend.new ⟨[false], true, []⟩) (by decide) (by decide)).1,
    (C4_Init_succeeds_without_ready_child ScriptedChild.vtable defaultGlobals
      (CDeferredBackend.new ⟨[false], true, []⟩) (by decide) (by decide)).2.2 (by decide)⟩

/-! ## C5 -/

theorem Process.latchBudget_le_one (p : Process σ) : p.latchBudget ≤ 1 := by
  unfold Process.latchBudget
  (repeat' split) <;> simp

/-- A `PollState()` call that returns true on account of the latch returns
true, leaves the backend ready and leaves the latch down. -/
theorem PollState_of_byLatch (B : IBackend σ) (self : CDeferredBackend σ)
    (h : PollStateByLatch B self = true) :
    (PollState B self).ret = some true ∧ (PollState B self).self.m_bInittedChild = true ∧
    (PollState B self).self.m_bJustInittedPoll = false := by
  unfold PollStateByLatch at h
  unfold PollState
  generalize TryInittingChild B self = t at h
  obtain ⟨r, st, cs⟩ := t
  cases r with
  | none => simp at h
  | some u => simp_all

/-- A `PollState()` call that returns true on account of the latch uses up the
budget; no call raises it. -/
theorem Process.latchBudget_step (X : Externals) (B : IBackend σ) (p : Process σ) (op : Op) :
    (if op = Op.PollState ∧ p.aborted = false ∧ PollStateByLatch B p.backend = true then 1 else 0)
      + (Process.step X B p op).latchBudget ≤ p.latchBudget := by
  by_cases hind : op = Op.PollState ∧ p.aborted = false ∧ PollStateByLatch B p.backend = true
  · obtain ⟨hop, ha, hl⟩ := hind
    subst hop
    obtain ⟨k1, k2, k3⟩ := PollState_of_byLatch B p.backend hl
    have hstep : (Process.step X B p Op.PollState).latchBudget = 0 := by
      simp [Process.latchBudget, Process.step, perform, Call.wrap, ha, k1, k2, k3]
    have hp : p.latchBudget = 1 := by
      cases hr : p.backend.m_bInittedChild with
      | true =>
        simp [PollStateByLatch, TryInittingChild_of_ready B p.backend hr, hr] at hl
        simp [Process.latchBudget, ha, hr, hl.2]
      | false => simp [Process.latchBudget, ha, hr]
    simp [ha, hl, hstep, hp]
  · rw [if_neg hind, Nat.zero_add]
    by_cases ha : p.aborted = true
    · rw [Process.step_of_aborted X B p op ha]
    · simp only [Bool.not_eq_true] at ha
      cases hr : p.backend.m_bInittedChild with
      | true =>
        obtain ⟨k1, k2, -, -, -, -, k7⟩ := Process.step_of_ready X B p op hr
        cases hl : p.backend.m_bJustInittedPoll with
        | false => simp [Process.latchBudget, k1, k2, k7 hl, hr, hl]
        | true =>
          have := Process.latchBudget_le_one (Process.step X B p op)
          simpa [Process.latchBudget, ha, hr, hl] using this
      | false =>
        have := Process.latchBudget_le_one (Process.step X B p op)
        simpa [Process.latchBudget, ha, hr] using this

theorem Process.latchPolls_le_budget (X : Externals) (B : IBackend σ) (p : Process σ)
    (ops : List Op) : Process.latchPolls X B p ops ≤ p.latchBudget := by
  induction ops generalizing p with
  | nil => simp [Process.latchPolls]
  | cons op ops ih =>
    have h1 := ih (Process.step X B p op)
    have h2 := Process.latchBudget_step X B p op
    simp only [Process.latchPolls]
    omega

/-- On a ready backend whose child reports no change, `PollState()` returns
the latch and lowers it. -/
theorem PollState_of_ready_quiet (B : IBackend σ) (self : CDeferredBackend σ)
    (h : self.m_bInittedChild = true) (hq : (B.PollState self.m_pChild).1 = false) :
    (PollState B self).ret = some self.m_bJustInittedPoll ∧
    (PollState B self).self.m_bInittedChild = true ∧
    (PollState B self).self.m_bJustInittedPoll = false := by
  simp [PollState, TryInittingChild_of_ready B self h, h, hq]

/-- A `PollState()` whose retry makes the backend ready, with a child that
reports no change, returns true and leaves the latch down. -/
theorem PollState_transition_quiet (B : IBackend σ) (self : CDeferredBackend σ)
    (hq : ∀ c, (B.PollState c).1 = false) (h : self.m_bInittedChild = false)
    (hr : (PollState B self).self.m_bInittedChild = true)
    (hret : (PollState B self).ret.isSome = true) :
    (PollState B self).ret = some true ∧ (PollState B self).self.m_bJustInittedPoll = false := by
  revert hr hret
  simp only [PollState, TryInittingChild, h]
  (repeat' split) <;> simp_all

/-- C5 fails as stated.  The child becomes ready in `Init()` and its own
`PollState()` returns true three times: the three `PollState()` calls of the
run are made with the child ready and all return true, yet none of them
returns true on account of the readiness latch, which is still up at the end. -/
theorem C5_counterexample_no_latch_poll :
    (Process.run plainExternals ScriptedChild.vtable
      (Process.start defaultGlobals ⟨[true], true, [true, true, true]⟩)
      [Op.Init true true]).backend.m_bInittedChild = true ∧
    (PollState ScriptedChild.vtable (Process.run plainExternals ScriptedChild.vtable
      (Process.start defaultGlobals ⟨[true], true, [true, true, true]⟩)
      [Op.Init true true]).backend).ret = some true ∧
    (PollState ScriptedChild.vtable (Process.run plainExternals ScriptedChild.vtable
      (Process.start defaultGlobals ⟨[true], true, [true, true, true]⟩)
      [Op.Init true true, Op.PollState]).backend).ret = some true ∧
    (PollState ScriptedChild.vtable (Process.run plainExternals ScriptedChild.vtable
      (Process.start defaultGlobals ⟨[true], true, [true, true, true]⟩)
      [Op.Init true true, Op.PollState, Op.PollState]).backend).ret = some true ∧
    Process.latchPolls plainExternals ScriptedChild.vtable
      (Process.start defaultGlobals ⟨[true], true, [true, true, true]⟩)
      [Op.Init true true, Op.PollState, Op.PollState, Op.PollState] = 0 ∧
    (Process.run plainExternals ScriptedChild.vtable
      (Process.start defaultGlobals ⟨[true], true, [true, true, true]⟩)
      [Op.Init true true, Op.PollState, Op.PollState, Op.PollState]).backend.m_bJustInittedPoll
      = true := by
  decide

/-- C5, amended: `PollState()` returns false whenever the child is still not
ready after the retry; in every run at most one `PollState()` call returns
true on account of the readiness latch; and when the child's own
`PollState()` always returns false, the first `PollState()` made with the
child ready returns true (be it the call `op` that makes the child ready, or
the first one after the calls `mid`) and every later one returns false,
whatever other calls, `NewlyInitted()` included, are made in between. -/
theorem C5_latch_poll_at_most_once (X : Externals) (B : IBackend σ) :
    (∀ self : CDeferredBackend σ, (PollState B self).self.m_bInittedChild = false →
      (PollState B self).ret = some false) ∧
    (∀ (g : Globals) (pChild : σ) (ops : List Op),
      Process.latchPolls X B (Process.start g pChild) ops ≤ 1) ∧
    ((∀ c, (B.PollState c).1 = false) →
      ∀ (g : Globals) (pChild : σ) (pre mid post : List Op) (op : Op),
      ChildCall.Init true ∉ (Process.run X B (Process.start g pChild) pre).calls →
      ChildCall.Init true ∈
        (Process.step X B (Process.run X B (Process.start g pChild) pre) op).calls →
      (Process.step X B (Process.run X B (Process.start g pChild) pre) op).aborted = false →
      (op = Op.PollState →
        (PollState B (Process.run X B (Process.start g pChild) pre).backend).ret = some true ∧
        (PollState B (Process.run X B
          (Process.step X B (Process.run X B (Process.start g pChild) pre) op) post).backend).ret
          = some false) ∧
      (op ≠ Op.PollState → (∀ o ∈ mid, o ≠ Op.PollState) →
        (PollState B (Process.run X B
          (Process.step X B (Process.run X B (Process.start g pChild) pre) op) mid).backend).ret
          = some true ∧
        (PollState B (Process.run X B (Process.step X B (Process.run X B
          (Process.step X B (Process.run X B (Process.start g pChild) pre) op) mid)
            Op.PollState) post).backend).ret = some false)) := by
  refine ⟨?_, ?_, ?_⟩
  · intro self
    cases h : self.m_bInittedChild <;>
      simp only [PollState, TryInittingChild, h] <;>
      (repeat' split) <;> simp_all
  · intro g pChild ops
    exact (Process.latchPolls_le_budget X B _ ops).trans (Process.latchBudget_le_one _)
  · intro hq g pChild pre mid post op hpre hin hab
    have hinv := Process.Inv_run X B _ pre (Process.Inv_start g pChild)
    generalize Process.run X B (Process.start g pChild) pre = p0 at hpre hinv hin hab
    have hr0 : p0.backend.m_bInittedChild = false := by
      cases hb : p0.backend.m_bInittedChild with
      | false => rfl
      | true => exact absurd (hinv.1.mp hb) hpre
    obtain ⟨ha0, -, -⟩ := hinv.2 hr0
    have hr1 : (Process.step X B p0 op).backend.m_bInittedChild = true :=
      (Process.Inv_step X B p0 op hinv).1.mpr hin
    have hsome : (perform X B op p0.globals p0.backend).2.ret.isSome = true := by
      simp only [Process.step, ha0, Bool.false_eq_true, if_false] at hab
      cases hret : (perform X B op p0.globals p0.backend).2.ret with
      | none => simp [hret] at hab
      | some r => rfl
    have quiet : ∀ q : Process σ, q.backend.m_bInittedChild = true →
        q.backend.m_bJustInittedPoll = false → (PollState B q.backend).ret = some false := by
      intro q h1 h2
      rw [(PollState_of_ready_quiet B q.backend h1 (hq _)).1, h2]
    refine ⟨?_, ?_⟩
    · intro hop
      subst hop
      have hr1' : (PollState B p0.backend).self.m_bInittedChild = true := by
        simpa [Process.step, ha0, perform, Call.wrap] using hr1
      have hsome' : (PollState B p0.backend).ret.isSome = true := by
        simpa [perform, Call.wrap] using hsome
      obtain ⟨k1, k2⟩ := PollState_transition_quiet B p0.backend hq hr0 hr1' hsome'
      refine ⟨k1, ?_⟩
      have hl1 : (Process.step X B p0 Op.PollState).backend.m_bJustInittedPoll = false := by
        simpa [Process.step, ha0, perform, Call.wrap] using k2
      exact quiet _ (Process.run_of_ready X B _ post hr1).1
        ((Process.run_of_ready X B _ post hr1).2.2.2.2.2.2 hl1)
    · intro hop hmid
      have hl1 : (Process.step X B p0 op).backend.m_bJustInittedPoll = true := by
        simp only [Process.step, ha0, Bool.false_eq_true, if_false] at hr1 ⊢
        exact (perform_transition X B op p0.globals p0.backend hr0 hr1 hsome).2 hop
      generalize Process.step X B p0 op = p1 at hab hr1 hl1
      obtain ⟨hr2, ha2, -, -, hl2, -, -⟩ := Process.run_of_ready X B p1 mid hr1
      have hl2 := (hl2 hmid).trans hl1
      generalize Process.run X B p1 mid = p2 at hr2 ha2 hl2
      obtain ⟨j1, j2, j3⟩ := PollState_of_ready_quiet B p2.backend hr2 (hq _)
      refine ⟨by rw [j1, hl2], ?_⟩
      have hr3 : (Process.step X B p2 Op.PollState).backend.m_bInittedChild = true :=
        (Process.step_of_ready X B p2 Op.PollState hr2).1
      have hl3 : (Process.step X B p2 Op.PollState).backend.m_bJustInittedPoll = false := by
        simpa [Process.step, ha2, hab, perform, Call.wrap] using j3
      exact quiet _ (Process.run_of_ready X B _ post hr3).1
        ((Process.run_of_ready X B _ post hr3).2.2.2.2.2.2 hl3)

/-- C5 on a concrete run with a `CWaylandBackend` child, whose `PollState()`
always returns false: the child becomes ready in `Init()`, the first
`PollState()` after a `NewlyInitted()` returns true and the next one false. -/
theorem C5_latch_poll_at_most_once_witness :
    (PollState (CWaylandBackend.vtable true (plainHost true))
      (Process.run plainExternals (CWaylandBackend.vtable true (plainHost true))
        (Process.step plainExternals (CWaylandBackend.vtable true (plainHost true))
          (Process.run plainExternals (CWaylandBackend.vtable true (plainHost true))
            (Process.start defaultGlobals ⟨none, false, []⟩) [])
          (Op.Init true true)) [Op.NewlyInitted]).backend).ret = some true ∧
    (PollState (CWaylandBackend.vtable true (plainHost true))
      (Process.run plainExternals (CWaylandBackend.vtable true (plainHost true))
        (Process.step plainExternals (CWaylandBackend.vtable true (plainHost true))
          (Process.run plainExternals (CWaylandBackend.vtable true (plainHost true))
            (Process.step plainExternals (CWaylandBackend.vtable true (plainHost true))
              (Process.run plainExternals (CWaylandBackend.vtable true (plainHost true))
                (Process.start defaultGlobals ⟨none, false, []⟩) [])
              (Op.Init true true)) [Op.NewlyInitted])
          Op.PollState) [Op.NewlyInitted]).backend).ret = some false :=
  ((C5_latch_poll_at_most_once plainExternals (CWaylandBackend.vtable true (plainHost true))).2.2
    (fun _ => rfl) defaultGlobals ⟨none, false, []⟩ [] [Op.NewlyInitted] [Op.NewlyInitted]
    (Op.Init true true) (by decide) (by decide) (by decide)).2 (by decide) (by decide)

/-! ## C6 -/

theorem PostInitGuarded_spec (bReady : Bool) (l : List ChildCall)
    (h : PostInitGuarded bReady l = true) (m1 : List ChildCall) (b : Bool) (m2 : List ChildCall)
    (hl : l = m1 ++ ChildCall.PostInit b :: m2) : bReady = true ∨ ChildCall.Init true ∈ m1 := by
  induction l generalizing bReady m1 with
  | nil => simp at hl
  | cons c l ih =>
    cases m1 with
    | nil =>
      simp only [List.nil_append, List.cons.injEq] at hl
      obtain ⟨rfl, rfl⟩ := hl
      simp only [PostInitGuarded, Bool.and_eq_true] at h
      exact Or.inl h.1
    | cons d m1 =>
      simp only [List.cons_append, List.cons.injEq] at hl
      obtain ⟨rfl, hl⟩ := hl
      cases c with
      | Init r =>
        cases r with
        | true => exact Or.inr (by simp)
        | false =>
          simp only [PostInitGuarded] at h
          rcases ih bReady h m1 hl with h1 | h1
          · exact Or.inl h1
          · exact Or.inr (by simp [h1])
      | PostInit r =>
        simp only [PostInitGuarded, Bool.and_eq_true] at h
        exact Or.inl h.1
      | PollState r =>
        simp only [PostInitGuarded] at h
        rcases ih bReady h m1 hl with h1 | h1
        · exact Or.inl h1
        · exact Or.inr (by simp [h1])

theorem PostInitAfterInit_append (calls new : List ChildCall) (bReady : Bool)
    (hc : PostInitAfterInit calls) (hr : bReady = true → ChildCall.Init true ∈ calls)
    (hn : PostInitGuarded bReady new = true) : PostInitAfterInit (calls ++ new) := by
  intro l1 b l2 h
  rcases List.append_eq_append_iff.mp h with ⟨a, h1, h2⟩ | ⟨c, h1, h2⟩
  · rcases PostInitGuarded_spec bReady new hn a b l2 h2 with h3 | h3
    · rw [h1]; exact List.mem_append_left _ (hr h3)
    · rw [h1]; exact List.mem_append_right _ h3
  · cases c with
    | nil =>
      simp only [List.nil_append] at h2
      simp only [List.append_nil] at h1
      rcases PostInitGuarded_spec bReady new hn [] b l2 (by simpa using h2.symm) with h3 | h3
      · rw [← h1]; exact hr h3
      · simp at h3
    | cons d c =>
      simp only [List.cons_append, List.cons.injEq] at h2
      obtain ⟨rfl, -⟩ := h2
      exact hc l1 b c h1

/-- The calls that one method makes on the child keep `PostInit()` behind a
successful `Init()`. -/
theorem perform_PostInitGuarded (X : Externals) (B : IBackend σ) (op : Op) (g : Globals)
    (self : CDeferredBackend σ) :
    PostInitGuarded self.m_bInittedChild (perform X B op g self).2.calls = true := by
  rcases perform_plain X B op g self with ⟨v, w, rfl⟩ | rfl | rfl | ⟨k1, -⟩
  · simp only [perform, Call.wrap]
    cases hr : self.m_bInittedChild <;>
      rcases Init_call B v w g self with hi | hi <;> rw [hi] <;>
      simp only [TryInittingChild, hr] <;> (repeat' split) <;> simp_all [PostInitGuarded]
  · cases hr : self.m_bInittedChild <;> simp [perform, Call.wrap, PostInit, hr, PostInitGuarded]
  · cases hr : self.m_bInittedChild <;>
      simp only [perform, Call.wrap, PollState, TryInittingChild, hr] <;>
      (repeat' split) <;> simp_all [PostInitGuarded]
  · simp [k1, PostInitGuarded]

theorem Process.PostInitAfterInit_run (X : Externals) (B : IBackend σ) (p : Process σ)
    (ops : List Op) (hp : p.Inv) (hc : PostInitAfterInit p.calls) :
    PostInitAfterInit (Process.run X B p ops).calls := by
  induction ops generalizing p with
  | nil => exact hc
  | cons op ops ih =>
    refine ih _ (Process.Inv_step X B p op hp) ?_
    by_cases ha : p.aborted = true
    · rw [Process.step_of_aborted X B p op ha]; exact hc
    · simp only [Process.step, ha, Bool.false_eq_true, if_false]
      exact PostInitAfterInit_append _ _ p.backend.m_bInittedChild hc hp.1.mp
        (perform_PostInitGuarded X B op p.globals p.backend)

/-- How `TryInittingChild()` moves the count of calls of the child's
`PostInit()`. -/
theorem TryInittingChild_PostInit_count (B : IBackend σ) (self : CDeferredBackend σ) :
    (((TryInittingChild B self).calls.filter ChildCall.isPostInit).length +
      (self.m_bDonePostInit && self.m_bInittedChild).toNat =
      ((TryInittingChild B self).self.m_bDonePostInit &&
        (TryInittingChild B self).self.m_bInittedChild).toNat) ∧
    (TryInittingChild B self).self.m_bDonePostInit = self.m_bDonePostInit ∧
    (self.m_bDonePostInit = false → (TryInittingChild B self).ret = some ()) := by
  cases hd : self.m_bDonePostInit <;> cases hr : self.m_bInittedChild <;>
    simp only [TryInittingChild, hd, hr] <;>
    (repeat' split) <;> simp_all [ChildCall.isPostInit]

/-- How one method moves the count of calls of the child's `PostInit()`, as
long as `PostInit()` is not called a second time. -/
theorem perform_PostInit_count (X : Externals) (B : IBackend σ) (op : Op) (g : Globals)
    (self : CDeferredBackend σ) (h : op ≠ Op.PostInit ∨ self.m_bDonePostInit = false) :
    (((perform X B op g self).2.calls.filter ChildCall.isPostInit).length +
      (self.m_bDonePostInit && self.m_bInittedChild).toNat =
      ((perform X B op g self).2.self.m_bDonePostInit &&
        (perform X B op g self).2.self.m_bInittedChild).toNat) ∧
    (self.m_bDonePostInit = false → op ≠ Op.PostInit →
      (perform X B op g self).2.self.m_bDonePostInit = false ∧
      (perform X B op g self).2.ret.isSome = true) ∧
    (self.m_bDonePostInit = true → (perform X B op g self).2.self.m_bDonePostInit = true) ∧
    (op = Op.PostInit → (perform X B op g self).2.self.m_bDonePostInit = true) := by
  obtain ⟨t1, t2, t3⟩ := TryInittingChild_PostInit_count B self
  have h4 : op = Op.PostInit → (perform X B op g self).2.self.m_bDonePostInit = true := by
    rintro rfl
    simp only [perform, Call.wrap, PostInit]
    split <;> rfl
  rcases perform_plain X B op g self with ⟨v, w, rfl⟩ | rfl | rfl | ⟨k1, k2, k3, k4, -⟩
  · simp only [perform, Call.wrap]
    rcases Init_call B v w g self with hi | hi <;> rw [hi]
    · exact ⟨by simp, fun hd _ => ⟨hd, by simp⟩, fun hd => hd, by simp⟩
    · exact ⟨t1, fun hd _ => ⟨t2.trans hd, by simp [t3 hd]⟩, fun hd => t2.trans hd, by simp⟩
  · cases hd : self.m_bDonePostInit <;> cases hr : self.m_bInittedChild <;>
      simp_all [perform, Call.wrap, PostInit, ChildCall.isPostInit]
  · simp only [perform, Call.wrap, PollState]
    generalize TryInittingChild B self = t at t1 t2 t3
    obtain ⟨r, st, cs⟩ := t
    dsimp only at t1 t2 t3
    cases r with
    | none =>
      dsimp only
      refine ⟨t1, fun hd _ => ?_, fun hd => t2.trans hd, by simp⟩
      have := t3 hd
      simp at this
    | some u =>
      dsimp only
      (repeat' split) <;> dsimp only
      all_goals
        refine ⟨?_, fun hd _ => ⟨t2.trans hd, by simp⟩, fun hd => t2.trans hd, by simp⟩
        try simp only [List.filter_append]
        simpa [ChildCall.isPostInit] using t1
  · rw [k1, k3, k4]
    refine ⟨by simp, fun hd _ => ⟨hd, k2⟩, fun hd => hd, fun hop => ?_⟩
    rw [← k3]
    exact h4 hop

theorem Process.PostInitInv_step (X : Externals) (B : IBackend σ) (p : Process σ) (op : Op)
    (h : op ≠ Op.PostInit ∨ p.backend.m_bDonePostInit = false) (hp : p.PostInitInv) :
    (Process.step X B p op).PostInitInv ∧
    (p.backend.m_bDonePostInit = true → (Process.step X B p op).backend.m_bDonePostInit = true) ∧
    (p.backend.m_bDonePostInit = false → op ≠ Op.PostInit →
      (Process.step X B p op).backend.m_bDonePostInit = false) ∧
    (op = Op.PostInit → (Process.step X B p op).backend.m_bDonePostInit = true) := by
  by_cases ha : p.aborted = true
  · rw [Process.step_of_aborted X B p op ha]
    refine ⟨hp, fun h => h, fun h _ => h, ?_⟩
    intro hop
    rcases h with h | h
    · exact absurd hop h
    · have := hp.2 h; simp [ha] at this
  · obtain ⟨k1, k2, k3, k4⟩ := perform_PostInit_count X B op p.globals p.backend h
    simp only [Bool.not_eq_true] at ha
    refine ⟨⟨?_, ?_⟩, ?_, ?_, ?_⟩ <;> simp only [Process.step, ha, Bool.false_eq_true, if_false]
    · rw [List.filter_append, List.length_append, hp.1, ← k1]; omega
    · intro hd
      cases hd0 : p.backend.m_bDonePostInit with
      | true => have := k3 hd0; simp [hd] at this
      | false =>
        have hop : op ≠ Op.PostInit := fun hop => by have := k4 hop; simp [hd] at this
        have := (k2 hd0 hop).2
        cases hret : (perform X B op p.globals p.backend).2.ret with
        | none => simp [hret] at this
        | some r => rfl
    · exact k3
    · exact fun hd hop => (k2 hd hop).1
    · exact k4

theorem Process.PostInitInv_run (X : Externals) (B : IBackend σ) (p : Process σ) (ops : List Op)
    (h : ∀ o ∈ ops, o ≠ Op.PostInit) (hp : p.PostInitInv) :
    (Process.run X B p ops).PostInitInv ∧
    (p.backend.m_bDonePostInit = true →
      (Process.run X B p ops).backend.m_bDonePostInit = true) ∧
    (p.backend.m_bDonePostInit = false →
      (Process.run X B p ops).backend.m_bDonePostInit = false) := by
  induction ops generalizing p with
  | nil => exact ⟨hp, fun h => h, fun h => h⟩
  | cons op ops ih =>
    obtain ⟨k1, k2, k3, -⟩ := Process.PostInitInv_step X B p op (Or.inl (h op (by simp))) hp
    obtain ⟨j1, j2, j3⟩ := ih (Process.step X B p op) (fun o ho => h o (by simp [ho])) k1
    exact ⟨j1, fun hd => j2 (k2 hd), fun hd => j3 (k3 hd (h op (by simp)))⟩

/-- C6: take any run from construction that calls `PostInit()` exactly once,
after the calls `pre` and before the calls `post` (`Init()`, `PollState()` or
any other method).  In the log of calls on the child every `PostInit()` comes
after an `Init()` that returned true, and the child's `PostInit()` has been
called once if the child's `Init()` has returned true in the run and not at
all otherwise.  On a ready backend `PostInit()` itself makes that call; on a
backend that is not ready `PostInit()` returns true without calling the child,
and the call that later makes the child ready calls the child's `PostInit()`
once. -/
theorem C6_child_PostInit_once (X : Externals) (B : IBackend σ) (g : Globals) (pChild : σ)
    (pre post : List Op) (hpre : ∀ o ∈ pre, o ≠ Op.PostInit)
    (hpost : ∀ o ∈ post, o ≠ Op.PostInit) :
    PostInitAfterInit
      (Process.run X B (Process.start g pChild) (pre ++ Op.PostInit :: post)).calls ∧
    ((Process.run X B (Process.start g pChild) (pre ++ Op.PostInit :: post)).calls.filter
        ChildCall.isPostInit).length =
      (if ChildCall.Init true ∈
          (Process.run X B (Process.start g pChild) (pre ++ Op.PostInit :: post)).calls
        then 1 else 0) ∧
    (∀ self : CDeferredBackend σ, self.m_bInittedChild = true →
      (PostInit B self).calls = [ChildCall.PostInit (B.PostInit self.m_pChild).1]) ∧
    (∀ self : CDeferredBackend σ, self.m_bInittedChild = false →
      (PostInit B self).ret = some true ∧ (PostInit B self).calls = []) ∧
    (∀ (op : Op) (g2 : Globals) (self : CDeferredBackend σ), op ≠ Op.PostInit →
      self.m_bDonePostInit = true → self.m_bInittedChild = false →
      ChildCall.Init true ∈ (perform X B op g2 self).2.calls →
      ((perform X B op g2 self).2.calls.filter ChildCall.isPostInit).length = 1) := by
  refine ⟨?_, ?_, ?_, ?_, ?_⟩
  · exact Process.PostInitAfterInit_run X B _ _ (Process.Inv_start g pChild)
      (by intro l1 b l2 h; simp [Process.start] at h)
  · have hinv := Process.Inv_run X B _ (pre ++ Op.PostInit :: post) (Process.Inv_start g pChild)
    have h0 : (Process.start g pChild).PostInitInv := by
      simp [Process.PostInitInv, Process.start, CDeferredBackend.new]
    have h0d : (Process.start g pChild).backend.m_bDonePostInit = false := rfl
    rw [Process.run_append, Process.run_cons] at hinv ⊢
    obtain ⟨h1, -, h1d⟩ := Process.PostInitInv_run X B _ pre hpre h0
    have h1d := h1d h0d
    obtain ⟨h2, -, -, h2d⟩ := Process.PostInitInv_step X B _ Op.PostInit (Or.inr h1d) h1
    have h2d := h2d rfl
    obtain ⟨h3, h3d, -⟩ := Process.PostInitInv_run X B _ post hpost h2
    have h3d := h3d h2d
    rw [h3.1, h3d]
    by_cases hin : ChildCall.Init true ∈ (Process.run X B (Process.step X B
        (Process.run X B (Process.start g pChild) pre) Op.PostInit) post).calls
    · simp [hin, hinv.1.mpr hin]
    · have : (Process.run X B (Process.step X B
        (Process.run X B (Process.start g pChild) pre) Op.PostInit) post).backend.m_bInittedChild
          = false := by
        cases hb : (Process.run X B (Process.step X B
          (Process.run X B (Process.start g pChild) pre) Op.PostInit)
            post).backend.m_bInittedChild with
        | false => rfl
        | true => exact absurd (hinv.1.mp hb) hin
      simp [hin, this]
  · intro self h
    simp [PostInit, h]
  · intro self h
    simp [PostInit, h]
  · intro op g2 self hop hd hr hin
    have := (perform_PostInit_count X B op g2 self (Or.inl hop)).1
    have hr2 := ((perform_of_not_ready X B op g2 self hr).1).mpr hin
    have hd2 := (perform_PostInit_count X B op g2 self (Or.inl hop)).2.2.1 hd
    simpa [hd, hr, hr2, hd2] using this

/-- C6 on a concrete run: the child's `Init()` fails in `Init()` and in the
first `PollState()`, `PostInit()` is called, and the second `PollState()`
makes the child ready; the child's `PostInit()` is called once, after its
successful `Init()`. -/
theorem C6_child_PostInit_once_witness :
    (Process.run plainExternals ScriptedChild.vtable
      (Process.start defaultGlobals ⟨[false, false, true], true, []⟩)
      ([Op.Init true true, Op.PollState] ++ Op.PostInit :: [Op.PollState, Op.PollState])).calls
      = [ChildCall.Init false, ChildCall.Init false, ChildCall.Init true, ChildCall.PostInit true,
          ChildCall.PollState false, ChildCall.PollState false] ∧
    ((Process.run plainExternals ScriptedChild.vtable
      (Process.start defaultGlobals ⟨[false, false, true], true, []⟩)
      ([Op.Init true true, Op.PollState] ++ Op.PostInit :: [Op.PollState, Op.PollState])).calls.filter
        ChildCall.isPostInit).length =
      (if ChildCall.Init true ∈
          (Process.run plainExternals ScriptedChild.vtable
            (Process.start defaultGlobals ⟨[false, false, true], true, []⟩)
            ([Op.Init true true, Op.PollState] ++
              Op.PostInit :: [Op.PollState, Op.PollState])).calls
        then 1 else 0) :=
  ⟨by decide,
    (C6_child_PostInit_once plainExternals ScriptedChild.vtable defaultGlobals
      ⟨[false, false, true], true, []⟩ [Op.Init true true, Op.PollState]
      [Op.PollState, Op.PollState] (by decide) (by decide)).2.1⟩

/-! ## C7 -/

/-- C7: whether or not the child is ready, `SupportsExplicitSync()`,
`UsesVulkanSwapchain()`, `IsSessionBased()` and `SupportsPlaneHardwareCursor()`
of the deferred backend return what the child returns; with a
`CWaylandBackend` child these are true, false, false and false. -/
theorem C7_static_capabilities_forwarded (B : IBackend σ) (self : CDeferredBackend σ)
    (cv_wayland_use_modifiers : Bool) (host : IBackend CWaylandBackend)
    (wl : CDeferredBackend CWaylandBackend) :
    (SupportsExplicitSync B self = B.SupportsExplicitSync self.m_pChild ∧
      UsesVulkanSwapchain B self = B.UsesVulkanSwapchain self.m_pChild ∧
      IsSessionBased B self = B.IsSessionBased self.m_pChild ∧
      SupportsPlaneHardwareCursor B self = B.SupportsPlaneHardwareCursor self.m_pChild) ∧
    (SupportsExplicitSync (CWaylandBackend.vtable cv_wayland_use_modifiers host) wl = true ∧
      UsesVulkanSwapchain (CWaylandBackend.vtable cv_wayland_use_modifiers host) wl = false ∧
      IsSessionBased (CWaylandBackend.vtable cv_wayland_use_modifiers host) wl = false ∧
      SupportsPlaneHardwareCursor (CWaylandBackend.vtable cv_wayland_use_modifiers host) wl
        = false) :=
  ⟨⟨rfl, rfl, rfl, rfl⟩, ⟨rfl, rfl, rfl, rfl⟩⟩

/-! ## C8 -/

/-- C8 fails as stated.  With a `CWaylandBackend` child that became ready in
`Init()` and the console variable `wayland_use_modifiers` off, the deferred
backend's `GetInstanceExtensions()`, `GetDeviceExtensions()` and
`UsesModifiers()` differ from the child's: eight names each against none, and
true against false. -/
theorem C8_counterexample_not_forwarded :
    ChildCall.Init true ∈
      (Process.run plainExternals (CWaylandBackend.vtable false (plainHost true))
        (Process.start defaultGlobals ⟨none, true, []⟩) [Op.Init true true]).calls ∧
    GetInstanceExtensions
      (Process.run plainExternals (CWaylandBackend.vtable false (plainHost true))
        (Process.start defaultGlobals ⟨none, true, []⟩) [Op.Init true true]).backend ≠
      (CWaylandBackend.vtable false (plainHost true)).GetInstanceExtensions
        (Process.run plainExternals (CWaylandBackend.vtable false (plainHost true))
          (Process.start defaultGlobals ⟨none, true, []⟩) [Op.Init true true]).backend.m_pChild ∧
    GetDeviceExtensions
      (Process.run plainExternals (CWaylandBackend.vtable false (plainHost true))
        (Process.start defaultGlobals ⟨none, true, []⟩) [Op.Init true true]).backend 0 ≠
      (CWaylandBackend.vtable false (plainHost true)).GetDeviceExtensions
        (Process.run plainExternals (CWaylandBackend.vtable false (plainHost true))
          (Process.start defaultGlobals ⟨none, true, []⟩) [Op.Init true true]).backend.m_pChild 0 ∧
    UsesModifiers
      (Process.run plainExternals (CWaylandBackend.vtable false (plainHost true))
        (Process.start defaultGlobals ⟨none, true, []⟩) [Op.Init true true]).backend ≠
      (CWaylandBackend.vtable false (plainHost true)).UsesModifiers
        (Process.run plainExternals (CWaylandBackend.vtable false (plainHost true))
          (Process.start defaultGlobals ⟨none, true, []⟩) [Op.Init true true]).backend.m_pChild := by
  decide

/-- C8, amended: once a call of the child's `Init()` has returned true,
`IsPaused`, `IsVisible`, `SupportsTearing`, `GetCurrentConnector`,
`GetConnector`, `GetPresentLayout` and `CursorSurfaceSize` return what the
same method of the child returns (the two connector queries also leave the
child in the state its method leaves it in), while `UsesModifiers`,
`GetSupportedModifiers`, `GetPreferredOutputFormat`, `NeedsFrameSync`,
`GetInstanceExtensions` and `GetDeviceExtensions` are answered by the deferred
backend without the child: true, `GetSupportedSampleModifiers` of the format,
the DRM formats of `A2B10G10R10` and `B8G8R8A8`, false, and two fixed lists of
eight names. -/
theorem C8_forwarding_once_ready (X : Externals) (B : IBackend σ) (g : Globals) (pChild : σ)
    (ops : List Op)
    (h : ChildCall.Init true ∈ (Process.run X B (Process.start g pChild) ops).calls) :
    (IsPaused B (Process.run X B (Process.start g pChild) ops).backend =
        B.IsPaused (Process.run X B (Process.start g pChild) ops).backend.m_pChild ∧
      CDeferredBackend.IsVisible B (Process.run X B (Process.start g pChild) ops).backend =
        B.IsVisible (Process.run X B (Process.start g pChild) ops).backend.m_pChild ∧
      SupportsTearing B (Process.run X B (Process.start g pChild) ops).backend =
        B.SupportsTearing (Process.run X B (Process.start g pChild) ops).backend.m_pChild ∧
      (GetCurrentConnector B (Process.run X B (Process.start g pChild) ops).backend).ret =
        some (B.GetCurrentConnector
          (Process.run X B (Process.start g pChild) ops).backend.m_pChild).1 ∧
      (GetCurrentConnector B (Process.run X B (Process.start g pChild) ops).backend).self.m_pChild =
        (B.GetCurrentConnector (Process.run X B (Process.start g pChild) ops).backend.m_pChild).2 ∧
      (∀ t, (GetConnector B t (Process.run X B (Process.start g pChild) ops).backend).ret =
        some (B.GetConnector t
          (Process.run X B (Process.start g pChild) ops).backend.m_pChild).1) ∧
      (∀ t,
        (GetConnector B t (Process.run X B (Process.start g pChild) ops).backend).self.m_pChild =
        (B.GetConnector t (Process.run X B (Process.start g pChild) ops).backend.m_pChild).2) ∧
      GetPresentLayout B (Process.run X B (Process.start g pChild) ops).backend =
        B.GetPresentLayout (Process.run X B (Process.start g pChild) ops).backend.m_pChild ∧
      (∀ sz, CursorSurfaceSize B (Process.run X B (Process.start g pChild) ops).backend sz =
        B.CursorSurfaceSize (Process.run X B (Process.start g pChild) ops).backend.m_pChild sz)) ∧
    (UsesModifiers (Process.run X B (Process.start g pChild) ops).backend = true ∧
      (∀ f, GetSupportedModifiers X (Process.run X B (Process.start g pChild) ops).backend f =
        X.GetSupportedSampleModifiers f) ∧
      GetPreferredOutputFormat X (Process.run X B (Process.start g pChild) ops).backend =
        (X.VulkanFormatToDRM VK_FORMAT_A2B10G10R10_UNORM_PACK32,
          X.VulkanFormatToDRM VK_FORMAT_B8G8R8A8_UNORM) ∧
      NeedsFrameSync (Process.run X B (Process.start g pChild) ops).backend = false ∧
      (GetInstanceExtensions (Process.run X B (Process.start g pChild) ops).backend).length = 8 ∧
      (∀ d,
        (GetDeviceExtensions (Process.run X B (Process.start g pChild) ops).backend d).length
          = 8)) := by
  have hr := (Process.Inv_run X B _ ops (Process.Inv_start g pChild)).1.mpr h
  generalize (Process.run X B (Process.start g pChild) ops).backend = s at hr
  refine ⟨⟨?_, ?_, ?_, ?_, ?_, ?_, ?_, ?_, ?_⟩, ⟨rfl, fun _ => rfl, rfl, rfl, rfl, fun _ => rfl⟩⟩ <;>
    simp [IsPaused, CDeferredBackend.IsVisible, SupportsTearing, GetCurrentConnector, GetConnector,
      GetPresentLayout, CursorSurfaceSize, hr]

/-- C8 on a concrete run: a `CWaylandBackend` child made ready by `Init()`;
`IsVisible()` of the deferred backend is the child's answer. -/
theorem C8_forwarding_once_ready_witness :
    ChildCall.Init true ∈
      (Process.run plainExternals (CWaylandBackend.vtable true (plainHost true))
        (Process.start defaultGlobals ⟨some 7, true, []⟩) [Op.Init true true, Op.PollState]).calls ∧
    (GetCurrentConnector (CWaylandBackend.vtable true (plainHost true))
      (Process.run plainExternals (CWaylandBackend.vtable true (plainHost true))
        (Process.start defaultGlobals ⟨some 7, true, []⟩)
        [Op.Init true true, Op.PollState]).backend).ret =
      some ((CWaylandBackend.vtable true (plainHost true)).GetCurrentConnector
        (Process.run plainExternals (CWaylandBackend.vtable true (plainHost true))
          (Process.start defaultGlobals ⟨some 7, true, []⟩)
          [Op.Init true true, Op.PollState]).backend.m_pChild).1 :=
  ⟨by decide,
    (C8_forwarding_once_ready plainExternals (CWaylandBackend.vtable true (plainHost true))
      defaultGlobals ⟨some 7, true, []⟩ [Op.Init true true, Op.PollState] (by decide)).1.2.2.2.1⟩

/-! ## C9 -/

theorem Double.mul_one (x : Double) : Double.mul x (Double.finite 1) = x := by
  have h : ¬ ((1 : ℚ) < 0) := by norm_num
  cases x <;> simp [Double.mul, h]

theorem Double.div_self_ofInt (n : Int) (h : n ≠ 0) :
    Double.div (Double.ofInt n) (Double.ofInt n) = Double.finite 1 := by
  have : (n : ℚ) ≠ 0 := by exact_mod_cast h
  simp [Double.div, Double.ofInt, this]

/-- C9 fails as stated.  On a 1280x720 output, a state at the origin with a
destination of width 0 and height 720 lies inside the output bounds, yet
`ClipPlane` turns its source width 1.0 into NaN (0 / 0.0), so the result is
not the input. -/
theorem C9_counterexample_zero_width :
    (0 : Int) ≤ 0 ∧ (0 : Int) ≤ 0 ∧ (0 : Int) + 0 ≤ 1280 ∧ (0 : Int) + 720 ≤ 720 ∧
    (ClipPlane 1280 720
      ⟨some 1, 0, 0, Double.finite 0, Double.finite 0, Double.finite 1, Double.finite 1, 0, 720,
        GamescopeAppTextureColorspace.GAMESCOPE_APP_TEXTURE_COLORSPACE_SRGB, none, true,
        120⟩).flSrcWidth = Double.nan ∧
    ClipPlane 1280 720
      ⟨some 1, 0, 0, Double.finite 0, Double.finite 0, Double.finite 1, Double.finite 1, 0, 720,
        GamescopeAppTextureColorspace.GAMESCOPE_APP_TEXTURE_COLORSPACE_SRGB, none, true, 120⟩ ≠
      ⟨some 1, 0, 0, Double.finite 0, Double.finite 0, Double.finite 1, Double.finite 1, 0, 720,
        GamescopeAppTextureColorspace.GAMESCOPE_APP_TEXTURE_COLORSPACE_SRGB, none, true, 120⟩ := by
  refine ⟨by decide, by decide, by decide, by decide, ?_, ?_⟩
  · simp [ClipPlane, Double.mul, Double.div, Double.ofInt]
  · simp [ClipPlane, Double.mul, Double.div, Double.ofInt]

/-- C9, amended: for every state whose destination width and height are not
zero and whose destination rectangle lies inside the output bounds,
`ClipPlane( state )` equals `state` in every field. -/
theorem C9_ClipPlane_identity_inside (g_nOutputWidth g_nOutputHeight : Int)
    (state : WaylandPlaneState) (_hx : 0 ≤ state.nDestX) (_hy : 0 ≤ state.nDestY)
    (hw : state.nDestX + state.nDstWidth ≤ g_nOutputWidth)
    (hh : state.nDestY + state.nDstHeight ≤ g_nOutputHeight)
    (hw0 : state.nDstWidth ≠ 0) (hh0 : state.nDstHeight ≠ 0) :
    ClipPlane g_nOutputWidth g_nOutputHeight state = state := by
  have h1 : min g_nOutputWidth (state.nDstWidth + state.nDestX) - state.nDestX
      = state.nDstWidth := by
    rw [min_eq_right (by omega)]; omega
  have h2 : min g_nOutputHeight (state.nDstHeight + state.nDestY) - state.nDestY
      = state.nDstHeight := by
    rw [min_eq_right (by omega)]; omega
  simp only [ClipPlane, h1, h2, Double.div_self_ofInt _ hw0, Double.div_self_ofInt _ hh0,
    Double.mul_one]

/-- C9 on a concrete state: a 640x480 layer at (10, 20) on a 1280x720 output. -/
theorem C9_ClipPlane_identity_inside_witness :
    ClipPlane 1280 720
      ⟨some 1, 10, 20, Double.finite 0, Double.finite 0, Double.finite 640, Double.finite 480,
        640, 480, GamescopeAppTextureColorspace.GAMESCOPE_APP_TEXTURE_COLORSPACE_SRGB, none,
        true, 120⟩ =
      ⟨some 1, 10, 20, Double.finite 0, Double.finite 0, Double.finite 640, Double.finite 480,
        640, 480, GamescopeAppTextureColorspace.GAMESCOPE_APP_TEXTURE_COLORSPACE_SRGB, none,
        true, 120⟩ :=
  C9_ClipPlane_identity_inside 1280 720 _ (by decide) (by decide) (by decide) (by decide)
    (by decide) (by decide)

/-! ## C10 -/

theorem Double.roundHalfEven_le (x : ℚ) (n : Int) (h : x ≤ n) : Double.roundHalfEven x ≤ n := by
  unfold Double.roundHalfEven
  have hf : ⌊x⌋ ≤ n := Int.floor_le_floor h |>.trans (by simp)
  rcases lt_or_eq_of_le hf with hlt | heq
  · split_ifs <;> omega
  · have hx : x = n := by
      apply le_antisymm h
      rw [← heq]
      exact Int.floor_le x
    have : x - ⌊x⌋ = 0 := by rw [hx]; simp
    rw [if_pos (by rw [this]; norm_num)]
    exact hf

theorem Double.le_roundHalfEven (x : ℚ) (n : Int) (h : (n : ℚ) ≤ x) :
    n ≤ Double.roundHalfEven x := by
  unfold Double.roundHalfEven
  have hf : n ≤ ⌊x⌋ := Int.le_floor.mpr h
  split_ifs <;> omega

theorem Double.ulp_pos (q : ℚ) : 0 < Double.ulp q := by
  unfold Double.ulp
  positivity

theorem Double.lt_zpow_binade (q : ℚ) : |q| < (2 : ℚ) ^ (Double.binade q + 1) := by
  have h1 : |q| < ((2 : ℕ) : ℚ) ^ (Int.log 2 |q| + 1) := Int.lt_zpow_succ_log_self (by norm_num) _
  have h2 : ((2 : ℕ) : ℚ) ^ (Int.log 2 |q| + 1) ≤ ((2 : ℕ) : ℚ) ^ (Double.binade q + 1) := by
    apply zpow_le_zpow_right₀ (by norm_num)
    unfold Double.binade
    have := le_max_left (Int.log 2 |q|) (-1022)
    omega
  exact_mod_cast lt_of_lt_of_le h1 h2

theorem Double.binade_mono (a b : ℚ) (ha : 0 < a) (hab : a ≤ b) :
    Double.binade a ≤ Double.binade b := by
  unfold Double.binade
  have hb : 0 < b := lt_of_lt_of_le ha hab
  rw [abs_of_pos ha, abs_of_pos hb]
  exact max_le_max (Int.log_mono_right ha hab) le_rfl

theorem Double.zpow_binade_le (b : ℚ) (hb : 0 < b) (h : -1022 < Double.binade b) :
    (2 : ℚ) ^ Double.binade b ≤ b := by
  unfold Double.binade at h ⊢
  rw [abs_of_pos hb] at h ⊢
  have hl : max (Int.log 2 b) (-1022) = Int.log 2 b := by
    rcases le_total (Int.log 2 b) (-1022) with h1 | h1
    · rw [max_eq_right h1] at h
      exact absurd h (lt_irrefl _)
    · exact max_eq_left h1
  rw [hl]
  have := Int.zpow_log_le_self (b := 2) (by norm_num) hb
  exact_mod_cast this

/-- Before the test for overflow: the nearest multiple of the spacing to a
result that is at most `b`, a positive value of binary64, is at most `b`. -/
theorem Double.round_value_le (a b : ℚ) (hb : 0 < b)
    (hrep : (Double.roundHalfEven (b / Double.ulp b) : ℚ) * Double.ulp b = b) (hab : a ≤ b) :
    (Double.roundHalfEven (a / Double.ulp a) : ℚ) * Double.ulp a ≤ b := by
  have hua := Double.ulp_pos a
  have hub := Double.ulp_pos b
  rcases le_or_lt a 0 with ha | ha
  · have h1 : Double.roundHalfEven (a / Double.ulp a) ≤ 0 := by
      apply Double.roundHalfEven_le
      simpa using div_nonpos_of_nonpos_of_nonneg ha hua.le
    have h2 : (Double.roundHalfEven (a / Double.ulp a) : ℚ) ≤ 0 := by exact_mod_cast h1
    have := mul_nonpos_of_nonpos_of_nonneg h2 hua.le
    linarith
  · have hmono := Double.binade_mono a b ha hab
    rcases lt_or_eq_of_le hmono with hlt | heq
    · -- a lies in a lower binade
      have h1 : a < (2 : ℚ) ^ (Double.binade a + 1) := by
        have := Double.lt_zpow_binade a
        rwa [abs_of_pos ha] at this
      have h2 : a / Double.ulp a ≤ ((2 ^ 53 : Int) : ℚ) := by
        rw [div_le_iff₀ hua]
        unfold Double.ulp
        have : ((2 ^ 53 : Int) : ℚ) * (2 : ℚ) ^ (Double.binade a - 52) =
            (2 : ℚ) ^ (Double.binade a + 1) := by
          rw [show Double.binade a + 1 = 53 + (Double.binade a - 52) by ring,
            zpow_add₀ (by norm_num)]
          norm_num
        rw [this]
        exact h1.le
      have h3 := Double.roundHalfEven_le _ _ h2
      have h4 : (Double.roundHalfEven (a / Double.ulp a) : ℚ) ≤ ((2 ^ 53 : Int) : ℚ) := by
        exact_mod_cast h3
      have h5 : (Double.roundHalfEven (a / Double.ulp a) : ℚ) * Double.ulp a ≤
          ((2 ^ 53 : Int) : ℚ) * Double.ulp a := mul_le_mul_of_nonneg_right h4 hua.le
      have h6 : ((2 ^ 53 : Int) : ℚ) * Double.ulp a = (2 : ℚ) ^ (Double.binade a + 1) := by
        unfold Double.ulp
        rw [show Double.binade a + 1 = 53 + (Double.binade a - 52) by ring,
          zpow_add₀ (by norm_num)]
        norm_num
      have h7 : (2 : ℚ) ^ (Double.binade a + 1) ≤ (2 : ℚ) ^ Double.binade b :=
        zpow_le_zpow_right₀ (by norm_num) (by omega)
      have h8 : -1022 < Double.binade b := by
        have : -1022 ≤ Double.binade a := le_max_right _ _
        omega
      have h9 := Double.zpow_binade_le b hb h8
      exact h5.trans (h6.le.trans (h7.trans h9))
    · -- the same binade
      have hu : Double.ulp a = Double.ulp b := by
        unfold Double.ulp
        rw [heq]
      rw [hu]
      have h1 : a / Double.ulp b ≤ b / Double.ulp b := div_le_div_of_nonneg_right hab hub.le
      have h2 : b / Double.ulp b = (Double.roundHalfEven (b / Double.ulp b) : ℚ) := by
        rw [div_eq_iff hub.ne']
        exact hrep.symm
      rw [h2] at h1
      have h3 := Double.roundHalfEven_le _ _ h1
      have h4 : (Double.roundHalfEven (a / Double.ulp b) : ℚ) ≤
          (Double.roundHalfEven (b / Double.ulp b) : ℚ) := by exact_mod_cast h3
      calc (Double.roundHalfEven (a / Double.ulp b) : ℚ) * Double.ulp b
          ≤ (Double.roundHalfEven (b / Double.ulp b) : ℚ) * Double.ulp b :=
            mul_le_mul_of_nonneg_right h4 hub.le
        _ = b := hrep

theorem Double.isBinary64_value (b : ℚ) (hrep : Double.isBinary64 b) :
    (Double.roundHalfEven (b / Double.ulp b) : ℚ) * Double.ulp b = b ∧
      |b| < (2 : ℚ) ^ 1024 := by
  unfold Double.isBinary64 Double.round at hrep
  by_cases h : (2 : ℚ) ^ 1024 ≤ |(Double.roundHalfEven (b / Double.ulp b) : ℚ) * Double.ulp b|
  · rw [if_pos h] at hrep
    exact absurd hrep (by simp)
  · rw [if_neg h] at hrep
    have hv : (Double.roundHalfEven (b / Double.ulp b) : ℚ) * Double.ulp b = b := by
      injection hrep
    rw [hv] at h
    exact ⟨hv, not_le.mp h⟩

/-- Rounding does not pass a value of binary64: the rounded value of a result
that is at most `b`, a positive value of binary64, is at most `b`. -/
theorem Double.round_le_of_le (a b : ℚ) (hb : 0 < b) (hrep : Double.isBinary64 b)
    (hab : a ≤ b) : Double.le (Double.round a) (Double.finite b) = true := by
  obtain ⟨hv, hlt⟩ := Double.isBinary64_value b hrep
  have hle := Double.round_value_le a b hb hv hab
  unfold Double.round
  by_cases h : (2 : ℚ) ^ 1024 ≤ |(Double.roundHalfEven (a / Double.ulp a) : ℚ) * Double.ulp a|
  · rw [if_pos h]
    have hneg : (Double.roundHalfEven (a / Double.ulp a) : ℚ) * Double.ulp a < 0 := by
      by_contra hn
      rw [abs_of_nonneg (not_lt.mp hn)] at h
      rw [abs_of_pos hb] at hlt
      linarith
    have ha : a < 0 := by
      by_contra hn
      have h0 : (0 : Int) ≤ Double.roundHalfEven (a / Double.ulp a) := by
        apply Double.le_roundHalfEven
        simpa using div_nonneg (not_lt.mp hn) (Double.ulp_pos a).le
      have h1 : (0 : ℚ) ≤ (Double.roundHalfEven (a / Double.ulp a) : ℚ) := by exact_mod_cast h0
      have := mul_nonneg h1 (Double.ulp_pos a).le
      linarith
    simp [Double.le, ha]
  · rw [if_neg h]
    simp [Double.le, hle]

theorem Double.round_zero : Double.round 0 = Double.finite 0 := by
  unfold Double.round
  have h : Double.roundHalfEven (0 / Double.ulp 0) = 0 := by
    simp [Double.roundHalfEven]
  rw [h]
  simp

/-- A result below `2 ^ 1023` in magnitude does not overflow. -/
theorem Double.round_finite (a : ℚ) (h : |a| < (2 : ℚ) ^ (1023 : Int)) :
    ∃ r, Double.round a = Double.finite r := by
  have hua := Double.ulp_pos a
  have hbin : Double.binade a ≤ 1022 := by
    unfold Double.binade
    apply max_le _ (by norm_num)
    rcases eq_or_lt_of_le (abs_nonneg a) with h0 | hpos
    · rw [← h0]
      simp [Int.log]
    · have : Int.log 2 |a| < 1023 := by
        rw [← Int.lt_zpow_iff_log_lt (by norm_num) hpos, Nat.cast_ofNat]
        exact h
      omega
  have hlt := Double.lt_zpow_binade a
  have hpow : ((2 ^ 53 : Int) : ℚ) * Double.ulp a = (2 : ℚ) ^ (Double.binade a + 1) := by
    unfold Double.ulp
    rw [show Double.binade a + 1 = 53 + (Double.binade a - 52) by ring,
      zpow_add₀ (by norm_num)]
    norm_num
  have h1 : a / Double.ulp a ≤ ((2 ^ 53 : Int) : ℚ) := by
    rw [div_le_iff₀ hua, hpow]
    exact (le_abs_self a).trans hlt.le
  have h2 : ((-(2 ^ 53) : Int) : ℚ) ≤ a / Double.ulp a := by
    rw [le_div_iff₀ hua]
    have : ((-(2 ^ 53) : Int) : ℚ) * Double.ulp a = -(2 : ℚ) ^ (Double.binade a + 1) := by
      rw [← hpow]
      push_cast
      ring
    rw [this]
    have := neg_abs_le a
    linarith
  have h3 := Double.roundHalfEven_le _ _ h1
  have h4 := Double.le_roundHalfEven _ _ h2
  have h5 : |(Double.roundHalfEven (a / Double.ulp a) : ℚ)| ≤ ((2 ^ 53 : Int) : ℚ) := by
    rw [abs_le]
    constructor
    · have : ((-(2 ^ 53) : Int) : ℚ) ≤ (Double.roundHalfEven (a / Double.ulp a) : ℚ) := by
        exact_mod_cast h4
      simpa using this
    · exact_mod_cast h3
  have h6 : |(Double.roundHalfEven (a / Double.ulp a) : ℚ) * Double.ulp a| ≤
      (2 : ℚ) ^ (Double.binade a + 1) := by
    rw [abs_mul, abs_of_pos hua, ← hpow]
    exact mul_le_mul_of_nonneg_right h5 hua.le
  have h7 : (2 : ℚ) ^ (Double.binade a + 1) ≤ (2 : ℚ) ^ (1023 : Int) :=
    zpow_le_zpow_right₀ (by norm_num) (by omega)
  have h8 : (2 : ℚ) ^ (1023 : Int) < (2 : ℚ) ^ 1024 := by norm_num
  refine ⟨(Double.roundHalfEven (a / Double.ulp a) : ℚ) * Double.ulp a, ?_⟩
  unfold Double.round
  rw [if_neg]
  exact not_le.mpr (lt_of_le_of_lt (h6.trans h7) h8)

theorem Double.binade_eq (q : ℚ) (e : Int) (h1 : (2 : ℚ) ^ e ≤ |q|)
    (h2 : |q| < (2 : ℚ) ^ (e + 1)) (h3 : -1022 ≤ e) : Double.binade q = e := by
  have hpos : 0 < |q| := lt_of_lt_of_le (by positivity) h1
  have hl1 : e ≤ Int.log 2 |q| := by
    rw [← Int.zpow_le_iff_le_log (by norm_num) hpos]
    exact_mod_cast h1
  have hl2 : Int.log 2 |q| < e + 1 := by
    rw [← Int.lt_zpow_iff_log_lt (by norm_num) hpos]
    exact_mod_cast h2
  unfold Double.binade
  rw [max_eq_left (by omega)]
  omega

theorem Double.roundHalfEven_eq (x : ℚ) (f n : Int) (hf : (f : ℚ) ≤ x) (hf1 : x < f + 1)
    (hn : n = if x - f < 1 / 2 then f else if 1 / 2 < x - f then f + 1
      else if f % 2 = 0 then f else f + 1) :
    Double.roundHalfEven x = n := by
  have : ⌊x⌋ = f := Int.floor_eq_iff.mpr ⟨hf, hf1⟩
  unfold Double.roundHalfEven
  rw [this, hn]

/-- The rounded value of a result whose binade is `e` and whose nearest
multiple of the spacing is `n` times the spacing. -/
theorem Double.round_eq (q : ℚ) (e n : Int) (h1 : (2 : ℚ) ^ e ≤ |q|)
    (h2 : |q| < (2 : ℚ) ^ (e + 1)) (h3 : -1022 ≤ e) (h4 : e ≤ 1022)
    (hn : Double.roundHalfEven (q / (2 : ℚ) ^ (e - 52)) = n) :
    Double.round q = Double.finite ((n : ℚ) * (2 : ℚ) ^ (e - 52)) := by
  have hb := Double.binade_eq q e h1 h2 h3
  obtain ⟨r, hr⟩ := Double.round_finite q
    (lt_of_lt_of_le h2 (zpow_le_zpow_right₀ (by norm_num) (by omega)))
  have hv : Double.round q = Double.finite ((n : ℚ) * (2 : ℚ) ^ (e - 52)) ∨
      ∃ s, Double.round q = Double.inf s := by
    unfold Double.round Double.ulp
    rw [hb, hn]
    split_ifs
    · exact Or.inr ⟨_, rfl⟩
    · exact Or.inl rfl
  rcases hv with hv | ⟨s, hs⟩
  · exact hv
  · rw [hs] at hr
    exact absurd hr (by simp)

theorem Double.isBinary64_one : Double.isBinary64 1 := by
  have := Double.round_eq 1 0 4503599627370496 (by norm_num) (by norm_num) (by norm_num)
    (by norm_num)
    (Double.roundHalfEven_eq _ 4503599627370496 _ (by norm_num) (by norm_num) (by norm_num))
  unfold Double.isBinary64
  rw [this]
  norm_num

theorem Double.roundHalfEven_error (t : ℚ) : |(Double.roundHalfEven t : ℚ) - t| ≤ 1 / 2 := by
  have h1 := Int.floor_le t
  have h2 := Int.lt_floor_add_one t
  unfold Double.roundHalfEven
  rw [abs_le]
  split_ifs with c1 c2 c3
  · constructor <;> linarith
  · push_cast
    constructor <;> linarith
  · have : t - ⌊t⌋ = 1 / 2 := le_antisymm (not_lt.mp c2) (not_lt.mp c1)
    constructor <;> linarith
  · have : t - ⌊t⌋ = 1 / 2 := le_antisymm (not_lt.mp c2) (not_lt.mp c1)
    push_cast
    constructor <;> linarith

/-- The error of rounding a result in the normal range is at most `2 ^ -53`
of its magnitude. -/
theorem Double.round_error (x r : ℚ) (hx : (2 : ℚ) ^ (-1022 : Int) ≤ |x|)
    (hr : Double.round x = Double.finite r) : |r - x| ≤ |x| * (2 : ℚ) ^ (-53 : Int) := by
  have hpos : 0 < |x| := lt_of_lt_of_le (by positivity) hx
  have hu := Double.ulp_pos x
  have hlog : -1022 ≤ Int.log 2 |x| := by
    rw [← Int.zpow_le_iff_le_log (by norm_num) hpos]
    exact_mod_cast hx
  have hbin : Double.binade x = Int.log 2 |x| := by
    unfold Double.binade
    exact max_eq_left hlog
  have hle : (2 : ℚ) ^ Double.binade x ≤ |x| := by
    rw [hbin]
    have := Int.zpow_log_le_self (b := 2) (by norm_num) hpos
    exact_mod_cast this
  have hval : r = (Double.roundHalfEven (x / Double.ulp x) : ℚ) * Double.ulp x := by
    unfold Double.round at hr
    split_ifs at hr
    injection hr with hr
    exact hr.symm
  have herr := Double.roundHalfEven_error (x / Double.ulp x)
  have h1 : r - x = ((Double.roundHalfEven (x / Double.ulp x) : ℚ) - x / Double.ulp x) *
      Double.ulp x := by
    rw [hval]
    field_simp
  rw [h1, abs_mul, abs_of_pos hu]
  have h2 : (1 / 2 : ℚ) * Double.ulp x = (2 : ℚ) ^ Double.binade x * (2 : ℚ) ^ (-53 : Int) := by
    unfold Double.ulp
    rw [show Double.binade x - 52 = Double.binade x + (-52) by ring, zpow_add₀ (by norm_num)]
    norm_num
    ring
  calc |(Double.roundHalfEven (x / Double.ulp x) : ℚ) - x / Double.ulp x| * Double.ulp x
      ≤ (1 / 2 : ℚ) * Double.ulp x := mul_le_mul_of_nonneg_right herr hu.le
    _ = (2 : ℚ) ^ Double.binade x * (2 : ℚ) ^ (-53 : Int) := h2
    _ ≤ |x| * (2 : ℚ) ^ (-53 : Int) := mul_le_mul_of_nonneg_right hle (by positivity)

/-- The rounded ratio `nClippedDstWidth / double( nDstWidth )` of a clipped
to a full positive size: it is finite and at most 1, and for a positive
clipped size it is positive and within `2 ^ -53` of the exact ratio. -/
theorem Double.clip_ratio (c w : Int) (hw : 0 < w) (hc : fitsInt32 c) (hfw : fitsInt32 w)
    (hcw : c ≤ w) :
    ∃ r, Double.rounded (Double.div (Double.ofInt c) (Double.ofInt w)) = Double.finite r ∧
      r ≤ 1 ∧
      (0 < c → 0 < r ∧ |r - (c : ℚ) / w| ≤ (c : ℚ) / w * (2 : ℚ) ^ (-53 : Int) ∧
        (2 : ℚ) ^ (-32 : Int) ≤ r) := by
  have hw' : (0 : ℚ) < (w : ℚ) := by exact_mod_cast hw
  have hw1 : (1 : ℚ) ≤ (w : ℚ) := by exact_mod_cast hw
  have hdiv : Double.div (Double.ofInt c) (Double.ofInt w) = Double.finite ((c : ℚ) / w) := by
    simp [Double.div, Double.ofInt, hw'.ne']
  have hle1 : (c : ℚ) / w ≤ 1 := (div_le_one hw').mpr (by exact_mod_cast hcw)
  have hcabs : |(c : ℚ)| ≤ 2147483648 := by
    obtain ⟨c1, c2⟩ := hc
    rw [abs_le]
    constructor
    · have : ((-2147483648 : Int) : ℚ) ≤ (c : ℚ) := by exact_mod_cast c1
      simpa using this
    · have : (c : ℚ) ≤ ((2147483647 : Int) : ℚ) := by exact_mod_cast c2
      have h2 : ((2147483647 : Int) : ℚ) ≤ 2147483648 := by norm_num
      exact this.trans h2
  have habs : |(c : ℚ) / w| < (2 : ℚ) ^ (1023 : Int) := by
    rw [abs_div, abs_of_pos hw']
    have h1 : |(c : ℚ)| / w ≤ |(c : ℚ)| := div_le_self (abs_nonneg _) hw1
    have h2 : (2147483648 : ℚ) < (2 : ℚ) ^ (1023 : Int) := by
      have : (2147483648 : ℚ) = (2 : ℚ) ^ (31 : Int) := by norm_num
      rw [this]
      exact zpow_lt_zpow_right₀ (by norm_num) (by norm_num)
    exact lt_of_le_of_lt (h1.trans hcabs) h2
  obtain ⟨r, hr⟩ := Double.round_finite _ habs
  have hr1 : r ≤ 1 := by
    have := Double.round_le_of_le ((c : ℚ) / w) 1 (by norm_num) Double.isBinary64_one hle1
    rw [hr] at this
    simpa [Double.le] using this
  refine ⟨r, by rw [hdiv]; exact hr, hr1, ?_⟩
  intro hcpos
  have hc' : (0 : ℚ) < (c : ℚ) := by exact_mod_cast hcpos
  have hc1 : (1 : ℚ) ≤ (c : ℚ) := by exact_mod_cast hcpos
  have hapos : (0 : ℚ) < (c : ℚ) / w := div_pos hc' hw'
  have hwle : (w : ℚ) ≤ 2147483648 := by
    have : (w : ℚ) ≤ ((2147483647 : Int) : ℚ) := by exact_mod_cast hfw.2
    have h2 : ((2147483647 : Int) : ℚ) ≤ 2147483648 := by norm_num
    exact this.trans h2
  have halow : (2 : ℚ) ^ (-31 : Int) ≤ (c : ℚ) / w := by
    rw [le_div_iff₀ hw']
    have h31 : (2 : ℚ) ^ (-31 : Int) = 1 / 2147483648 := by norm_num
    rw [h31]
    calc (1 / 2147483648 : ℚ) * w ≤ 1 / 2147483648 * 2147483648 :=
          mul_le_mul_of_nonneg_left hwle (by norm_num)
      _ = 1 := by norm_num
      _ ≤ c := hc1
  have hnorm : (2 : ℚ) ^ (-1022 : Int) ≤ |(c : ℚ) / w| := by
    rw [abs_of_pos hapos]
    have : (2 : ℚ) ^ (-1022 : Int) ≤ (2 : ℚ) ^ (-31 : Int) :=
      zpow_le_zpow_right₀ (by norm_num) (by norm_num)
    exact this.trans halow
  have herr := Double.round_error _ r hnorm hr
  rw [abs_of_pos hapos] at herr
  have h53 : (2 : ℚ) ^ (-53 : Int) = 1 / 9007199254740992 := by norm_num
  have h32 : (2 : ℚ) ^ (-32 : Int) = 1 / 4294967296 := by norm_num
  have h31 : (2 : ℚ) ^ (-31 : Int) = 1 / 2147483648 := by norm_num
  rw [h53] at herr
  rw [h31] at halow
  have hlow : (c : ℚ) / w * (1 - 1 / 9007199254740992) ≤ r := by
    have := (abs_le.mp herr).1
    linarith
  have hr32 : (2 : ℚ) ^ (-32 : Int) ≤ r := by
    rw [h32]
    have : (1 / 4294967296 : ℚ) ≤ (c : ℚ) / w * (1 - 1 / 9007199254740992) := by
      have h3 : (1 / 2147483648 : ℚ) * (1 - 1 / 9007199254740992) ≤
          (c : ℚ) / w * (1 - 1 / 9007199254740992) :=
        mul_le_mul_of_nonneg_right halow (by norm_num)
      have h4 : (1 / 4294967296 : ℚ) ≤ 1 / 2147483648 * (1 - 1 / 9007199254740992) := by
        norm_num
      exact h4.trans h3
    exact this.trans hlow
  refine ⟨lt_of_lt_of_le (by positivity) hr32, ?_, hr32⟩
  rw [h53]
  exact herr

/-- The rounded product of a non-negative value of binary64 and a factor of
at most 1 is at most that value. -/
theorem Double.clip_product (q r : ℚ) (hq : 0 ≤ q) (hrep : Double.isBinary64 q) (hr1 : r ≤ 1) :
    Double.le (Double.rounded (Double.mul (Double.finite q) (Double.finite r)))
      (Double.finite q) = true := by
  show Double.le (Double.round (q * r)) (Double.finite q) = true
  rcases eq_or_lt_of_le hq with h0 | hpos
  · rw [← h0, zero_mul, Double.round_zero]
    simp [Double.le]
  · apply Double.round_le_of_le _ _ hpos hrep
    calc q * r ≤ q * 1 := mul_le_mul_of_nonneg_left hr1 hq
      _ = q := by ring

/-- The rounded product of a value of binary64 that is at least 1 and a
rounded ratio is finite and within `2 ^ -51` of the exact product with the
exact ratio. -/
theorem Double.clip_product_error (q r a : ℚ) (hq : 1 ≤ q) (hrep : Double.isBinary64 q)
    (hr1 : r ≤ 1) (hr32 : (2 : ℚ) ^ (-32 : Int) ≤ r) (ha : 0 < a)
    (herr : |r - a| ≤ a * (2 : ℚ) ^ (-53 : Int)) :
    ∃ p, Double.rounded (Double.mul (Double.finite q) (Double.finite r)) = Double.finite p ∧
      |p - q * a| ≤ q * a * (2 : ℚ) ^ (-51 : Int) := by
  have hq0 : (0 : ℚ) < q := lt_of_lt_of_le (by norm_num) hq
  have h32 : (2 : ℚ) ^ (-32 : Int) = 1 / 4294967296 := by norm_num
  have h53 : (2 : ℚ) ^ (-53 : Int) = 1 / 9007199254740992 := by norm_num
  have h51 : (2 : ℚ) ^ (-51 : Int) = 1 / 2251799813685248 := by norm_num
  have hrpos : 0 < r := lt_of_lt_of_le (by positivity) hr32
  have hxpos : 0 < q * r := mul_pos hq0 hrpos
  have hle := Double.clip_product q r hq0.le hrep hr1
  change Double.le (Double.round (q * r)) (Double.finite q) = true at hle
  show ∃ p, Double.round (q * r) = Double.finite p ∧ _
  have hfin : ∃ p, Double.round (q * r) = Double.finite p := by
    unfold Double.round at hle ⊢
    split_ifs at hle ⊢ with hov
    · simp [Double.le, not_lt.mpr hxpos.le] at hle
    · exact ⟨_, rfl⟩
  obtain ⟨p, hp⟩ := hfin
  refine ⟨p, hp, ?_⟩
  have hnorm : (2 : ℚ) ^ (-1022 : Int) ≤ |q * r| := by
    rw [abs_of_pos hxpos]
    have h1 : (2 : ℚ) ^ (-1022 : Int) ≤ (2 : ℚ) ^ (-32 : Int) :=
      zpow_le_zpow_right₀ (by norm_num) (by norm_num)
    have h2 : (2 : ℚ) ^ (-32 : Int) ≤ q * r := by
      calc (2 : ℚ) ^ (-32 : Int) ≤ r := hr32
        _ = 1 * r := (one_mul r).symm
        _ ≤ q * r := mul_le_mul_of_nonneg_right hq hrpos.le
    exact h1.trans h2
  have hperr := Double.round_error _ p hnorm hp
  rw [abs_of_pos hxpos, h53] at hperr
  rw [h53] at herr
  rw [h51]
  have hqa : 0 < q * a := mul_pos hq0 ha
  -- the two errors add up
  have e1 := abs_le.mp hperr
  have e2 := abs_le.mp herr
  have hru : r ≤ a * (1 + 1 / 9007199254740992) := by linarith [e2.2]
  have hrl : a * (1 - 1 / 9007199254740992) ≤ r := by linarith [e2.1]
  have hqru : q * r ≤ q * (a * (1 + 1 / 9007199254740992)) :=
    mul_le_mul_of_nonneg_left hru hq0.le
  have hqrl : q * (a * (1 - 1 / 9007199254740992)) ≤ q * r :=
    mul_le_mul_of_nonneg_left hrl hq0.le
  rw [abs_le]
  constructor <;> nlinarith [e1.1, e1.2, hqru, hqrl, hqa]

theorem Double.isBinary64_1600 : Double.isBinary64 1600 := by
  have := Double.round_eq 1600 10 7036874417766400 (by norm_num) (by norm_num) (by norm_num)
    (by norm_num)
    (Double.roundHalfEven_eq _ 7036874417766400 _ (by norm_num) (by norm_num) (by norm_num))
  unfold Double.isBinary64
  rw [this]
  norm_num

theorem Double.isBinary64_1000 : Double.isBinary64 1000 := by
  have := Double.round_eq 1000 9 8796093022208000 (by norm_num) (by norm_num) (by norm_num)
    (by norm_num)
    (Double.roundHalfEven_eq _ 8796093022208000 _ (by norm_num) (by norm_num) (by norm_num))
  unfold Double.isBinary64
  rw [this]
  norm_num

/-- Inside the output bounds, `ClipPlane` with rounding is the identity as
well, on every state whose finite source sizes are values of binary64: the ratio
`n / double( n )` is 1.0 and the product with 1.0 is exact. -/
theorem ClipPlaneRounded_identity_inside (g_nOutputWidth g_nOutputHeight : Int)
    (state : WaylandPlaneState)
    (hw : state.nDestX + state.nDstWidth ≤ g_nOutputWidth)
    (hh : state.nDestY + state.nDstHeight ≤ g_nOutputHeight)
    (hw0 : state.nDstWidth ≠ 0) (hh0 : state.nDstHeight ≠ 0)
    (hsw : ∀ q, state.flSrcWidth = Double.finite q → Double.isBinary64 q)
    (hsh : ∀ q, state.flSrcHeight = Double.finite q → Double.isBinary64 q) :
    ClipPlaneRounded g_nOutputWidth g_nOutputHeight state = state := by
  have h1 : min g_nOutputWidth (state.nDstWidth + state.nDestX) - state.nDestX
      = state.nDstWidth := by
    rw [min_eq_right (by omega)]; omega
  have h2 : min g_nOutputHeight (state.nDstHeight + state.nDestY) - state.nDestY
      = state.nDstHeight := by
    rw [min_eq_right (by omega)]; omega
  have hone : Double.rounded (Double.finite 1) = Double.finite 1 := Double.isBinary64_one
  have hid : ∀ x : Double, (∀ q, x = Double.finite q → Double.isBinary64 q) →
      Double.rounded x = x := by
    intro x hx
    cases x with
    | finite q => exact hx q rfl
    | inf s => rfl
    | nan => rfl
  simp only [ClipPlaneRounded, h1, h2, Double.div_self_ofInt _ hw0, Double.div_self_ofInt _ hh0,
    hone, Double.mul_one, hid _ hsw, hid _ hsh]

/-- C10 fails as stated.  On an output of width 947, a state at the origin with
the destination width 1600 and the source width 1600.0, a value of binary64,
crosses the right edge and nothing overflows.  `ClipPlane` returns the
destination width 947, and as source width the rounded product of 1600.0 and
the rounded ratio 947 / 1600.0, which is 947 + 2^-43 (947.0000000000001) and
not 1600 * 947 / 1600 = 947. -/
theorem C10_counterexample_rounded_product :
    ((1600 : Int) > 947 - 0 ∧ Double.isBinary64 1600 ∧
      ClipPlaneInRange 947 900
        ⟨some 1, 0, 0, Double.finite 0, Double.finite 0, Double.finite 1600, Double.finite 900,
          1600, 900, GamescopeAppTextureColorspace.GAMESCOPE_APP_TEXTURE_COLORSPACE_SRGB, none,
          true, 120⟩) ∧
    (ClipPlaneRounded 947 900
      ⟨some 1, 0, 0, Double.finite 0, Double.finite 0, Double.finite 1600, Double.finite 900,
        1600, 900, GamescopeAppTextureColorspace.GAMESCOPE_APP_TEXTURE_COLORSPACE_SRGB, none,
        true, 120⟩).nDstWidth = 947 - 0 ∧
    (ClipPlaneRounded 947 900
      ⟨some 1, 0, 0, Double.finite 0, Double.finite 0, Double.finite 1600, Double.finite 900,
        1600, 900, GamescopeAppTextureColorspace.GAMESCOPE_APP_TEXTURE_COLORSPACE_SRGB, none,
        true, 120⟩).flSrcWidth = Double.finite (947 + 1 / 8796093022208) ∧
    (ClipPlaneRounded 947 900
      ⟨some 1, 0, 0, Double.finite 0, Double.finite 0, Double.finite 1600, Double.finite 900,
        1600, 900, GamescopeAppTextureColorspace.GAMESCOPE_APP_TEXTURE_COLORSPACE_SRGB, none,
        true, 120⟩).flSrcWidth ≠ Double.finite (1600 * 947 / 1600) := by
  have h1 : Double.round (947 / 1600) =
      Double.finite (5331136058899825 / 9007199254740992) := by
    have := Double.round_eq (947 / 1600) (-1) 5331136058899825 (by norm_num [abs_of_pos])
      (by norm_num [abs_of_pos]) (by norm_num) (by norm_num)
      (Double.roundHalfEven_eq _ 5331136058899824 _ (by norm_num) (by norm_num) (by norm_num))
    rw [this]
    norm_num
  have h2 : Double.round (1600 * (5331136058899825 / 9007199254740992)) =
      Double.finite (947 + 1 / 8796093022208) := by
    have := Double.round_eq (1600 * (5331136058899825 / 9007199254740992)) 9 8329900092030977
      (by norm_num [abs_of_pos]) (by norm_num [abs_of_pos]) (by norm_num) (by norm_num)
      (Double.roundHalfEven_eq _ 8329900092030976 _ (by norm_num) (by norm_num) (by norm_num))
    rw [this]
    norm_num
  have hsrc : (ClipPlaneRounded 947 900
      ⟨some 1, 0, 0, Double.finite 0, Double.finite 0, Double.finite 1600, Double.finite 900,
        1600, 900, GamescopeAppTextureColorspace.GAMESCOPE_APP_TEXTURE_COLORSPACE_SRGB, none,
        true, 120⟩).flSrcWidth = Double.finite (947 + 1 / 8796093022208) := by
    have hmin : min (947 : Int) (1600 + 0) - 0 = 947 := by decide
    simp only [ClipPlaneRounded, hmin]
    have hd : Double.div (Double.ofInt 947) (Double.ofInt 1600) =
        Double.finite (947 / 1600) := by
      simp [Double.div, Double.ofInt]
    rw [hd]
    show Double.rounded (Double.mul (Double.finite 1600) (Double.round (947 / 1600))) = _
    rw [h1]
    show Double.round (1600 * (5331136058899825 / 9007199254740992)) = _
    exact h2
  refine ⟨⟨by decide, Double.isBinary64_1600,
    by simp only [ClipPlaneInRange, fitsInt32]; decide⟩, ?_, hsrc, ?_⟩
  · simp [ClipPlaneRounded]
  · rw [hsrc]
    intro h
    injection h with h
    norm_num at h

/-- C10, amended: for every state on which the `int32_t` sums and differences
of `ClipPlane` do not overflow, with the quotient and the product of doubles
rounded to binary64.  When `nDstWidth > g_nOutputWidth - nDestX`, `ClipPlane`
returns the destination width `nDstWidth' = g_nOutputWidth - nDestX` and as
source width the rounded product of `flSrcWidth` and the rounded ratio
`nDstWidth' / double( nDstWidth )`; likewise for the heights.  The destination
width and height do not grow.  For a source size that is a non-negative value
of binary64 and a positive destination size, the source size does not grow.
For a source size of at least 1 and positive destination sizes before and
after, the source size returned is finite and differs from the exact
`flSrcWidth * nDstWidth' / nDstWidth` by at most the fraction `2 ^ -51` of
it. -/
theorem C10_ClipPlane_scales_down (g_nOutputWidth g_nOutputHeight : Int)
    (state : WaylandPlaneState)
    (hrange : ClipPlaneInRange g_nOutputWidth g_nOutputHeight state) :
    (state.nDstWidth > g_nOutputWidth - state.nDestX →
      (ClipPlaneRounded g_nOutputWidth g_nOutputHeight state).nDstWidth =
        g_nOutputWidth - state.nDestX ∧
      (ClipPlaneRounded g_nOutputWidth g_nOutputHeight state).flSrcWidth =
        Double.rounded (Double.mul state.flSrcWidth
          (Double.rounded (Double.div (Double.ofInt (g_nOutputWidth - state.nDestX))
            (Double.ofInt state.nDstWidth))))) ∧
    (state.nDstHeight > g_nOutputHeight - state.nDestY →
      (ClipPlaneRounded g_nOutputWidth g_nOutputHeight state).nDstHeight =
        g_nOutputHeight - state.nDestY ∧
      (ClipPlaneRounded g_nOutputWidth g_nOutputHeight state).flSrcHeight =
        Double.rounded (Double.mul state.flSrcHeight
          (Double.rounded (Double.div (Double.ofInt (g_nOutputHeight - state.nDestY))
            (Double.ofInt state.nDstHeight))))) ∧
    (ClipPlaneRounded g_nOutputWidth g_nOutputHeight state).nDstWidth ≤ state.nDstWidth ∧
    (ClipPlaneRounded g_nOutputWidth g_nOutputHeight state).nDstHeight ≤ state.nDstHeight ∧
    (∀ q : ℚ, state.flSrcWidth = Double.finite q → Double.isBinary64 q → 0 ≤ q →
      0 < state.nDstWidth →
      Double.le (ClipPlaneRounded g_nOutputWidth g_nOutputHeight state).flSrcWidth
        state.flSrcWidth = true) ∧
    (∀ q : ℚ, state.flSrcHeight = Double.finite q → Double.isBinary64 q → 0 ≤ q →
      0 < state.nDstHeight →
      Double.le (ClipPlaneRounded g_nOutputWidth g_nOutputHeight state).flSrcHeight
        state.flSrcHeight = true) ∧
    (∀ q : ℚ, state.flSrcWidth = Double.finite q → Double.isBinary64 q → 1 ≤ q →
      0 < state.nDstWidth →
      0 < (ClipPlaneRounded g_nOutputWidth g_nOutputHeight state).nDstWidth →
      ∃ p, (ClipPlaneRounded g_nOutputWidth g_nOutputHeight state).flSrcWidth =
          Double.finite p ∧
        |p - q * ((ClipPlaneRounded g_nOutputWidth g_nOutputHeight state).nDstWidth : ℚ) /
            state.nDstWidth| ≤
          q * ((ClipPlaneRounded g_nOutputWidth g_nOutputHeight state).nDstWidth : ℚ) /
            state.nDstWidth * (2 : ℚ) ^ (-51 : Int)) ∧
    (∀ q : ℚ, state.flSrcHeight = Double.finite q → Double.isBinary64 q → 1 ≤ q →
      0 < state.nDstHeight →
      0 < (ClipPlaneRounded g_nOutputWidth g_nOutputHeight state).nDstHeight →
      ∃ p, (ClipPlaneRounded g_nOutputWidth g_nOutputHeight state).flSrcHeight =
          Double.finite p ∧
        |p - q * ((ClipPlaneRounded g_nOutputWidth g_nOutputHeight state).nDstHeight : ℚ) /
            state.nDstHeight| ≤
          q * ((ClipPlaneRounded g_nOutputWidth g_nOutputHeight state).nDstHeight : ℚ) /
            state.nDstHeight * (2 : ℚ) ^ (-51 : Int)) := by
  obtain ⟨_, _, _, _, hfw, hfh, _, _, hdw, hdh⟩ := hrange
  have hcw : min g_nOutputWidth (state.nDstWidth + state.nDestX) - state.nDestX ≤
      state.nDstWidth := by
    have := min_le_right g_nOutputWidth (state.nDstWidth + state.nDestX)
    omega
  have hch : min g_nOutputHeight (state.nDstHeight + state.nDestY) - state.nDestY ≤
      state.nDstHeight := by
    have := min_le_right g_nOutputHeight (state.nDstHeight + state.nDestY)
    omega
  -- the two facts about a source size, for either axis
  have hle : ∀ (c w : Int) (q : ℚ), fitsInt32 c → fitsInt32 w → c ≤ w → Double.isBinary64 q →
      0 ≤ q → 0 < w →
      Double.le (Double.rounded (Double.mul (Double.finite q)
        (Double.rounded (Double.div (Double.ofInt c) (Double.ofInt w))))) (Double.finite q)
        = true := by
    intro c w q hc hfw hcw hrep hq hw
    obtain ⟨r, hr, hr1, _⟩ := Double.clip_ratio c w hw hc hfw hcw
    rw [hr]
    exact Double.clip_product q r hq hrep hr1
  have herr : ∀ (c w : Int) (q : ℚ), fitsInt32 c → fitsInt32 w → c ≤ w → Double.isBinary64 q →
      1 ≤ q → 0 < w → 0 < c →
      ∃ p, Double.rounded (Double.mul (Double.finite q)
          (Double.rounded (Double.div (Double.ofInt c) (Double.ofInt w)))) = Double.finite p ∧
        |p - q * (c : ℚ) / w| ≤ q * (c : ℚ) / w * (2 : ℚ) ^ (-51 : Int) := by
    intro c w q hc hfw hcw hrep hq hw hcpos
    obtain ⟨r, hr, hr1, hr2⟩ := Double.clip_ratio c w hw hc hfw hcw
    obtain ⟨_, e1, e2⟩ := hr2 hcpos
    have hapos : (0 : ℚ) < (c : ℚ) / w :=
      div_pos (by exact_mod_cast hcpos) (by exact_mod_cast hw)
    obtain ⟨p, hp, hpe⟩ := Double.clip_product_error q r ((c : ℚ) / w) hq hrep hr1 e2 hapos e1
    refine ⟨p, by rw [hr]; exact hp, ?_⟩
    rw [mul_div_assoc]
    exact hpe
  refine ⟨?_, ?_, ?_, ?_, ?_, ?_, ?_, ?_⟩
  · intro h
    have h1 : min g_nOutputWidth (state.nDstWidth + state.nDestX) = g_nOutputWidth :=
      min_eq_left (by omega)
    exact ⟨by simp [ClipPlaneRounded, h1], by simp only [ClipPlaneRounded, h1]⟩
  · intro h
    have h1 : min g_nOutputHeight (state.nDstHeight + state.nDestY) = g_nOutputHeight :=
      min_eq_left (by omega)
    exact ⟨by simp [ClipPlaneRounded, h1], by simp only [ClipPlaneRounded, h1]⟩
  · exact hcw
  · exact hch
  · intro q hsrc hrep hq hw
    simp only [ClipPlaneRounded, hsrc]
    exact hle _ _ q hdw hfw hcw hrep hq hw
  · intro q hsrc hrep hq hh
    simp only [ClipPlaneRounded, hsrc]
    exact hle _ _ q hdh hfh hch hrep hq hh
  · intro q hsrc hrep hq hw hc
    simp only [ClipPlaneRounded, hsrc]
    exact herr _ _ q hdw hfw hcw hrep hq hw hc
  · intro q hsrc hrep hq hh hc
    simp only [ClipPlaneRounded, hsrc]
    exact herr _ _ q hdh hfh hch hrep hq hh hc

/-- C10 on a concrete state: a 1000x600 layer at (640, 360) on a 1280x720
output, where nothing overflows, is clipped to the width 640, and its source
width, 1000.0, does not grow. -/
theorem C10_ClipPlane_scales_down_witness :
    (ClipPlaneRounded 1280 720
      ⟨some 1, 640, 360, Double.finite 0, Double.finite 0, Double.finite 1000, Double.finite 600,
        1000, 600, GamescopeAppTextureColorspace.GAMESCOPE_APP_TEXTURE_COLORSPACE_SRGB, none,
        true, 120⟩).nDstWidth = 1280 - 640 ∧
    Double.le (ClipPlaneRounded 1280 720
      ⟨some 1, 640, 360, Double.finite 0, Double.finite 0, Double.finite 1000, Double.finite 600,
        1000, 600, GamescopeAppTextureColorspace.GAMESCOPE_APP_TEXTURE_COLORSPACE_SRGB, none,
        true, 120⟩).flSrcWidth (Double.finite 1000) = true :=
  ⟨((C10_ClipPlane_scales_down 1280 720
      ⟨some 1, 640, 360, Double.finite 0, Double.finite 0, Double.finite 1000, Double.finite 600,
        1000, 600, GamescopeAppTextureColorspace.GAMESCOPE_APP_TEXTURE_COLORSPACE_SRGB, none,
        true, 120⟩
      (by simp only [ClipPlaneInRange, fitsInt32]; decide)).1 (by decide)).1,
    (C10_ClipPlane_scales_down 1280 720
      ⟨some 1, 640, 360, Double.finite 0, Double.finite 0, Double.finite 1000, Double.finite 600,
        1000, 600, GamescopeAppTextureColorspace.GAMESCOPE_APP_TEXTURE_COLORSPACE_SRGB, none,
        true, 120⟩
      (by simp only [ClipPlaneInRange, fitsInt32]; decide)).2.2.2.2.1 1000 rfl
      Double.isBinary64_1000 (by norm_num) (by decide)⟩

/-! ## C11 -/

/-- C11 fails as stated.  On a 1280x720 output, a 100x100 layer at (-10, 0)
intersects the output, nothing overflows, and `ClipPlane` returns it with
`nDestX` still -10 and its width still 100: the part left of the output is not
clipped. -/
theorem C11_counterexample_negative_origin :
    ((-10 : Int) < 1280 ∧ (0 : Int) < -10 + 100 ∧ (0 : Int) < 720 ∧ (0 : Int) < 0 + 100) ∧
    ClipPlaneInRange 1280 720
      ⟨some 1, -10, 0, Double.finite 0, Double.finite 0, Double.finite 100, Double.finite 100,
        100, 100, GamescopeAppTextureColorspace.GAMESCOPE_APP_TEXTURE_COLORSPACE_SRGB, none,
        true, 120⟩ ∧
    (ClipPlane 1280 720
      ⟨some 1, -10, 0, Double.finite 0, Double.finite 0, Double.finite 100, Double.finite 100,
        100, 100, GamescopeAppTextureColorspace.GAMESCOPE_APP_TEXTURE_COLORSPACE_SRGB, none,
        true, 120⟩).nDestX = -10 ∧
    (ClipPlane 1280 720
      ⟨some 1, -10, 0, Double.finite 0, Double.finite 0, Double.finite 100, Double.finite 100,
        100, 100, GamescopeAppTextureColorspace.GAMESCOPE_APP_TEXTURE_COLORSPACE_SRGB, none,
        true, 120⟩).nDstWidth = 100 ∧
    ¬ (0 ≤ (ClipPlane 1280 720
      ⟨some 1, -10, 0, Double.finite 0, Double.finite 0, Double.finite 100, Double.finite 100,
        100, 100, GamescopeAppTextureColorspace.GAMESCOPE_APP_TEXTURE_COLORSPACE_SRGB, none,
        true, 120⟩).nDestX) := by
  refine ⟨by decide, by simp only [ClipPlaneInRange, fitsInt32]; decide, ?_, ?_, ?_⟩ <;>
    simp [ClipPlane]

/-- C11, amended: for every state on which the `int32_t` sums and differences
of `ClipPlane` do not overflow, `ClipPlane` does not change `nDestX` and
`nDestY` and clips the right and bottom edges, so the returned rectangle ends
at `min( g_nOutputWidth, nDestX + nDstWidth )` and
`min( g_nOutputHeight, nDestY + nDstHeight )`, inside the output, and its
members are again values of `int32_t`.  For such a state with `0 <= nDestX`
and `0 <= nDestY` the returned rectangle is the overlap of the input rectangle
with the output, and it is not empty when the input rectangle intersects the
output. -/
theorem C11_ClipPlane_clips_right_and_bottom (g_nOutputWidth g_nOutputHeight : Int)
    (state : WaylandPlaneState)
    (hrange : ClipPlaneInRange g_nOutputWidth g_nOutputHeight state) :
    ((ClipPlane g_nOutputWidth g_nOutputHeight state).nDestX = state.nDestX ∧
      (ClipPlane g_nOutputWidth g_nOutputHeight state).nDestY = state.nDestY ∧
      (ClipPlane g_nOutputWidth g_nOutputHeight state).nDestX +
        (ClipPlane g_nOutputWidth g_nOutputHeight state).nDstWidth =
          min g_nOutputWidth (state.nDestX + state.nDstWidth) ∧
      (ClipPlane g_nOutputWidth g_nOutputHeight state).nDestY +
        (ClipPlane g_nOutputWidth g_nOutputHeight state).nDstHeight =
          min g_nOutputHeight (state.nDestY + state.nDstHeight) ∧
      (ClipPlane g_nOutputWidth g_nOutputHeight state).nDestX +
        (ClipPlane g_nOutputWidth g_nOutputHeight state).nDstWidth ≤ g_nOutputWidth ∧
      (ClipPlane g_nOutputWidth g_nOutputHeight state).nDestY +
        (ClipPlane g_nOutputWidth g_nOutputHeight state).nDstHeight ≤ g_nOutputHeight ∧
      fitsInt32 (ClipPlane g_nOutputWidth g_nOutputHeight state).nDstWidth ∧
      fitsInt32 (ClipPlane g_nOutputWidth g_nOutputHeight state).nDstHeight) ∧
    (0 ≤ state.nDestX → 0 ≤ state.nDestY →
      (ClipPlane g_nOutputWidth g_nOutputHeight state).nDestX = max 0 state.nDestX ∧
      (ClipPlane g_nOutputWidth g_nOutputHeight state).nDestY = max 0 state.nDestY ∧
      0 ≤ (ClipPlane g_nOutputWidth g_nOutputHeight state).nDestX ∧
      0 ≤ (ClipPlane g_nOutputWidth g_nOutputHeight state).nDestY ∧
      (state.nDestX < g_nOutputWidth → 0 < state.nDstWidth →
        0 < (ClipPlane g_nOutputWidth g_nOutputHeight state).nDstWidth) ∧
      (state.nDestY < g_nOutputHeight → 0 < state.nDstHeight →
        0 < (ClipPlane g_nOutputWidth g_nOutputHeight state).nDstHeight)) := by
  have hw := min_le_left g_nOutputWidth (state.nDstWidth + state.nDestX)
  have hh := min_le_left g_nOutputHeight (state.nDstHeight + state.nDestY)
  obtain ⟨_, _, _, _, _, _, _, _, hdw, hdh⟩ := hrange
  refine ⟨⟨rfl, rfl, ?_, ?_, ?_, ?_, hdw, hdh⟩, ?_⟩
  · simp only [ClipPlane]; rw [add_comm state.nDestX state.nDstWidth]; omega
  · simp only [ClipPlane]; rw [add_comm state.nDestY state.nDstHeight]; omega
  · simp only [ClipPlane]; omega
  · simp only [ClipPlane]; omega
  · intro hx hy
    refine ⟨?_, ?_, hx, hy, ?_, ?_⟩
    · simp only [ClipPlane]; omega
    · simp only [ClipPlane]; omega
    · intro h1 h2
      simp only [ClipPlane]
      rcases le_total g_nOutputWidth (state.nDstWidth + state.nDestX) with h | h
      · rw [min_eq_left h]; omega
      · rw [min_eq_right h]; omega
    · intro h1 h2
      simp only [ClipPlane]
      rcases le_total g_nOutputHeight (state.nDstHeight + state.nDestY) with h | h
      · rw [min_eq_left h]; omega
      · rw [min_eq_right h]; omega

/-- C11 on a concrete state: a 1000x600 layer at (640, 360) on a 1280x720
output, where nothing overflows, keeps its origin and is cut to a non-empty
rectangle inside the output. -/
theorem C11_ClipPlane_clips_right_and_bottom_witness :
    (ClipPlane 1280 720
      ⟨some 1, 640, 360, Double.finite 0, Double.finite 0, Double.finite 1000, Double.finite 600,
        1000, 600, GamescopeAppTextureColorspace.GAMESCOPE_APP_TEXTURE_COLORSPACE_SRGB, none,
        true, 120⟩).nDestX = max 0 640 ∧
    0 < (ClipPlane 1280 720
      ⟨some 1, 640, 360, Double.finite 0, Double.finite 0, Double.finite 1000, Double.finite 600,
        1000, 600, GamescopeAppTextureColorspace.GAMESCOPE_APP_TEXTURE_COLORSPACE_SRGB, none,
        true, 120⟩).nDstWidth :=
  ⟨((C11_ClipPlane_clips_right_and_bottom 1280 720
      ⟨some 1, 640, 360, Double.finite 0, Double.finite 0, Double.finite 1000, Double.finite 600,
        1000, 600, GamescopeAppTextureColorspace.GAMESCOPE_APP_TEXTURE_COLORSPACE_SRGB, none,
        true, 120⟩
      (by simp only [ClipPlaneInRange, fitsInt32]; decide)).2 (by decide) (by decide)).1,
    ((C11_ClipPlane_clips_right_and_bottom 1280 720
      ⟨some 1, 640, 360, Double.finite 0, Double.finite 0, Double.finite 1000, Double.finite 600,
        1000, 600, GamescopeAppTextureColorspace.GAMESCOPE_APP_TEXTURE_COLORSPACE_SRGB, none,
        true, 120⟩
      (by simp only [ClipPlaneInRange, fitsInt32]; decide)).2 (by decide)
      (by decide)).2.2.2.2.1 (by decide) (by decide)⟩

/-! ## C12 -/

/-- C12 fails as stated.  At scale 30/120 the value 3 goes to the physical
value 0 and back to the logical value 0, which is 3 away; and at scale
120/120 the value 4294967295 overflows `pValue * pFactor` and comes back as
35791393. -/
theorem C12_counterexample_round_trip :
    ((0 : Nat) < 3 ∧ (0 : Nat) < 30 ∧ (30 : Nat) ≤ 480 ∧
      WaylandScaleToLogical (WaylandScaleToPhysical 3 30) 30 = 0 ∧
      ¬ (3 ≤ WaylandScaleToLogical (WaylandScaleToPhysical 3 30) 30 + 1)) ∧
    ((4294967295 : Nat) < 4294967296 ∧ (0 : Nat) < 120 ∧ (120 : Nat) ≤ 480 ∧
      WaylandScaleToLogical (WaylandScaleToPhysical 4294967295 120) 120 = 35791393 ∧
      ¬ (4294967295 ≤ WaylandScaleToLogical (WaylandScaleToPhysical 4294967295 120) 120 + 1)) := by
  decide

/-- C12, amended: for every `v > 0` and every scale `s` with `60 <= s <= 480`
such that `v * s + s <= 2^32`, so that no intermediate value wraps, the logical
value of the physical value of `v` is `v` or `v - 1`, hence within 1 of `v`. -/
theorem C12_scale_round_trip (v s : Nat) (hv : 0 < v) (hs : 60 ≤ s) (_hs2 : s ≤ 480)
    (hfit : v * s + s ≤ 4294967296) :
    WaylandScaleToLogical (WaylandScaleToPhysical v s) s ≤ v ∧
    v ≤ WaylandScaleToLogical (WaylandScaleToPhysical v s) s + 1 := by
  have hs0 : 0 < s := by omega
  have hfit1 : v * s < 4294967296 := by omega
  simp only [WaylandScaleToLogical, WaylandScaleToPhysical, div_roundup,
    WL_FRACTIONAL_SCALE_DENOMINATOR, Nat.mod_eq_of_lt hfit1]
  have hvs : (v - 1) * s = v * s - s := by rw [Nat.sub_mul, Nat.one_mul]
  have hvs2 : (v + 1) * s = v * s + s := by rw [Nat.add_mul, Nat.one_mul]
  have hle : s ≤ v * s := Nat.le_mul_of_pos_left s hv
  generalize v * s = m at hfit hfit1 hvs hvs2 hle
  have h1 : m / 120 * 120 ≤ m := Nat.div_mul_le_self m 120
  have h2 : m < m / 120 * 120 + 120 := by omega
  rw [Nat.mod_eq_of_lt (show m / 120 * 120 < 4294967296 by omega),
    Nat.mod_eq_of_lt (show m / 120 * 120 + (s - 1) < 4294967296 by omega)]
  constructor
  · rw [← Nat.lt_succ_iff, Nat.div_lt_iff_lt_mul hs0, Nat.succ_eq_add_one, hvs2]
    omega
  · have hle2 : (v - 1) * s ≤ m / 120 * 120 + (s - 1) := by
      rw [hvs]
      omega
    have := (Nat.le_div_iff_mul_le hs0).mpr hle2
    omega

/-- C12 on concrete values: 1280 at scale 180/120. -/
theorem C12_scale_round_trip_witness :
    WaylandScaleToLogical (WaylandScaleToPhysical 1280 180) 180 ≤ 1280 ∧
    1280 ≤ WaylandScaleToLogical (WaylandScaleToPhysical 1280 180) 180 + 1 :=
  C12_scale_round_trip 1280 180 (by decide) (by decide) (by decide) (by decide)

/-! ## C13, C14 -/

theorem CWaylandFb.run_of_append (self : CWaylandFb) (ops ops2 : List FbOp)
    (h : (CWaylandFb.run self ops).bReturned = true) :
    CWaylandFb.run self (ops ++ ops2) =
      ⟨(CWaylandFb.run (CWaylandFb.run self ops).self ops2).bReturned,
        (CWaylandFb.run (CWaylandFb.run self ops).self ops2).self,
        (CWaylandFb.run self ops).events ++
          (CWaylandFb.run (CWaylandFb.run self ops).self ops2).events⟩ := by
  induction ops generalizing self with
  | nil => simp [CWaylandFb.run]
  | cons op ops ih =>
    by_cases hr : (op.perform self).bReturned = true
    · simp only [CWaylandFb.run, hr, if_true] at h
      have e := ih _ h
      show CWaylandFb.run self (op :: (ops ++ ops2)) = _
      simp only [CWaylandFb.run, hr, if_true, List.append_assoc]
      rw [e]
    · simp only [CWaylandFb.run, hr] at h
      exact absurd h (by simpa using hr)

theorem CWaylandFb.run_acquire_of_acquired (self : CWaylandFb)
    (h : self.m_bCompositorAcquired = true) (n : Nat) :
    CWaylandFb.run self (List.replicate n FbOp.OnCompositorAcquire) = ⟨true, self, []⟩ := by
  induction n with
  | zero => rfl
  | succ n ih =>
    simp [List.replicate_succ, CWaylandFb.run, FbOp.perform, CWaylandFb.OnCompositorAcquire, h, ih]

theorem CWaylandFb.run_release_of_not_acquired (self : CWaylandFb)
    (h : self.m_bCompositorAcquired = false) (n : Nat) :
    CWaylandFb.run self (List.replicate n FbOp.OnCompositorRelease) =
      ⟨true, self, List.replicate n FbEvent.errorf⟩ := by
  induction n with
  | zero => rfl
  | succ n ih =>
    simp [List.replicate_succ, CWaylandFb.run, FbOp.perform, CWaylandFb.OnCompositorRelease, h, ih]

theorem CWaylandFb.run_acquire_of_not_acquired (self : CWaylandFb)
    (h : self.m_bCompositorAcquired = false) (n : Nat) :
    CWaylandFb.run self (List.replicate (n + 1) FbOp.OnCompositorAcquire) =
      ⟨true, ⟨self.m_uRefCount + 1, self.m_pHostBuffer, true⟩, [FbEvent.IncRef]⟩ := by
  simp [List.replicate_succ, CWaylandFb.run, FbOp.perform, CWaylandFb.OnCompositorAcquire, h,
    CWaylandFb.IncRef, CWaylandFb.run_acquire_of_acquired]

theorem CWaylandFb.run_release_of_acquired (self : CWaylandFb)
    (h : self.m_bCompositorAcquired = true) (n : Nat) :
    CWaylandFb.run self (List.replicate (n + 1) FbOp.OnCompositorRelease) =
      ⟨true, ⟨self.m_uRefCount - 1, self.m_pHostBuffer, false⟩,
        FbEvent.DecRef :: List.replicate n FbEvent.errorf⟩ := by
  simp [List.replicate_succ, CWaylandFb.run, FbOp.perform, CWaylandFb.OnCompositorRelease, h,
    CWaylandFb.DecRef, CWaylandFb.run_release_of_not_acquired]

theorem CWaylandFb.perform_balance (op : FbOp) (self : CWaylandFb) :
    (op.perform self).events.count FbEvent.DecRef +
        (op.perform self).self.m_bCompositorAcquired.toNat =
      (op.perform self).events.count FbEvent.IncRef + self.m_bCompositorAcquired.toNat := by
  cases h : self.m_bCompositorAcquired <;> cases op <;>
    simp [FbOp.perform, CWaylandFb.OnCompositorAcquire, CWaylandFb.OnCompositorRelease,
      CWaylandFb.Wayland_Buffer_Release, CWaylandFb.IncRef, CWaylandFb.DecRef, h] <;>
    (repeat' split) <;> simp_all

theorem CWaylandFb.run_balance (ops : List FbOp) (self : CWaylandFb) :
    (CWaylandFb.run self ops).events.count FbEvent.DecRef +
        (CWaylandFb.run self ops).self.m_bCompositorAcquired.toNat =
      (CWaylandFb.run self ops).events.count FbEvent.IncRef +
        self.m_bCompositorAcquired.toNat := by
  induction ops generalizing self with
  | nil => simp [CWaylandFb.run]
  | cons op ops ih =>
    have h1 := CWaylandFb.perform_balance op self
    by_cases hr : (op.perform self).bReturned = true
    · have h2 := ih (op.perform self).self
      simp only [CWaylandFb.run, hr, if_true, List.count_append]
      omega
    · simp only [CWaylandFb.run, hr]
      exact h1

/-- C13 fails as stated.  With N = 2, after two acquires and one release the
reference count of a framebuffer that started at 1 is back at 1, although the
second release has not been processed; the second release only logs an error. -/
theorem C13_counterexample_first_release_restores :
    (CWaylandFb.run ⟨1, some 7, false⟩
      [FbOp.OnCompositorAcquire, FbOp.OnCompositorAcquire, FbOp.OnCompositorRelease]).self.m_uRefCount
        = 1 ∧
    ¬ (1 < (CWaylandFb.run ⟨1, some 7, false⟩
      [FbOp.OnCompositorAcquire, FbOp.OnCompositorAcquire,
        FbOp.OnCompositorRelease]).self.m_uRefCount) ∧
    CWaylandFb.run ⟨1, some 7, false⟩
      [FbOp.OnCompositorAcquire, FbOp.OnCompositorAcquire, FbOp.OnCompositorRelease,
        FbOp.OnCompositorRelease] =
      ⟨true, ⟨1, some 7, false⟩, [FbEvent.IncRef, FbEvent.DecRef, FbEvent.errorf]⟩ := by
  decide

/-- C13, amended: on a framebuffer that is not marked compositor-acquired, for
every N >= 1, N calls of `OnCompositorAcquire` followed by N calls of
`OnCompositorRelease` leave the reference count equal to its value before the
sequence.  The count is one above that value after each of the acquires, and
it is back at that value as soon as the first release has been processed: the
sequence calls `IncRef` once, `DecRef` once, and logs N - 1 errors. -/
theorem C13_acquire_release_restores_count (self : CWaylandFb) (N : Nat) (hN : 1 ≤ N)
    (hfresh : self.m_bCompositorAcquired = false) :
    (CWaylandFb.run self (List.replicate N FbOp.OnCompositorAcquire ++
        List.replicate N FbOp.OnCompositorRelease)).self.m_uRefCount = self.m_uRefCount ∧
    (CWaylandFb.run self (List.replicate N FbOp.OnCompositorAcquire ++
        List.replicate N FbOp.OnCompositorRelease)).bReturned = true ∧
    (CWaylandFb.run self (List.replicate N FbOp.OnCompositorAcquire ++
        List.replicate N FbOp.OnCompositorRelease)).events =
      FbEvent.IncRef :: FbEvent.DecRef :: List.replicate (N - 1) FbEvent.errorf ∧
    (∀ j, 1 ≤ j → j ≤ N →
      (CWaylandFb.run self (List.replicate j FbOp.OnCompositorAcquire)).self.m_uRefCount =
        self.m_uRefCount + 1) ∧
    (∀ k, 1 ≤ k → k ≤ N →
      (CWaylandFb.run self (List.replicate N FbOp.OnCompositorAcquire ++
        List.replicate k FbOp.OnCompositorRelease)).self.m_uRefCount = self.m_uRefCount) := by
  obtain ⟨n, rfl⟩ : ∃ n, N = n + 1 := ⟨N - 1, by omega⟩
  have hA := CWaylandFb.run_acquire_of_not_acquired self hfresh
  have key : ∀ k, CWaylandFb.run self (List.replicate (n + 1) FbOp.OnCompositorAcquire ++
      List.replicate (k + 1) FbOp.OnCompositorRelease) =
        ⟨true, ⟨self.m_uRefCount, self.m_pHostBuffer, false⟩,
          FbEvent.IncRef :: FbEvent.DecRef :: List.replicate k FbEvent.errorf⟩ := by
    intro k
    rw [CWaylandFb.run_of_append _ _ _ (by rw [hA n]), hA n,
      CWaylandFb.run_release_of_acquired _ rfl]
    simp
  refine ⟨by rw [key n], by rw [key n], by rw [key n]; simp, ?_, ?_⟩
  · intro j hj _
    obtain ⟨i, rfl⟩ : ∃ i, j = i + 1 := ⟨j - 1, by omega⟩
    rw [hA i]
  · intro k hk _
    obtain ⟨i, rfl⟩ : ∃ i, k = i + 1 := ⟨k - 1, by omega⟩
    rw [key i]

/-- C13 on a concrete framebuffer: three acquires and three releases of a
framebuffer with reference count 1. -/
theorem C13_acquire_release_restores_count_witness :
    (CWaylandFb.run ⟨1, some 7, false⟩ (List.replicate 3 FbOp.OnCompositorAcquire ++
        List.replicate 3 FbOp.OnCompositorRelease)).self.m_uRefCount = 1 :=
  (C13_acquire_release_restores_count ⟨1, some 7, false⟩ 3 (by decide) rfl).1

/-- C14: when `OnCompositorRelease`, or the `release` callback of the host
buffer, runs on a framebuffer that is not marked compositor-acquired, an error
is logged (after the debug message of the callback), `DecRef` is not called,
and the reference count and the acquired flag are unchanged.  Over every sequence of acquire and release notifications
on such a framebuffer the number of `DecRef` calls is at most the number of
`IncRef` calls. -/
theorem C14_unbalanced_release_harmless (self : CWaylandFb)
    (h : self.m_bCompositorAcquired = false) :
    self.OnCompositorRelease = ⟨true, self, [FbEvent.errorf]⟩ ∧
    (∀ pBuffer, self.m_pHostBuffer ≠ none → self.m_pHostBuffer = pBuffer →
      self.Wayland_Buffer_Release pBuffer = ⟨true, self, [FbEvent.debugf, FbEvent.errorf]⟩) ∧
    (∀ pBuffer, (self.Wayland_Buffer_Release pBuffer).self = self ∧
      FbEvent.DecRef ∉ (self.Wayland_Buffer_Release pBuffer).events) ∧
    (∀ ops : List FbOp,
      (CWaylandFb.run self ops).events.count FbEvent.DecRef ≤
        (CWaylandFb.run self ops).events.count FbEvent.IncRef) := by
  have h0 : self.OnCompositorRelease = ⟨true, self, [FbEvent.errorf]⟩ := by
    simp [CWaylandFb.OnCompositorRelease, h]
  refine ⟨h0, ?_, ?_, ?_⟩
  · intro pBuffer h1 h2
    subst h2
    simp only [CWaylandFb.Wayland_Buffer_Release, if_neg h1, ne_eq, not_true_eq_false,
      if_false, h0]
  · intro pBuffer
    simp only [CWaylandFb.Wayland_Buffer_Release]
    (repeat' split) <;> simp [h0]
  · intro ops
    have := CWaylandFb.run_balance ops self
    rw [h] at this
    simp only [Bool.toNat_false] at this
    omega

/-- C14 on a concrete framebuffer: a release, an acquire and two releases. -/
theorem C14_unbalanced_release_harmless_witness :
    (CWaylandFb.run ⟨1, some 7, false⟩
      [FbOp.OnCompositorRelease, FbOp.OnCompositorAcquire, FbOp.Wayland_Buffer_Release (some 7),
        FbOp.OnCompositorRelease]).events.count FbEvent.DecRef ≤
    (CWaylandFb.run ⟨1, some 7, false⟩
      [FbOp.OnCompositorRelease, FbOp.OnCompositorAcquire, FbOp.Wayland_Buffer_Release (some 7),
        FbOp.OnCompositorRelease]).events.count FbEvent.IncRef :=
  (C14_unbalanced_release_harmless ⟨1, some 7, false⟩ rfl).2.2.2 _

/-! ## Planes -/

theorem CWaylandPlane.GetScale_of_parents (m_Planes : Nat → CWaylandPlane) (self : CWaylandPlane)
    (h0 : (m_Planes 0).m_pParent = none)
    (h : self.m_pParent = none ∨ self.m_pParent = some 0) :
    ∃ uScale, CWaylandPlane.GetScale m_Planes 8 self = some uScale := by
  rcases h with h | h
  · exact ⟨self.m_uFractionalScale, by simp [CWaylandPlane.GetScale, h]⟩
  · exact ⟨(m_Planes 0).m_uFractionalScale, by simp [CWaylandPlane.GetScale, h, h0]⟩

theorem PlaneEvent.asPresentLayer_of_not_isCall (e : PlaneEvent) (h : e.isCall = false) :
    e.asPresentLayer = none := by
  cases e <;> simp_all [PlaneEvent.isCall, PlaneEvent.asPresentLayer]

theorem PlaneEvent.asPresent_of_not_isCall (e : PlaneEvent) (h : e.isCall = false) :
    e.asPresent = none := by
  cases e <;> simp_all [PlaneEvent.isCall, PlaneEvent.asPresent]

theorem PlaneEvent.isCommit_of_not_isCall (e : PlaneEvent) (h : e.isCall = false) :
    e.isCommit = false := by
  cases e <;> simp_all [PlaneEvent.isCall, PlaneEvent.isCommit]

theorem CWaylandPlane.UpdateColorState_spec (X : WaylandExternals) (g : WaylandGlobals)
    (colorState : WaylandPlaneColorState) (self : CWaylandPlane) :
    (CWaylandPlane.UpdateColorState X g colorState self).1.m_pParent = self.m_pParent ∧
    (CWaylandPlane.UpdateColorState X g colorState self).1.m_oCurrentPlaneState =
      self.m_oCurrentPlaneState ∧
    (∀ e ∈ (CWaylandPlane.UpdateColorState X g colorState self).2, e.isCall = false) := by
  unfold CWaylandPlane.UpdateColorState
  cases self.m_pCurrentImageDescription <;> split_ifs <;> simp [PlaneEvent.isCall]

theorem CWaylandPlane.PresentColorManagement_spec (X : WaylandExternals) (g : WaylandGlobals)
    (state : WaylandPlaneState) (self : CWaylandPlane) :
    (CWaylandPlane.PresentColorManagement X g state self).1.m_pParent = self.m_pParent ∧
    (CWaylandPlane.PresentColorManagement X g state self).1.m_oCurrentPlaneState =
      self.m_oCurrentPlaneState ∧
    (∀ e ∈ (CWaylandPlane.PresentColorManagement X g state self).2, e.isCall = false) := by
  obtain ⟨h1, h2, h3⟩ :=
    CWaylandPlane.UpdateColorState_spec X g ⟨state.eColorspace, state.pHDRMetadata⟩ self
  unfold CWaylandPlane.PresentColorManagement
  split_ifs
  · split
    · refine ⟨h1, h2, ?_⟩
      intro e he
      rcases List.mem_append.mp he with he | he
      · exact h3 e he
      · simp only [List.mem_singleton] at he
        subst he
        rfl
    · refine ⟨h1, h2, ?_⟩
      intro e he
      rcases List.mem_append.mp he with he | he
      · exact h3 e he
      · simp only [List.mem_singleton] at he
        subst he
        rfl
  · refine ⟨rfl, rfl, ?_⟩
    cases state.eColorspace <;> simp [PlaneEvent.isCall]
  · exact ⟨rfl, rfl, by simp⟩

theorem PlaneEvent.filter_isCall_of_not (l : List PlaneEvent)
    (h : ∀ e ∈ l, e.isCall = false) : l.filter PlaneEvent.isCall = [] := by
  rw [List.filter_eq_nil_iff]
  intro e he
  simp [h e he]

theorem CWaylandPlane.Present_spec (X : WaylandExternals) (g : WaylandGlobals)
    (oState : Option WaylandPlaneState) (fbs : Nat → CWaylandFb) (self : CWaylandPlane)
    (h : ∀ state, oState = some state → state.pBuffer ≠ none) :
    (CWaylandPlane.Present X g oState fbs self).bReturned = true ∧
    (CWaylandPlane.Present X g oState fbs self).fbs = fbs ∧
    (CWaylandPlane.Present X g oState fbs self).self.m_pParent = self.m_pParent ∧
    (CWaylandPlane.Present X g oState fbs self).self.m_oCurrentPlaneState = oState ∧
    (CWaylandPlane.Present X g oState fbs self).events.filter PlaneEvent.isCall =
      [PlaneEvent.Present oState] := by
  cases oState with
  | none => simp [CWaylandPlane.Present, PlaneEvent.isCall]
  | some state =>
    have hb := h state rfl
    obtain ⟨h1, h2, h3⟩ := CWaylandPlane.PresentColorManagement_spec X g state
      { self with m_oCurrentPlaneState := some state }
    have h4 := PlaneEvent.filter_isCall_of_not _ h3
    simp only [CWaylandPlane.Present, if_neg hb]
    refine ⟨trivial, trivial, h1, h2, ?_⟩
    simp only [List.filter_append, h4]
    split_ifs <;> simp [PlaneEvent.isCall]

theorem CWaylandPlane.Commit_spec (g : WaylandGlobals) (m_Planes : Nat → CWaylandPlane)
    (fbs : Nat → CWaylandFb) (self : CWaylandPlane)
    (hs : ∃ uScale, CWaylandPlane.GetScale m_Planes 8 self = some uScale) :
    (CWaylandPlane.Commit g m_Planes fbs self).bReturned = true ∧
    (CWaylandPlane.Commit g m_Planes fbs self).fbs = fbs ∧
    (CWaylandPlane.Commit g m_Planes fbs self).self.m_pParent = self.m_pParent ∧
    (CWaylandPlane.Commit g m_Planes fbs self).self.m_oCurrentPlaneState =
      self.m_oCurrentPlaneState ∧
    (CWaylandPlane.Commit g m_Planes fbs self).events.filter PlaneEvent.isCall =
      [PlaneEvent.Commit] := by
  obtain ⟨uScale, hs⟩ := hs
  unfold CWaylandPlane.Commit CWaylandPlane.CommitLibDecor
  rw [hs]
  split_ifs <;> simp [PlaneEvent.isCall]

theorem ClipPlane_pBuffer (w h : Int) (state : WaylandPlaneState) :
    (ClipPlane w h state).pBuffer = state.pBuffer := rfl

theorem CWaylandFb.OnCompositorAcquire_m_pHostBuffer (self : CWaylandFb) :
    self.OnCompositorAcquire.self.m_pHostBuffer = self.m_pHostBuffer := by
  unfold CWaylandFb.OnCompositorAcquire
  split_ifs <;> rfl

theorem CWaylandFb.update_OnCompositorAcquire (fbs : Nat → CWaylandFb) (pFb h : Nat) :
    (Function.update fbs pFb (fbs pFb).OnCompositorAcquire.self h).m_pHostBuffer =
      (fbs h).m_pHostBuffer := by
  by_cases hh : h = pFb
  · subst hh
    rw [Function.update_same, CWaylandFb.OnCompositorAcquire_m_pHostBuffer]
  · rw [Function.update_noteq hh]

theorem CWaylandPlane.LayerBuffer_map (fbs : Nat → CWaylandFb) (pLayer : Option Layer_t) :
    (CWaylandPlane.LayerBuffer fbs pLayer).map (fun b => b.2.2.2) =
      CWaylandPlane.LayerHostBuffer fbs pLayer := by
  unfold CWaylandPlane.LayerBuffer CWaylandPlane.LayerHostBuffer
  cases pLayer with
  | none => rfl
  | some layer =>
    cases h1 : layer.tex with
    | none => simp [h1]
    | some tex =>
      cases h2 : tex.m_pBackendFb with
      | none => simp [h1, h2]
      | some pFb =>
        cases h3 : (fbs pFb).m_pHostBuffer with
        | none => simp [h1, h2, h3]
        | some pHostBuffer => simp [h1, h2, h3]

theorem CWaylandPlane.PresentLayer_spec (X : WaylandExternals) (g : WaylandGlobals)
    (m_Planes : Nat → CWaylandPlane) (pLayer : Option Layer_t) (fbs : Nat → CWaylandFb)
    (self : CWaylandPlane)
    (hs : ∃ uScale, CWaylandPlane.GetScale m_Planes 8 self = some uScale) :
    (CWaylandPlane.PresentLayer X g m_Planes pLayer fbs self).bReturned = true ∧
    (∀ h, ((CWaylandPlane.PresentLayer X g m_Planes pLayer fbs self).fbs h).m_pHostBuffer =
      (fbs h).m_pHostBuffer) ∧
    (CWaylandPlane.PresentLayer X g m_Planes pLayer fbs self).self.m_pParent = self.m_pParent ∧
    ((CWaylandPlane.PresentLayer X g m_Planes pLayer fbs
        self).self.m_oCurrentPlaneState.bind WaylandPlaneState.pBuffer =
      CWaylandPlane.LayerHostBuffer fbs pLayer ∧
      ((CWaylandPlane.PresentLayer X g m_Planes pLayer fbs self).self.m_oCurrentPlaneState = none ↔
        CWaylandPlane.LayerHostBuffer fbs pLayer = none)) ∧
    (CWaylandPlane.PresentLayer X g m_Planes pLayer fbs self).events.filter PlaneEvent.isCall =
      [PlaneEvent.PresentLayer pLayer,
        PlaneEvent.Present
          (CWaylandPlane.PresentLayer X g m_Planes pLayer fbs self).self.m_oCurrentPlaneState] := by
  obtain ⟨uScale, hs⟩ := hs
  have hmap := CWaylandPlane.LayerBuffer_map fbs pLayer
  unfold CWaylandPlane.PresentLayer
  rw [hs]
  cases hL : CWaylandPlane.LayerBuffer fbs pLayer with
  | some b =>
    obtain ⟨layer, tex, pFb, pHostBuffer⟩ := b
    rw [hL] at hmap
    obtain ⟨h1, h2, h3, h4, h5⟩ := CWaylandPlane.Present_spec X g
      (some (ClipPlane (toI32 g.g_nOutputWidth) (toI32 g.g_nOutputHeight)
          { pBuffer := some pHostBuffer
            nDestX := Double.toInt32 (Double.neg layer.offset.x)
            nDestY := Double.toInt32 (Double.neg layer.offset.y)
            flSrcX := Double.finite 0
            flSrcY := Double.finite 0
            flSrcWidth := Double.ofInt tex.m_width
            flSrcHeight := Double.ofInt tex.m_height
            nDstWidth :=
              Double.toInt32 (Double.ceil (Double.div (Double.ofInt tex.m_width) layer.scale.x))
            nDstHeight :=
              Double.toInt32 (Double.ceil (Double.div (Double.ofInt tex.m_height) layer.scale.y))
            eColorspace := layer.colorspace
            pHDRMetadata := layer.hdr_metadata_blob
            bOpaque := decide (layer.zpos = X.g_zposBase)
            uFractionalScale := uScale }))
      (Function.update fbs pFb (fbs pFb).OnCompositorAcquire.self) self
      (by intro state hst; cases hst; simp [ClipPlane_pBuffer])
    refine ⟨h1, ?_, h3, ?_, ?_⟩
    · intro h
      dsimp only
      rw [h2]
      exact CWaylandFb.update_OnCompositorAcquire fbs pFb h
    · dsimp only
      rw [h4, ← hmap]
      simp [ClipPlane_pBuffer]
    · dsimp only
      rw [List.filter_append, h5, h4]
      simp [PlaneEvent.isCall]
  | none =>
    rw [hL] at hmap
    obtain ⟨h1, h2, h3, h4, h5⟩ := CWaylandPlane.Present_spec X g none fbs self (by simp)
    refine ⟨h1, ?_, h3, ?_, ?_⟩
    · intro h
      dsimp only
      rw [h2]
    · dsimp only
      rw [h4, ← hmap]
      simp
    · dsimp only
      rw [List.filter_append, h5, h4]
      simp [PlaneEvent.isCall]

theorem CWaylandConnector.PresentBacking_spec (X : WaylandExternals) (g : WaylandGlobals)
    (backend : CWaylandBackendObjects) (m_Planes : Nat → CWaylandPlane) (fbs : Nat → CWaylandFb)
    (pPlane : CWaylandPlane)
    (hs : ∃ uScale, CWaylandPlane.GetScale m_Planes 8 pPlane = some uScale)
    (hb : (fbs backend.m_BlackFb).m_pHostBuffer ≠ none) :
    (CWaylandConnector.PresentBacking X g backend m_Planes fbs pPlane).bReturned = true ∧
    (CWaylandConnector.PresentBacking X g backend m_Planes fbs pPlane).fbs = fbs ∧
    (CWaylandConnector.PresentBacking X g backend m_Planes fbs pPlane).self.m_pParent =
      pPlane.m_pParent ∧
    (∃ uScale,
      (CWaylandConnector.PresentBacking X g backend m_Planes fbs
          pPlane).self.m_oCurrentPlaneState =
        some
          { pBuffer := (fbs backend.m_BlackFb).m_pHostBuffer
            nDestX := 0
            nDestY := 0
            flSrcX := Double.finite 0
            flSrcY := Double.finite 0
            flSrcWidth := Double.finite 1
            flSrcHeight := Double.finite 1
            nDstWidth := toI32 g.g_nOutputWidth
            nDstHeight := toI32 g.g_nOutputHeight
            eColorspace := GamescopeAppTextureColorspace.GAMESCOPE_APP_TEXTURE_COLORSPACE_PASSTHRU
            pHDRMetadata := none
            bOpaque := true
            uFractionalScale := uScale }) ∧
    (CWaylandConnector.PresentBacking X g backend m_Planes fbs pPlane).events.filter
        PlaneEvent.isCall =
      [PlaneEvent.Present
        (CWaylandConnector.PresentBacking X g backend m_Planes fbs
          pPlane).self.m_oCurrentPlaneState] := by
  obtain ⟨uScale, hs⟩ := hs
  unfold CWaylandConnector.PresentBacking
  simp only [hs]
  obtain ⟨h1, h2, h3, h4, h5⟩ := CWaylandPlane.Present_spec X g
    (some
        { pBuffer := (fbs backend.m_BlackFb).m_pHostBuffer
          nDestX := 0
          nDestY := 0
          flSrcX := Double.finite 0
          flSrcY := Double.finite 0
          flSrcWidth := Double.finite 1
          flSrcHeight := Double.finite 1
          nDstWidth := toI32 g.g_nOutputWidth
          nDstHeight := toI32 g.g_nOutputHeight
          eColorspace := GamescopeAppTextureColorspace.GAMESCOPE_APP_TEXTURE_COLORSPACE_PASSTHRU
          pHDRMetadata := none
          bOpaque := true
          uFractionalScale := uScale })
    fbs pPlane (by intro state hst; cases hst; exact hb)
  exact ⟨h1, h2, h3, ⟨uScale, h4⟩, by rw [h5, h4]⟩

/-! ## Calls in progress -/

theorem callsOf_append (a b : List PresentEvent) : callsOf (a ++ b) = callsOf a ++ callsOf b := by
  simp [callsOf]

theorem callsOf_map_plane (uPlane : Nat) (l : List PlaneEvent) :
    callsOf (l.map (PresentEvent.plane uPlane)) =
      (l.filter PlaneEvent.isCall).map (PresentEvent.plane uPlane) := by
  induction l with
  | nil => rfl
  | cons e l ih =>
    simp only [callsOf] at ih
    by_cases he : e.isCall = true
    · simp [callsOf, List.filter_cons, PresentEvent.isCall, he, ih]
    · simp [callsOf, List.filter_cons, PresentEvent.isCall, he, ih]

theorem CWaylandConnector.GetScale_of_ParentsAsInit (self : CWaylandConnector)
    (hpar : self.ParentsAsInit) (uPlane : Nat) (hu : uPlane < 8) :
    ∃ uScale, CWaylandPlane.GetScale self.m_Planes 8 (self.m_Planes uPlane) = some uScale := by
  apply CWaylandPlane.GetScale_of_parents _ _ hpar.1
  by_cases h : uPlane = 0
  · left
    rw [h]
    exact hpar.1
  · right
    exact hpar.2 uPlane h hu

theorem CWaylandPlane.LayerHostBuffer_congr (fbs1 fbs2 : Nat → CWaylandFb)
    (h : ∀ pFb, (fbs1 pFb).m_pHostBuffer = (fbs2 pFb).m_pHostBuffer) (pLayer : Option Layer_t) :
    CWaylandPlane.LayerHostBuffer fbs1 pLayer = CWaylandPlane.LayerHostBuffer fbs2 pLayer := by
  unfold CWaylandPlane.LayerHostBuffer
  simp only [h]

theorem Presenting.plane_spec (uPlane : Nat)
    (f : (Nat → CWaylandPlane) → (Nat → CWaylandFb) → CWaylandPlane → PlaneCall)
    (p : Presenting) (calls : List PlaneEvent)
    (hrun : p.bRunning = true) (hpar : p.self.ParentsAsInit)
    (h1 : (f p.self.m_Planes p.fbs (p.self.m_Planes uPlane)).bReturned = true)
    (h2 : ∀ h, ((f p.self.m_Planes p.fbs (p.self.m_Planes uPlane)).fbs h).m_pHostBuffer =
      (p.fbs h).m_pHostBuffer)
    (h3 : (f p.self.m_Planes p.fbs (p.self.m_Planes uPlane)).self.m_pParent =
      (p.self.m_Planes uPlane).m_pParent)
    (h5 : (f p.self.m_Planes p.fbs (p.self.m_Planes uPlane)).events.filter PlaneEvent.isCall =
      calls) :
    (p.plane uPlane f).bRunning = true ∧ (p.plane uPlane f).self.ParentsAsInit ∧
    (p.plane uPlane f).self.m_bVisible = p.self.m_bVisible ∧
    (∀ h, ((p.plane uPlane f).fbs h).m_pHostBuffer = (p.fbs h).m_pHostBuffer) ∧
    (p.plane uPlane f).self.m_Planes uPlane =
      (f p.self.m_Planes p.fbs (p.self.m_Planes uPlane)).self ∧
    (∀ v, v ≠ uPlane → (p.plane uPlane f).self.m_Planes v = p.self.m_Planes v) ∧
    ∃ l, (p.plane uPlane f).events = p.events ++ l ∧
      callsOf l = calls.map (PresentEvent.plane uPlane) := by
  simp only [Presenting.plane, hrun, if_true]
  refine ⟨h1, ?_, trivial, h2, by simp, ?_, ⟨_, rfl, by rw [callsOf_map_plane, h5]⟩⟩
  · constructor
    · show (Function.update p.self.m_Planes uPlane _ 0).m_pParent = none
      by_cases h : (0 : Nat) = uPlane
      · subst h
        rw [Function.update_same, h3]
        exact hpar.1
      · rw [Function.update_noteq h]
        exact hpar.1
    · intro i hi hi8
      show (Function.update p.self.m_Planes uPlane _ i).m_pParent = some 0
      by_cases h : i = uPlane
      · subst h
        rw [Function.update_same, h3]
        exact hpar.2 i hi hi8
      · rw [Function.update_noteq h]
        exact hpar.2 i hi hi8
  · intro v hv
    show Function.update p.self.m_Planes uPlane _ v = _
    rw [Function.update_noteq hv]

theorem Presenting.plane_PresentLayer (X : WaylandExternals) (g : WaylandGlobals)
    (pLayer : Option Layer_t) (uPlane : Nat) (p : Presenting)
    (hrun : p.bRunning = true) (hpar : p.self.ParentsAsInit) (hu : uPlane < 8) :
    (p.plane uPlane (fun m_Planes fbs self =>
        CWaylandPlane.PresentLayer X g m_Planes pLayer fbs self)).bRunning = true ∧
    (p.plane uPlane (fun m_Planes fbs self =>
        CWaylandPlane.PresentLayer X g m_Planes pLayer fbs self)).self.ParentsAsInit ∧
    (p.plane uPlane (fun m_Planes fbs self =>
        CWaylandPlane.PresentLayer X g m_Planes pLayer fbs self)).self.m_bVisible =
      p.self.m_bVisible ∧
    (∀ h, ((p.plane uPlane (fun m_Planes fbs self =>
        CWaylandPlane.PresentLayer X g m_Planes pLayer fbs self)).fbs h).m_pHostBuffer =
      (p.fbs h).m_pHostBuffer) ∧
    (((p.plane uPlane (fun m_Planes fbs self =>
          CWaylandPlane.PresentLayer X g m_Planes pLayer fbs self)).self.m_Planes
        uPlane).m_oCurrentPlaneState.bind WaylandPlaneState.pBuffer =
      CWaylandPlane.LayerHostBuffer p.fbs pLayer ∧
      (((p.plane uPlane (fun m_Planes fbs self =>
          CWaylandPlane.PresentLayer X g m_Planes pLayer fbs self)).self.m_Planes
        uPlane).m_oCurrentPlaneState = none ↔
        CWaylandPlane.LayerHostBuffer p.fbs pLayer = none)) ∧
    (∀ v, v ≠ uPlane →
      (p.plane uPlane (fun m_Planes fbs self =>
        CWaylandPlane.PresentLayer X g m_Planes pLayer fbs self)).self.m_Planes v =
      p.self.m_Planes v) ∧
    ∃ l, (p.plane uPlane (fun m_Planes fbs self =>
        CWaylandPlane.PresentLayer X g m_Planes pLayer fbs self)).events = p.events ++ l ∧
      callsOf l =
        [PresentEvent.plane uPlane (PlaneEvent.PresentLayer pLayer),
          PresentEvent.plane uPlane (PlaneEvent.Present
            ((p.plane uPlane (fun m_Planes fbs self =>
              CWaylandPlane.PresentLayer X g m_Planes pLayer fbs self)).self.m_Planes
                uPlane).m_oCurrentPlaneState)] := by
  obtain ⟨h1, h2, h3, h4, h5⟩ := CWaylandPlane.PresentLayer_spec X g p.self.m_Planes pLayer p.fbs
    (p.self.m_Planes uPlane) (CWaylandConnector.GetScale_of_ParentsAsInit p.self hpar uPlane hu)
  obtain ⟨k1, k2, k3, k4, k5, k6, l, k7, k8⟩ := Presenting.plane_spec uPlane
    (fun m_Planes fbs self => CWaylandPlane.PresentLayer X g m_Planes pLayer fbs self) p _
    hrun hpar h1 h2 h3 h5
  refine ⟨k1, k2, k3, k4, ?_, k6, l, k7, ?_⟩
  · rw [k5]
    exact h4
  · rw [k8, k5]
    rfl

theorem Presenting.plane_Commit (g : WaylandGlobals) (uPlane : Nat) (p : Presenting)
    (hrun : p.bRunning = true) (hpar : p.self.ParentsAsInit) (hu : uPlane < 8) :
    (p.plane uPlane (fun m_Planes fbs self =>
        CWaylandPlane.Commit g m_Planes fbs self)).bRunning = true ∧
    (p.plane uPlane (fun m_Planes fbs self =>
        CWaylandPlane.Commit g m_Planes fbs self)).self.ParentsAsInit ∧
    (p.plane uPlane (fun m_Planes fbs self =>
        CWaylandPlane.Commit g m_Planes fbs self)).self.m_bVisible = p.self.m_bVisible ∧
    (∀ h, ((p.plane uPlane (fun m_Planes fbs self =>
        CWaylandPlane.Commit g m_Planes fbs self)).fbs h).m_pHostBuffer =
      (p.fbs h).m_pHostBuffer) ∧
    (∀ v, ((p.plane uPlane (fun m_Planes fbs self =>
        CWaylandPlane.Commit g m_Planes fbs self)).self.m_Planes v).m_oCurrentPlaneState =
      (p.self.m_Planes v).m_oCurrentPlaneState) ∧
    ∃ l, (p.plane uPlane (fun m_Planes fbs self =>
        CWaylandPlane.Commit g m_Planes fbs self)).events = p.events ++ l ∧
      callsOf l = [PresentEvent.plane uPlane PlaneEvent.Commit] := by
  obtain ⟨h1, h2, h3, h4, h5⟩ := CWaylandPlane.Commit_spec g p.self.m_Planes p.fbs
    (p.self.m_Planes uPlane) (CWaylandConnector.GetScale_of_ParentsAsInit p.self hpar uPlane hu)
  obtain ⟨k1, k2, k3, k4, k5, k6, l, k7, k8⟩ := Presenting.plane_spec uPlane
    (fun m_Planes fbs self => CWaylandPlane.Commit g m_Planes fbs self) p _
    hrun hpar h1 (fun h => by rw [h2]) h3 h5
  refine ⟨k1, k2, k3, k4, ?_, l, k7, ?_⟩
  · intro v
    by_cases hv : v = uPlane
    · subst hv
      rw [k5]
      exact h4
    · rw [k6 v hv]
  · rw [k8]
    rfl

theorem CWaylandConnector.PresentPlanes_spec (X : WaylandExternals) (g : WaylandGlobals)
    (pLayerAt : Nat → Option Layer_t) :
    ∀ (is : List Nat) (uCurrentPlane : Nat) (p : Presenting),
      p.bRunning = true → p.self.ParentsAsInit →
      (CWaylandConnector.PresentPlanes X g pLayerAt is uCurrentPlane p).bRunning = true ∧
      (CWaylandConnector.PresentPlanes X g pLayerAt is uCurrentPlane p).self.ParentsAsInit ∧
      (CWaylandConnector.PresentPlanes X g pLayerAt is uCurrentPlane p).self.m_bVisible =
        p.self.m_bVisible ∧
      (∀ h, ((CWaylandConnector.PresentPlanes X g pLayerAt is uCurrentPlane p).fbs
        h).m_pHostBuffer = (p.fbs h).m_pHostBuffer) ∧
      (∀ v, v < uCurrentPlane →
        (CWaylandConnector.PresentPlanes X g pLayerAt is uCurrentPlane p).self.m_Planes v =
          p.self.m_Planes v) ∧
      (∀ k i, (is.take (8 - uCurrentPlane))[k]? = some i →
        (((CWaylandConnector.PresentPlanes X g pLayerAt is uCurrentPlane p).self.m_Planes
            (uCurrentPlane + k)).m_oCurrentPlaneState.bind WaylandPlaneState.pBuffer =
          CWaylandPlane.LayerHostBuffer p.fbs (pLayerAt i) ∧
        (((CWaylandConnector.PresentPlanes X g pLayerAt is uCurrentPlane p).self.m_Planes
            (uCurrentPlane + k)).m_oCurrentPlaneState = none ↔
          CWaylandPlane.LayerHostBuffer p.fbs (pLayerAt i) = none))) ∧
      ∃ l, (CWaylandConnector.PresentPlanes X g pLayerAt is uCurrentPlane p).events =
          p.events ++ l ∧
        callsOf l =
          presentCallsOf pLayerAt
            (fun v =>
              ((CWaylandConnector.PresentPlanes X g pLayerAt is uCurrentPlane p).self.m_Planes
                v).m_oCurrentPlaneState)
            (is.take (8 - uCurrentPlane)) uCurrentPlane := by
  intro is
  induction is with
  | nil =>
    intro u p hrun hpar
    refine ⟨hrun, hpar, rfl, fun _ => rfl, fun _ _ => rfl, ?_, [],
      by simp [CWaylandConnector.PresentPlanes], by simp [callsOf, presentCallsOf]⟩
    intro k i hk
    simp at hk
  | cons i rest ih =>
    intro u p hrun hpar
    by_cases hu : u < 8
    · obtain ⟨a1, a2, a3, a4, a5, a6, l1, a7, a8⟩ :=
        Presenting.plane_PresentLayer X g (pLayerAt i) u p hrun hpar hu
      obtain ⟨b1, b2, b3, b4, b5, b6, l2, b7, b8⟩ := ih (u + 1) _ a1 a2
      have htake : (i :: rest).take (8 - u) = i :: rest.take (8 - (u + 1)) := by
        obtain ⟨m, hm⟩ : ∃ m, 8 - u = m + 1 := ⟨8 - u - 1, by omega⟩
        rw [hm, List.take_succ_cons]
        congr 2
        omega
      simp only [CWaylandConnector.PresentPlanes, if_pos hu]
      refine ⟨b1, b2, b3.trans a3, fun h => (b4 h).trans (a4 h), ?_, ?_, l1 ++ l2, ?_, ?_⟩
      · intro v hv
        rw [b5 v (by omega), a6 v (by omega)]
      · intro k j hk
        rw [htake] at hk
        cases k with
        | zero =>
          simp only [List.getElem?_cons_zero, Option.some.injEq] at hk
          subst hk
          have e := b5 u (Nat.lt_succ_self u)
          simp only [Nat.add_zero, e]
          exact a5
        | succ k =>
          simp only [List.getElem?_cons_succ] at hk
          have := b6 k j hk
          rw [CWaylandPlane.LayerHostBuffer_congr _ _ a4] at this
          rw [show u + (k + 1) = u + 1 + k by omega]
          exact this
      · rw [b7, a7, List.append_assoc]
      · rw [callsOf_append, a8, b8, htake]
        simp only [presentCallsOf, List.cons_append, List.nil_append]
        rw [b5 u (by omega)]
    · have h0 : 8 - u = 0 := by omega
      simp only [CWaylandConnector.PresentPlanes, if_neg hu, h0, List.take_zero]
      refine ⟨hrun, hpar, trivial, fun _ => trivial, fun _ _ => trivial, ?_, [], by simp,
        by simp [callsOf, presentCallsOf]⟩
      intro k j hk
      simp at hk

theorem CWaylandConnector.PresentNoBuffer_eq (X : WaylandExternals) (g : WaylandGlobals) :
    ∀ (n uPlane : Nat) (p : Presenting), uPlane + n ≤ 8 →
      CWaylandConnector.PresentNoBuffer X g (List.range' uPlane n) p =
        CWaylandConnector.PresentPlanes X g (fun _ => none) (List.range' uPlane n) uPlane p := by
  intro n
  induction n with
  | zero =>
    intro u p _
    rfl
  | succ n ih =>
    intro u p hu
    have h8 : u < 8 := by omega
    simp only [List.range'_succ, CWaylandConnector.PresentNoBuffer,
      CWaylandConnector.PresentPlanes, if_pos h8]
    exact ih (u + 1) _ (by omega)

theorem CWaylandConnector.CommitPlanes_spec (g : WaylandGlobals) :
    ∀ (is : List Nat) (p : Presenting), (∀ i ∈ is, i < 8) →
      p.bRunning = true → p.self.ParentsAsInit →
      (CWaylandConnector.CommitPlanes g is p).bRunning = true ∧
      (CWaylandConnector.CommitPlanes g is p).self.ParentsAsInit ∧
      (CWaylandConnector.CommitPlanes g is p).self.m_bVisible = p.self.m_bVisible ∧
      (∀ h, ((CWaylandConnector.CommitPlanes g is p).fbs h).m_pHostBuffer =
        (p.fbs h).m_pHostBuffer) ∧
      (∀ v, ((CWaylandConnector.CommitPlanes g is p).self.m_Planes v).m_oCurrentPlaneState =
        (p.self.m_Planes v).m_oCurrentPlaneState) ∧
      ∃ l, (CWaylandConnector.CommitPlanes g is p).events = p.events ++ l ∧
        callsOf l = is.map (fun i => PresentEvent.plane i PlaneEvent.Commit) := by
  intro is
  induction is with
  | nil =>
    intro p _ hrun hpar
    exact ⟨hrun, hpar, rfl, fun _ => rfl, fun _ => rfl, [], by simp [CWaylandConnector.CommitPlanes],
      by simp [callsOf]⟩
  | cons i rest ih =>
    intro p his hrun hpar
    obtain ⟨a1, a2, a3, a4, a5, l1, a7, a8⟩ :=
      Presenting.plane_Commit g i p hrun hpar (his i (by simp))
    obtain ⟨b1, b2, b3, b4, b5, l2, b7, b8⟩ :=
      ih _ (fun j hj => his j (by simp [hj])) a1 a2
    simp only [CWaylandConnector.CommitPlanes]
    refine ⟨b1, b2, b3.trans a3, fun h => (b4 h).trans (a4 h), fun v => (b5 v).trans (a5 v),
      l1 ++ l2, ?_, ?_⟩
    · rw [b7, a7, List.append_assoc]
    · rw [callsOf_append, a8, b8]
      rfl

theorem CWaylandConnector.PresentFinish_spec (g : WaylandGlobals) (g_bFullscreen : Bool)
    (bCompositing : Bool) (p : Presenting)
    (hrun : p.bRunning = true) (hpar : p.self.ParentsAsInit) :
    (CWaylandConnector.PresentFinish g g_bFullscreen bCompositing p).ret = some 0 ∧
    (CWaylandConnector.PresentFinish g g_bFullscreen bCompositing p).g_bFullscreen =
      g_bFullscreen ∧
    (CWaylandConnector.PresentFinish g g_bFullscreen bCompositing p).self.m_bVisible =
      p.self.m_bVisible ∧
    (∀ v, ((CWaylandConnector.PresentFinish g g_bFullscreen bCompositing p).self.m_Planes
        v).m_oCurrentPlaneState = (p.self.m_Planes v).m_oCurrentPlaneState) ∧
    ∃ l, (CWaylandConnector.PresentFinish g g_bFullscreen bCompositing p).events =
        p.events ++ l ∧
      callsOf l =
        [PresentEvent.plane 7 PlaneEvent.Commit, PresentEvent.plane 6 PlaneEvent.Commit,
          PresentEvent.plane 5 PlaneEvent.Commit, PresentEvent.plane 4 PlaneEvent.Commit,
          PresentEvent.plane 3 PlaneEvent.Commit, PresentEvent.plane 2 PlaneEvent.Commit,
          PresentEvent.plane 1 PlaneEvent.Commit, PresentEvent.plane 0 PlaneEvent.Commit,
          PresentEvent.wl_display_flush, PresentEvent.UpdateWasCompositing bCompositing,
          PresentEvent.UpdateLastDrawTime, PresentEvent.PollState] := by
  obtain ⟨b1, _, b3, _, b5, l, b7, b8⟩ :=
    CWaylandConnector.CommitPlanes_spec g [7, 6, 5, 4, 3, 2, 1, 0] p (by decide) hrun hpar
  simp only [CWaylandConnector.PresentFinish, Presenting.log, b1, if_true]
  refine ⟨trivial, trivial, b3, b5, l ++ _, by rw [b7, List.append_assoc], ?_⟩
  rw [callsOf_append, b8]
  rfl

/-! ## The paths of CWaylandConnector::Present -/

theorem CWaylandConnector.UpdateFullscreenState_events (g_bFullscreen : Bool)
    (self : CWaylandConnector) :
    callsOf (self.UpdateFullscreenState g_bFullscreen).2 =
      (self.UpdateFullscreenState g_bFullscreen).2 ∧
    (∀ e ∈ (self.UpdateFullscreenState g_bFullscreen).2,
      e = PresentEvent.libdecor_frame_set_fullscreen ∨
        e = PresentEvent.libdecor_frame_unset_fullscreen) ∧
    (self.m_bVisible = false → (self.UpdateFullscreenState g_bFullscreen).2 = []) := by
  unfold CWaylandConnector.UpdateFullscreenState
  cases self.m_bVisible <;> cases self.m_bDesiredFullscreenState <;> cases g_bFullscreen <;>
    simp [callsOf, PresentEvent.isCall]

theorem CWaylandConnector.Present_not_visible (X : WaylandExternals) (g : WaylandGlobals)
    (backend : CWaylandBackendObjects) (fbs : Nat → CWaylandFb) (pFrameInfo : FrameInfo_t)
    (bAsync : Bool) (self : CWaylandConnector)
    (hvis : self.m_bVisible = false) (hpar : self.ParentsAsInit) :
    (self.Present X g backend fbs pFrameInfo bAsync).ret = some 0 ∧
    (∀ v, v < 8 →
      ((self.Present X g backend fbs pFrameInfo bAsync).self.m_Planes v).m_oCurrentPlaneState =
        none) ∧
    callsOf (self.Present X g backend fbs pFrameInfo bAsync).events =
      presentCallsOf (fun _ => none) (fun _ => none) [0, 1, 2, 3, 4, 5, 6, 7] 0 ++
        finishCallsOf false := by
  obtain ⟨_, _, f3⟩ := CWaylandConnector.UpdateFullscreenState_events g.g_bFullscreen self
  obtain ⟨a1, a2, _, _, _, a6, l1, a7, a8⟩ :=
    CWaylandConnector.PresentPlanes_spec X g (fun _ => none) [0, 1, 2, 3, 4, 5, 6, 7] 0
      ⟨true, self, fbs, (self.UpdateFullscreenState g.g_bFullscreen).2⟩ rfl hpar
  obtain ⟨b1, _, _, b4, l2, b5, b6⟩ := CWaylandConnector.PresentFinish_spec g
    (self.UpdateFullscreenState g.g_bFullscreen).1 false _ a1 a2
  have hstate : ∀ v, v < 8 →
      ((CWaylandConnector.PresentPlanes X g (fun _ => none) [0, 1, 2, 3, 4, 5, 6, 7] 0
        ⟨true, self, fbs, (self.UpdateFullscreenState g.g_bFullscreen).2⟩).self.m_Planes
          v).m_oCurrentPlaneState = none := by
    intro v hv
    have := (a6 v v (by
      simp only [Nat.sub_zero, List.take]
      interval_cases v <;> rfl)).2
    rw [Nat.zero_add] at this
    exact this.mpr rfl
  simp only [CWaylandConnector.Present, hvis, Bool.not_false, if_true]
  refine ⟨b1, ?_, ?_⟩
  · intro v hv
    rw [b4 v]
    exact hstate v hv
  · rw [b5, a7, f3 hvis, callsOf_append, callsOf_append, a8, b6]
    simp only [Nat.sub_zero, List.take, callsOf, List.filter_nil, List.nil_append, presentCallsOf,
      finishCallsOf, List.cons_append]
    simp only [hstate, show (0 : Nat) < 8 by decide, show (0 : Nat) + 1 < 8 by decide,
      show (0 : Nat) + 1 + 1 < 8 by decide, show (0 : Nat) + 1 + 1 + 1 < 8 by decide,
      show (0 : Nat) + 1 + 1 + 1 + 1 < 8 by decide,
      show (0 : Nat) + 1 + 1 + 1 + 1 + 1 < 8 by decide,
      show (0 : Nat) + 1 + 1 + 1 + 1 + 1 + 1 < 8 by decide,
      show (0 : Nat) + 1 + 1 + 1 + 1 + 1 + 1 + 1 < 8 by decide]

theorem presentCallsOf_congr (pLayerAt : Nat → Option Layer_t)
    (s1 s2 : Nat → Option WaylandPlaneState) :
    ∀ (is : List Nat) (uPlane : Nat), (∀ v, uPlane ≤ v → v < uPlane + is.length → s1 v = s2 v) →
      presentCallsOf pLayerAt s1 is uPlane = presentCallsOf pLayerAt s2 is uPlane := by
  intro is
  induction is with
  | nil => intro _ _; rfl
  | cons i rest ih =>
    intro u h
    simp only [List.length_cons] at h
    simp only [presentCallsOf, h u (Nat.le_refl u) (by omega),
      ih (u + 1) (fun v hv hv2 => h v (by omega) (by omega))]

theorem CWaylandConnector.Present_direct_no_backing (X : WaylandExternals) (g : WaylandGlobals)
    (backend : CWaylandBackendObjects) (fbs : Nat → CWaylandFb) (pFrameInfo : FrameInfo_t)
    (bAsync : Bool) (self : CWaylandConnector)
    (hvis : self.m_bVisible = true) (hpar : self.ParentsAsInit)
    (hdirect : CWaylandConnector.bNeedsFullComposite X g backend pFrameInfo = false)
    (hb : CWaylandConnector.bNeedsBacking X pFrameInfo = false) :
    (self.Present X g backend fbs pFrameInfo bAsync).ret = some 0 ∧
    (∀ k, k < 8 →
      (((self.Present X g backend fbs pFrameInfo bAsync).self.m_Planes
          k).m_oCurrentPlaneState.bind WaylandPlaneState.pBuffer =
        CWaylandPlane.LayerHostBuffer fbs (CWaylandConnector.pLayerAt pFrameInfo k) ∧
      (((self.Present X g backend fbs pFrameInfo bAsync).self.m_Planes
          k).m_oCurrentPlaneState = none ↔
        CWaylandPlane.LayerHostBuffer fbs (CWaylandConnector.pLayerAt pFrameInfo k) = none))) ∧
    callsOf (self.Present X g backend fbs pFrameInfo bAsync).events =
      (self.UpdateFullscreenState g.g_bFullscreen).2 ++
        presentCallsOf (CWaylandConnector.pLayerAt pFrameInfo)
          (fun v =>
            ((self.Present X g backend fbs pFrameInfo bAsync).self.m_Planes
              v).m_oCurrentPlaneState)
          [0, 1, 2, 3, 4, 5, 6, 7] 0 ++
        finishCallsOf false := by
  obtain ⟨f1, _, _⟩ := CWaylandConnector.UpdateFullscreenState_events g.g_bFullscreen self
  obtain ⟨a1, a2, _, _, _, a6, l1, a7, a8⟩ :=
    CWaylandConnector.PresentPlanes_spec X g (CWaylandConnector.pLayerAt pFrameInfo)
      [0, 1, 2, 3, 4, 5, 6, 7] 0
      ⟨true, self, fbs, (self.UpdateFullscreenState g.g_bFullscreen).2⟩ rfl hpar
  obtain ⟨b1, _, _, b4, l2, b5, b6⟩ := CWaylandConnector.PresentFinish_spec g
    (self.UpdateFullscreenState g.g_bFullscreen).1 false _ a1 a2
  simp only [CWaylandConnector.Present, hvis, hdirect, hb, Bool.not_true, Bool.not_false,
    if_true, if_false, Bool.false_eq_true]
  refine ⟨b1, ?_, ?_⟩
  · intro k hk
    rw [b4 k]
    have := a6 k k (by
      simp only [Nat.sub_zero, List.take]
      interval_cases k <;> rfl)
    rw [Nat.zero_add] at this
    exact this
  · rw [b5, a7, callsOf_append, callsOf_append, a8, b6, f1]
    simp only [Nat.sub_zero, List.take]
    rw [presentCallsOf_congr _ _ _ _ 0 (fun v _ _ => (b4 v).symm)]
    rfl

theorem CWaylandConnector.Present_direct_backing (X : WaylandExternals) (g : WaylandGlobals)
    (backend : CWaylandBackendObjects) (fbs : Nat → CWaylandFb) (pFrameInfo : FrameInfo_t)
    (bAsync : Bool) (self : CWaylandConnector)
    (hvis : self.m_bVisible = true) (hpar : self.ParentsAsInit)
    (hdirect : CWaylandConnector.bNeedsFullComposite X g backend pFrameInfo = false)
    (hb : CWaylandConnector.bNeedsBacking X pFrameInfo = true)
    (hblack : (fbs backend.m_BlackFb).m_pHostBuffer ≠ none) :
    (self.Present X g backend fbs pFrameInfo bAsync).ret = some 0 ∧
    (∃ uScale,
      ((self.Present X g backend fbs pFrameInfo bAsync).self.m_Planes 0).m_oCurrentPlaneState =
        some
          { pBuffer := (fbs backend.m_BlackFb).m_pHostBuffer
            nDestX := 0
            nDestY := 0
            flSrcX := Double.finite 0
            flSrcY := Double.finite 0
            flSrcWidth := Double.finite 1
            flSrcHeight := Double.finite 1
            nDstWidth := toI32 g.g_nOutputWidth
            nDstHeight := toI32 g.g_nOutputHeight
            eColorspace := GamescopeAppTextureColorspace.GAMESCOPE_APP_TEXTURE_COLORSPACE_PASSTHRU
            pHDRMetadata := none
            bOpaque := true
            uFractionalScale := uScale }) ∧
    (∀ k, k < 7 →
      (((self.Present X g backend fbs pFrameInfo bAsync).self.m_Planes
          (1 + k)).m_oCurrentPlaneState.bind WaylandPlaneState.pBuffer =
        CWaylandPlane.LayerHostBuffer fbs (CWaylandConnector.pLayerAt pFrameInfo k) ∧
      (((self.Present X g backend fbs pFrameInfo bAsync).self.m_Planes
          (1 + k)).m_oCurrentPlaneState = none ↔
        CWaylandPlane.LayerHostBuffer fbs (CWaylandConnector.pLayerAt pFrameInfo k) = none))) ∧
    callsOf (self.Present X g backend fbs pFrameInfo bAsync).events =
      (self.UpdateFullscreenState g.g_bFullscreen).2 ++
        [PresentEvent.OnCompositorAcquire backend.m_BlackFb,
          PresentEvent.plane 0 (PlaneEvent.Present
            ((self.Present X g backend fbs pFrameInfo bAsync).self.m_Planes
              0).m_oCurrentPlaneState)] ++
        presentCallsOf (CWaylandConnector.pLayerAt pFrameInfo)
          (fun v =>
            ((self.Present X g backend fbs pFrameInfo bAsync).self.m_Planes
              v).m_oCurrentPlaneState)
          [0, 1, 2, 3, 4, 5, 6] 1 ++
        finishCallsOf false := by
  obtain ⟨f1, _, _⟩ := CWaylandConnector.UpdateFullscreenState_events g.g_bFullscreen self
  have hbuf : ∀ h, (Function.update fbs backend.m_BlackFb
      (fbs backend.m_BlackFb).OnCompositorAcquire.self h).m_pHostBuffer = (fbs h).m_pHostBuffer :=
    CWaylandFb.update_OnCompositorAcquire fbs backend.m_BlackFb
  obtain ⟨c1, c2, c3, c4, c5⟩ := CWaylandConnector.PresentBacking_spec X g backend self.m_Planes
    (Function.update fbs backend.m_BlackFb (fbs backend.m_BlackFb).OnCompositorAcquire.self)
    (self.m_Planes 0) (CWaylandConnector.GetScale_of_ParentsAsInit self hpar 0 (by decide))
    (by rw [hbuf]; exact hblack)
  obtain ⟨d1, d2, _, d4, d5, _, l0, d7, d8⟩ := Presenting.plane_spec 0
    (CWaylandConnector.PresentBacking X g backend)
    ⟨true, self, Function.update fbs backend.m_BlackFb
        (fbs backend.m_BlackFb).OnCompositorAcquire.self,
      (self.UpdateFullscreenState g.g_bFullscreen).2 ++
        [PresentEvent.OnCompositorAcquire backend.m_BlackFb]⟩ _ rfl hpar c1
    (fun h => by rw [c2]) c3 c5
  obtain ⟨a1, a2, _, _, a5, a6, l1, a7, a8⟩ :=
    CWaylandConnector.PresentPlanes_spec X g (CWaylandConnector.pLayerAt pFrameInfo)
      [0, 1, 2, 3, 4, 5, 6, 7] 1 _ d1 d2
  obtain ⟨b1, _, _, b4, l2, b5, b6⟩ := CWaylandConnector.PresentFinish_spec g
    (self.UpdateFullscreenState g.g_bFullscreen).1 false _ a1 a2
  simp only [CWaylandConnector.Present, hvis, hdirect, hb, Bool.not_true, Bool.not_false,
    if_true, if_false, Bool.false_eq_true, Presenting.log]
  have hplane0 : ((CWaylandConnector.PresentFinish g (self.UpdateFullscreenState g.g_bFullscreen).1
      false (CWaylandConnector.PresentPlanes X g (CWaylandConnector.pLayerAt pFrameInfo)
        [0, 1, 2, 3, 4, 5, 6, 7] 1
        (Presenting.plane 0 (CWaylandConnector.PresentBacking X g backend)
          ⟨true, self, Function.update fbs backend.m_BlackFb
              (fbs backend.m_BlackFb).OnCompositorAcquire.self,
            (self.UpdateFullscreenState g.g_bFullscreen).2 ++
              [PresentEvent.OnCompositorAcquire backend.m_BlackFb]⟩))).self.m_Planes
        0).m_oCurrentPlaneState =
      (CWaylandConnector.PresentBacking X g backend self.m_Planes
        (Function.update fbs backend.m_BlackFb (fbs backend.m_BlackFb).OnCompositorAcquire.self)
        (self.m_Planes 0)).self.m_oCurrentPlaneState := by
    rw [b4 0, a5 0 (by decide), d5]
  refine ⟨b1, ?_, ?_, ?_⟩
  · obtain ⟨uScale, hu⟩ := c4
    refine ⟨uScale, ?_⟩
    rw [hplane0, hu, hbuf]
  · intro k hk
    rw [b4 (1 + k)]
    have := a6 k k (by
      simp only [List.take]
      interval_cases k <;> rfl)
    rw [CWaylandPlane.LayerHostBuffer_congr _ fbs (fun h => (d4 h).trans (hbuf h))] at this
    exact this
  · rw [b5, a7, d7, callsOf_append, callsOf_append, callsOf_append, callsOf_append, a8, b6, d8, f1,
      hplane0]
    simp only [List.take]
    rw [presentCallsOf_congr _ _ _ _ 1 (fun v _ _ => (b4 v).symm)]
    simp [callsOf, PresentEvent.isCall, finishCallsOf]

theorem CWaylandConnector.Present_composite (X : WaylandExternals) (g : WaylandGlobals)
    (backend : CWaylandBackendObjects) (fbs : Nat → CWaylandFb) (pFrameInfo : FrameInfo_t)
    (bAsync : Bool) (self : CWaylandConnector) (uSequence : Nat)
    (hvis : self.m_bVisible = true) (hpar : self.ParentsAsInit)
    (hcomposite : CWaylandConnector.bNeedsFullComposite X g backend pFrameInfo = true)
    (hok : X.vulkan_composite pFrameInfo = some uSequence) :
    (self.Present X g backend fbs pFrameInfo bAsync).ret = some 0 ∧
    (((self.Present X g backend fbs pFrameInfo bAsync).self.m_Planes
        0).m_oCurrentPlaneState.bind WaylandPlaneState.pBuffer =
      CWaylandPlane.LayerHostBuffer fbs
        (some (CWaylandConnector.compositeLayer X pFrameInfo))) ∧
    (∀ v, 1 ≤ v → v < 8 →
      ((self.Present X g backend fbs pFrameInfo bAsync).self.m_Planes v).m_oCurrentPlaneState =
        none) ∧
    callsOf (self.Present X g backend fbs pFrameInfo bAsync).events =
      (self.UpdateFullscreenState g.g_bFullscreen).2 ++
        [PresentEvent.vulkan_composite, PresentEvent.vulkan_wait uSequence,
          PresentEvent.vulkan_get_last_output_image,
          PresentEvent.plane 0 (PlaneEvent.PresentLayer
            (some (CWaylandConnector.compositeLayer X pFrameInfo))),
          PresentEvent.plane 0 (PlaneEvent.Present
            ((self.Present X g backend fbs pFrameInfo bAsync).self.m_Planes
              0).m_oCurrentPlaneState)] ++
        presentCallsOf (fun _ => none) (fun _ => none) [1, 2, 3, 4, 5, 6, 7] 1 ++
        finishCallsOf true := by
  obtain ⟨f1, _, _⟩ := CWaylandConnector.UpdateFullscreenState_events g.g_bFullscreen self
  obtain ⟨d1, d2, _, d4, d5, _, l0, d7, d8⟩ := Presenting.plane_PresentLayer X g
    (some (CWaylandConnector.compositeLayer X pFrameInfo)) 0
    ⟨true, self, fbs,
      (self.UpdateFullscreenState g.g_bFullscreen).2 ++
        [PresentEvent.vulkan_composite, PresentEvent.vulkan_wait uSequence,
          PresentEvent.vulkan_get_last_output_image]⟩ rfl hpar (by decide)
  obtain ⟨a1, a2, _, _, a5, a6, l1, a7, a8⟩ :=
    CWaylandConnector.PresentPlanes_spec X g (fun _ => none) [1, 2, 3, 4, 5, 6, 7] 1 _ d1 d2
  obtain ⟨b1, _, _, b4, l2, b5, b6⟩ := CWaylandConnector.PresentFinish_spec g
    (self.UpdateFullscreenState g.g_bFullscreen).1 true _ a1 a2
  have hloop := CWaylandConnector.PresentNoBuffer_eq X g 7 1
  simp only [List.range'] at hloop
  have hstate : ∀ v, 1 ≤ v → v < 8 →
      ((CWaylandConnector.PresentPlanes X g (fun _ => none) [1, 2, 3, 4, 5, 6, 7] 1
        (Presenting.plane 0 (fun m_Planes fbs plane =>
          CWaylandPlane.PresentLayer X g m_Planes
            (some (CWaylandConnector.compositeLayer X pFrameInfo)) fbs plane)
          ⟨true, self, fbs,
            (self.UpdateFullscreenState g.g_bFullscreen).2 ++
              [PresentEvent.vulkan_composite, PresentEvent.vulkan_wait uSequence,
                PresentEvent.vulkan_get_last_output_image]⟩)).self.m_Planes
          v).m_oCurrentPlaneState = none := by
    intro v hv1 hv
    obtain ⟨k, rfl⟩ : ∃ k, v = 1 + k := ⟨v - 1, by omega⟩
    have := (a6 k (1 + k) (by
      simp only [List.take]
      have hk : k < 7 := by omega
      interval_cases k <;> rfl)).2
    exact this.mpr rfl
  simp only [CWaylandConnector.Present, hvis, hcomposite, hok, Bool.not_true, Bool.not_false,
    if_true, if_false, Bool.false_eq_true, Presenting.log]
  rw [hloop _ (by decide)]
  refine ⟨b1, ?_, ?_, ?_⟩
  · rw [b4 0, a5 0 (by decide)]
    exact d5.1
  · intro v hv1 hv
    rw [b4 v]
    exact hstate v hv1 hv
  · rw [b5, a7, d7, callsOf_append, callsOf_append, callsOf_append, callsOf_append, a8, b6, d8, f1,
      b4 0, a5 0 (by decide)]
    simp only [List.take]
    rw [presentCallsOf_congr _ _ (fun _ => none) [1, 2, 3, 4, 5, 6, 7] 1
      (fun v hv h8 => hstate v hv h8)]
    simp [callsOf, PresentEvent.isCall, finishCallsOf]

theorem CWaylandConnector.Present_composite_failed (X : WaylandExternals) (g : WaylandGlobals)
    (backend : CWaylandBackendObjects) (fbs : Nat → CWaylandFb) (pFrameInfo : FrameInfo_t)
    (bAsync : Bool) (self : CWaylandConnector)
    (hvis : self.m_bVisible = true)
    (hcomposite : CWaylandConnector.bNeedsFullComposite X g backend pFrameInfo = true)
    (hfail : X.vulkan_composite pFrameInfo = none) :
    (self.Present X g backend fbs pFrameInfo bAsync).ret = some (-EINVAL) ∧
    (self.Present X g backend fbs pFrameInfo bAsync).self = self ∧
    (self.Present X g backend fbs pFrameInfo bAsync).events =
      (self.UpdateFullscreenState g.g_bFullscreen).2 ++
        [PresentEvent.vulkan_composite, PresentEvent.errorf] := by
  simp only [CWaylandConnector.Present, hvis, hcomposite, hfail, Bool.not_true, if_false,
    Bool.false_eq_true]
  exact ⟨trivial, trivial, trivial⟩

theorem CWaylandConnector.bNeedsFullComposite_iff (X : WaylandExternals) (g : WaylandGlobals)
    (backend : CWaylandBackendObjects) (pFrameInfo : FrameInfo_t) :
    CWaylandConnector.bNeedsFullComposite X g backend pFrameInfo = true ↔
      true ∈ compositeConditions X g backend pFrameInfo := by
  simp only [CWaylandConnector.bNeedsFullComposite, compositeConditions]
  generalize g.cv_composite_force = a1
  generalize pFrameInfo.useFSRLayer0 = a2
  generalize pFrameInfo.useNISLayer0 = a3
  generalize (pFrameInfo.blurLayer0 != 0) = a4
  generalize ((g.g_upscaleFilter == GamescopeUpscaleFilter.NEAREST ||
        g.g_upscaleFilter == GamescopeUpscaleFilter.PIXEL) &&
      !(X.close_enough (pFrameInfo.layers 0).scale.x (Double.finite 1) &&
        X.close_enough (pFrameInfo.layers 0).scale.y (Double.finite 1))) = a5
  generalize g.g_bColorSliderInUse = a6
  generalize pFrameInfo.bFadingOut = a7
  generalize (!g.g_reshade_effect.isEmpty) = a8
  generalize g.g_bHDRItmEnable = a9
  generalize X.ColorspaceIsHDR (pFrameInfo.layers 0).colorspace = a10
  generalize (Nat.land g.g_uCompositeDebug X.Heatmap != 0) = a11
  cases g.g_bOutputHDREnabled <;>
    cases CWaylandBackend.SupportsColorManagement backend <;>
    simp <;> tauto

theorem layerCalls_callsOf (events : List PresentEvent) :
    layerCalls (callsOf events) = layerCalls events := by
  induction events with
  | nil => rfl
  | cons e rest ih =>
    simp only [layerCalls, callsOf] at ih
    cases e with
    | plane u pe =>
      by_cases h : pe.isCall = true
      · simp [layerCalls, callsOf, List.filter_cons, PresentEvent.isCall, h, List.filterMap_cons,
          ih]
      · simp [layerCalls, callsOf, List.filter_cons, PresentEvent.isCall, h, List.filterMap_cons,
          ih, PlaneEvent.asPresentLayer_of_not_isCall pe (by simpa using h)]
    | _ => simp [layerCalls, callsOf, List.filter_cons, PresentEvent.isCall, List.filterMap_cons, ih]

theorem presentCalls_callsOf (events : List PresentEvent) :
    presentCalls (callsOf events) = presentCalls events := by
  induction events with
  | nil => rfl
  | cons e rest ih =>
    simp only [presentCalls, callsOf] at ih
    cases e with
    | plane u pe =>
      by_cases h : pe.isCall = true
      · simp [presentCalls, callsOf, List.filter_cons, PresentEvent.isCall, h,
          List.filterMap_cons, ih]
      · simp [presentCalls, callsOf, List.filter_cons, PresentEvent.isCall, h,
          List.filterMap_cons, ih, PlaneEvent.asPresent_of_not_isCall pe (by simpa using h)]
    | _ =>
      simp [presentCalls, callsOf, List.filter_cons, PresentEvent.isCall, List.filterMap_cons, ih]

theorem commitCalls_callsOf (events : List PresentEvent) :
    commitCalls (callsOf events) = commitCalls events := by
  induction events with
  | nil => rfl
  | cons e rest ih =>
    simp only [commitCalls, callsOf] at ih
    cases e with
    | plane u pe =>
      by_cases h : pe.isCall = true
      · simp [commitCalls, callsOf, List.filter_cons, PresentEvent.isCall, h,
          List.filterMap_cons, ih]
      · simp [commitCalls, callsOf, List.filter_cons, PresentEvent.isCall, h,
          List.filterMap_cons, ih, PlaneEvent.isCommit_of_not_isCall pe (by simpa using h)]
    | _ =>
      simp [commitCalls, callsOf, List.filter_cons, PresentEvent.isCall, List.filterMap_cons, ih]

theorem mem_callsOf (e : PresentEvent) (he : e.isCall = true) (events : List PresentEvent) :
    e ∈ callsOf events ↔ e ∈ events := by
  simp [callsOf, he]

theorem CWaylandConnector.UpdateFullscreenState_calls (g_bFullscreen : Bool)
    (self : CWaylandConnector) :
    layerCalls (self.UpdateFullscreenState g_bFullscreen).2 = [] ∧
    presentCalls (self.UpdateFullscreenState g_bFullscreen).2 = [] ∧
    commitCalls (self.UpdateFullscreenState g_bFullscreen).2 = [] := by
  unfold CWaylandConnector.UpdateFullscreenState
  cases self.m_bVisible <;> cases self.m_bDesiredFullscreenState <;> cases g_bFullscreen <;>
    simp [layerCalls, presentCalls, commitCalls]

theorem Presenting.mem_plane (e : PresentEvent) (he : ∀ u pe, e ≠ PresentEvent.plane u pe)
    (uPlane : Nat) (f : (Nat → CWaylandPlane) → (Nat → CWaylandFb) → CWaylandPlane → PlaneCall)
    (p : Presenting) : e ∈ (p.plane uPlane f).events ↔ e ∈ p.events := by
  unfold Presenting.plane
  split_ifs
  · simp only [List.mem_append, List.mem_map]
    constructor
    · rintro (h | ⟨pe, _, hpe⟩)
      · exact h
      · exact absurd hpe.symm (he uPlane pe)
    · exact Or.inl
  · rfl

theorem CWaylandConnector.mem_PresentPlanes (e : PresentEvent)
    (he : ∀ u pe, e ≠ PresentEvent.plane u pe) (X : WaylandExternals) (g : WaylandGlobals)
    (pLayerAt : Nat → Option Layer_t) :
    ∀ (is : List Nat) (uCurrentPlane : Nat) (p : Presenting),
      e ∈ (CWaylandConnector.PresentPlanes X g pLayerAt is uCurrentPlane p).events ↔
        e ∈ p.events := by
  intro is
  induction is with
  | nil => intro _ _; rfl
  | cons i rest ih =>
    intro u p
    unfold CWaylandConnector.PresentPlanes
    split_ifs
    · rw [ih, Presenting.mem_plane e he]
    · rfl

theorem CWaylandConnector.mem_PresentNoBuffer (e : PresentEvent)
    (he : ∀ u pe, e ≠ PresentEvent.plane u pe) (X : WaylandExternals) (g : WaylandGlobals) :
    ∀ (is : List Nat) (p : Presenting),
      e ∈ (CWaylandConnector.PresentNoBuffer X g is p).events ↔ e ∈ p.events := by
  intro is
  induction is with
  | nil => intro _; rfl
  | cons i rest ih =>
    intro p
    unfold CWaylandConnector.PresentNoBuffer
    rw [ih, Presenting.mem_plane e he]

theorem CWaylandConnector.mem_CommitPlanes (e : PresentEvent)
    (he : ∀ u pe, e ≠ PresentEvent.plane u pe) (g : WaylandGlobals) :
    ∀ (is : List Nat) (p : Presenting),
      e ∈ (CWaylandConnector.CommitPlanes g is p).events ↔ e ∈ p.events := by
  intro is
  induction is with
  | nil => intro _; rfl
  | cons i rest ih =>
    intro p
    unfold CWaylandConnector.CommitPlanes
    rw [ih, Presenting.mem_plane e he]

theorem CWaylandConnector.mem_PresentFinish (e : PresentEvent)
    (he : ∀ u pe, e ≠ PresentEvent.plane u pe) (g : WaylandGlobals) (g_bFullscreen : Bool)
    (bCompositing : Bool) (p : Presenting) :
    (e ∈ p.events → e ∈ (CWaylandConnector.PresentFinish g g_bFullscreen bCompositing p).events) ∧
    (e ∈ (CWaylandConnector.PresentFinish g g_bFullscreen bCompositing p).events →
      e ∈ p.events ∨
        e ∈ [PresentEvent.wl_display_flush, PresentEvent.UpdateWasCompositing bCompositing,
          PresentEvent.UpdateLastDrawTime, PresentEvent.PollState]) := by
  have h := CWaylandConnector.mem_CommitPlanes e he g [7, 6, 5, 4, 3, 2, 1, 0] p
  unfold CWaylandConnector.PresentFinish Presenting.log
  constructor
  · intro hp
    dsimp only
    split_ifs
    · exact List.mem_append_left _ (h.mpr hp)
    · exact h.mpr hp
  · dsimp only
    split_ifs
    · intro hm
      rcases List.mem_append.mp hm with hm | hm
      · exact Or.inl (h.mp hm)
      · exact Or.inr hm
    · intro hm
      exact Or.inl (h.mp hm)

theorem CWaylandConnector.vulkan_composite_mem_iff (X : WaylandExternals) (g : WaylandGlobals)
    (backend : CWaylandBackendObjects) (fbs : Nat → CWaylandFb) (pFrameInfo : FrameInfo_t)
    (bAsync : Bool) (self : CWaylandConnector) (hvis : self.m_bVisible = true) :
    PresentEvent.vulkan_composite ∈ (self.Present X g backend fbs pFrameInfo bAsync).events ↔
      CWaylandConnector.bNeedsFullComposite X g backend pFrameInfo = true := by
  have he : ∀ u pe, PresentEvent.vulkan_composite ≠ PresentEvent.plane u pe := by
    intro u pe h
    cases h
  obtain ⟨_, f2, _⟩ := CWaylandConnector.UpdateFullscreenState_events g.g_bFullscreen self
  have hfs : PresentEvent.vulkan_composite ∉ (self.UpdateFullscreenState g.g_bFullscreen).2 := by
    intro hm
    rcases f2 _ hm with h | h <;> cases h
  cases hc : CWaylandConnector.bNeedsFullComposite X g backend pFrameInfo with
  | false =>
    simp only [CWaylandConnector.Present, hvis, hc, Bool.not_true, Bool.not_false, if_true,
      if_false, Bool.false_eq_true, iff_false]
    split_ifs
    · intro hm
      rcases (CWaylandConnector.mem_PresentFinish _ he _ _ _ _).2 hm with hm | hm
      · rw [CWaylandConnector.mem_PresentPlanes _ he, Presenting.mem_plane _ he] at hm
        simp only [Presenting.log, if_true, List.mem_append, List.mem_singleton, reduceCtorEq,
          or_false] at hm
        exact hfs hm
      · simp at hm
    · intro hm
      rcases (CWaylandConnector.mem_PresentFinish _ he _ _ _ _).2 hm with hm | hm
      · rw [CWaylandConnector.mem_PresentPlanes _ he] at hm
        exact hfs hm
      · simp at hm
  | true =>
    simp only [CWaylandConnector.Present, hvis, hc, Bool.not_true, if_false, Bool.false_eq_true,
      iff_true]
    cases hv : X.vulkan_composite pFrameInfo with
    | none => simp
    | some uSequence =>
      dsimp only
      apply (CWaylandConnector.mem_PresentFinish _ he _ _ _ _).1
      rw [CWaylandConnector.mem_PresentNoBuffer _ he, Presenting.mem_plane _ he]
      simp [Presenting.log]

theorem compositeConditions_mono (l1 l2 : List Bool)
    (h : List.Forall₂ (fun a b => a = true → b = true) l1 l2) : true ∈ l1 → true ∈ l2 := by
  induction h with
  | nil => exact id
  | cons hab _ ih =>
    intro hm
    rcases List.mem_cons.mp hm with hm | hm
    · exact List.mem_cons.mpr (Or.inl (hab hm.symm).symm)
    · exact List.mem_cons.mpr (Or.inr (ih hm))

/-! ## Calls that do not return -/

theorem CWaylandConnector.PresentPlanes_stopped (X : WaylandExternals) (g : WaylandGlobals)
    (pLayerAt : Nat → Option Layer_t) :
    ∀ (is : List Nat) (uPlane : Nat) (p : Presenting), p.bRunning = false →
      CWaylandConnector.PresentPlanes X g pLayerAt is uPlane p = p := by
  intro is
  induction is with
  | nil => intro _ _ _; rfl
  | cons i rest ih =>
    intro u p h
    unfold CWaylandConnector.PresentPlanes
    split_ifs
    · have hp : p.plane u (fun m_Planes fbs self =>
          CWaylandPlane.PresentLayer X g m_Planes (pLayerAt i) fbs self) = p := by
        simp [Presenting.plane, h]
      rw [hp]
      exact ih (u + 1) p h
    · rfl

theorem CWaylandConnector.CommitPlanes_stopped (g : WaylandGlobals) :
    ∀ (is : List Nat) (p : Presenting), p.bRunning = false →
      CWaylandConnector.CommitPlanes g is p = p := by
  intro is
  induction is with
  | nil => intro _ _; rfl
  | cons i rest ih =>
    intro p h
    unfold CWaylandConnector.CommitPlanes
    have hp : p.plane i (fun m_Planes fbs self => CWaylandPlane.Commit g m_Planes fbs self) =
        p := by
      simp [Presenting.plane, h]
    rw [hp]
    exact ih p h

theorem CWaylandConnector.PresentFinish_stopped (g : WaylandGlobals) (g_bFullscreen : Bool)
    (bCompositing : Bool) (p : Presenting) (h : p.bRunning = false) :
    (CWaylandConnector.PresentFinish g g_bFullscreen bCompositing p).ret = none := by
  simp [CWaylandConnector.PresentFinish, CWaylandConnector.CommitPlanes_stopped g _ p h,
    Presenting.log, h]

theorem CWaylandConnector.Present_backing_no_black (X : WaylandExternals) (g : WaylandGlobals)
    (backend : CWaylandBackendObjects) (fbs : Nat → CWaylandFb) (pFrameInfo : FrameInfo_t)
    (bAsync : Bool) (self : CWaylandConnector)
    (hvis : self.m_bVisible = true)
    (hdirect : CWaylandConnector.bNeedsFullComposite X g backend pFrameInfo = false)
    (hb : CWaylandConnector.bNeedsBacking X pFrameInfo = true)
    (hblack : (fbs backend.m_BlackFb).m_pHostBuffer = none) :
    (self.Present X g backend fbs pFrameInfo bAsync).ret = none := by
  simp only [CWaylandConnector.Present, hvis, hdirect, hb, Bool.not_true, Bool.not_false,
    if_true, if_false, Bool.false_eq_true]
  apply CWaylandConnector.PresentFinish_stopped
  rw [CWaylandConnector.PresentPlanes_stopped]
  all_goals
    simp only [Presenting.plane, Presenting.log, if_true]
    simp only [CWaylandConnector.PresentBacking]
    cases CWaylandPlane.GetScale self.m_Planes 8 (self.m_Planes 0) with
    | none => rfl
    | some uScale =>
      simp [CWaylandPlane.Present, CWaylandFb.OnCompositorAcquire_m_pHostBuffer, hblack]

/-! ## Requests on the surfaces of the planes -/

theorem CWaylandPlane.PresentColorManagement_no_surface (X : WaylandExternals)
    (g : WaylandGlobals) (oState : WaylandPlaneState) (self : CWaylandPlane) :
    (CWaylandPlane.PresentColorManagement X g oState self).2.filter
        PlaneEvent.isSurfaceRequest = [] ∧
      (CWaylandPlane.PresentColorManagement X g oState self).2.filter PlaneEvent.isCall = [] := by
  have hu : (CWaylandPlane.UpdateColorState X g ⟨oState.eColorspace, oState.pHDRMetadata⟩
      self).2.filter PlaneEvent.isSurfaceRequest = [] ∧
      (CWaylandPlane.UpdateColorState X g ⟨oState.eColorspace, oState.pHDRMetadata⟩
        self).2.filter PlaneEvent.isCall = [] := by
    unfold CWaylandPlane.UpdateColorState
    cases self.m_pCurrentImageDescription <;>
      (split_ifs <;> simp [PlaneEvent.isSurfaceRequest, PlaneEvent.isCall])
  unfold CWaylandPlane.PresentColorManagement
  split_ifs
  · split <;> simp [hu.1, hu.2, PlaneEvent.isSurfaceRequest, PlaneEvent.isCall]
  · cases oState.eColorspace <;> simp [PlaneEvent.isSurfaceRequest, PlaneEvent.isCall]
  · simp

theorem CWaylandPlane.Present_requestsOf (X : WaylandExternals) (g : WaylandGlobals)
    (oState : Option WaylandPlaneState) (fbs : Nat → CWaylandFb) (self : CWaylandPlane)
    (h : (CWaylandPlane.Present X g oState fbs self).bReturned = true) :
    (CWaylandPlane.Present X g oState fbs self).events.filter PlaneEvent.isSurfaceRequest =
        presentRequestsOf oState ∧
      (CWaylandPlane.Present X g oState fbs self).events.filter PlaneEvent.isCall =
        [PlaneEvent.Present oState] := by
  cases oState with
  | none => simp [CWaylandPlane.Present, presentRequestsOf, PlaneEvent.isSurfaceRequest,
      PlaneEvent.isCall]
  | some state =>
    obtain ⟨c1, c2⟩ := CWaylandPlane.PresentColorManagement_no_surface X g state
      { self with m_oCurrentPlaneState := some state }
    unfold CWaylandPlane.Present at h ⊢
    dsimp only at h ⊢
    by_cases hb : state.pBuffer = none
    · rw [if_pos hb] at h
      exact absurd h (by simp)
    · rw [if_neg hb]
      dsimp only
      simp only [List.filter_append, c1, c2]
      constructor
      · split_ifs <;> simp [presentRequestsOf, PlaneEvent.isSurfaceRequest]
      · split_ifs <;> simp [PlaneEvent.isCall]

theorem CWaylandPlane.PresentLayer_requests (X : WaylandExternals) (g : WaylandGlobals)
    (m_Planes : Nat → CWaylandPlane) (pLayer : Option Layer_t) (fbs : Nat → CWaylandFb)
    (self : CWaylandPlane)
    (h : (CWaylandPlane.PresentLayer X g m_Planes pLayer fbs self).bReturned = true) :
    (CWaylandPlane.PresentLayer X g m_Planes pLayer fbs self).events.filter
        PlaneEvent.isSurfaceRequest =
      ((CWaylandPlane.PresentLayer X g m_Planes pLayer fbs self).events.filter
        PlaneEvent.isCall).flatMap PlaneEvent.requestsOfCall := by
  unfold CWaylandPlane.PresentLayer at h ⊢
  cases hl : CWaylandPlane.LayerBuffer fbs pLayer with
  | none =>
    rw [hl] at h
    dsimp only at h ⊢
    obtain ⟨r1, r2⟩ := CWaylandPlane.Present_requestsOf X g none fbs self h
    simp only [List.filter_append, r1, r2]
    simp [PlaneEvent.isSurfaceRequest, PlaneEvent.isCall, PlaneEvent.requestsOfCall]
  | some t =>
    obtain ⟨layer, tex, pFb, pHostBuffer⟩ := t
    rw [hl] at h
    dsimp only at h ⊢
    cases hs : CWaylandPlane.GetScale m_Planes 8 self with
    | none =>
      rw [hs] at h
      exact absurd h (by simp)
    | some uScale =>
      rw [hs] at h
      dsimp only at h ⊢
      obtain ⟨r1, r2⟩ := CWaylandPlane.Present_requestsOf X g _ _ self h
      simp only [List.filter_append, r1, r2]
      simp [PlaneEvent.isSurfaceRequest, PlaneEvent.isCall, PlaneEvent.requestsOfCall]

theorem CWaylandPlane.Commit_requests (g : WaylandGlobals) (m_Planes : Nat → CWaylandPlane)
    (fbs : Nat → CWaylandFb) (self : CWaylandPlane)
    (h : (CWaylandPlane.Commit g m_Planes fbs self).bReturned = true) :
    (CWaylandPlane.Commit g m_Planes fbs self).events.filter PlaneEvent.isSurfaceRequest =
      ((CWaylandPlane.Commit g m_Planes fbs self).events.filter
        PlaneEvent.isCall).flatMap PlaneEvent.requestsOfCall := by
  unfold CWaylandPlane.Commit at h ⊢
  by_cases hd : self.m_bNeedsDecorCommit = true
  · rw [if_pos hd] at h ⊢
    unfold CWaylandPlane.CommitLibDecor at h ⊢
    cases hs : CWaylandPlane.GetScale m_Planes 8 self with
    | none =>
      rw [hs] at h
      exact absurd h (by simp)
    | some uScale =>
      simp [PlaneEvent.isSurfaceRequest, PlaneEvent.isCall, PlaneEvent.requestsOfCall]
  · rw [if_neg hd]
    simp [PlaneEvent.isSurfaceRequest, PlaneEvent.isCall, PlaneEvent.requestsOfCall]

theorem CWaylandConnector.PresentBacking_requests (X : WaylandExternals) (g : WaylandGlobals)
    (backend : CWaylandBackendObjects) (m_Planes : Nat → CWaylandPlane)
    (fbs : Nat → CWaylandFb) (pPlane : CWaylandPlane)
    (h : (CWaylandConnector.PresentBacking X g backend m_Planes fbs pPlane).bReturned = true) :
    (CWaylandConnector.PresentBacking X g backend m_Planes fbs pPlane).events.filter
        PlaneEvent.isSurfaceRequest =
      ((CWaylandConnector.PresentBacking X g backend m_Planes fbs pPlane).events.filter
        PlaneEvent.isCall).flatMap PlaneEvent.requestsOfCall := by
  unfold CWaylandConnector.PresentBacking at h ⊢
  cases hs : CWaylandPlane.GetScale m_Planes 8 pPlane with
  | none =>
    rw [hs] at h
    exact absurd h (by simp)
  | some uScale =>
    rw [hs] at h
    dsimp only at h ⊢
    obtain ⟨r1, r2⟩ := CWaylandPlane.Present_requestsOf X g _ _ pPlane h
    rw [r1, r2]
    simp [PlaneEvent.requestsOfCall]

theorem surfaceRequests_append (a b : List PresentEvent) :
    surfaceRequests (a ++ b) = surfaceRequests a ++ surfaceRequests b := by
  simp [surfaceRequests, List.filterMap_append]

theorem requestsOfCalls_append (a b : List PresentEvent) :
    requestsOfCalls (a ++ b) = requestsOfCalls a ++ requestsOfCalls b := by
  simp [requestsOfCalls, List.flatMap_append]

theorem surfaceRequests_map_plane (uPlane : Nat) (l : List PlaneEvent) :
    surfaceRequests (l.map (PresentEvent.plane uPlane)) =
      (l.filter PlaneEvent.isSurfaceRequest).map (fun r => (uPlane, r)) := by
  induction l with
  | nil => rfl
  | cons e rest ih =>
    cases he : e.isSurfaceRequest
    · simpa [surfaceRequests, List.filterMap_cons, he, List.filter_cons] using ih
    · simpa [surfaceRequests, List.filterMap_cons, he, List.filter_cons] using ih

theorem requestsOfCalls_map_plane (uPlane : Nat) (l : List PlaneEvent) :
    requestsOfCalls (l.map (PresentEvent.plane uPlane)) =
      (l.flatMap PlaneEvent.requestsOfCall).map (fun r => (uPlane, r)) := by
  induction l with
  | nil => rfl
  | cons e rest ih =>
    simp only [requestsOfCalls, List.map_cons, List.flatMap_cons, List.map_append] at ih ⊢
    rw [ih]
    rfl

theorem surfaceRequests_outside (l : List PresentEvent)
    (h : ∀ e ∈ l, ∀ u pe, e ≠ PresentEvent.plane u pe) :
    surfaceRequests l = [] ∧ requestsOfCalls (callsOf l) = [] := by
  induction l with
  | nil => exact ⟨rfl, rfl⟩
  | cons e rest ih =>
    obtain ⟨i1, i2⟩ := ih (fun e he => h e (List.mem_cons_of_mem _ he))
    have he := h e (List.mem_cons_self _ _)
    cases e with
    | plane u pe => exact absurd rfl (he u pe)
    | _ =>
      constructor
      · simpa [surfaceRequests, List.filterMap_cons] using i1
      · simpa [requestsOfCalls, callsOf, List.filter_cons, PresentEvent.isCall,
          PresentEvent.requestsOfCall] using i2

theorem Presenting.RequestsFollow_plane (uPlane : Nat)
    (f : (Nat → CWaylandPlane) → (Nat → CWaylandFb) → CWaylandPlane → PlaneCall)
    (hf : ∀ m_Planes fbs self, (f m_Planes fbs self).bReturned = true →
      (f m_Planes fbs self).events.filter PlaneEvent.isSurfaceRequest =
        ((f m_Planes fbs self).events.filter PlaneEvent.isCall).flatMap
          PlaneEvent.requestsOfCall)
    (p : Presenting) (hp : p.RequestsFollow) : (p.plane uPlane f).RequestsFollow := by
  unfold Presenting.plane
  by_cases hr : p.bRunning = true
  · rw [if_pos hr]
    intro hret
    dsimp only at hret ⊢
    rw [surfaceRequests_append, callsOf_append, requestsOfCalls_append, hp hr,
      surfaceRequests_map_plane, callsOf_map_plane, requestsOfCalls_map_plane, hf _ _ _ hret]
  · rw [if_neg hr]
    exact hp

theorem Presenting.RequestsFollow_log (events : List PresentEvent)
    (h : ∀ e ∈ events, ∀ u pe, e ≠ PresentEvent.plane u pe)
    (p : Presenting) (hp : p.RequestsFollow) : (p.log events).RequestsFollow := by
  unfold Presenting.log
  by_cases hr : p.bRunning = true
  · rw [if_pos hr]
    intro _
    dsimp only
    obtain ⟨o1, o2⟩ := surfaceRequests_outside events h
    rw [surfaceRequests_append, callsOf_append, requestsOfCalls_append, hp hr, o1, o2]
  · rw [if_neg hr]
    exact hp

theorem CWaylandConnector.PresentPlanes_RequestsFollow (X : WaylandExternals)
    (g : WaylandGlobals) (pLayerAt : Nat → Option Layer_t) :
    ∀ (is : List Nat) (uCurrentPlane : Nat) (p : Presenting), p.RequestsFollow →
      (CWaylandConnector.PresentPlanes X g pLayerAt is uCurrentPlane p).RequestsFollow := by
  intro is
  induction is with
  | nil => intro _ _ hp; exact hp
  | cons i rest ih =>
    intro u p hp
    unfold CWaylandConnector.PresentPlanes
    split_ifs
    · exact ih (u + 1) _ (Presenting.RequestsFollow_plane u _
        (fun m_Planes fbs self h =>
          CWaylandPlane.PresentLayer_requests X g m_Planes (pLayerAt i) fbs self h) p hp)
    · exact hp

theorem CWaylandConnector.PresentNoBuffer_RequestsFollow (X : WaylandExternals)
    (g : WaylandGlobals) :
    ∀ (is : List Nat) (p : Presenting), p.RequestsFollow →
      (CWaylandConnector.PresentNoBuffer X g is p).RequestsFollow := by
  intro is
  induction is with
  | nil => intro _ hp; exact hp
  | cons i rest ih =>
    intro p hp
    unfold CWaylandConnector.PresentNoBuffer
    exact ih _ (Presenting.RequestsFollow_plane i _
      (fun m_Planes fbs self h =>
        CWaylandPlane.PresentLayer_requests X g m_Planes none fbs self h) p hp)

theorem CWaylandConnector.CommitPlanes_RequestsFollow (g : WaylandGlobals) :
    ∀ (is : List Nat) (p : Presenting), p.RequestsFollow →
      (CWaylandConnector.CommitPlanes g is p).RequestsFollow := by
  intro is
  induction is with
  | nil => intro _ hp; exact hp
  | cons i rest ih =>
    intro p hp
    unfold CWaylandConnector.CommitPlanes
    exact ih _ (Presenting.RequestsFollow_plane i _
      (fun m_Planes fbs self h => CWaylandPlane.Commit_requests g m_Planes fbs self h) p hp)

theorem CWaylandConnector.PresentFinish_requests (g : WaylandGlobals) (g_bFullscreen : Bool)
    (bCompositing : Bool) (p : Presenting) (hp : p.RequestsFollow)
    (hret : (CWaylandConnector.PresentFinish g g_bFullscreen bCompositing p).ret = some 0) :
    surfaceRequests (CWaylandConnector.PresentFinish g g_bFullscreen bCompositing p).events =
      requestsOfCalls
        (callsOf (CWaylandConnector.PresentFinish g g_bFullscreen bCompositing p).events) := by
  have hq := Presenting.RequestsFollow_log
    [PresentEvent.wl_display_flush, PresentEvent.UpdateWasCompositing bCompositing,
      PresentEvent.UpdateLastDrawTime, PresentEvent.PollState]
    (by simp) _ (CWaylandConnector.CommitPlanes_RequestsFollow g [7, 6, 5, 4, 3, 2, 1, 0] p hp)
  unfold CWaylandConnector.PresentFinish at hret ⊢
  dsimp only at hret ⊢
  by_cases hr : ((CWaylandConnector.CommitPlanes g [7, 6, 5, 4, 3, 2, 1, 0] p).log
      [PresentEvent.wl_display_flush, PresentEvent.UpdateWasCompositing bCompositing,
        PresentEvent.UpdateLastDrawTime, PresentEvent.PollState]).bRunning = true
  · exact hq hr
  · rw [if_neg hr] at hret
    exact absurd hret (by simp)

/-- In a call of `CWaylandConnector::Present` that returns 0, the requests on
the surfaces of the planes are, in order, those that follow from the calls of
`CWaylandPlane::Present( oState )` and `CWaylandPlane::Commit()`. -/
theorem CWaylandConnector.Present_requests (X : WaylandExternals) (g : WaylandGlobals)
    (backend : CWaylandBackendObjects) (fbs : Nat → CWaylandFb) (pFrameInfo : FrameInfo_t)
    (bAsync : Bool) (self : CWaylandConnector)
    (hret : (self.Present X g backend fbs pFrameInfo bAsync).ret = some 0) :
    surfaceRequests (self.Present X g backend fbs pFrameInfo bAsync).events =
      requestsOfCalls (callsOf (self.Present X g backend fbs pFrameInfo bAsync).events) := by
  have h0 : (⟨true, self, fbs, (self.UpdateFullscreenState g.g_bFullscreen).2⟩ :
      Presenting).RequestsFollow := by
    intro _
    have := surfaceRequests_outside (self.UpdateFullscreenState g.g_bFullscreen).2 (by
      intro e he u pe
      unfold CWaylandConnector.UpdateFullscreenState at he
      dsimp only at he
      split_ifs at he <;> simp at he <;> simp [he])
    dsimp only
    rw [this.1, this.2]
  unfold CWaylandConnector.Present at hret ⊢
  dsimp only at hret ⊢
  by_cases hvis : (!self.m_bVisible) = true
  · rw [if_pos hvis] at hret ⊢
    exact CWaylandConnector.PresentFinish_requests g _ _ _
      (CWaylandConnector.PresentPlanes_RequestsFollow X g _ _ _ _ h0) hret
  · rw [if_neg hvis] at hret ⊢
    by_cases hc : (!CWaylandConnector.bNeedsFullComposite X g backend pFrameInfo) = true
    · rw [if_pos hc] at hret ⊢
      by_cases hb : CWaylandConnector.bNeedsBacking X pFrameInfo = true
      · rw [if_pos hb] at hret ⊢
        refine CWaylandConnector.PresentFinish_requests g _ _ _
          (CWaylandConnector.PresentPlanes_RequestsFollow X g _ _ _ _ ?_) hret
        refine Presenting.RequestsFollow_plane 0 _
          (fun m_Planes fbs self h =>
            CWaylandConnector.PresentBacking_requests X g backend m_Planes fbs self h) _ ?_
        have h1 := Presenting.RequestsFollow_log
          [PresentEvent.OnCompositorAcquire backend.m_BlackFb] (by simp) _ h0
        intro hr
        exact h1 hr
      · rw [if_neg hb] at hret ⊢
        exact CWaylandConnector.PresentFinish_requests g _ _ _
          (CWaylandConnector.PresentPlanes_RequestsFollow X g _ _ _ _ h0) hret
    · rw [if_neg hc] at hret ⊢
      cases hv : X.vulkan_composite pFrameInfo with
      | none =>
        rw [hv] at hret
        exact absurd hret (by simp [EINVAL])
      | some uSequence =>
        rw [hv] at hret
        dsimp only at hret ⊢
        refine CWaylandConnector.PresentFinish_requests g _ _ _
          (CWaylandConnector.PresentNoBuffer_RequestsFollow X g _ _ ?_) hret
        refine Presenting.RequestsFollow_plane 0 _
          (fun m_Planes fbs self h =>
            CWaylandPlane.PresentLayer_requests X g m_Planes _ fbs self h) _ ?_
        exact Presenting.RequestsFollow_log _ (by simp) _ h0

theorem requestsOfCalls_presentCallsOf (pLayerAt : Nat → Option Layer_t)
    (states : Nat → Option WaylandPlaneState) :
    ∀ (is : List Nat) (uPlane : Nat),
      requestsOfCalls (presentCallsOf pLayerAt states is uPlane) =
        presentRequestsOn states (List.range' uPlane is.length) := by
  intro is
  induction is with
  | nil => intro _; rfl
  | cons i rest ih =>
    intro u
    have := ih (u + 1)
    simp only [requestsOfCalls, presentRequestsOn] at this ⊢
    simp only [presentCallsOf, List.flatMap_cons, List.length_cons, List.range'_succ, this]
    simp [PresentEvent.requestsOfCall, PlaneEvent.requestsOfCall]

theorem requestsOfCalls_finishCallsOf (bCompositing : Bool) :
    requestsOfCalls (finishCallsOf bCompositing) =
      [7, 6, 5, 4, 3, 2, 1, 0].map (fun v => (v, PlaneEvent.wl_surface_commit)) := by
  simp [requestsOfCalls, finishCallsOf, PresentEvent.requestsOfCall, PlaneEvent.requestsOfCall]

theorem presentRequestsOn_congr (s1 s2 : Nat → Option WaylandPlaneState) (planes : List Nat)
    (h : ∀ v ∈ planes, s1 v = s2 v) :
    presentRequestsOn s1 planes = presentRequestsOn s2 planes := by
  induction planes with
  | nil => rfl
  | cons v rest ih =>
    simp only [presentRequestsOn, List.flatMap_cons] at ih ⊢
    rw [h v (List.mem_cons_self _ _), ih (fun v hv => h v (List.mem_cons_of_mem _ hv))]

/-- In a call of `CWaylandConnector::Present` that returns 0, the requests on
the surfaces of the planes are, in this order: for the planes 0, 1, ..., 7 the
requests of presenting the state that the plane has afterwards, then the
`wl_surface_commit` of the planes 7, 6, ..., 0. -/
theorem CWaylandConnector.Present_surfaceRequests (X : WaylandExternals) (g : WaylandGlobals)
    (backend : CWaylandBackendObjects) (fbs : Nat → CWaylandFb) (pFrameInfo : FrameInfo_t)
    (bAsync : Bool) (self : CWaylandConnector)
    (hpar : self.ParentsAsInit)
    (hret : (self.Present X g backend fbs pFrameInfo bAsync).ret = some 0) :
    surfaceRequests (self.Present X g backend fbs pFrameInfo bAsync).events =
      presentRequestsOn
          (fun v =>
            ((self.Present X g backend fbs pFrameInfo bAsync).self.m_Planes
              v).m_oCurrentPlaneState)
          [0, 1, 2, 3, 4, 5, 6, 7] ++
        [7, 6, 5, 4, 3, 2, 1, 0].map (fun v => (v, PlaneEvent.wl_surface_commit)) := by
  rw [CWaylandConnector.Present_requests X g backend fbs pFrameInfo bAsync self hret]
  have hfs : requestsOfCalls (self.UpdateFullscreenState g.g_bFullscreen).2 = [] := by
    unfold CWaylandConnector.UpdateFullscreenState
    dsimp only
    split_ifs <;> simp [requestsOfCalls, PresentEvent.requestsOfCall]
  cases hvis : self.m_bVisible with
  | false =>
    obtain ⟨_, h2, h3⟩ := CWaylandConnector.Present_not_visible X g backend fbs pFrameInfo
      bAsync self hvis hpar
    rw [h3, requestsOfCalls_append, requestsOfCalls_presentCallsOf,
      requestsOfCalls_finishCallsOf]
    congr 1
    apply presentRequestsOn_congr
    intro v hv
    exact (h2 v (by simp at hv; omega)).symm
  | true =>
    cases hc : CWaylandConnector.bNeedsFullComposite X g backend pFrameInfo with
    | false =>
      cases hbk : CWaylandConnector.bNeedsBacking X pFrameInfo with
      | false =>
        rw [(CWaylandConnector.Present_direct_no_backing X g backend fbs
          pFrameInfo bAsync self hvis hpar hc hbk).2.2, requestsOfCalls_append,
          requestsOfCalls_append, hfs, requestsOfCalls_presentCallsOf,
          requestsOfCalls_finishCallsOf]
        rfl
      | true =>
        cases hblack : (fbs backend.m_BlackFb).m_pHostBuffer with
        | none =>
          rw [CWaylandConnector.Present_backing_no_black X g backend fbs pFrameInfo bAsync
            self hvis hc hbk hblack] at hret
          exact absurd hret (by simp)
        | some pBuffer =>
          rw [(CWaylandConnector.Present_direct_backing X g backend fbs
            pFrameInfo bAsync self hvis hpar hc hbk (by simp [hblack])).2.2.2,
            requestsOfCalls_append, requestsOfCalls_append, requestsOfCalls_append, hfs,
            requestsOfCalls_presentCallsOf, requestsOfCalls_finishCallsOf]
          simp [requestsOfCalls, presentRequestsOn, PresentEvent.requestsOfCall,
            PlaneEvent.requestsOfCall, List.range'_succ]
    | true =>
      cases hv : X.vulkan_composite pFrameInfo with
      | none =>
        rw [(CWaylandConnector.Present_composite_failed X g backend fbs pFrameInfo bAsync self
          hvis hc hv).1] at hret
        exact absurd hret (by simp [EINVAL])
      | some uSequence =>
        obtain ⟨_, _, h3, h4⟩ := CWaylandConnector.Present_composite X g backend fbs pFrameInfo
          bAsync self uSequence hvis hpar hc hv
        rw [h4, requestsOfCalls_append, requestsOfCalls_append, requestsOfCalls_append, hfs,
          requestsOfCalls_presentCallsOf, requestsOfCalls_finishCallsOf]
        rw [presentRequestsOn_congr (fun _ => none)
          (fun v =>
            ((self.Present X g backend fbs pFrameInfo bAsync).self.m_Planes
              v).m_oCurrentPlaneState) (List.range' 1 [1, 2, 3, 4, 5, 6, 7].length)
          (fun v hv => (h3 v (by simp at hv; omega) (by simp at hv; omega)).symm)]
        simp [requestsOfCalls, presentRequestsOn, PresentEvent.requestsOfCall,
          PlaneEvent.requestsOfCall, List.range'_succ]

theorem filterMap_plane_map (u v : Nat) (l : List PlaneEvent) :
    (l.map (fun r => (u, r))).filterMap
        (fun r : Nat × PlaneEvent => if r.1 = v then some r.2 else none) =
      if u = v then l else [] := by
  induction l with
  | nil => simp
  | cons e rest ih =>
    by_cases h : u = v
    · simp only [h, if_true] at ih ⊢
      simp [List.filterMap_cons, ih]
    · simp only [h, if_false] at ih ⊢
      simp [List.filterMap_cons, h, ih]

theorem attaches_presentRequestsOf (oState : Option WaylandPlaneState) :
    (presentRequestsOf oState ++ [PlaneEvent.wl_surface_commit]).filterMap
        (fun e =>
          match e with
          | .wl_surface_attach pBuffer => some pBuffer
          | _ => none) =
      [oState.bind WaylandPlaneState.pBuffer] := by
  cases oState <;> simp [presentRequestsOf, List.filterMap_cons]

/-- In a call of `CWaylandConnector::Present` that returns 0, the requests on
the surface of each plane are those of presenting the state that the plane has
afterwards, followed by one `wl_surface_commit`; so one buffer, that of the
state, is attached to the surface. -/
theorem CWaylandConnector.Present_surfaceRequestsOn (X : WaylandExternals)
    (g : WaylandGlobals) (backend : CWaylandBackendObjects) (fbs : Nat → CWaylandFb)
    (pFrameInfo : FrameInfo_t) (bAsync : Bool) (self : CWaylandConnector)
    (hpar : self.ParentsAsInit)
    (hret : (self.Present X g backend fbs pFrameInfo bAsync).ret = some 0)
    (v : Nat) (hv : v < 8) :
    surfaceRequestsOn v (self.Present X g backend fbs pFrameInfo bAsync).events =
        presentRequestsOf
            ((self.Present X g backend fbs pFrameInfo bAsync).self.m_Planes
              v).m_oCurrentPlaneState ++
          [PlaneEvent.wl_surface_commit] ∧
      attachesOn v (self.Present X g backend fbs pFrameInfo bAsync).events =
        [((self.Present X g backend fbs pFrameInfo bAsync).self.m_Planes
          v).m_oCurrentPlaneState.bind WaylandPlaneState.pBuffer] := by
  have h1 : surfaceRequestsOn v (self.Present X g backend fbs pFrameInfo bAsync).events =
      presentRequestsOf
          ((self.Present X g backend fbs pFrameInfo bAsync).self.m_Planes
            v).m_oCurrentPlaneState ++
        [PlaneEvent.wl_surface_commit] := by
    unfold surfaceRequestsOn
    rw [CWaylandConnector.Present_surfaceRequests X g backend fbs pFrameInfo bAsync self hpar
      hret]
    simp only [presentRequestsOn, List.flatMap_cons, List.flatMap_nil, List.filterMap_append,
      filterMap_plane_map, List.append_nil]
    interval_cases v <;> simp [List.filterMap_cons]
  refine ⟨h1, ?_⟩
  unfold attachesOn
  rw [h1]
  exact attaches_presentRequestsOf _

/-! ## What comes first on the composite path -/

theorem Presenting.plane_events_append (uPlane : Nat)
    (f : (Nat → CWaylandPlane) → (Nat → CWaylandFb) → CWaylandPlane → PlaneCall)
    (p : Presenting) : ∃ l, (p.plane uPlane f).events = p.events ++ l := by
  unfold Presenting.plane
  split_ifs
  · exact ⟨_, rfl⟩
  · exact ⟨[], (List.append_nil _).symm⟩

theorem CWaylandConnector.PresentNoBuffer_events_append (X : WaylandExternals)
    (g : WaylandGlobals) :
    ∀ (is : List Nat) (p : Presenting),
      ∃ l, (CWaylandConnector.PresentNoBuffer X g is p).events = p.events ++ l := by
  intro is
  induction is with
  | nil => intro p; exact ⟨[], (List.append_nil _).symm⟩
  | cons i rest ih =>
    intro p
    unfold CWaylandConnector.PresentNoBuffer
    obtain ⟨l1, h1⟩ := Presenting.plane_events_append i
      (fun m_Planes fbs self => CWaylandPlane.PresentLayer X g m_Planes none fbs self) p
    obtain ⟨l2, h2⟩ := ih (p.plane i
      (fun m_Planes fbs self => CWaylandPlane.PresentLayer X g m_Planes none fbs self))
    exact ⟨l1 ++ l2, by rw [h2, h1, List.append_assoc]⟩

theorem CWaylandConnector.CommitPlanes_events_append (g : WaylandGlobals) :
    ∀ (is : List Nat) (p : Presenting),
      ∃ l, (CWaylandConnector.CommitPlanes g is p).events = p.events ++ l := by
  intro is
  induction is with
  | nil => intro p; exact ⟨[], (List.append_nil _).symm⟩
  | cons i rest ih =>
    intro p
    unfold CWaylandConnector.CommitPlanes
    obtain ⟨l1, h1⟩ := Presenting.plane_events_append i
      (fun m_Planes fbs self => CWaylandPlane.Commit g m_Planes fbs self) p
    obtain ⟨l2, h2⟩ := ih (p.plane i
      (fun m_Planes fbs self => CWaylandPlane.Commit g m_Planes fbs self))
    exact ⟨l1 ++ l2, by rw [h2, h1, List.append_assoc]⟩

theorem CWaylandConnector.PresentFinish_events_append (g : WaylandGlobals)
    (g_bFullscreen : Bool) (bCompositing : Bool) (p : Presenting) :
    ∃ l, (CWaylandConnector.PresentFinish g g_bFullscreen bCompositing p).events =
      p.events ++ l := by
  obtain ⟨l, h⟩ := CWaylandConnector.CommitPlanes_events_append g [7, 6, 5, 4, 3, 2, 1, 0] p
  unfold CWaylandConnector.PresentFinish Presenting.log
  dsimp only
  split_ifs
  · exact ⟨l ++ _, by rw [h, List.append_assoc]⟩
  · exact ⟨l, h⟩

/-- On the composite path, what `CWaylandConnector::Present` does starts with
the fullscreen request, if any, the composite, the wait for its result and the
reading of the last output image; whatever the planes do comes after. -/
theorem CWaylandConnector.Present_composite_start (X : WaylandExternals)
    (g : WaylandGlobals) (backend : CWaylandBackendObjects) (fbs : Nat → CWaylandFb)
    (pFrameInfo : FrameInfo_t) (bAsync : Bool) (self : CWaylandConnector) (uSequence : Nat)
    (hvis : self.m_bVisible = true)
    (hcomposite : CWaylandConnector.bNeedsFullComposite X g backend pFrameInfo = true)
    (hok : X.vulkan_composite pFrameInfo = some uSequence) :
    ∃ rest, (self.Present X g backend fbs pFrameInfo bAsync).events =
      (self.UpdateFullscreenState g.g_bFullscreen).2 ++
        [PresentEvent.vulkan_composite, PresentEvent.vulkan_wait uSequence,
          PresentEvent.vulkan_get_last_output_image] ++ rest := by
  simp only [CWaylandConnector.Present, hvis, hcomposite, hok, Bool.not_true,
    Bool.false_eq_true, if_false]
  obtain ⟨l1, h1⟩ := CWaylandConnector.PresentFinish_events_append g
    (self.UpdateFullscreenState g.g_bFullscreen).1 true
    (CWaylandConnector.PresentNoBuffer X g [1, 2, 3, 4, 5, 6, 7]
      ((Presenting.log [PresentEvent.vulkan_composite, PresentEvent.vulkan_wait uSequence,
          PresentEvent.vulkan_get_last_output_image]
        ⟨true, self, fbs, (self.UpdateFullscreenState g.g_bFullscreen).2⟩).plane 0
        (fun m_Planes fbs plane =>
          CWaylandPlane.PresentLayer X g m_Planes
            (some (CWaylandConnector.compositeLayer X pFrameInfo)) fbs plane)))
  obtain ⟨l2, h2⟩ := CWaylandConnector.PresentNoBuffer_events_append X g [1, 2, 3, 4, 5, 6, 7]
    ((Presenting.log [PresentEvent.vulkan_composite, PresentEvent.vulkan_wait uSequence,
        PresentEvent.vulkan_get_last_output_image]
      ⟨true, self, fbs, (self.UpdateFullscreenState g.g_bFullscreen).2⟩).plane 0
      (fun m_Planes fbs plane =>
        CWaylandPlane.PresentLayer X g m_Planes
          (some (CWaylandConnector.compositeLayer X pFrameInfo)) fbs plane))
  obtain ⟨l3, h3⟩ := Presenting.plane_events_append 0
    (fun m_Planes fbs plane =>
      CWaylandPlane.PresentLayer X g m_Planes
        (some (CWaylandConnector.compositeLayer X pFrameInfo)) fbs plane)
    (Presenting.log [PresentEvent.vulkan_composite, PresentEvent.vulkan_wait uSequence,
        PresentEvent.vulkan_get_last_output_image]
      ⟨true, self, fbs, (self.UpdateFullscreenState g.g_bFullscreen).2⟩)
  refine ⟨l3 ++ l2 ++ l1, ?_⟩
  rw [h1, h2, h3]
  simp [Presenting.log]

/-! ## C15 -/

/-- C15: on a visible connector, `Present` calls `vulkan_composite` if and only
if at least one of the eleven conditions is true: composite forced, FSR on
layer 0, NIS on layer 0, blur on layer 0, a NEAREST or PIXEL upscale filter
with a layer 0 whose scale is not 1x1, colour slider in use, fading out, a
non-empty reshade effect, HDR output with HDR ITM, a backend without colour
management with an HDR layer 0, the heatmap debug flag.  Hence the decision is
monotone: when every condition that is true for one call is true for another
and the first composites, so does the second. -/
theorem C15_composite_decision (X : WaylandExternals) (g : WaylandGlobals)
    (backend : CWaylandBackendObjects) (fbs : Nat → CWaylandFb) (pFrameInfo : FrameInfo_t)
    (bAsync : Bool) (self : CWaylandConnector) (hvis : self.m_bVisible = true) :
    (PresentEvent.vulkan_composite ∈ (self.Present X g backend fbs pFrameInfo bAsync).events ↔
      (g.cv_composite_force = true ∨ pFrameInfo.useFSRLayer0 = true ∨
        pFrameInfo.useNISLayer0 = true ∨ pFrameInfo.blurLayer0 ≠ 0 ∨
        ((g.g_upscaleFilter = GamescopeUpscaleFilter.NEAREST ∨
            g.g_upscaleFilter = GamescopeUpscaleFilter.PIXEL) ∧
          ¬ (X.close_enough (pFrameInfo.layers 0).scale.x (Double.finite 1) = true ∧
            X.close_enough (pFrameInfo.layers 0).scale.y (Double.finite 1) = true)) ∨
        g.g_bColorSliderInUse = true ∨ pFrameInfo.bFadingOut = true ∨
        g.g_reshade_effect.isEmpty = false ∨
        (g.g_bOutputHDREnabled = true ∧ g.g_bHDRItmEnable = true) ∨
        (CWaylandBackend.SupportsColorManagement backend = false ∧
          X.ColorspaceIsHDR (pFrameInfo.layers 0).colorspace = true) ∨
        Nat.land g.g_uCompositeDebug X.Heatmap ≠ 0)) ∧
    (∀ (X2 : WaylandExternals) (g2 : WaylandGlobals) (backend2 : CWaylandBackendObjects)
      (fbs2 : Nat → CWaylandFb) (pFrameInfo2 : FrameInfo_t) (bAsync2 : Bool)
      (self2 : CWaylandConnector), self2.m_bVisible = true →
      List.Forall₂ (fun a b => a = true → b = true)
        (compositeConditions X g backend pFrameInfo)
        (compositeConditions X2 g2 backend2 pFrameInfo2) →
      PresentEvent.vulkan_composite ∈ (self.Present X g backend fbs pFrameInfo bAsync).events →
      PresentEvent.vulkan_composite ∈
        (self2.Present X2 g2 backend2 fbs2 pFrameInfo2 bAsync2).events) := by
  constructor
  · rw [CWaylandConnector.vulkan_composite_mem_iff X g backend fbs pFrameInfo bAsync self hvis,
      CWaylandConnector.bNeedsFullComposite_iff]
    simp only [compositeConditions, List.mem_cons, List.mem_singleton, List.not_mem_nil,
      or_false]
    simp only [eq_comm (a := true), Bool.and_eq_true, Bool.or_eq_true, Bool.not_eq_true',
      beq_iff_eq, bne_iff_ne, ne_eq, Bool.not_eq_true, Bool.and_eq_false_imp,
      Bool.not_eq_false, not_and]
  · intro X2 g2 backend2 fbs2 pFrameInfo2 bAsync2 self2 hvis2 hle hm
    rw [CWaylandConnector.vulkan_composite_mem_iff _ _ _ _ _ _ _ hvis2,
      CWaylandConnector.bNeedsFullComposite_iff]
    rw [CWaylandConnector.vulkan_composite_mem_iff _ _ _ _ _ _ _ hvis,
      CWaylandConnector.bNeedsFullComposite_iff] at hm
    exact compositeConditions_mono _ _ hle hm

/-- C15 on concrete frames: a visible connector composites a plain frame when
composite is forced. -/
theorem C15_composite_decision_witness :
    PresentEvent.vulkan_composite ∈
      (CWaylandConnector.Present (plainWaylandExternals true) (plainWaylandGlobals true)
        plainBackendObjects plainFbs (plainFrame 1) false (plainConnector true)).events :=
  ((C15_composite_decision (plainWaylandExternals true) (plainWaylandGlobals true)
    plainBackendObjects plainFbs (plainFrame 1) false (plainConnector true) rfl).1).mpr
      (Or.inl rfl)

/-! ## C16 -/

/-- C16: on a visible connector, a frame of exactly one layer that is
screen-sized and has no alpha, with every composite-forcing condition false,
is presented without a composite call and without the black backing plane: the
layer is presented on plane 0, whose state carries the host buffer of the
layer, the planes 1 to 7 are presented with no buffer, each plane is presented
once, and `Present` returns 0.  On the surface of plane 0 the requests are
those of presenting that state, with the host buffer of the layer as the one
buffer attached, followed by `wl_surface_commit`; on the surface of each of
the planes 1 to 7 they are the attach of the null buffer, the damage and
`wl_surface_commit`. -/
theorem C16_single_opaque_layer_goes_direct (X : WaylandExternals) (g : WaylandGlobals)
    (backend : CWaylandBackendObjects) (fbs : Nat → CWaylandFb) (pFrameInfo : FrameInfo_t)
    (bAsync : Bool) (self : CWaylandConnector)
    (hvis : self.m_bVisible = true) (hpar : self.ParentsAsInit)
    (hcount : pFrameInfo.layerCount = 1)
    (hsize : X.isScreenSize (pFrameInfo.layers 0) = true)
    (halpha : X.hasAlpha (pFrameInfo.layers 0) = false)
    (hnone : ∀ c ∈ compositeConditions X g backend pFrameInfo, c = false) :
    (self.Present X g backend fbs pFrameInfo bAsync).ret = some 0 ∧
    PresentEvent.vulkan_composite ∉ (self.Present X g backend fbs pFrameInfo bAsync).events ∧
    (∀ pFb, PresentEvent.OnCompositorAcquire pFb ∉
      (self.Present X g backend fbs pFrameInfo bAsync).events) ∧
    layerCalls (self.Present X g backend fbs pFrameInfo bAsync).events =
      [(0, some (pFrameInfo.layers 0)), (1, none), (2, none), (3, none), (4, none), (5, none),
        (6, none), (7, none)] ∧
    presentCalls (self.Present X g backend fbs pFrameInfo bAsync).events =
      [(0, ((self.Present X g backend fbs pFrameInfo bAsync).self.m_Planes
          0).m_oCurrentPlaneState),
        (1, none), (2, none), (3, none), (4, none), (5, none), (6, none), (7, none)] ∧
    ((self.Present X g backend fbs pFrameInfo bAsync).self.m_Planes
        0).m_oCurrentPlaneState.bind WaylandPlaneState.pBuffer =
      CWaylandPlane.LayerHostBuffer fbs (some (pFrameInfo.layers 0)) ∧
    (∀ v, 1 ≤ v → v < 8 →
      ((self.Present X g backend fbs pFrameInfo bAsync).self.m_Planes v).m_oCurrentPlaneState =
        none) ∧
    attachesOn 0 (self.Present X g backend fbs pFrameInfo bAsync).events =
      [CWaylandPlane.LayerHostBuffer fbs (some (pFrameInfo.layers 0))] ∧
    surfaceRequestsOn 0 (self.Present X g backend fbs pFrameInfo bAsync).events =
      presentRequestsOf
          ((self.Present X g backend fbs pFrameInfo bAsync).self.m_Planes
            0).m_oCurrentPlaneState ++
        [PlaneEvent.wl_surface_commit] ∧
    (∀ v, 1 ≤ v → v < 8 →
      surfaceRequestsOn v (self.Present X g backend fbs pFrameInfo bAsync).events =
        [PlaneEvent.wl_surface_attach none, PlaneEvent.wl_surface_damage,
          PlaneEvent.wl_surface_commit]) := by
  have hdirect : CWaylandConnector.bNeedsFullComposite X g backend pFrameInfo = false := by
    cases h : CWaylandConnector.bNeedsFullComposite X g backend pFrameInfo with
    | false => rfl
    | true =>
      have := hnone true ((CWaylandConnector.bNeedsFullComposite_iff X g backend pFrameInfo).mp h)
      exact absurd this (by decide)
  have hb : CWaylandConnector.bNeedsBacking X pFrameInfo = false := by
    simp [CWaylandConnector.bNeedsBacking, hcount, hsize, halpha]
  obtain ⟨h1, h2, h3⟩ := CWaylandConnector.Present_direct_no_backing X g backend fbs pFrameInfo
    bAsync self hvis hpar hdirect hb
  obtain ⟨f1, f2, _⟩ := CWaylandConnector.UpdateFullscreenState_events g.g_bFullscreen self
  obtain ⟨u1, u2, _⟩ := CWaylandConnector.UpdateFullscreenState_calls g.g_bFullscreen self
  have hat0 : CWaylandConnector.pLayerAt pFrameInfo 0 = some (pFrameInfo.layers 0) := by
    simp [CWaylandConnector.pLayerAt, hcount]
  have hat : ∀ k, 1 ≤ k → CWaylandConnector.pLayerAt pFrameInfo k = none := by
    intro k hk
    simp only [CWaylandConnector.pLayerAt, hcount]
    rw [if_neg]
    omega
  have hstate : ∀ v, 1 ≤ v → v < 8 →
      ((self.Present X g backend fbs pFrameInfo bAsync).self.m_Planes v).m_oCurrentPlaneState =
        none := by
    intro v hv1 hv
    have := (h2 v hv).2
    rw [hat v hv1] at this
    exact this.mpr rfl
  have hreq := CWaylandConnector.Present_surfaceRequestsOn X g backend fbs pFrameInfo bAsync
    self hpar h1
  refine ⟨h1, ?_, ?_, ?_, ?_, ?_, hstate, ?_, (hreq 0 (by decide)).1, ?_⟩
  rotate_left 5
  · rw [(hreq 0 (by decide)).2, ← hat0, (h2 0 (by decide)).1]
  · intro v hv1 hv
    rw [(hreq v hv).1, hstate v hv1 hv]
    rfl
  · rw [← mem_callsOf PresentEvent.vulkan_composite rfl, h3]
    intro hmem
    simp only [List.mem_append, presentCallsOf, finishCallsOf, List.mem_cons, List.mem_nil_iff,
      or_false, reduceCtorEq, false_or] at hmem
    rcases f2 _ hmem with h | h <;> cases h
  · intro pFb
    rw [← mem_callsOf (PresentEvent.OnCompositorAcquire pFb) rfl, h3]
    intro hmem
    simp only [List.mem_append, presentCallsOf, finishCallsOf, List.mem_cons, List.mem_nil_iff,
      or_false, reduceCtorEq, false_or] at hmem
    rcases f2 _ hmem with h | h <;> cases h
  · rw [← layerCalls_callsOf, h3]
    simp only [layerCalls, List.filterMap_append] at u1 ⊢
    rw [u1]
    simp [presentCallsOf, finishCallsOf, PlaneEvent.asPresentLayer, hat0, hat]
  · rw [← presentCalls_callsOf, h3]
    simp only [presentCalls, List.filterMap_append] at u2 ⊢
    rw [u2]
    simp [presentCallsOf, finishCallsOf, PlaneEvent.asPresent, hstate]
  · rw [← hat0]
    exact (h2 0 (by decide)).1

/-- C16 on a concrete frame: one screen-sized layer without alpha, on the
framebuffer 1 whose host buffer is 101, which is the one buffer attached to the
surface of plane 0. -/
theorem C16_single_opaque_layer_goes_direct_witness :
    (CWaylandConnector.Present (plainWaylandExternals true) (plainWaylandGlobals false)
      plainBackendObjects plainFbs (plainFrame 1) false (plainConnector true)).ret = some 0 ∧
    ((CWaylandConnector.Present (plainWaylandExternals true) (plainWaylandGlobals false)
      plainBackendObjects plainFbs (plainFrame 1) false (plainConnector true)).self.m_Planes
        0).m_oCurrentPlaneState.bind WaylandPlaneState.pBuffer = some 101 ∧
    attachesOn 0 (CWaylandConnector.Present (plainWaylandExternals true)
      (plainWaylandGlobals false) plainBackendObjects plainFbs (plainFrame 1) false
      (plainConnector true)).events = [some 101] :=
  ⟨(C16_single_opaque_layer_goes_direct (plainWaylandExternals true) (plainWaylandGlobals false)
      plainBackendObjects plainFbs (plainFrame 1) false (plainConnector true) rfl
      ⟨rfl, fun i hi _ => by simp [plainConnector, hi]⟩ rfl rfl rfl (by decide)).1,
    (C16_single_opaque_layer_goes_direct (plainWaylandExternals true) (plainWaylandGlobals false)
      plainBackendObjects plainFbs (plainFrame 1) false (plainConnector true) rfl
      ⟨rfl, fun i hi _ => by simp [plainConnector, hi]⟩ rfl rfl rfl (by decide)).2.2.2.2.2.1,
    (C16_single_opaque_layer_goes_direct (plainWaylandExternals true) (plainWaylandGlobals false)
      plainBackendObjects plainFbs (plainFrame 1) false (plainConnector true) rfl
      ⟨rfl, fun i hi _ => by simp [plainConnector, hi]⟩ rfl rfl rfl
      (by decide)).2.2.2.2.2.2.2.1⟩

/-! ## C17 -/

/-- C17: on a connector that is not visible, for every frame, `Present`
presents no buffer on each of the 8 planes, so that the current state of each
plane becomes empty, does not call `vulkan_composite`, reports "was not
compositing" to the vblank timer, and returns 0. -/
theorem C17_not_visible_presents_no_buffer (X : WaylandExternals) (g : WaylandGlobals)
    (backend : CWaylandBackendObjects) (fbs : Nat → CWaylandFb) (pFrameInfo : FrameInfo_t)
    (bAsync : Bool) (self : CWaylandConnector)
    (hvis : self.m_bVisible = false) (hpar : self.ParentsAsInit) :
    (self.Present X g backend fbs pFrameInfo bAsync).ret = some 0 ∧
    layerCalls (self.Present X g backend fbs pFrameInfo bAsync).events =
      [(0, none), (1, none), (2, none), (3, none), (4, none), (5, none), (6, none), (7, none)] ∧
    presentCalls (self.Present X g backend fbs pFrameInfo bAsync).events =
      [(0, none), (1, none), (2, none), (3, none), (4, none), (5, none), (6, none), (7, none)] ∧
    (∀ v, v < 8 →
      ((self.Present X g backend fbs pFrameInfo bAsync).self.m_Planes v).m_oCurrentPlaneState =
        none) ∧
    PresentEvent.vulkan_composite ∉ (self.Present X g backend fbs pFrameInfo bAsync).events ∧
    PresentEvent.UpdateWasCompositing false ∈
      (self.Present X g backend fbs pFrameInfo bAsync).events ∧
    PresentEvent.UpdateWasCompositing true ∉
      (self.Present X g backend fbs pFrameInfo bAsync).events := by
  obtain ⟨h1, h2, h3⟩ := CWaylandConnector.Present_not_visible X g backend fbs pFrameInfo
    bAsync self hvis hpar
  refine ⟨h1, ?_, ?_, h2, ?_, ?_, ?_⟩
  · rw [← layerCalls_callsOf, h3]
    simp [layerCalls, presentCallsOf, finishCallsOf, PlaneEvent.asPresentLayer]
  · rw [← presentCalls_callsOf, h3]
    simp [presentCalls, presentCallsOf, finishCallsOf, PlaneEvent.asPresent]
  · rw [← mem_callsOf PresentEvent.vulkan_composite rfl, h3]
    simp [presentCallsOf, finishCallsOf]
  · rw [← mem_callsOf (PresentEvent.UpdateWasCompositing false) rfl, h3]
    simp [presentCallsOf, finishCallsOf]
  · rw [← mem_callsOf (PresentEvent.UpdateWasCompositing true) rfl, h3]
    simp [presentCallsOf, finishCallsOf]

/-- C17 on a concrete frame: a frame of three layers with composite forced, on
a connector that is not visible. -/
theorem C17_not_visible_presents_no_buffer_witness :
    (CWaylandConnector.Present (plainWaylandExternals true) (plainWaylandGlobals true)
      plainBackendObjects plainFbs (plainFrame 3) false (plainConnector false)).ret = some 0 ∧
    PresentEvent.vulkan_composite ∉
      (CWaylandConnector.Present (plainWaylandExternals true) (plainWaylandGlobals true)
        plainBackendObjects plainFbs (plainFrame 3) false (plainConnector false)).events :=
  ⟨(C17_not_visible_presents_no_buffer (plainWaylandExternals true) (plainWaylandGlobals true)
      plainBackendObjects plainFbs (plainFrame 3) false (plainConnector false) rfl
      ⟨rfl, fun i hi _ => by simp [plainConnector, hi]⟩).1,
    (C17_not_visible_presents_no_buffer (plainWaylandExternals true) (plainWaylandGlobals true)
      plainBackendObjects plainFbs (plainFrame 3) false (plainConnector false) rfl
      ⟨rfl, fun i hi _ => by simp [plainConnector, hi]⟩).2.2.2.2.1⟩

/-! ## C18 -/

theorem toI32_of_lt (n : Nat) (h : n < 2147483648) : toI32 n = n := by
  unfold toI32
  omega

/-- On the direct path of a visible connector, with `b` the number of planes
that the black backing takes: the state of plane 0 when `b = 1`, the calls of
`Present( pLayer )` on the planes `b + i` for `i` from 0 to `7 - b`, and the
buffer of the state of each of these planes. -/
theorem CWaylandConnector.Present_direct_assignment (X : WaylandExternals)
    (g : WaylandGlobals) (backend : CWaylandBackendObjects) (fbs : Nat → CWaylandFb)
    (pFrameInfo : FrameInfo_t) (bAsync : Bool) (self : CWaylandConnector) (b : Nat)
    (hvis : self.m_bVisible = true) (hpar : self.ParentsAsInit)
    (hnone : ∀ c ∈ compositeConditions X g backend pFrameInfo, c = false)
    (hb : b = if pFrameInfo.layerCount ≥ 1 ∧ X.isScreenSize (pFrameInfo.layers 0) = true ∧
      X.hasAlpha (pFrameInfo.layers 0) = false then 0 else 1)
    (hblack : b = 1 → (fbs backend.m_BlackFb).m_pHostBuffer ≠ none) :

    (self.Present X g backend fbs pFrameInfo bAsync).ret = some 0 ∧
    (b = 1 →
      PresentEvent.OnCompositorAcquire backend.m_BlackFb ∈
        (self.Present X g backend fbs pFrameInfo bAsync).events ∧
      ∃ state,
        (presentCalls (self.Present X g backend fbs pFrameInfo bAsync).events).head? =
          some (0, some state) ∧
        ((self.Present X g backend fbs pFrameInfo bAsync).self.m_Planes
          0).m_oCurrentPlaneState = some state ∧
        state.pBuffer = (fbs backend.m_BlackFb).m_pHostBuffer ∧
        state.flSrcWidth = Double.finite 1 ∧ state.flSrcHeight = Double.finite 1 ∧
        state.nDestX = 0 ∧ state.nDestY = 0 ∧
        state.nDstWidth = toI32 g.g_nOutputWidth ∧
        state.nDstHeight = toI32 g.g_nOutputHeight ∧
        state.bOpaque = true) ∧
    layerCalls (self.Present X g backend fbs pFrameInfo bAsync).events =
      (List.range (8 - b)).map (fun i => (b + i, CWaylandConnector.pLayerAt pFrameInfo i)) ∧
    (presentCalls (self.Present X g backend fbs pFrameInfo bAsync).events).map Prod.fst =
      [0, 1, 2, 3, 4, 5, 6, 7] ∧
    (b ≤ 1) ∧
    (∀ k, k < 8 - b →
      (((self.Present X g backend fbs pFrameInfo bAsync).self.m_Planes
          (b + k)).m_oCurrentPlaneState.bind WaylandPlaneState.pBuffer =
        CWaylandPlane.LayerHostBuffer fbs (CWaylandConnector.pLayerAt pFrameInfo k) ∧
      (((self.Present X g backend fbs pFrameInfo bAsync).self.m_Planes
          (b + k)).m_oCurrentPlaneState = none ↔
        CWaylandPlane.LayerHostBuffer fbs (CWaylandConnector.pLayerAt pFrameInfo k) = none))) := by
  have hdirect : CWaylandConnector.bNeedsFullComposite X g backend pFrameInfo = false := by
    cases h : CWaylandConnector.bNeedsFullComposite X g backend pFrameInfo with
    | false => rfl
    | true =>
      have := hnone true ((CWaylandConnector.bNeedsFullComposite_iff X g backend pFrameInfo).mp h)
      exact absurd this (by decide)
  obtain ⟨f1, f2, _⟩ := CWaylandConnector.UpdateFullscreenState_events g.g_bFullscreen self
  obtain ⟨u1, u2, _⟩ := CWaylandConnector.UpdateFullscreenState_calls g.g_bFullscreen self
  by_cases hcond : pFrameInfo.layerCount ≥ 1 ∧ X.isScreenSize (pFrameInfo.layers 0) = true ∧
      X.hasAlpha (pFrameInfo.layers 0) = false
  · rw [if_pos hcond] at hb
    subst hb
    have hbk : CWaylandConnector.bNeedsBacking X pFrameInfo = false := by
      simp [CWaylandConnector.bNeedsBacking, hcond.1, hcond.2.1, hcond.2.2]
    obtain ⟨h1, h2, h3⟩ := CWaylandConnector.Present_direct_no_backing X g backend fbs
      pFrameInfo bAsync self hvis hpar hdirect hbk
    refine ⟨h1, fun h => absurd h (by decide), ?_, ?_, by decide, ?_⟩
    · rw [← layerCalls_callsOf, h3]
      simp only [layerCalls, List.filterMap_append] at u1 ⊢
      rw [u1]
      simp [presentCallsOf, finishCallsOf, PlaneEvent.asPresentLayer,
        show List.range 8 = [0, 1, 2, 3, 4, 5, 6, 7] from rfl]
    · rw [← presentCalls_callsOf, h3]
      simp only [presentCalls, List.filterMap_append] at u2 ⊢
      rw [u2]
      simp [presentCallsOf, finishCallsOf, PlaneEvent.asPresent]
    · intro k hk
      rw [Nat.zero_add]
      exact h2 k hk
  · rw [if_neg hcond] at hb
    subst hb
    have hbk : CWaylandConnector.bNeedsBacking X pFrameInfo = true := by
      unfold CWaylandConnector.bNeedsBacking
      by_cases hc : pFrameInfo.layerCount ≥ 1
      · rw [if_pos hc]
        have : ¬ (X.isScreenSize (pFrameInfo.layers 0) = true ∧
            X.hasAlpha (pFrameInfo.layers 0) = false) := fun h => hcond ⟨hc, h⟩
        cases hs : X.isScreenSize (pFrameInfo.layers 0) <;>
          cases ha : X.hasAlpha (pFrameInfo.layers 0) <;> simp_all
      · rw [if_neg hc]
    obtain ⟨h1, ⟨uScale, h2⟩, h3, h4⟩ := CWaylandConnector.Present_direct_backing X g backend fbs
      pFrameInfo bAsync self hvis hpar hdirect hbk (hblack rfl)
    refine ⟨h1, fun _ => ⟨?_, ?_⟩, ?_, ?_, by decide, ?_⟩
    · rw [← mem_callsOf (PresentEvent.OnCompositorAcquire backend.m_BlackFb) rfl, h4]
      simp
    · refine ⟨_, ?_, h2, rfl, rfl, rfl, rfl, rfl, rfl, rfl, rfl⟩
      rw [← presentCalls_callsOf, h4, h2]
      simp only [presentCalls, List.filterMap_append] at u2 ⊢
      rw [u2]
      simp [PlaneEvent.asPresent]
    · rw [← layerCalls_callsOf, h4]
      simp only [layerCalls, List.filterMap_append] at u1 ⊢
      rw [u1]
      simp [presentCallsOf, finishCallsOf, PlaneEvent.asPresentLayer,
        show List.range 7 = [0, 1, 2, 3, 4, 5, 6] from rfl]
    · rw [← presentCalls_callsOf, h4]
      simp only [presentCalls, List.filterMap_append] at u2 ⊢
      rw [u2]
      simp [presentCallsOf, finishCallsOf, PlaneEvent.asPresent]
    · intro k hk
      exact h3 k (by omega)

/-- C18 fails as stated.  On a visible connector with no composite condition, a
frame of 8 layers whose layer 0 has alpha takes the direct path with the black
backing on plane 0 (`b = 1`) and `Present` returns 0.  The layers 0 to 6 are
presented on the planes 1 to 7; the loop stops at `uCurrentPlane = 8`, so the
layer 7, a layer of the frame, is presented on no plane, and its host buffer
108 is attached to no surface. -/
theorem C18_counterexample_eighth_layer :
    (CWaylandConnector.Present { plainWaylandExternals true with hasAlpha := fun _ => true }
      (plainWaylandGlobals false) plainBackendObjects plainFbs (plainFrame 8) false
      (plainConnector true)).ret = some 0 ∧
    ((7 : Int) < (plainFrame 8).layerCount ∧
      CWaylandPlane.LayerHostBuffer plainFbs (some ((plainFrame 8).layers 7)) = some 108) ∧
    layerCalls (CWaylandConnector.Present
      { plainWaylandExternals true with hasAlpha := fun _ => true }
      (plainWaylandGlobals false) plainBackendObjects plainFbs (plainFrame 8) false
      (plainConnector true)).events =
      [(1, some ((plainFrame 8).layers 0)), (2, some ((plainFrame 8).layers 1)),
        (3, some ((plainFrame 8).layers 2)), (4, some ((plainFrame 8).layers 3)),
        (5, some ((plainFrame 8).layers 4)), (6, some ((plainFrame 8).layers 5)),
        (7, some ((plainFrame 8).layers 6))] ∧
    (∀ u, (u, some ((plainFrame 8).layers 7)) ∉
      layerCalls (CWaylandConnector.Present
        { plainWaylandExternals true with hasAlpha := fun _ => true }
        (plainWaylandGlobals false) plainBackendObjects plainFbs (plainFrame 8) false
        (plainConnector true)).events) ∧
    (∀ u, u < 8 →
      attachesOn u (CWaylandConnector.Present
        { plainWaylandExternals true with hasAlpha := fun _ => true }
        (plainWaylandGlobals false) plainBackendObjects plainFbs (plainFrame 8) false
        (plainConnector true)).events = [some (100 + u)]) := by
  have hpar : (plainConnector true).ParentsAsInit :=
    ⟨rfl, fun i hi _ => by simp [plainConnector, hi]⟩
  obtain ⟨m1, m2, m3, _, _, m6⟩ := CWaylandConnector.Present_direct_assignment
    { plainWaylandExternals true with hasAlpha := fun _ => true }
    (plainWaylandGlobals false) plainBackendObjects plainFbs (plainFrame 8) false
    (plainConnector true) 1 rfl hpar (by decide) (by decide) (fun _ => by decide)
  have hreq := CWaylandConnector.Present_surfaceRequestsOn
    { plainWaylandExternals true with hasAlpha := fun _ => true }
    (plainWaylandGlobals false) plainBackendObjects plainFbs (plainFrame 8) false
    (plainConnector true) hpar m1
  obtain ⟨_, state, _, k3, k4, _⟩ := m2 rfl
  have hl : layerCalls (CWaylandConnector.Present
      { plainWaylandExternals true with hasAlpha := fun _ => true }
      (plainWaylandGlobals false) plainBackendObjects plainFbs (plainFrame 8) false
      (plainConnector true)).events =
      [(1, some ((plainFrame 8).layers 0)), (2, some ((plainFrame 8).layers 1)),
        (3, some ((plainFrame 8).layers 2)), (4, some ((plainFrame 8).layers 3)),
        (5, some ((plainFrame 8).layers 4)), (6, some ((plainFrame 8).layers 5)),
        (7, some ((plainFrame 8).layers 6))] := by
    rw [m3]
    decide
  refine ⟨m1, ⟨by decide, by decide⟩, hl, ?_, ?_⟩
  · intro u hmem
    rw [hl] at hmem
    have hne : ∀ p ∈
        [(1, some ((plainFrame 8).layers 0)), (2, some ((plainFrame 8).layers 1)),
          (3, some ((plainFrame 8).layers 2)), (4, some ((plainFrame 8).layers 3)),
          (5, some ((plainFrame 8).layers 4)), (6, some ((plainFrame 8).layers 5)),
          (7, some ((plainFrame 8).layers 6))],
        p.2 ≠ some ((plainFrame 8).layers 7) := by decide
    exact hne _ hmem rfl
  · intro u hu
    rw [(hreq u hu).2]
    rcases Nat.eq_zero_or_pos u with h0 | hpos
    · subst h0
      rw [k3, Option.bind, k4]
      rfl
    · have := (m6 (u - 1) (by omega)).1
      rw [show 1 + (u - 1) = u by omega] at this
      rw [this]
      have hu7 : u - 1 < 7 := by omega
      obtain ⟨j, hj⟩ : ∃ j, u = j + 1 := ⟨u - 1, by omega⟩
      subst hj
      simp only [Nat.add_sub_cancel]
      have hj7 : j < 7 := by omega
      interval_cases j <;> decide

/-- C18, amended: on the direct path of a visible connector, let `b` be 0 when
`layerCount >= 1` and layer 0 is screen-sized without alpha, and 1 otherwise.
When `b = 1` the black framebuffer is acquired and plane 0 is presented with
its host buffer, a 1x1 source, the destination (0, 0) of `g_nOutputWidth` x
`g_nOutputHeight` (as `int32_t`), opaque, and that buffer is the one buffer
attached to its surface.  The calls of `Present( pLayer )` are, in this order,
those of the planes `b + i` for `i` from 0 to `7 - b`, with the layer `i` when
`i < layerCount` and with null otherwise; so every layer `i < layerCount` with
`b + i < 8` is presented on the plane `b + i`, with its host buffer as the one
buffer attached to the surface of that plane, and a layer `i` with
`b + i >= 8` is presented on no plane.  Every plane from `b + layerCount` on is
presented with no buffer: its state becomes empty and the requests on its
surface are the attach of the null buffer, the damage and `wl_surface_commit`.
Each of the 8 planes is presented once, in ascending order: the requests on
its surface are those of presenting the state that it has afterwards, followed
by `wl_surface_commit`.  `Present` returns 0. -/
theorem C18_direct_path_plane_assignment (X : WaylandExternals) (g : WaylandGlobals)
    (backend : CWaylandBackendObjects) (fbs : Nat → CWaylandFb) (pFrameInfo : FrameInfo_t)
    (bAsync : Bool) (self : CWaylandConnector) (b : Nat)
    (hvis : self.m_bVisible = true) (hpar : self.ParentsAsInit)
    (hnone : ∀ c ∈ compositeConditions X g backend pFrameInfo, c = false)
    (hb : b = if pFrameInfo.layerCount ≥ 1 ∧ X.isScreenSize (pFrameInfo.layers 0) = true ∧
      X.hasAlpha (pFrameInfo.layers 0) = false then 0 else 1)
    (hblack : b = 1 → (fbs backend.m_BlackFb).m_pHostBuffer ≠ none) :
    (self.Present X g backend fbs pFrameInfo bAsync).ret = some 0 ∧
    (b = 1 →
      PresentEvent.OnCompositorAcquire backend.m_BlackFb ∈
        (self.Present X g backend fbs pFrameInfo bAsync).events ∧
      ∃ state,
        (presentCalls (self.Present X g backend fbs pFrameInfo bAsync).events).head? =
          some (0, some state) ∧
        ((self.Present X g backend fbs pFrameInfo bAsync).self.m_Planes
          0).m_oCurrentPlaneState = some state ∧
        state.pBuffer = (fbs backend.m_BlackFb).m_pHostBuffer ∧
        state.flSrcWidth = Double.finite 1 ∧ state.flSrcHeight = Double.finite 1 ∧
        state.nDestX = 0 ∧ state.nDestY = 0 ∧
        state.nDstWidth = toI32 g.g_nOutputWidth ∧ state.nDstHeight = toI32 g.g_nOutputHeight ∧
        (g.g_nOutputWidth < 2147483648 → state.nDstWidth = g.g_nOutputWidth) ∧
        (g.g_nOutputHeight < 2147483648 → state.nDstHeight = g.g_nOutputHeight) ∧
        state.bOpaque = true ∧
        attachesOn 0 (self.Present X g backend fbs pFrameInfo bAsync).events =
          [(fbs backend.m_BlackFb).m_pHostBuffer] ∧
        surfaceRequestsOn 0 (self.Present X g backend fbs pFrameInfo bAsync).events =
          [PlaneEvent.wp_viewport_set_source state.flSrcX state.flSrcY (Double.finite 1)
              (Double.finite 1),
            PlaneEvent.wp_viewport_set_destination
              (toI32 (WaylandScaleToLogical (toU32 (toI32 g.g_nOutputWidth))
                state.uFractionalScale))
              (toI32 (WaylandScaleToLogical (toU32 (toI32 g.g_nOutputHeight))
                state.uFractionalScale)),
            PlaneEvent.wl_surface_attach (fbs backend.m_BlackFb).m_pHostBuffer,
            PlaneEvent.wl_surface_damage, PlaneEvent.wl_surface_set_opaque_region true,
            PlaneEvent.wl_surface_set_buffer_scale, PlaneEvent.wl_surface_commit]) ∧
    layerCalls (self.Present X g backend fbs pFrameInfo bAsync).events =
      (List.range (8 - b)).map (fun i =>
        (b + i, if (i : Int) < pFrameInfo.layerCount then some (pFrameInfo.layers i) else none)) ∧
    (presentCalls (self.Present X g backend fbs pFrameInfo bAsync).events).map Prod.fst =
      [0, 1, 2, 3, 4, 5, 6, 7] ∧
    (∀ i : Nat, (i : Int) < pFrameInfo.layerCount → b + i < 8 →
      (b + i, some (pFrameInfo.layers i)) ∈
        layerCalls (self.Present X g backend fbs pFrameInfo bAsync).events ∧
      attachesOn (b + i) (self.Present X g backend fbs pFrameInfo bAsync).events =
        [CWaylandPlane.LayerHostBuffer fbs (some (pFrameInfo.layers i))]) ∧
    (∀ (i : Nat) (u : Nat) (pLayer : Option Layer_t), 8 ≤ b + i →
      (u, pLayer) ∈ layerCalls (self.Present X g backend fbs pFrameInfo bAsync).events →
        b ≤ u ∧ u < 8 ∧ u - b ≠ i ∧
          pLayer = if ((u - b : Nat) : Int) < pFrameInfo.layerCount then
            some (pFrameInfo.layers (u - b)) else none) ∧
    (∀ v : Nat, b ≤ v → (b : Int) + pFrameInfo.layerCount ≤ v → v < 8 →
      (v, none) ∈ layerCalls (self.Present X g backend fbs pFrameInfo bAsync).events ∧
      ((self.Present X g backend fbs pFrameInfo bAsync).self.m_Planes v).m_oCurrentPlaneState =
        none ∧
      surfaceRequestsOn v (self.Present X g backend fbs pFrameInfo bAsync).events =
        [PlaneEvent.wl_surface_attach none, PlaneEvent.wl_surface_damage,
          PlaneEvent.wl_surface_commit]) ∧
    (∀ v, v < 8 →
      surfaceRequestsOn v (self.Present X g backend fbs pFrameInfo bAsync).events =
        presentRequestsOf
            ((self.Present X g backend fbs pFrameInfo bAsync).self.m_Planes
              v).m_oCurrentPlaneState ++
          [PlaneEvent.wl_surface_commit]) := by
  obtain ⟨m1, m2, m3, m4, m5, m6⟩ := CWaylandConnector.Present_direct_assignment X g backend
    fbs pFrameInfo bAsync self b hvis hpar hnone hb hblack
  have hreq := CWaylandConnector.Present_surfaceRequestsOn X g backend fbs pFrameInfo bAsync
    self hpar m1
  refine ⟨m1, ?_, m3, m4, ?_, ?_, ?_, fun v hv => (hreq v hv).1⟩
  · intro hb1
    obtain ⟨k1, state, k2, k3, k4, k5, k6, k7, k8, k9, k10, k11⟩ := m2 hb1
    refine ⟨k1, state, k2, k3, k4, k5, k6, k7, k8, k9, k10,
      fun h => by rw [k9, toI32_of_lt _ h], fun h => by rw [k10, toI32_of_lt _ h], k11, ?_, ?_⟩
    · rw [(hreq 0 (by decide)).2, k3, Option.bind, k4]
    · rw [(hreq 0 (by decide)).1, k3]
      simp [presentRequestsOf, k4, k5, k6, k9, k10, k11]
  · intro i hi hfit
    have hat : CWaylandConnector.pLayerAt pFrameInfo i = some (pFrameInfo.layers i) := by
      simp only [CWaylandConnector.pLayerAt, if_pos hi]
    constructor
    · rw [m3, List.mem_map]
      exact ⟨i, List.mem_range.mpr (by omega), by rw [hat]⟩
    · rw [(hreq (b + i) hfit).2, (m6 i (by omega)).1, hat]
  · intro i u pLayer hi hmem
    rw [m3, List.mem_map] at hmem
    obtain ⟨j, hj, hju⟩ := hmem
    have hj8 := List.mem_range.mp hj
    have h1 : u = b + j := (congrArg Prod.fst hju).symm
    have h2 : pLayer = CWaylandConnector.pLayerAt pFrameInfo j := (congrArg Prod.snd hju).symm
    subst h1
    refine ⟨by omega, by omega, by omega, ?_⟩
    rw [h2, show b + j - b = j by omega]
    rfl
  · intro v hbv hv hv8
    have hat : CWaylandConnector.pLayerAt pFrameInfo (v - b) = none := by
      simp only [CWaylandConnector.pLayerAt]
      rw [if_neg]
      omega
    have hst : ((self.Present X g backend fbs pFrameInfo bAsync).self.m_Planes
        v).m_oCurrentPlaneState = none := by
      have := (m6 (v - b) (by omega)).2
      rw [hat, show b + (v - b) = v by omega] at this
      exact this.mpr rfl
    refine ⟨?_, hst, ?_⟩
    · rw [m3, List.mem_map]
      refine ⟨v - b, List.mem_range.mpr (by omega), ?_⟩
      rw [hat]
      congr 1
      omega
    · rw [(hreq v hv8).1, hst]
      rfl

/-- C18 on a concrete frame: three layers with alpha on a 1280x720 output, so
that the black framebuffer backs them on plane 0 and the layer 2, whose host
buffer is 103, is on plane 3. -/
theorem C18_direct_path_plane_assignment_witness :
    (CWaylandConnector.Present { plainWaylandExternals true with hasAlpha := fun _ => true }
      (plainWaylandGlobals false) plainBackendObjects plainFbs (plainFrame 3) false
      (plainConnector true)).ret = some 0 ∧
    (1 + 2, some ((plainFrame 3).layers 2)) ∈
      layerCalls (CWaylandConnector.Present
        { plainWaylandExternals true with hasAlpha := fun _ => true }
        (plainWaylandGlobals false) plainBackendObjects plainFbs (plainFrame 3) false
        (plainConnector true)).events ∧
    attachesOn (1 + 2) (CWaylandConnector.Present
        { plainWaylandExternals true with hasAlpha := fun _ => true }
        (plainWaylandGlobals false) plainBackendObjects plainFbs (plainFrame 3) false
        (plainConnector true)).events = [some 103] :=
  ⟨(C18_direct_path_plane_assignment
      { plainWaylandExternals true with hasAlpha := fun _ => true }
      (plainWaylandGlobals false) plainBackendObjects plainFbs (plainFrame 3) false
      (plainConnector true) 1 rfl ⟨rfl, fun i hi _ => by simp [plainConnector, hi]⟩
      (by decide) (by decide) (fun _ => by decide)).1,
    (C18_direct_path_plane_assignment
      { plainWaylandExternals true with hasAlpha := fun _ => true }
      (plainWaylandGlobals false) plainBackendObjects plainFbs (plainFrame 3) false
      (plainConnector true) 1 rfl ⟨rfl, fun i hi _ => by simp [plainConnector, hi]⟩
      (by decide) (by decide) (fun _ => by decide)).2.2.2.2.1 2 (by decide) (by decide)⟩

/-! ## C19 -/

/-- C19: on a visible connector, when some composite condition is true and
`vulkan_composite` succeeds, `Present` calls `vulkan_composite`, waits for its
result, takes the last output image, and only then presents: the composite
layer, which has that image, the scale 1.0 x 1.0, the opacity 1.0 and the
colourspace HDR10 PQ when `outputEncodingEOTF` is PQ and sRGB otherwise, on
plane 0, and no buffer on the planes 1 to 7; it reports "was compositing" and
returns 0.  Every request on the surface of a plane comes after the wait.  On
the surface of plane 0 the requests are those of presenting the state that the
plane has afterwards, with the host buffer of the last output image as the one
buffer attached, followed by `wl_surface_commit`; on the surface of each of
the planes 1 to 7 they are the attach of the null buffer, the damage and
`wl_surface_commit`. -/
theorem C19_composite_path (X : WaylandExternals) (g : WaylandGlobals)
    (backend : CWaylandBackendObjects) (fbs : Nat → CWaylandFb) (pFrameInfo : FrameInfo_t)
    (bAsync : Bool) (self : CWaylandConnector) (uSequence : Nat)
    (hvis : self.m_bVisible = true) (hpar : self.ParentsAsInit)
    (hcomposite : true ∈ compositeConditions X g backend pFrameInfo)
    (hok : X.vulkan_composite pFrameInfo = some uSequence) :
    (self.Present X g backend fbs pFrameInfo bAsync).ret = some 0 ∧
    (∃ rest,
      callsOf (self.Present X g backend fbs pFrameInfo bAsync).events =
        (self.UpdateFullscreenState g.g_bFullscreen).2 ++
          PresentEvent.vulkan_composite :: PresentEvent.vulkan_wait uSequence ::
            PresentEvent.vulkan_get_last_output_image :: rest ∧
      layerCalls (self.UpdateFullscreenState g.g_bFullscreen).2 = [] ∧
      layerCalls rest =
        [(0, some (CWaylandConnector.compositeLayer X pFrameInfo)), (1, none), (2, none),
          (3, none), (4, none), (5, none), (6, none), (7, none)] ∧
      (presentCalls rest).map Prod.fst = [0, 1, 2, 3, 4, 5, 6, 7] ∧
      PresentEvent.UpdateWasCompositing true ∈ rest) ∧
    layerCalls (self.Present X g backend fbs pFrameInfo bAsync).events =
      [(0, some (CWaylandConnector.compositeLayer X pFrameInfo)), (1, none), (2, none),
        (3, none), (4, none), (5, none), (6, none), (7, none)] ∧
    ((CWaylandConnector.compositeLayer X pFrameInfo).tex = X.vulkan_get_last_output_image ∧
      (CWaylandConnector.compositeLayer X pFrameInfo).scale =
        ⟨Double.finite 1, Double.finite 1⟩ ∧
      (CWaylandConnector.compositeLayer X pFrameInfo).opacity = Double.finite 1 ∧
      (CWaylandConnector.compositeLayer X pFrameInfo).colorspace =
        if pFrameInfo.outputEncodingEOTF = EOTF.EOTF_PQ then
          GamescopeAppTextureColorspace.GAMESCOPE_APP_TEXTURE_COLORSPACE_HDR10_PQ
        else GamescopeAppTextureColorspace.GAMESCOPE_APP_TEXTURE_COLORSPACE_SRGB) ∧
    ((self.Present X g backend fbs pFrameInfo bAsync).self.m_Planes
        0).m_oCurrentPlaneState.bind WaylandPlaneState.pBuffer =
      CWaylandPlane.LayerHostBuffer fbs
        (some (CWaylandConnector.compositeLayer X pFrameInfo)) ∧
    (∀ v, 1 ≤ v → v < 8 →
      ((self.Present X g backend fbs pFrameInfo bAsync).self.m_Planes v).m_oCurrentPlaneState =
        none) ∧
    (∃ after,
      (self.Present X g backend fbs pFrameInfo bAsync).events =
        (self.UpdateFullscreenState g.g_bFullscreen).2 ++
          [PresentEvent.vulkan_composite, PresentEvent.vulkan_wait uSequence,
            PresentEvent.vulkan_get_last_output_image] ++ after ∧
      surfaceRequests (self.UpdateFullscreenState g.g_bFullscreen).2 = [] ∧
      surfaceRequests after =
        surfaceRequests (self.Present X g backend fbs pFrameInfo bAsync).events) ∧
    attachesOn 0 (self.Present X g backend fbs pFrameInfo bAsync).events =
      [CWaylandPlane.LayerHostBuffer fbs
        (some (CWaylandConnector.compositeLayer X pFrameInfo))] ∧
    surfaceRequestsOn 0 (self.Present X g backend fbs pFrameInfo bAsync).events =
      presentRequestsOf
          ((self.Present X g backend fbs pFrameInfo bAsync).self.m_Planes
            0).m_oCurrentPlaneState ++
        [PlaneEvent.wl_surface_commit] ∧
    (∀ v, 1 ≤ v → v < 8 →
      surfaceRequestsOn v (self.Present X g backend fbs pFrameInfo bAsync).events =
        [PlaneEvent.wl_surface_attach none, PlaneEvent.wl_surface_damage,
          PlaneEvent.wl_surface_commit]) := by
  have hc := (CWaylandConnector.bNeedsFullComposite_iff X g backend pFrameInfo).mpr hcomposite
  obtain ⟨h1, h2, h3, h4⟩ := CWaylandConnector.Present_composite X g backend fbs pFrameInfo
    bAsync self uSequence hvis hpar hc hok
  obtain ⟨u1, u2, _⟩ := CWaylandConnector.UpdateFullscreenState_calls g.g_bFullscreen self
  have hreq := CWaylandConnector.Present_surfaceRequestsOn X g backend fbs pFrameInfo bAsync
    self hpar h1
  refine ⟨h1,
    ⟨[PresentEvent.plane 0 (PlaneEvent.PresentLayer
          (some (CWaylandConnector.compositeLayer X pFrameInfo))),
        PresentEvent.plane 0 (PlaneEvent.Present
          ((self.Present X g backend fbs pFrameInfo bAsync).self.m_Planes
            0).m_oCurrentPlaneState)] ++
        presentCallsOf (fun _ => none) (fun _ => none) [1, 2, 3, 4, 5, 6, 7] 1 ++
        finishCallsOf true, ?_, u1, ?_, ?_, ?_⟩, ?_, ⟨rfl, rfl, rfl, rfl⟩, h2, h3, ?_, ?_,
    (hreq 0 (by decide)).1, ?_⟩
  rotate_left 5
  · obtain ⟨after, ha⟩ := CWaylandConnector.Present_composite_start X g backend fbs pFrameInfo
      bAsync self uSequence hvis hc hok
    have hfs : surfaceRequests (self.UpdateFullscreenState g.g_bFullscreen).2 = [] := by
      unfold CWaylandConnector.UpdateFullscreenState
      dsimp only
      split_ifs <;> simp [surfaceRequests]
    refine ⟨after, ha, hfs, ?_⟩
    rw [ha, surfaceRequests_append, surfaceRequests_append, hfs]
    simp [surfaceRequests]
  · rw [(hreq 0 (by decide)).2, h2]
  · intro v hv1 hv
    rw [(hreq v hv).1, h3 v hv1 hv]
    rfl
  · rw [h4]
    simp only [List.append_assoc, List.cons_append, List.nil_append]
  · simp [layerCalls, presentCallsOf, finishCallsOf, PlaneEvent.asPresentLayer]
  · simp [presentCalls, presentCallsOf, finishCallsOf, PlaneEvent.asPresent]
  · simp [finishCallsOf]
  · rw [← layerCalls_callsOf, h4]
    simp only [layerCalls, List.filterMap_append] at u1 ⊢
    rw [u1]
    simp [presentCallsOf, finishCallsOf, PlaneEvent.asPresentLayer]

/-- C19 on a concrete frame: composite forced on a visible connector, with a
composite that succeeds; the last output image is on the framebuffer 9, whose
host buffer 109 is the one buffer attached to the surface of plane 0. -/
theorem C19_composite_path_witness :
    (CWaylandConnector.Present (plainWaylandExternals true) (plainWaylandGlobals true)
      plainBackendObjects plainFbs (plainFrame 2) false (plainConnector true)).ret = some 0 ∧
    ((CWaylandConnector.Present (plainWaylandExternals true) (plainWaylandGlobals true)
      plainBackendObjects plainFbs (plainFrame 2) false (plainConnector true)).self.m_Planes
        0).m_oCurrentPlaneState.bind WaylandPlaneState.pBuffer = some 109 ∧
    attachesOn 0 (CWaylandConnector.Present (plainWaylandExternals true)
      (plainWaylandGlobals true) plainBackendObjects plainFbs (plainFrame 2) false
      (plainConnector true)).events = [some 109] :=
  ⟨(C19_composite_path (plainWaylandExternals true) (plainWaylandGlobals true)
      plainBackendObjects plainFbs (plainFrame 2) false (plainConnector true) 1 rfl
      ⟨rfl, fun i hi _ => by simp [plainConnector, hi]⟩ (by decide) rfl).1,
    (C19_composite_path (plainWaylandExternals true) (plainWaylandGlobals true)
      plainBackendObjects plainFbs (plainFrame 2) false (plainConnector true) 1 rfl
      ⟨rfl, fun i hi _ => by simp [plainConnector, hi]⟩ (by decide) rfl).2.2.2.2.1,
    (C19_composite_path (plainWaylandExternals true) (plainWaylandGlobals true)
      plainBackendObjects plainFbs (plainFrame 2) false (plainConnector true) 1 rfl
      ⟨rfl, fun i hi _ => by simp [plainConnector, hi]⟩ (by decide) rfl).2.2.2.2.2.2.2.1⟩

/-! ## C20 -/

/-- C20: `Present` returns 0 or `-EINVAL`, which is negative.  It returns
`-EINVAL` if and only if the connector is visible, some composite condition is
true and `vulkan_composite` gives no result; in that case no plane is presented
or committed and the connector, with the current state of every plane, is what
it was before the call. -/
theorem C20_return_value (X : WaylandExternals) (g : WaylandGlobals)
    (backend : CWaylandBackendObjects) (fbs : Nat → CWaylandFb) (pFrameInfo : FrameInfo_t)
    (bAsync : Bool) (self : CWaylandConnector)
    (hpar : self.ParentsAsInit) (hblack : (fbs backend.m_BlackFb).m_pHostBuffer ≠ none) :
    (((self.Present X g backend fbs pFrameInfo bAsync).ret = some 0 ∨
        (self.Present X g backend fbs pFrameInfo bAsync).ret = some (-EINVAL)) ∧
      -EINVAL < 0) ∧
    ((self.Present X g backend fbs pFrameInfo bAsync).ret = some (-EINVAL) ↔
      (self.m_bVisible = true ∧ true ∈ compositeConditions X g backend pFrameInfo ∧
        X.vulkan_composite pFrameInfo = none)) ∧
    ((self.Present X g backend fbs pFrameInfo bAsync).ret = some (-EINVAL) →
      (self.Present X g backend fbs pFrameInfo bAsync).self = self ∧
      (∀ v, ((self.Present X g backend fbs pFrameInfo bAsync).self.m_Planes
          v).m_oCurrentPlaneState = (self.m_Planes v).m_oCurrentPlaneState) ∧
      layerCalls (self.Present X g backend fbs pFrameInfo bAsync).events = [] ∧
      presentCalls (self.Present X g backend fbs pFrameInfo bAsync).events = [] ∧
      commitCalls (self.Present X g backend fbs pFrameInfo bAsync).events = []) := by
  have hne : (some (0 : Int) = some (-EINVAL)) ↔ False := by
    simp [EINVAL]
  have key : ((self.Present X g backend fbs pFrameInfo bAsync).ret = some 0 ∧
        ¬ (self.m_bVisible = true ∧ true ∈ compositeConditions X g backend pFrameInfo ∧
          X.vulkan_composite pFrameInfo = none)) ∨
      ((self.Present X g backend fbs pFrameInfo bAsync).ret = some (-EINVAL) ∧
        (self.m_bVisible = true ∧ true ∈ compositeConditions X g backend pFrameInfo ∧
          X.vulkan_composite pFrameInfo = none) ∧
        (self.Present X g backend fbs pFrameInfo bAsync).self = self ∧
        (self.Present X g backend fbs pFrameInfo bAsync).events =
          (self.UpdateFullscreenState g.g_bFullscreen).2 ++
            [PresentEvent.vulkan_composite, PresentEvent.errorf]) := by
    cases hvis : self.m_bVisible with
    | false =>
      left
      exact ⟨(CWaylandConnector.Present_not_visible X g backend fbs pFrameInfo bAsync self hvis
        hpar).1, by simp⟩
    | true =>
      cases hc : CWaylandConnector.bNeedsFullComposite X g backend pFrameInfo with
      | false =>
        left
        have hnc : ¬ (true ∈ compositeConditions X g backend pFrameInfo) := by
          rw [← CWaylandConnector.bNeedsFullComposite_iff, hc]
          simp
        refine ⟨?_, fun h => hnc h.2.1⟩
        cases hbk : CWaylandConnector.bNeedsBacking X pFrameInfo with
        | false =>
          exact (CWaylandConnector.Present_direct_no_backing X g backend fbs pFrameInfo bAsync
            self hvis hpar hc hbk).1
        | true =>
          exact (CWaylandConnector.Present_direct_backing X g backend fbs pFrameInfo bAsync
            self hvis hpar hc hbk hblack).1
      | true =>
        cases hv : X.vulkan_composite pFrameInfo with
        | none =>
          right
          obtain ⟨k1, k2, k3⟩ := CWaylandConnector.Present_composite_failed X g backend fbs
            pFrameInfo bAsync self hvis hc hv
          exact ⟨k1, ⟨rfl, (CWaylandConnector.bNeedsFullComposite_iff X g backend
            pFrameInfo).mp hc, rfl⟩, k2, k3⟩
        | some uSequence =>
          left
          exact ⟨(CWaylandConnector.Present_composite X g backend fbs pFrameInfo bAsync self
            uSequence hvis hpar hc hv).1, by simp⟩
  obtain ⟨u1, u2, u3⟩ := CWaylandConnector.UpdateFullscreenState_calls g.g_bFullscreen self
  rcases key with ⟨k1, k2⟩ | ⟨k1, k2, k3, k4⟩
  · refine ⟨⟨Or.inl k1, by decide⟩, ?_, ?_⟩
    · rw [k1, hne]
      exact ⟨False.elim, fun h => k2 h⟩
    · rw [k1, hne]
      exact False.elim
  · refine ⟨⟨Or.inr k1, by decide⟩, ⟨fun _ => k2, fun _ => k1⟩, fun _ => ⟨k3, ?_, ?_, ?_, ?_⟩⟩
    · intro v
      rw [k3]
    · rw [k4]
      simp only [layerCalls, List.filterMap_append] at u1 ⊢
      rw [u1]
      simp
    · rw [k4]
      simp only [presentCalls, List.filterMap_append] at u2 ⊢
      rw [u2]
      simp
    · rw [k4]
      simp only [commitCalls, List.filterMap_append] at u3 ⊢
      rw [u3]
      simp

/-- C20 on a concrete frame: composite forced on a visible connector, with a
composite that fails. -/
theorem C20_return_value_witness :
    (CWaylandConnector.Present (plainWaylandExternals false) (plainWaylandGlobals true)
      plainBackendObjects plainFbs (plainFrame 2) false (plainConnector true)).ret =
        some (-EINVAL) :=
  ((C20_return_value (plainWaylandExternals false) (plainWaylandGlobals true)
    plainBackendObjects plainFbs (plainFrame 2) false (plainConnector true)
    ⟨rfl, fun i hi _ => by simp [plainConnector, hi]⟩ (by decide)).2.1).mpr
      ⟨rfl, by decide, rfl⟩

/-! ## C21 -/

theorem commitCalls_presentCallsOf (pLayerAt : Nat → Option Layer_t)
    (states : Nat → Option WaylandPlaneState) :
    ∀ (is : List Nat) (uPlane : Nat),
      commitCalls (presentCallsOf pLayerAt states is uPlane) = [] := by
  intro is
  induction is with
  | nil => intro _; rfl
  | cons i rest ih =>
    intro u
    exact ih (u + 1)

theorem finishCallsOf_calls (bCompositing : Bool) :
    commitCalls (finishCallsOf bCompositing) = [7, 6, 5, 4, 3, 2, 1, 0] ∧
    layerCalls (finishCallsOf bCompositing) = [] ∧
    presentCalls (finishCallsOf bCompositing) = [] := by
  simp [finishCallsOf, commitCalls, layerCalls, presentCalls, List.filterMap_cons,
    PlaneEvent.isCommit, PlaneEvent.asPresentLayer, PlaneEvent.asPresent]

theorem CWaylandConnector.Present_calls_shape (X : WaylandExternals) (g : WaylandGlobals)
    (backend : CWaylandBackendObjects) (fbs : Nat → CWaylandFb) (pFrameInfo : FrameInfo_t)
    (bAsync : Bool) (self : CWaylandConnector)
    (hpar : self.ParentsAsInit)
    (hret : (self.Present X g backend fbs pFrameInfo bAsync).ret = some 0) :
    ∃ presents bCompositing,
      callsOf (self.Present X g backend fbs pFrameInfo bAsync).events =
        presents ++ finishCallsOf bCompositing ∧ commitCalls presents = [] := by
  obtain ⟨_, _, u3⟩ := CWaylandConnector.UpdateFullscreenState_calls g.g_bFullscreen self
  have hu : ∀ l, commitCalls ((self.UpdateFullscreenState g.g_bFullscreen).2 ++ l) =
      commitCalls l := by
    intro l
    simp only [commitCalls, List.filterMap_append] at u3 ⊢
    rw [u3]
    rfl
  have happ : ∀ a b, commitCalls (a ++ b) = commitCalls a ++ commitCalls b := by
    intro a b
    simp [commitCalls, List.filterMap_append]
  cases hvis : self.m_bVisible with
  | false =>
    exact ⟨_, false, (CWaylandConnector.Present_not_visible X g backend fbs pFrameInfo bAsync
      self hvis hpar).2.2, commitCalls_presentCallsOf _ _ _ _⟩
  | true =>
    cases hc : CWaylandConnector.bNeedsFullComposite X g backend pFrameInfo with
    | false =>
      cases hbk : CWaylandConnector.bNeedsBacking X pFrameInfo with
      | false =>
        refine ⟨_, false, (CWaylandConnector.Present_direct_no_backing X g backend fbs
          pFrameInfo bAsync self hvis hpar hc hbk).2.2, ?_⟩
        rw [hu]
        exact commitCalls_presentCallsOf _ _ _ _
      | true =>
        cases hblack : (fbs backend.m_BlackFb).m_pHostBuffer with
        | none =>
          rw [CWaylandConnector.Present_backing_no_black X g backend fbs pFrameInfo bAsync
            self hvis hc hbk hblack] at hret
          exact absurd hret (by simp)
        | some pBuffer =>
          refine ⟨_, false, (CWaylandConnector.Present_direct_backing X g backend fbs
            pFrameInfo bAsync self hvis hpar hc hbk (by simp [hblack])).2.2.2, ?_⟩
          rw [happ, happ, u3, commitCalls_presentCallsOf]
          simp [commitCalls, PlaneEvent.isCommit]
    | true =>
      cases hv : X.vulkan_composite pFrameInfo with
      | none =>
        rw [(CWaylandConnector.Present_composite_failed X g backend fbs pFrameInfo bAsync self
          hvis hc hv).1] at hret
        exact absurd hret (by simp [EINVAL])
      | some uSequence =>
        refine ⟨_, true, (CWaylandConnector.Present_composite X g backend fbs pFrameInfo
          bAsync self uSequence hvis hpar hc hv).2.2.2, ?_⟩
        rw [happ, happ, u3, commitCalls_presentCallsOf]
        simp [commitCalls, PlaneEvent.isCommit]

/-- C21: in a call of `CWaylandConnector::Present` that returns 0, on a
connector whose planes have the parents that `Init` gives them, `Commit()` is
called on the planes 7, 6, ..., 0 in this order, once each, and what the call
does splits in two: a first part without any commit, and a second part with
the eight commits and no call of `CWaylandPlane::Present`.  The requests on the
surfaces of the planes are, in this order: for the planes 0, 1, ..., 7 those of
presenting the state that the plane has afterwards, among them one
`wl_surface_attach` per plane and no `wl_surface_commit`, and then one
`wl_surface_commit` for each of the planes 7, 6, ..., 1, 0.  So every plane is
committed once, in descending order, after every present. -/
theorem C21_commit_order (X : WaylandExternals) (g : WaylandGlobals)
    (backend : CWaylandBackendObjects) (fbs : Nat → CWaylandFb) (pFrameInfo : FrameInfo_t)
    (bAsync : Bool) (self : CWaylandConnector)
    (hpar : self.ParentsAsInit)
    (hret : (self.Present X g backend fbs pFrameInfo bAsync).ret = some 0) :
    commitCalls (self.Present X g backend fbs pFrameInfo bAsync).events =
      [7, 6, 5, 4, 3, 2, 1, 0] ∧
    (∃ presenting committing,
      (self.Present X g backend fbs pFrameInfo bAsync).events = presenting ++ committing ∧
      commitCalls presenting = [] ∧
      layerCalls committing = [] ∧ presentCalls committing = [] ∧
      commitCalls committing = [7, 6, 5, 4, 3, 2, 1, 0]) ∧
    surfaceRequests (self.Present X g backend fbs pFrameInfo bAsync).events =
      presentRequestsOn
          (fun v =>
            ((self.Present X g backend fbs pFrameInfo bAsync).self.m_Planes
              v).m_oCurrentPlaneState)
          [0, 1, 2, 3, 4, 5, 6, 7] ++
        [(7, PlaneEvent.wl_surface_commit), (6, PlaneEvent.wl_surface_commit),
          (5, PlaneEvent.wl_surface_commit), (4, PlaneEvent.wl_surface_commit),
          (3, PlaneEvent.wl_surface_commit), (2, PlaneEvent.wl_surface_commit),
          (1, PlaneEvent.wl_surface_commit), (0, PlaneEvent.wl_surface_commit)] ∧
    (∀ r ∈ presentRequestsOn
        (fun v =>
          ((self.Present X g backend fbs pFrameInfo bAsync).self.m_Planes
            v).m_oCurrentPlaneState)
        [0, 1, 2, 3, 4, 5, 6, 7], r.2 ≠ PlaneEvent.wl_surface_commit) ∧
    (∀ v, v < 8 →
      (v, PlaneEvent.wl_surface_attach
          (((self.Present X g backend fbs pFrameInfo bAsync).self.m_Planes
            v).m_oCurrentPlaneState.bind WaylandPlaneState.pBuffer)) ∈
        presentRequestsOn
          (fun v =>
            ((self.Present X g backend fbs pFrameInfo bAsync).self.m_Planes
              v).m_oCurrentPlaneState)
          [0, 1, 2, 3, 4, 5, 6, 7]) ∧
    (∀ v, v < 8 →
      surfaceRequestsOn v (self.Present X g backend fbs pFrameInfo bAsync).events =
        presentRequestsOf
            ((self.Present X g backend fbs pFrameInfo bAsync).self.m_Planes
              v).m_oCurrentPlaneState ++
          [PlaneEvent.wl_surface_commit]) := by
  obtain ⟨presents, b, h1, h2⟩ := CWaylandConnector.Present_calls_shape X g backend fbs
    pFrameInfo bAsync self hpar hret
  obtain ⟨f1, f2, f3⟩ := finishCallsOf_calls b
  have hs := CWaylandConnector.Present_surfaceRequests X g backend fbs pFrameInfo bAsync self
    hpar hret
  have hmem : ∀ (states : Nat → Option WaylandPlaneState) (planes : List Nat)
      (r : Nat × PlaneEvent), r ∈ presentRequestsOn states planes →
      r.1 ∈ planes ∧ r.2 ∈ presentRequestsOf (states r.1) := by
    intro states planes r hr
    simp only [presentRequestsOn, List.mem_flatMap, List.mem_map] at hr
    obtain ⟨v, hv, e, he, rfl⟩ := hr
    exact ⟨hv, he⟩
  unfold callsOf at h1
  obtain ⟨l1, l2, e, e1, e2⟩ := List.filter_eq_append_iff.mp h1
  have c1 : commitCalls l1 = [] := by
    rw [← commitCalls_callsOf, callsOf, e1, h2]
  have c2 : commitCalls l2 = [7, 6, 5, 4, 3, 2, 1, 0] := by
    rw [← commitCalls_callsOf, callsOf, e2, f1]
  refine ⟨?_, ⟨l1, l2, e, c1, ?_, ?_, c2⟩, ?_, ?_, ?_, ?_⟩
  · rw [e]
    simp only [commitCalls, List.filterMap_append] at c1 c2 ⊢
    rw [c1, c2]
    rfl
  · rw [← layerCalls_callsOf, callsOf, e2, f2]
  · rw [← presentCalls_callsOf, callsOf, e2, f3]
  · rw [hs]
    rfl
  · intro r hr
    have := (hmem _ _ r hr).2
    intro hc
    rw [hc] at this
    cases hst : ((self.Present X g backend fbs pFrameInfo bAsync).self.m_Planes
        r.1).m_oCurrentPlaneState <;> rw [hst] at this <;> simp [presentRequestsOf] at this
  · intro v hv
    simp only [presentRequestsOn, List.mem_flatMap, List.mem_map]
    refine ⟨v, by interval_cases v <;> simp, _, ?_, rfl⟩
    cases ((self.Present X g backend fbs pFrameInfo bAsync).self.m_Planes
        v).m_oCurrentPlaneState <;> simp [presentRequestsOf]
  · intro v hv
    exact (CWaylandConnector.Present_surfaceRequestsOn X g backend fbs pFrameInfo bAsync self
      hpar hret v hv).1

/-- C21 on a concrete frame of two layers, presented directly: the eight
commits, and the requests of the call in their order. -/
theorem C21_commit_order_witness :
    commitCalls (CWaylandConnector.Present (plainWaylandExternals false)
      (plainWaylandGlobals false) plainBackendObjects plainFbs (plainFrame 2) false
      (plainConnector true)).events = [7, 6, 5, 4, 3, 2, 1, 0] ∧
    surfaceRequestsOn 7 (CWaylandConnector.Present (plainWaylandExternals false)
      (plainWaylandGlobals false) plainBackendObjects plainFbs (plainFrame 2) false
      (plainConnector true)).events =
      presentRequestsOf
          ((CWaylandConnector.Present (plainWaylandExternals false)
            (plainWaylandGlobals false) plainBackendObjects plainFbs (plainFrame 2) false
            (plainConnector true)).self.m_Planes 7).m_oCurrentPlaneState ++
        [PlaneEvent.wl_surface_commit] :=
  ⟨(C21_commit_order (plainWaylandExternals false) (plainWaylandGlobals false)
    plainBackendObjects plainFbs (plainFrame 2) false (plainConnector true)
    ⟨rfl, fun i hi _ => by simp [plainConnector, hi]⟩ (by decide)).1,
   (C21_commit_order (plainWaylandExternals false) (plainWaylandGlobals false)
    plainBackendObjects plainFbs (plainFrame 2) false (plainConnector true)
    ⟨rfl, fun i hi _ => by simp [plainConnector, hi]⟩ (by decide)).2.2.2.2.2 7 (by decide)⟩

/-! ## C22 -/

theorem CWaylandPlane.PresentColorManagement_same_key (X : WaylandExternals)
    (g : WaylandGlobals) (oState : WaylandPlaneState) (self : CWaylandPlane)
    (hwp : self.m_pWPColorManagedSurface ≠ none)
    (hkey : self.m_ColorState = some ⟨oState.eColorspace, oState.pHDRMetadata⟩) :
    (CWaylandPlane.PresentColorManagement X g oState self).1 = self ∧
    (CWaylandPlane.PresentColorManagement X g oState self).2 =
      [match self.m_pCurrentImageDescription with
        | some pImageDescription => PlaneEvent.set_image_description pImageDescription
        | none => PlaneEvent.unset_image_description] := by
  have hu : CWaylandPlane.UpdateColorState X g ⟨oState.eColorspace, oState.pHDRMetadata⟩ self =
      (self, []) := by
    simp [CWaylandPlane.UpdateColorState, hkey]
  simp only [CWaylandPlane.PresentColorManagement, hwp, hu, if_true, ne_eq, not_false_eq_true]
  cases self.m_pCurrentImageDescription <;> simp

theorem CWaylandPlane.PresentColorManagement_key (X : WaylandExternals)
    (g : WaylandGlobals) (oState : WaylandPlaneState) (self : CWaylandPlane)
    (hwp : self.m_pWPColorManagedSurface ≠ none) :
    (CWaylandPlane.PresentColorManagement X g oState self).1.m_ColorState =
      some ⟨oState.eColorspace, oState.pHDRMetadata⟩ ∧
    (CWaylandPlane.PresentColorManagement X g oState self).1.m_pWPColorManagedSurface =
      self.m_pWPColorManagedSurface := by
  have hu : (CWaylandPlane.UpdateColorState X g ⟨oState.eColorspace, oState.pHDRMetadata⟩
        self).1.m_ColorState = some ⟨oState.eColorspace, oState.pHDRMetadata⟩ ∧
      (CWaylandPlane.UpdateColorState X g ⟨oState.eColorspace, oState.pHDRMetadata⟩
        self).1.m_pWPColorManagedSurface = self.m_pWPColorManagedSurface := by
    unfold CWaylandPlane.UpdateColorState
    by_cases h1 : self.m_ColorState = some ⟨oState.eColorspace, oState.pHDRMetadata⟩
    · simp [h1]
    · simp only [ne_eq, h1, not_false_eq_true, if_true]
      split_ifs <;> exact ⟨rfl, rfl⟩
  simp only [CWaylandPlane.PresentColorManagement, hwp, if_true, ne_eq, not_false_eq_true]
  split <;> exact hu

/-- C22, amended: a plane with a colour-managed surface is presented with a
state and then with a second state of the same key (colourspace and HDR
metadata blob).  The second call returns, makes no request that destroys or
creates an image description, leaves the current image description and the
colour state of the plane as they were, and submits exactly once: it sets the
current image description on the surface again, or unsets it when there is
none. -/
theorem C22_same_key_keeps_description (X : WaylandExternals) (g : WaylandGlobals)
    (first second : WaylandPlaneState) (fbs : Nat → CWaylandFb) (self : CWaylandPlane)
    (hwp : self.m_pWPColorManagedSurface ≠ none)
    (hfirst : first.pBuffer ≠ none) (hsecond : second.pBuffer ≠ none)
    (hkey : (⟨first.eColorspace, first.pHDRMetadata⟩ : WaylandPlaneColorState) =
      ⟨second.eColorspace, second.pHDRMetadata⟩) :
    ((self.Present X g (some first) fbs).self.Present X g (some second)
        (self.Present X g (some first) fbs).fbs).bReturned = true ∧
    (∀ e ∈ ((self.Present X g (some first) fbs).self.Present X g (some second)
        (self.Present X g (some first) fbs).fbs).events, e.isImageDescriptionChange = false) ∧
    ((self.Present X g (some first) fbs).self.Present X g (some second)
        (self.Present X g (some first) fbs).fbs).self.m_pCurrentImageDescription =
      (self.Present X g (some first) fbs).self.m_pCurrentImageDescription ∧
    ((self.Present X g (some first) fbs).self.Present X g (some second)
        (self.Present X g (some first) fbs).fbs).self.m_ColorState =
      (self.Present X g (some first) fbs).self.m_ColorState ∧
    ((self.Present X g (some first) fbs).self.Present X g (some second)
        (self.Present X g (some first) fbs).fbs).events.filter
          PlaneEvent.isImageDescriptionSubmit =
      [match (self.Present X g (some first) fbs).self.m_pCurrentImageDescription with
        | some pImageDescription => PlaneEvent.set_image_description pImageDescription
        | none => PlaneEvent.unset_image_description] := by
  obtain ⟨k1, k2⟩ := CWaylandPlane.PresentColorManagement_key X g first
    { self with m_oCurrentPlaneState := some first } hwp
  have e1 : (self.Present X g (some first) fbs).self =
      (CWaylandPlane.PresentColorManagement X g first
        { self with m_oCurrentPlaneState := some first }).1 := by
    simp [CWaylandPlane.Present, hfirst]
  generalize (self.Present X g (some first) fbs).fbs = fbs1
  rw [e1]
  generalize (CWaylandPlane.PresentColorManagement X g first
    { self with m_oCurrentPlaneState := some first }).1 = mid at k1 k2
  have hwp2 : mid.m_pWPColorManagedSurface ≠ none := by
    rw [k2]
    exact hwp
  obtain ⟨s1, s2⟩ := CWaylandPlane.PresentColorManagement_same_key X g second
    { mid with m_oCurrentPlaneState := some second } hwp2 (by rw [← hkey]; exact k1)
  simp only [CWaylandPlane.Present, hsecond, if_false, s1, s2]
  refine ⟨trivial, ?_, trivial, trivial, ?_⟩ <;>
    cases mid.m_pFrame <;> cases mid.m_pSubsurface <;>
    cases mid.m_pCurrentImageDescription <;>
    simp [PlaneEvent.isImageDescriptionChange, PlaneEvent.isImageDescriptionSubmit,
      List.filter_cons]

/-- C22 on a concrete plane, presented twice with the same scRGB state. -/
theorem C22_same_key_keeps_description_witness :
    ((colourManagedPlane.Present
      (plainWaylandExternals false) (plainWaylandGlobals false)
      (some (plainPlaneState
        GamescopeAppTextureColorspace.GAMESCOPE_APP_TEXTURE_COLORSPACE_SCRGB))
      plainFbs).self.Present (plainWaylandExternals false) (plainWaylandGlobals false)
      (some (plainPlaneState
        GamescopeAppTextureColorspace.GAMESCOPE_APP_TEXTURE_COLORSPACE_SCRGB))
      plainFbs).self.m_pCurrentImageDescription = some 21 :=
  (C22_same_key_keeps_description (plainWaylandExternals false) (plainWaylandGlobals false)
    (plainPlaneState GamescopeAppTextureColorspace.GAMESCOPE_APP_TEXTURE_COLORSPACE_SCRGB)
    (plainPlaneState GamescopeAppTextureColorspace.GAMESCOPE_APP_TEXTURE_COLORSPACE_SCRGB)
    plainFbs colourManagedPlane (by decide) (by decide) (by decide)
    rfl).2.2.1.trans (by decide)

/-- C22, counterexample: a plane with a colour-managed surface is presented
twice with the same scRGB state.  The second call does submit the image
description 21, made by the first call, to the surface again: the request
`wp_color_management_surface_v1_set_image_description` is among what it does. -/
theorem C22_counterexample_submitted_again :
    PlaneEvent.set_image_description 21 ∈
      ((colourManagedPlane.Present (plainWaylandExternals false) (plainWaylandGlobals false)
        (some (plainPlaneState
          GamescopeAppTextureColorspace.GAMESCOPE_APP_TEXTURE_COLORSPACE_SCRGB))
        plainFbs).self.Present (plainWaylandExternals false) (plainWaylandGlobals false)
        (some (plainPlaneState
          GamescopeAppTextureColorspace.GAMESCOPE_APP_TEXTURE_COLORSPACE_SCRGB))
        plainFbs).events ∧
    (PlaneEvent.set_image_description 21).isImageDescriptionSubmit = true := by
  decide

/-! ## C23 -/

theorem CWaylandPlane.nLargestRefreshRateMhz_spec (X : ListenerExternals) :
    ∀ (outputs : List Nat) (nLargest : Int),
      nLargest ≤ CWaylandPlane.nLargestRefreshRateMhz X outputs nLargest ∧
      (∀ pOutput ∈ outputs, ∀ info, X.GetOutputInfo pOutput = some info →
        info.nRefresh ≤ CWaylandPlane.nLargestRefreshRateMhz X outputs nLargest) ∧
      (CWaylandPlane.nLargestRefreshRateMhz X outputs nLargest = nLargest ∨
        ∃ pOutput ∈ outputs, ∃ info, X.GetOutputInfo pOutput = some info ∧
          info.nRefresh = CWaylandPlane.nLargestRefreshRateMhz X outputs nLargest) := by
  intro outputs
  induction outputs with
  | nil =>
    intro n
    simp [CWaylandPlane.nLargestRefreshRateMhz]
  | cons pOutput rest ih =>
    intro n
    unfold CWaylandPlane.nLargestRefreshRateMhz
    cases h : X.GetOutputInfo pOutput with
    | none =>
      obtain ⟨i1, i2, i3⟩ := ih n
      refine ⟨i1, ?_, ?_⟩
      · intro o ho info hinfo
        rcases List.mem_cons.mp ho with rfl | ho
        · rw [h] at hinfo
          exact absurd hinfo (by simp)
        · exact i2 o ho info hinfo
      · rcases i3 with i3 | ⟨o, ho, info, hinfo, e⟩
        · exact Or.inl i3
        · exact Or.inr ⟨o, List.mem_cons_of_mem _ ho, info, hinfo, e⟩
    | some pOutputInfo =>
      obtain ⟨i1, i2, i3⟩ := ih (max n pOutputInfo.nRefresh)
      refine ⟨le_trans (le_max_left _ _) i1, ?_, ?_⟩
      · intro o ho info hinfo
        rcases List.mem_cons.mp ho with rfl | ho
        · rw [h] at hinfo
          cases hinfo
          exact le_trans (le_max_right _ _) i1
        · exact i2 o ho info hinfo
      · rcases i3 with i3 | ⟨o, ho, info, hinfo, e⟩
        · rcases max_cases n pOutputInfo.nRefresh with ⟨hm, _⟩ | ⟨hm, _⟩
          · left
            dsimp only
            rw [i3, hm]
          · right
            refine ⟨pOutput, List.mem_cons_self _ _, pOutputInfo, h, ?_⟩
            dsimp only
            rw [i3, hm]
        · exact Or.inr ⟨o, List.mem_cons_of_mem _ ho, info, hinfo, e⟩

/-- C23: `Wayland_PresentationFeedback_Presented`, for outputs whose known
refresh rates are not negative.  With a refresh cycle that is not zero the
connector is marked as not VRR, and `g_nOutputRefresh` becomes
`RefreshCycleTomHz( uRefreshCycle )` when that is not zero and is unchanged
when it is zero.  With a refresh cycle of zero, on the root plane, the
connector is marked as VRR, and `g_nOutputRefresh` becomes the largest refresh
rate among the outputs that the surface overlaps and the backend knows, when
one of these rates is not zero, and is unchanged when none is.
`UpdateVRRRefreshRate` leaves `g_nOutputRefresh` unchanged on a plane with a
parent and while the connector is marked as not VRR. -/
theorem C23_presentation_feedback (X : ListenerExternals) (uRefreshCycle : Nat)
    (m_pConnector : CWaylandConnector) (g_nOutputRefresh : Int) (self : CWaylandPlane)
    (hrates : ∀ pOutput info, X.GetOutputInfo pOutput = some info → 0 ≤ info.nRefresh) :
    (uRefreshCycle ≠ 0 →
      (self.Wayland_PresentationFeedback_Presented X uRefreshCycle m_pConnector
        g_nOutputRefresh).m_pConnector =
          { m_pConnector with m_bHostCompositorIsCurrentlyVRR := false } ∧
      (X.RefreshCycleTomHz uRefreshCycle ≠ 0 →
        (self.Wayland_PresentationFeedback_Presented X uRefreshCycle m_pConnector
          g_nOutputRefresh).g_nOutputRefresh = X.RefreshCycleTomHz uRefreshCycle) ∧
      (X.RefreshCycleTomHz uRefreshCycle = 0 →
        (self.Wayland_PresentationFeedback_Presented X uRefreshCycle m_pConnector
          g_nOutputRefresh).g_nOutputRefresh = g_nOutputRefresh)) ∧
    (self.m_pParent = none →
      (self.Wayland_PresentationFeedback_Presented X 0 m_pConnector
        g_nOutputRefresh).m_pConnector =
          { m_pConnector with m_bHostCompositorIsCurrentlyVRR := true } ∧
      ((∃ pOutput ∈ self.m_pOutputs, ∃ info, X.GetOutputInfo pOutput = some info ∧
          info.nRefresh ≠ 0) →
        (∃ pOutput ∈ self.m_pOutputs, ∃ info, X.GetOutputInfo pOutput = some info ∧
          info.nRefresh = (self.Wayland_PresentationFeedback_Presented X 0 m_pConnector
            g_nOutputRefresh).g_nOutputRefresh) ∧
        (∀ pOutput ∈ self.m_pOutputs, ∀ info, X.GetOutputInfo pOutput = some info →
          info.nRefresh ≤ (self.Wayland_PresentationFeedback_Presented X 0 m_pConnector
            g_nOutputRefresh).g_nOutputRefresh)) ∧
      ((∀ pOutput ∈ self.m_pOutputs, ∀ info, X.GetOutputInfo pOutput = some info →
          info.nRefresh = 0) →
        (self.Wayland_PresentationFeedback_Presented X 0 m_pConnector
          g_nOutputRefresh).g_nOutputRefresh = g_nOutputRefresh)) ∧
    ((self.m_pParent ≠ none ∨ m_pConnector.m_bHostCompositorIsCurrentlyVRR = false) →
      self.UpdateVRRRefreshRate X m_pConnector g_nOutputRefresh = g_nOutputRefresh) := by
  obtain ⟨l1, l2, l3⟩ := CWaylandPlane.nLargestRefreshRateMhz_spec X self.m_pOutputs 0
  refine ⟨?_, ?_, ?_⟩
  · intro hc
    simp only [CWaylandPlane.Wayland_PresentationFeedback_Presented, hc, ne_eq,
      not_false_eq_true, if_true]
    refine ⟨trivial, ?_, ?_⟩
    · intro h
      split_ifs with h2
      · rfl
      · exact (not_not.mp (fun h3 => h2 ⟨h, h3⟩)).symm
    · intro h
      simp [h]
  · intro hroot
    simp only [CWaylandPlane.Wayland_PresentationFeedback_Presented, ne_eq, not_true_eq_false,
      if_false, CWaylandPlane.UpdateVRRRefreshRate, hroot, Bool.not_true, Bool.false_eq_true]
    refine ⟨trivial, ?_, ?_⟩
    · rintro ⟨o, ho, info, hinfo, hne⟩
      have hpos : 0 < CWaylandPlane.nLargestRefreshRateMhz X self.m_pOutputs 0 :=
        lt_of_lt_of_le (lt_of_le_of_ne (hrates o info hinfo) (Ne.symm hne)) (l2 o ho info hinfo)
      have hnil : self.m_pOutputs.isEmpty = false := by
        cases hl : self.m_pOutputs with
        | nil => rw [hl] at ho; exact absurd ho (List.not_mem_nil _)
        | cons a b => rfl
      have hval : (if self.m_pOutputs.isEmpty = true then g_nOutputRefresh
          else if CWaylandPlane.nLargestRefreshRateMhz X self.m_pOutputs 0 ≠ 0 ∧
              CWaylandPlane.nLargestRefreshRateMhz X self.m_pOutputs 0 ≠ g_nOutputRefresh then
            CWaylandPlane.nLargestRefreshRateMhz X self.m_pOutputs 0
          else g_nOutputRefresh) = CWaylandPlane.nLargestRefreshRateMhz X self.m_pOutputs 0 := by
        rw [hnil]
        simp only [Bool.false_eq_true, if_false]
        split_ifs with h2
        · rfl
        · exact (not_not.mp (fun h3 => h2 ⟨ne_of_gt hpos, h3⟩)).symm
      rw [hval]
      refine ⟨?_, l2⟩
      rcases l3 with l3 | l3
      · rw [l3] at hpos
        exact absurd hpos (lt_irrefl _)
      · exact l3
    · intro hzero
      have hz : CWaylandPlane.nLargestRefreshRateMhz X self.m_pOutputs 0 = 0 := by
        rcases l3 with l3 | ⟨o, ho, info, hinfo, e⟩
        · exact l3
        · rw [← e]
          exact hzero o ho info hinfo
      simp [hz]
  · intro h
    unfold CWaylandPlane.UpdateVRRRefreshRate
    rcases h with h | h
    · simp [h]
    · simp [h]

/-- C23 on a concrete root plane that overlaps the outputs 1 and 2, at 60 Hz
and 144 Hz: a feedback without refresh cycle makes the output refresh 144 Hz. -/
theorem C23_presentation_feedback_witness :
    (CWaylandPlane.Wayland_PresentationFeedback_Presented plainListenerExternals 0
      (plainConnector true) 60000 { m_pOutputs := [1, 2] }).g_nOutputRefresh = 144000 := by
  obtain ⟨⟨o, ho, info, hinfo, e⟩, hmax⟩ :=
    ((C23_presentation_feedback plainListenerExternals 0 (plainConnector true) 60000
      { m_pOutputs := [1, 2] } (fun pOutput info h => by
        simp only [plainListenerExternals] at h
        split_ifs at h <;> cases h <;> decide)).2.1 rfl).2.1
      ⟨1, by decide, { nRefresh := 60000 }, rfl, by decide⟩
  exact le_antisymm (by decide) (hmax 2 (by decide) { nRefresh := 144000 } rfl)

/-! ## C24 -/

/-- C24: after `Wayland_WPImageDescriptionInfo_TFNamed` and after
`Wayland_FrogColorManagedSurface_PreferredMetadata` the HDR record of the
connector has `bExposeHDRSupport` true if and only if `cv_hdr_enabled` is set
and the preferred transfer function is ST2084 PQ, and `eOutputEncodingEOTF` is
`EOTF_PQ` under that condition and `EOTF_Gamma22` otherwise.  A connector as
its constructor leaves it does not expose HDR support. -/
theorem C24_preferred_transfer_function (X : ListenerExternals) (uTF : Nat)
    (m_pConnector : CWaylandConnector) :
    (((CWaylandPlane.Wayland_WPImageDescriptionInfo_TFNamed X uTF
          m_pConnector).GetHDRInfo.bExposeHDRSupport = true ↔
        (X.cv_hdr_enabled = true ∧
          uTF = X.WP_COLOR_MANAGER_V1_TRANSFER_FUNCTION_ST2084_PQ)) ∧
      (CWaylandPlane.Wayland_WPImageDescriptionInfo_TFNamed X uTF
          m_pConnector).GetHDRInfo.eOutputEncodingEOTF =
        (if X.cv_hdr_enabled = true ∧
            uTF = X.WP_COLOR_MANAGER_V1_TRANSFER_FUNCTION_ST2084_PQ then EOTF.EOTF_PQ
          else EOTF.EOTF_Gamma22)) ∧
    (((CWaylandPlane.Wayland_FrogColorManagedSurface_PreferredMetadata X uTF
          m_pConnector).GetHDRInfo.bExposeHDRSupport = true ↔
        (X.cv_hdr_enabled = true ∧
          uTF = X.FROG_COLOR_MANAGED_SURFACE_TRANSFER_FUNCTION_ST2084_PQ)) ∧
      (CWaylandPlane.Wayland_FrogColorManagedSurface_PreferredMetadata X uTF
          m_pConnector).GetHDRInfo.eOutputEncodingEOTF =
        (if X.cv_hdr_enabled = true ∧
            uTF = X.FROG_COLOR_MANAGED_SURFACE_TRANSFER_FUNCTION_ST2084_PQ then EOTF.EOTF_PQ
          else EOTF.EOTF_Gamma22)) ∧
    CWaylandConnector.ctor.GetHDRInfo.bExposeHDRSupport = false ∧
    CWaylandConnector.ctor.SupportsHDR = false := by
  refine ⟨⟨?_, ?_⟩, ⟨?_, ?_⟩, rfl, rfl⟩
  · simp [CWaylandPlane.Wayland_WPImageDescriptionInfo_TFNamed, CWaylandConnector.GetHDRInfo]
  · simp [CWaylandPlane.Wayland_WPImageDescriptionInfo_TFNamed, CWaylandConnector.GetHDRInfo]
  · simp [CWaylandPlane.Wayland_FrogColorManagedSurface_PreferredMetadata,
      CWaylandConnector.GetHDRInfo]
  · simp [CWaylandPlane.Wayland_FrogColorManagedSurface_PreferredMetadata,
      CWaylandConnector.GetHDRInfo]

/-! ## C25 -/

theorem ConnectorOp.perform_focus_alive (op : ConnectorOp) (h : ConnectorHeap)
    (hinv : ∀ c, h.backend.m_pFocusConnector = some c → c ∈ h.alive) :
    ∀ c, (op.perform h).backend.m_pFocusConnector = some c → c ∈ (op.perform h).alive := by
  cases op with
  | CreateVirtualConnector p b =>
    intro c
    unfold ConnectorOp.perform
    by_cases hp : p ∈ h.alive
    · simp only [hp, if_true]
      exact hinv c
    · simp only [hp, if_false]
      cases b with
      | false =>
        simp [CWaylandBackend.CreateVirtualConnector, CWaylandConnector.dtor,
          CWaylandBackend.OnConnectorDestroyed]
      | true =>
        simp only [CWaylandBackend.CreateVirtualConnector, Bool.not_true, Bool.false_eq_true,
          if_false, if_true]
        intro hc
        cases hc
        exact List.mem_cons_self _ _
  | Destroy p =>
    intro c
    unfold ConnectorOp.perform
    by_cases hp : p ∈ h.alive
    · simp only [hp, if_true, CWaylandConnector.dtor, CWaylandBackend.OnConnectorDestroyed]
      by_cases hf : h.backend.m_pFocusConnector = some p
      · simp [hf]
      · simp only [hf, if_false]
        intro hc
        have hne : c ≠ p := by
          rintro rfl
          exact hf hc
        simp [hinv c hc, hne]
    · simp only [hp, if_false]
      exact hinv c

theorem ConnectorHeap.run_focus_alive (ops : List ConnectorOp) :
    ∀ (h : ConnectorHeap), (∀ c, h.backend.m_pFocusConnector = some c → c ∈ h.alive) →
      ∀ c, (h.run ops).backend.m_pFocusConnector = some c → c ∈ (h.run ops).alive := by
  induction ops with
  | nil => intro h hinv; exact hinv
  | cons op rest ih =>
    intro h hinv
    exact ih (op.perform h) (ConnectorOp.perform_focus_alive op h hinv)

/-- C25: after the destructor of the connector `pC` has run,
`GetCurrentConnector()` is null if `pC` had the focus, and the backend is
unchanged if another connector `pD` had it.  Over every sequence of
`CreateVirtualConnector` calls and destructions of connectors, from a backend
without focus connector, what `GetCurrentConnector()` returns is null or a
connector that is alive.  A `CreateVirtualConnector` whose connector fails to
`Init()` returns null and leaves `GetCurrentConnector()` null. -/
theorem C25_focus_connector (self : CWaylandBackend) (pC pD : Nat) (ops : List ConnectorOp)
    (hne : pD ≠ pC) :
    (CWaylandConnector.dtor pC { self with m_pFocusConnector := some pC }).GetCurrentConnector =
      none ∧
    CWaylandConnector.dtor pC { self with m_pFocusConnector := some pD } =
      { self with m_pFocusConnector := some pD } ∧
    (∀ c, ((ConnectorHeap.mk { self with m_pFocusConnector := none } []).run
        ops).backend.GetCurrentConnector = some c →
      c ∈ ((ConnectorHeap.mk { self with m_pFocusConnector := none } []).run ops).alive) ∧
    (self.CreateVirtualConnector pC false).1 = none ∧
    (self.CreateVirtualConnector pC false).2.GetCurrentConnector = none := by
  refine ⟨?_, ?_, ?_, ?_, ?_⟩
  · simp [CWaylandConnector.dtor, CWaylandBackend.OnConnectorDestroyed,
      CWaylandBackend.GetCurrentConnector]
  · simp [CWaylandConnector.dtor, CWaylandBackend.OnConnectorDestroyed, hne]
  · exact ConnectorHeap.run_focus_alive ops _ (by simp)
  · simp [CWaylandBackend.CreateVirtualConnector]
  · simp [CWaylandBackend.CreateVirtualConnector, CWaylandConnector.dtor,
      CWaylandBackend.OnConnectorDestroyed, CWaylandBackend.GetCurrentConnector]

/-- C25 on a concrete backend: the connector 2 has the focus and the connector 1
is destroyed. -/
theorem C25_focus_connector_witness :
    (CWaylandConnector.dtor 1
      { plainWaylandBackend with m_pFocusConnector := some 2 }).GetCurrentConnector = some 2 :=
  (congrArg CWaylandBackend.GetCurrentConnector
    (C25_focus_connector plainWaylandBackend 1 2 [] (by decide)).2.1).trans rfl

/-! ## C26 -/

theorem CWaylandInputThread.HandleKeyHotkey_spec (uKey : Nat) (bPressed : Bool)
    (g : InputGlobals) (self : CWaylandInputThread) :
    (uKey ∈ hotkeys →
      ∃ call, CWaylandInputThread.HandleKeyHotkey uKey bPressed g self = some call ∧
        call.self = self ∧ (∀ e ∈ call.events, e.isKey = false) ∧
        (bPressed = true → call.g = g ∧ call.events = [])) ∧
    (uKey ∉ hotkeys → CWaylandInputThread.HandleKeyHotkey uKey bPressed g self = none) := by
  constructor
  · intro hk
    simp only [hotkeys, List.mem_cons, List.mem_singleton, List.not_mem_nil, or_false] at hk
    rcases hk with h | h | h | h | h | h | h | h <;> subst h <;> cases bPressed <;>
      simp [CWaylandInputThread.HandleKeyHotkey, KEY_F, KEY_N, KEY_B, KEY_U, KEY_Y, KEY_I,
        KEY_O, KEY_S, InputEvent.isKey]
  · intro hk
    simp only [hotkeys, List.mem_cons, List.mem_singleton, List.not_mem_nil, or_false,
      not_or] at hk
    obtain ⟨h1, h2, h3, h4, h5, h6, h7, h8⟩ := hk
    unfold CWaylandInputThread.HandleKeyHotkey
    rw [if_neg h1, if_neg h2, if_neg h3, if_neg h4, if_neg h5, if_neg h6, if_neg h7, if_neg h8]

theorem CWaylandInputThread.HandleKey_forward (uKey : Nat) (bPressed : Bool)
    (g : InputGlobals) (self : CWaylandInputThread)
    (h : ¬ (Nat.land self.m_uKeyModifiers (self.m_uModMask GAMESCOPE_WAYLAND_MOD_META) ≠ 0 ∧
      uKey ∈ hotkeys)) :
    self.HandleKey uKey bPressed g =
      ⟨{ self with m_uFakeTimestamp := (self.m_uFakeTimestamp + 1) % 4294967296 }, g,
        [InputEvent.wlserver_key uKey bPressed ((self.m_uFakeTimestamp + 1) % 4294967296)]⟩ := by
  unfold CWaylandInputThread.HandleKey
  by_cases hm : Nat.land self.m_uKeyModifiers (self.m_uModMask GAMESCOPE_WAYLAND_MOD_META) ≠ 0
  · have hk : uKey ∉ hotkeys := fun hk => h ⟨hm, hk⟩
    rw [if_pos hm, (CWaylandInputThread.HandleKeyHotkey_spec uKey bPressed g self).2 hk]
  · rw [if_neg hm]

theorem CWaylandInputThread.HandleKey_hotkey (uKey : Nat) (bPressed : Bool)
    (g : InputGlobals) (self : CWaylandInputThread)
    (hm : Nat.land self.m_uKeyModifiers (self.m_uModMask GAMESCOPE_WAYLAND_MOD_META) ≠ 0)
    (hk : uKey ∈ hotkeys) :
    self.HandleKey uKey bPressed g = (self.HandleKeyHotkey uKey bPressed g).getD ⟨self, g, []⟩ ∧
    (self.HandleKey uKey bPressed g).self = self ∧
    (∀ e ∈ (self.HandleKey uKey bPressed g).events, e.isKey = false) ∧
    (bPressed = true →
      (self.HandleKey uKey bPressed g).g = g ∧ (self.HandleKey uKey bPressed g).events = []) := by
  obtain ⟨call, e, c1, c2, c3⟩ :=
    (CWaylandInputThread.HandleKeyHotkey_spec uKey bPressed g self).1 hk
  have he : self.HandleKey uKey bPressed g = call := by
    unfold CWaylandInputThread.HandleKey
    rw [if_pos hm, e]
  rw [he, e]
  exact ⟨rfl, c1, c2, c3⟩

/-- C27: `CDeferredBackend::Init()` and `CWaylandBackend::Init()` resolve the
output geometry to the same globals.  With a preferred width that is not zero
and a preferred height of zero both return false.  Otherwise
`g_nOutputHeight` is the preferred height, or 720 when that is zero;
`g_nOutputWidth` is the preferred width, or `g_nOutputHeight * 16 / 9` in
`uint32_t` arithmetic when that is zero, which is the exact quotient for
heights below 2^28; and `g_nOutputRefresh` is the nested refresh, or 60 Hz in
mHz when that is zero. -/
theorem C27_same_output_geometry (B : IBackend σ) (vulkan_init wlsession_init : Bool)
    (g : Globals) (self : CDeferredBackend σ) :
    (Init B vulkan_init wlsession_init g self).1 = (CWaylandBackend.Init g).1 ∧
    ((toU32 g.g_nPreferredOutputWidth ≠ 0 ∧ toU32 g.g_nPreferredOutputHeight = 0) →
      (Init B vulkan_init wlsession_init g self).2.ret = some false ∧
      (CWaylandBackend.Init g).2 = false) ∧
    (¬ (toU32 g.g_nPreferredOutputWidth ≠ 0 ∧ toU32 g.g_nPreferredOutputHeight = 0) →
      (CWaylandBackend.Init g).2 = true ∧
      (CWaylandBackend.Init g).1.g_nOutputHeight =
        (if toU32 g.g_nPreferredOutputHeight = 0 then 720
          else toU32 g.g_nPreferredOutputHeight) ∧
      (CWaylandBackend.Init g).1.g_nOutputWidth =
        (if toU32 g.g_nPreferredOutputWidth = 0 then
          (CWaylandBackend.Init g).1.g_nOutputHeight * 16 % 4294967296 / 9
          else toU32 g.g_nPreferredOutputWidth) ∧
      ((CWaylandBackend.Init g).1.g_nOutputHeight < 268435456 →
        (CWaylandBackend.Init g).1.g_nOutputHeight * 16 % 4294967296 / 9 =
          (CWaylandBackend.Init g).1.g_nOutputHeight * 16 / 9) ∧
      (CWaylandBackend.Init g).1.g_nOutputRefresh =
        (if g.g_nNestedRefresh = 0 then 60 * 1000 else g.g_nNestedRefresh)) := by
  refine ⟨?_, ?_, ?_⟩
  · simp only [Init, CWaylandBackend.Init]
    split_ifs <;> rfl
  · rintro ⟨hw, hh⟩
    have hc : toU32 g.g_nPreferredOutputHeight = 0 ∧ toU32 g.g_nPreferredOutputWidth ≠ 0 :=
      ⟨hh, hw⟩
    constructor
    · unfold Init
      dsimp only
      rw [if_pos hc]
    · unfold CWaylandBackend.Init
      dsimp only
      rw [if_pos hc]
  · intro h
    have h2 : ¬ (toU32 g.g_nPreferredOutputHeight = 0 ∧ toU32 g.g_nPreferredOutputWidth ≠ 0) :=
      fun h3 => h ⟨h3.2, h3.1⟩
    unfold CWaylandBackend.Init
    dsimp only
    rw [if_neg h2]
    generalize toU32 g.g_nPreferredOutputHeight = nHeight at h h2 ⊢
    generalize toU32 g.g_nPreferredOutputWidth = nWidth at h h2 ⊢
    generalize g.g_nNestedRefresh = nRefresh
    refine ⟨rfl, ?_, ?_, ?_, ?_⟩
    · by_cases hh : nHeight = 0 <;> by_cases hw : nWidth = 0 <;>
        by_cases hr : nRefresh = 0 <;> simp only [hh, hw, hr, if_true, if_false]
    · by_cases hh : nHeight = 0 <;> by_cases hw : nWidth = 0 <;>
        by_cases hr : nRefresh = 0 <;> simp only [hh, hw, hr, if_true, if_false]
    · intro hlt
      rw [Nat.mod_eq_of_lt]
      exact lt_of_lt_of_le (Nat.mul_lt_mul_of_pos_right hlt (by norm_num)) (by norm_num)
    · by_cases hh : nHeight = 0 <;> by_cases hw : nWidth = 0 <;>
        by_cases hr : nRefresh = 0 <;> simp only [hh, hw, hr, if_true, if_false] <;> rfl

/-- C27 for a process started without `-W`, `-H` and `-r`: the output is
1280x720. -/
theorem C27_same_output_geometry_witness :
    (CWaylandBackend.Init defaultGlobals).1.g_nOutputWidth = 1280 :=
  ((C27_same_output_geometry ScriptedChild.vtable true true defaultGlobals
    (CDeferredBackend.new ⟨[false], true, []⟩)).2.2 (by decide)).2.2.1.trans (by decide)

/-! ## C28 -/

theorem toU32_toI32 (x : Nat) (h : x < 4294967296) : toU32 (toI32 x) = x := by
  unfold toU32 toI32
  omega

theorem WaylandScaleToLogical_of_fit (v s : Nat) (hfit : v * 120 + s ≤ 4294967296)
    (hs : 0 < s) : WaylandScaleToLogical v s = (v * 120 + (s - 1)) / s := by
  simp only [WaylandScaleToLogical, div_roundup, WL_FRACTIONAL_SCALE_DENOMINATOR]
  rw [Nat.mod_eq_of_lt (show v * 120 < 4294967296 by omega),
    Nat.mod_eq_of_lt (show v * 120 + (s - 1) < 4294967296 by omega)]

theorem WaylandScale_round_up (p s : Nat) (hs : 0 < s) (hp : p * 120 + s ≤ 4294967296)
    (hq : WaylandScaleToPhysical (WaylandScaleToLogical p s) s * 120 + s ≤ 4294967296) :
    p ≤ WaylandScaleToPhysical (WaylandScaleToLogical p s) s ∧
    WaylandScaleToLogical (WaylandScaleToPhysical (WaylandScaleToLogical p s) s) s =
      WaylandScaleToLogical p s := by
  rw [WaylandScaleToLogical_of_fit _ s hq hs]
  rw [WaylandScaleToLogical_of_fit p s hp hs] at hq ⊢
  have h1 : (p * 120 + (s - 1)) / s * s ≤ p * 120 + (s - 1) := Nat.div_mul_le_self _ _
  have hdm := Nat.div_add_mod (p * 120 + (s - 1)) s
  have hml := Nat.mod_lt (p * 120 + (s - 1)) hs
  rw [Nat.mul_comm] at hdm
  generalize (p * 120 + (s - 1)) % s = nRest at hdm hml
  generalize (p * 120 + (s - 1)) / s = nLogical at hq h1 hdm ⊢
  have h2 : p * 120 + (s - 1) < nLogical * s + s := by omega
  have h3 : nLogical * s < 4294967296 := by omega
  simp only [WaylandScaleToPhysical, WL_FRACTIONAL_SCALE_DENOMINATOR, Nat.mod_eq_of_lt h3]
    at hq ⊢
  have h4 : nLogical * s / 120 * 120 ≤ nLogical * s := Nat.div_mul_le_self _ _
  have h5 : p ≤ nLogical * s / 120 := by
    rw [Nat.le_div_iff_mul_le (by norm_num)]
    omega
  refine ⟨h5, le_antisymm ?_ ?_⟩
  · rw [← Nat.lt_succ_iff, Nat.div_lt_iff_lt_mul hs, Nat.succ_eq_add_one, Nat.add_mul,
      Nat.one_mul]
    omega
  · rw [Nat.le_div_iff_mul_le hs]
    omega

theorem WaylandScale_identity_at_120 (p : Nat) (hp : p * 120 + 120 ≤ 4294967296) :
    WaylandScaleToLogical p 120 = p ∧ WaylandScaleToPhysical p 120 = p := by
  rw [WaylandScaleToLogical_of_fit p 120 hp (by norm_num)]
  simp only [WaylandScaleToPhysical, WL_FRACTIONAL_SCALE_DENOMINATOR]
  rw [Nat.mod_eq_of_lt (show p * 120 < 4294967296 by omega)]
  constructor <;> omega

theorem WaylandScaleToLogical_lt (v s : Nat) : WaylandScaleToLogical v s < 4294967296 := by
  simp only [WaylandScaleToLogical, div_roundup]
  exact lt_of_le_of_lt (Nat.div_le_self _ _) (Nat.mod_lt _ (by norm_num))

theorem CWaylandPlane.LibDecor_Frame_Configure_fallback (g : WaylandGlobals)
    (m_Planes : Nat → CWaylandPlane) (self : CWaylandPlane) (s : Nat)
    (hscale : CWaylandPlane.GetScale m_Planes 8 self = some s) (hs32 : s < 4294967296) :
    ∃ events, self.LibDecor_Frame_Configure g m_Planes none =
      some ({ g with
          g_nOutputWidth := WaylandScaleToPhysical (WaylandScaleToLogical g.g_nOutputWidth s) s
          g_nOutputHeight :=
            WaylandScaleToPhysical (WaylandScaleToLogical g.g_nOutputHeight s) s },
        events) := by
  simp only [CWaylandPlane.LibDecor_Frame_Configure, hscale, CWaylandPlane.CommitLibDecor,
    toU32_toI32 s hs32, toU32_toI32 _ (WaylandScaleToLogical_lt _ s)]
  exact ⟨_, rfl⟩

/-- C28, counterexample: the physical size 35791385 at the scale 1000.  The
sum `p * 120 + s` and the products `p * 120`, `Logical( p, s ) * s` and
`q * 120` are below 2^32, where `q = Physical( Logical( p, s ), s )` is
35791391; but `q * 120 + ( s - 1 )` wraps in `div_roundup`, so that
`Logical( q, s )` is 0 and not `Logical( p, s )`, and the map sends `q` to 0
and not to `q`.  So a second `LibDecor_Frame_Configure` without content size
shrinks the output width that the first one left. -/
theorem C28_counterexample_second_sum_wraps :
    (0 : Nat) < 1000 ∧ 35791385 * 120 + 1000 < 4294967296 ∧
    WaylandScaleToLogical 35791385 1000 = 4294967 ∧
    WaylandScaleToLogical 35791385 1000 * 1000 < 4294967296 ∧
    WaylandScaleToPhysical (WaylandScaleToLogical 35791385 1000) 1000 = 35791391 ∧
    35791391 * 120 < 4294967296 ∧
    WaylandScaleToLogical 35791391 1000 = 0 ∧
    WaylandScaleToPhysical (WaylandScaleToLogical 35791391 1000) 1000 = 0 ∧
    ((CWaylandPlane.LibDecor_Frame_Configure
        { plainWaylandGlobals false with g_nOutputWidth := 35791385 }
        (fun _ => scaledPlane 1000) none (scaledPlane 1000)).map
      (fun r => r.1.g_nOutputWidth)) = some 35791391 ∧
    ((CWaylandPlane.LibDecor_Frame_Configure
        { plainWaylandGlobals false with g_nOutputWidth := 35791391 }
        (fun _ => scaledPlane 1000) none (scaledPlane 1000)).map
      (fun r => r.1.g_nOutputWidth)) = some 0 := by
  decide

/-- C28, amended: let `s > 0` be the scale that `GetScale()` returns on a
plane, and let `p` be `g_nOutputWidth` or `g_nOutputHeight`, with
`p * 120 + s` below 2^32 and also `q * 120 + s` below 2^32, where
`q = WaylandScaleToPhysical( WaylandScaleToLogical( p, s ), s )`.  Then
`q >= p`, the logical value of `q` is the logical value of `p`, and the map
from `p` to `q` sends `q` to `q`; at `s = 120` both conversions give `p`.
`LibDecor_Frame_Configure` without content size returns, shrinks neither
`g_nOutputWidth` nor `g_nOutputHeight`, leaves the globals unchanged at
`s = 120`, and applied to the globals that it left it leaves them unchanged. -/
theorem C28_scale_fallback_never_shrinks (g : WaylandGlobals)
    (m_Planes : Nat → CWaylandPlane) (self : CWaylandPlane) (s : Nat)
    (hscale : CWaylandPlane.GetScale m_Planes 8 self = some s)
    (hs : 0 < s)
    (hw : g.g_nOutputWidth * 120 + s < 4294967296)
    (hh : g.g_nOutputHeight * 120 + s < 4294967296)
    (hw2 : WaylandScaleToPhysical (WaylandScaleToLogical g.g_nOutputWidth s) s * 120 + s <
      4294967296)
    (hh2 : WaylandScaleToPhysical (WaylandScaleToLogical g.g_nOutputHeight s) s * 120 + s <
      4294967296) :
    (g.g_nOutputWidth ≤ WaylandScaleToPhysical (WaylandScaleToLogical g.g_nOutputWidth s) s ∧
      WaylandScaleToLogical
          (WaylandScaleToPhysical (WaylandScaleToLogical g.g_nOutputWidth s) s) s =
        WaylandScaleToLogical g.g_nOutputWidth s ∧
      WaylandScaleToPhysical (WaylandScaleToLogical
          (WaylandScaleToPhysical (WaylandScaleToLogical g.g_nOutputWidth s) s) s) s =
        WaylandScaleToPhysical (WaylandScaleToLogical g.g_nOutputWidth s) s ∧
      (s = 120 → WaylandScaleToLogical g.g_nOutputWidth s = g.g_nOutputWidth ∧
        WaylandScaleToPhysical g.g_nOutputWidth s = g.g_nOutputWidth)) ∧
    (∃ g1 events1 events2,
      self.LibDecor_Frame_Configure g m_Planes none = some (g1, events1) ∧
      g.g_nOutputWidth ≤ g1.g_nOutputWidth ∧ g.g_nOutputHeight ≤ g1.g_nOutputHeight ∧
      (s = 120 → g1 = g) ∧
      self.LibDecor_Frame_Configure g1 m_Planes none = some (g1, events2)) := by
  have hs32 : s < 4294967296 := by omega
  obtain ⟨w1, w2⟩ := WaylandScale_round_up g.g_nOutputWidth s hs hw.le hw2.le
  obtain ⟨h1, h2⟩ := WaylandScale_round_up g.g_nOutputHeight s hs hh.le hh2.le
  refine ⟨⟨w1, w2, by rw [w2], ?_⟩, ?_⟩
  · rintro rfl
    exact WaylandScale_identity_at_120 _ hw.le
  · obtain ⟨events1, e1⟩ := CWaylandPlane.LibDecor_Frame_Configure_fallback g m_Planes self s
      hscale hs32
    obtain ⟨events2, e2⟩ := CWaylandPlane.LibDecor_Frame_Configure_fallback
      { g with
        g_nOutputWidth := WaylandScaleToPhysical (WaylandScaleToLogical g.g_nOutputWidth s) s
        g_nOutputHeight :=
          WaylandScaleToPhysical (WaylandScaleToLogical g.g_nOutputHeight s) s }
      m_Planes self s hscale hs32
    refine ⟨_, events1, events2, e1, w1, h1, ?_, ?_⟩
    · rintro rfl
      rw [(WaylandScale_identity_at_120 _ hw.le).1, (WaylandScale_identity_at_120 _ hw.le).2,
        (WaylandScale_identity_at_120 _ hh.le).1, (WaylandScale_identity_at_120 _ hh.le).2]
    · rw [e2]
      simp only [w2, h2]

/-- C28 on a 1280x720 output at the scale 180/120: the width does not shrink. -/
theorem C28_scale_fallback_never_shrinks_witness :
    (plainWaylandGlobals false).g_nOutputWidth ≤
      WaylandScaleToPhysical
        (WaylandScaleToLogical (plainWaylandGlobals false).g_nOutputWidth 180) 180 :=
  (C28_scale_fallback_never_shrinks (plainWaylandGlobals false) (fun _ => scaledPlane 180)
    (scaledPlane 180) 180 rfl (by decide) (by decide) (by decide) (by decide)
    (by decide)).1.1

/-! ## C29 -/

/-- C29, the code at the failing input: a backend with a pointer, not locked,
receives `SetRelativeMouseMode( pSurface, true )` twice for the surface 7.
The first call locks the pointer, and `m_pLockedSurface` is still null after
it.  The second call, made while the pointer is locked on that surface,
destroys the locked pointer and the relative pointer, creates both again and
updates the cursor, where the claim says that it makes no request. -/
theorem C29_second_call_locks_again :
    ((plainBackendPointer.SetRelativeMouseMode plainPointerExternals (some 7)
        true).events =
      [PointerEvent.zwp_pointer_constraints_v1_lock_pointer (some 7),
        PointerEvent.zwp_relative_pointer_manager_v1_get_relative_pointer,
        PointerEvent.zwp_relative_pointer_manager_v1_get_relative_pointer,
        PointerEvent.UpdateCursor] ∧
      (plainBackendPointer.SetRelativeMouseMode plainPointerExternals (some 7)
        true).self.m_pLockedPointer = some 81 ∧
      (plainBackendPointer.SetRelativeMouseMode plainPointerExternals (some 7)
        true).self.m_pLockedSurface = none) ∧
    ((plainBackendPointer.SetRelativeMouseMode plainPointerExternals (some 7)
        true).self.SetRelativeMouseMode plainPointerExternals (some 7) true).events =
      [PointerEvent.zwp_locked_pointer_v1_destroy 81,
        PointerEvent.zwp_relative_pointer_v1_destroy 82,
        PointerEvent.zwp_pointer_constraints_v1_lock_pointer (some 7),
        PointerEvent.zwp_relative_pointer_manager_v1_get_relative_pointer,
        PointerEvent.UpdateCursor] := by
  decide

/-! ## C30 -/

theorem CWaylandInputThread.HandleKey_frame (uKey : Nat) (bPressed : Bool)
    (g : InputGlobals) (self : CWaylandInputThread) :
    (self.HandleKey uKey bPressed g).self =
      { self with m_uFakeTimestamp := (self.HandleKey uKey bPressed g).self.m_uFakeTimestamp } := by
  by_cases h : Nat.land self.m_uKeyModifiers (self.m_uModMask GAMESCOPE_WAYLAND_MOD_META) ≠ 0 ∧
      uKey ∈ hotkeys
  · obtain ⟨_, c1, _, _⟩ := CWaylandInputThread.HandleKey_hotkey uKey bPressed g self h.1 h.2
    rw [c1]
  · rw [CWaylandInputThread.HandleKey_forward uKey bPressed g self h]

theorem forwardedKey_append (uKey : Nat) (a b : List InputEvent) :
    forwardedKey uKey (a ++ b) = forwardedKey uKey a ++ forwardedKey uKey b := by
  simp [forwardedKey, List.filterMap_append]

theorem forwardedKey_of_not_isKey (uKey : Nat) (events : List InputEvent)
    (h : ∀ e ∈ events, e.isKey = false) : forwardedKey uKey events = [] := by
  unfold forwardedKey
  rw [List.filterMap_eq_nil_iff]
  intro e he
  have := h e he
  cases e <;> simp_all [InputEvent.isKey]

theorem CWaylandInputThread.forwardedKey_HandleKey (uKey k : Nat) (bPressed : Bool)
    (g : InputGlobals) (self : CWaylandInputThread) :
    (k ≠ uKey → forwardedKey uKey (self.HandleKey k bPressed g).events = []) ∧
    ((uKey ∉ hotkeys ∨
        Nat.land self.m_uKeyModifiers (self.m_uModMask GAMESCOPE_WAYLAND_MOD_META) = 0) →
      forwardedKey uKey (self.HandleKey uKey bPressed g).events = [bPressed]) := by
  constructor
  · intro hne
    by_cases h : Nat.land self.m_uKeyModifiers (self.m_uModMask GAMESCOPE_WAYLAND_MOD_META) ≠ 0 ∧
        k ∈ hotkeys
    · obtain ⟨_, _, c2, _⟩ := CWaylandInputThread.HandleKey_hotkey k bPressed g self h.1 h.2
      exact forwardedKey_of_not_isKey uKey _ c2
    · rw [CWaylandInputThread.HandleKey_forward k bPressed g self h]
      simp [forwardedKey, hne]
  · intro hq
    have h : ¬ (Nat.land self.m_uKeyModifiers (self.m_uModMask GAMESCOPE_WAYLAND_MOD_META) ≠ 0 ∧
        uKey ∈ hotkeys) := by
      rintro ⟨h1, h2⟩
      rcases hq with hq | hq
      · exact hq h2
      · exact h1 hq
    rw [CWaylandInputThread.HandleKey_forward uKey bPressed g self h]
    simp [forwardedKey]

theorem alternates_append (l : List Bool) :
    ∀ (bNext x : Bool), alternates bNext (l ++ [x]) =
      (alternates bNext l && (x == (if l.length % 2 = 0 then bNext else !bNext))) := by
  induction l with
  | nil => intro b x; simp [alternates]
  | cons y l ih =>
    intro b x
    show (y == b && alternates (!b) (l ++ [x])) =
      (alternates b (y :: l) && (x == if (y :: l).length % 2 = 0 then b else !b))
    rw [ih (!b) x]
    simp only [alternates, List.length_cons]
    by_cases h : l.length % 2 = 0
    · have h2 : ¬ ((l.length + 1) % 2 = 0) := by omega
      simp [h, h2, Bool.and_assoc]
    · have h2 : (l.length + 1) % 2 = 0 := by omega
      simp [h, h2, Bool.and_assoc]

theorem alternates_count (l : List Bool) :
    ∀ bNext, alternates bNext l = true →
      l.count bNext = (l.length + 1) / 2 ∧ l.count (!bNext) = l.length / 2 := by
  induction l with
  | nil => intro b _; simp
  | cons y l ih =>
    intro b h
    simp only [alternates, Bool.and_eq_true, beq_iff_eq] at h
    obtain ⟨rfl, h2⟩ := h
    obtain ⟨i1, i2⟩ := ih (!y) h2
    simp only [Bool.not_not] at i2
    constructor
    · rw [List.count_cons_self, i2, List.length_cons]
      omega
    · rw [List.count_cons_of_ne (by cases y <;> simp), i1, List.length_cons]

theorem CWaylandInputThread.HandleKey_fields (uKey : Nat) (bPressed : Bool)
    (g : InputGlobals) (self : CWaylandInputThread) :
    (self.HandleKey uKey bPressed g).self.m_bKeyboardEntered = self.m_bKeyboardEntered ∧
    (self.HandleKey uKey bPressed g).self.m_uKeyModifiers = self.m_uKeyModifiers ∧
    (self.HandleKey uKey bPressed g).self.m_uModMask = self.m_uModMask ∧
    (self.HandleKey uKey bPressed g).self.m_uScancodesHeld = self.m_uScancodesHeld := by
  rw [CWaylandInputThread.HandleKey_frame]
  exact ⟨rfl, rfl, rfl, rfl⟩

theorem CWaylandInputThread.KeyInv_quiet (uKey uMetaMask : Nat) (self : CWaylandInputThread)
    (events : List InputEvent) (h : self.KeyInv uKey uMetaMask events) :
    uKey ∉ hotkeys ∨
      Nat.land self.m_uKeyModifiers (self.m_uModMask GAMESCOPE_WAYLAND_MOD_META) = 0 := by
  rcases h.2.2.2.2 with h1 | ⟨h1, h2⟩
  · exact Or.inl h1
  · right
    rw [h1]
    exact h2

theorem CWaylandInputThread.KeyInv_press (uKey uMetaMask k : Nat) (g : InputGlobals)
    (self : CWaylandInputThread) (events : List InputEvent)
    (h : self.KeyInv uKey uMetaMask events) (hent : self.m_bKeyboardEntered = true)
    (hk : k ∉ self.m_uScancodesHeld) :
    CWaylandInputThread.KeyInv uKey uMetaMask
      { (self.HandleKey k true g).self with
        m_uScancodesHeld := (self.HandleKey k true g).self.m_uScancodesHeld.insert k }
      (events ++ (self.HandleKey k true g).events) := by
  obtain ⟨f1, f2, f3, f4⟩ := CWaylandInputThread.HandleKey_fields k true g self
  have hq := CWaylandInputThread.KeyInv_quiet uKey uMetaMask self events h
  obtain ⟨i1, i2, i3, i4, i5⟩ := h
  obtain ⟨k1, k2⟩ := CWaylandInputThread.forwardedKey_HandleKey uKey k true g self
  refine ⟨?_, ?_, ?_, ?_, ?_⟩
  · show ((self.HandleKey k true g).self.m_uScancodesHeld.insert k).Nodup
    rw [f4]
    exact i1.insert
  · intro he
    change (self.HandleKey k true g).self.m_bKeyboardEntered = false at he
    rw [f1, hent] at he
    exact absurd he (by simp)
  · rw [forwardedKey_append]
    by_cases hku : k = uKey
    · subst hku
      rw [k2 hq, alternates_append, i3]
      have : (forwardedKey k events).length % 2 = 0 := by
        have := i4.not.mp hk
        omega
      simp [this]
    · rw [k1 hku, List.append_nil]
      exact i3
  · show uKey ∈ (self.HandleKey k true g).self.m_uScancodesHeld.insert k ↔ _
    rw [f4, forwardedKey_append, List.mem_insert_iff]
    by_cases hku : k = uKey
    · subst hku
      rw [k2 hq, List.length_append]
      have : (forwardedKey k events).length % 2 = 0 := by
        have := i4.not.mp hk
        omega
      simp only [true_or, List.length_singleton, true_iff]
      omega
    · rw [k1 hku, List.append_nil, ← i4]
      constructor
      · rintro (h | h)
        · exact absurd h.symm hku
        · exact h
      · exact Or.inr
  · show uKey ∉ hotkeys ∨
      ((self.HandleKey k true g).self.m_uModMask GAMESCOPE_WAYLAND_MOD_META = uMetaMask ∧
        Nat.land (self.HandleKey k true g).self.m_uKeyModifiers uMetaMask = 0)
    rw [f2, f3]
    exact i5

theorem CWaylandInputThread.KeyInv_release (uKey uMetaMask k : Nat) (g : InputGlobals)
    (self : CWaylandInputThread) (events : List InputEvent)
    (h : self.KeyInv uKey uMetaMask events) (hent : self.m_bKeyboardEntered = true)
    (hk : k ∈ self.m_uScancodesHeld) :
    CWaylandInputThread.KeyInv uKey uMetaMask
      { (self.HandleKey k false g).self with
        m_uScancodesHeld :=
          (self.HandleKey k false g).self.m_uScancodesHeld.filter (fun x => x ≠ k) }
      (events ++ (self.HandleKey k false g).events) := by
  obtain ⟨f1, f2, f3, f4⟩ := CWaylandInputThread.HandleKey_fields k false g self
  have hq := CWaylandInputThread.KeyInv_quiet uKey uMetaMask self events h
  obtain ⟨i1, i2, i3, i4, i5⟩ := h
  obtain ⟨k1, k2⟩ := CWaylandInputThread.forwardedKey_HandleKey uKey k false g self
  refine ⟨?_, ?_, ?_, ?_, ?_⟩
  · show ((self.HandleKey k false g).self.m_uScancodesHeld.filter (fun x => x ≠ k)).Nodup
    rw [f4]
    exact i1.filter _
  · intro he
    change (self.HandleKey k false g).self.m_bKeyboardEntered = false at he
    rw [f1, hent] at he
    exact absurd he (by simp)
  · rw [forwardedKey_append]
    by_cases hku : k = uKey
    · subst hku
      rw [k2 hq, alternates_append, i3]
      have : ¬ ((forwardedKey k events).length % 2 = 0) := by
        have := i4.mp hk
        omega
      simp [this]
    · rw [k1 hku, List.append_nil]
      exact i3
  · show uKey ∈ (self.HandleKey k false g).self.m_uScancodesHeld.filter (fun x => x ≠ k) ↔ _
    rw [f4, forwardedKey_append, List.mem_filter]
    by_cases hku : k = uKey
    · subst hku
      rw [k2 hq, List.length_append]
      have := i4.mp hk
      simp only [ne_eq, not_true_eq_false, decide_False, Bool.false_eq_true, and_false,
        List.length_singleton, false_iff]
      omega
    · rw [k1 hku, List.append_nil, ← i4]
      have : uKey ≠ k := fun h => hku h.symm
      simp [this]
  · show uKey ∉ hotkeys ∨
      ((self.HandleKey k false g).self.m_uModMask GAMESCOPE_WAYLAND_MOD_META = uMetaMask ∧
        Nat.land (self.HandleKey k false g).self.m_uKeyModifiers uMetaMask = 0)
    rw [f2, f3]
    exact i5

theorem CWaylandInputThread.KeyInv_of_eq (uKey uMetaMask : Nat)
    (self self2 : CWaylandInputThread) (events events2 : List InputEvent)
    (h : self.KeyInv uKey uMetaMask events)
    (e1 : self2.m_uScancodesHeld = self.m_uScancodesHeld)
    (e2 : self2.m_bKeyboardEntered = false → self2.m_uScancodesHeld = [])
    (e3 : self2.m_uKeyModifiers = self.m_uKeyModifiers)
    (e4 : self2.m_uModMask = self.m_uModMask)
    (e5 : forwardedKey uKey events2 = forwardedKey uKey events) :
    self2.KeyInv uKey uMetaMask events2 := by
  obtain ⟨i1, _, i3, i4, i5⟩ := h
  refine ⟨?_, e2, ?_, ?_, ?_⟩
  · rw [e1]
    exact i1
  · rw [e5]
    exact i3
  · rw [e1, e5]
    exact i4
  · rw [e3, e4]
    exact i5

theorem CWaylandInputThread.EnterKeys_KeyInv (uKey uMetaMask : Nat)
    (pre : List InputEvent) :
    ∀ (keys : List Nat) (call : InputCall), keys.Nodup →
      (∀ k ∈ keys, k ∉ call.self.m_uScancodesHeld) →
      call.self.KeyInv uKey uMetaMask (pre ++ call.events) →
      call.self.m_bKeyboardEntered = true →
      (CWaylandInputThread.EnterKeys keys call).self.KeyInv uKey uMetaMask
          (pre ++ (CWaylandInputThread.EnterKeys keys call).events) ∧
        (CWaylandInputThread.EnterKeys keys call).self.m_bKeyboardEntered = true := by
  intro keys
  induction keys with
  | nil => intro call _ _ h he; exact ⟨h, he⟩
  | cons k rest ih =>
    intro call hnd hnot h he
    obtain ⟨f1, f2, f3, f4⟩ := CWaylandInputThread.HandleKey_fields k true call.g call.self
    unfold CWaylandInputThread.EnterKeys
    apply ih
    · exact (List.nodup_cons.mp hnd).2
    · intro x hx
      show x ∉ (call.self.HandleKey k true call.g).self.m_uScancodesHeld.insert k
      rw [f4, List.mem_insert_iff]
      rintro (hxk | hxh)
      · subst hxk
        exact (List.nodup_cons.mp hnd).1 hx
      · exact hnot x (List.mem_cons_of_mem _ hx) hxh
    · show CWaylandInputThread.KeyInv uKey uMetaMask _
        (pre ++ (call.events ++ (call.self.HandleKey k true call.g).events))
      rw [← List.append_assoc]
      exact CWaylandInputThread.KeyInv_press uKey uMetaMask k call.g call.self _ h he
        (hnot k (List.mem_cons_self _ _))
    · show (call.self.HandleKey k true call.g).self.m_bKeyboardEntered = true
      rw [f1]
      exact he

theorem CWaylandInputThread.LeaveKeys_spec (uKey : Nat) :
    ∀ (keys : List Nat) (call : InputCall), keys.Nodup →
      call.self.m_uKeyModifiers = 0 →
      (CWaylandInputThread.LeaveKeys keys call).self.m_uScancodesHeld =
          call.self.m_uScancodesHeld ∧
        (CWaylandInputThread.LeaveKeys keys call).self.m_bKeyboardEntered =
          call.self.m_bKeyboardEntered ∧
        (CWaylandInputThread.LeaveKeys keys call).self.m_uKeyModifiers = 0 ∧
        (CWaylandInputThread.LeaveKeys keys call).self.m_uModMask = call.self.m_uModMask ∧
        forwardedKey uKey (CWaylandInputThread.LeaveKeys keys call).events =
          forwardedKey uKey call.events ++ (if uKey ∈ keys then [false] else []) := by
  intro keys
  induction keys with
  | nil => intro call _ h; simp [CWaylandInputThread.LeaveKeys, h]
  | cons k rest ih =>
    intro call hnd hm
    obtain ⟨f1, f2, f3, f4⟩ := CWaylandInputThread.HandleKey_fields k false call.g call.self
    obtain ⟨k1, k2⟩ := CWaylandInputThread.forwardedKey_HandleKey uKey k false call.g call.self
    have hq : uKey ∉ hotkeys ∨ Nat.land call.self.m_uKeyModifiers
        (call.self.m_uModMask GAMESCOPE_WAYLAND_MOD_META) = 0 := by
      right
      rw [hm]
      exact Nat.zero_and _
    obtain ⟨r1, r2, r3, r4, r5⟩ := ih
      ⟨(call.self.HandleKey k false call.g).self, (call.self.HandleKey k false call.g).g,
        call.events ++ (call.self.HandleKey k false call.g).events⟩
      (List.nodup_cons.mp hnd).2
      (by
        show (call.self.HandleKey k false call.g).self.m_uKeyModifiers = 0
        rw [f2, hm])
    unfold CWaylandInputThread.LeaveKeys
    refine ⟨r1.trans f4, r2.trans f1, r3, r4.trans f3, ?_⟩
    rw [r5]
    show forwardedKey uKey (call.events ++ (call.self.HandleKey k false call.g).events) ++ _ = _
    rw [forwardedKey_append, List.append_assoc]
    congr 1
    by_cases hku : k = uKey
    · subst hku
      have : k ∉ rest := (List.nodup_cons.mp hnd).1
      rw [k2 hq]
      simp [this]
    · rw [k1 hku]
      have : uKey ≠ k := fun h => hku h.symm
      simp [this]

theorem KeyboardOp.perform_KeyInv (uKey uMetaMask : Nat) (op : KeyboardOp)
    (rest : List KeyboardOp) (g : InputGlobals) (self : CWaylandInputThread)
    (pre : List InputEvent) (h : self.KeyInv uKey uMetaMask pre)
    (hc : KeyboardOp.conforms self.m_bKeyboardEntered (op :: rest) = true)
    (hm : uKey ∉ hotkeys ∨ op.withoutMeta uMetaMask = true) :
    (op.perform g self).self.KeyInv uKey uMetaMask (pre ++ (op.perform g self).events) ∧
    KeyboardOp.conforms (op.perform g self).self.m_bKeyboardEntered rest = true := by
  cases op with
  | Wayland_Keyboard_Enter pKeys bPendingMotion =>
    simp only [KeyboardOp.conforms, Bool.and_eq_true, Bool.not_eq_true', decide_eq_true_eq]
      at hc
    obtain ⟨⟨hent, hnd⟩, hrest⟩ := hc
    have hheld : self.m_uScancodesHeld = [] := h.2.1 hent
    obtain ⟨e1, e2⟩ := CWaylandInputThread.EnterKeys_KeyInv uKey uMetaMask pre pKeys
      ⟨{ self with m_bKeyboardEntered := true, m_uScancodesHeld := [] }, g, []⟩ hnd
      (fun k _ => List.not_mem_nil k)
      (CWaylandInputThread.KeyInv_of_eq uKey uMetaMask self _ pre _ h hheld.symm
        (fun he => absurd he (by simp)) rfl rfl (by rw [List.append_nil]))
      rfl
    simp only [KeyboardOp.perform, CWaylandInputThread.Wayland_Keyboard_Enter]
    cases bPendingMotion with
    | false =>
      simp only [Bool.false_eq_true, if_false]
      exact ⟨e1, by rw [e2]; exact hrest⟩
    | true =>
      simp only [if_true]
      refine ⟨CWaylandInputThread.KeyInv_of_eq uKey uMetaMask _ _ _ _ e1 rfl ?_ rfl rfl ?_, ?_⟩
      · intro he
        change (CWaylandInputThread.EnterKeys pKeys _).self.m_bKeyboardEntered = false at he
        rw [e2] at he
        exact absurd he (by simp)
      · rw [← List.append_assoc, forwardedKey_append]
        simp [forwardedKey]
      · show KeyboardOp.conforms
          (CWaylandInputThread.EnterKeys pKeys _).self.m_bKeyboardEntered rest = true
        rw [e2]
        exact hrest
  | Wayland_Keyboard_Leave =>
    simp only [KeyboardOp.conforms] at hc
    obtain ⟨i1, i2, i3, i4, i5⟩ := h
    obtain ⟨r1, r2, r3, r4, r5⟩ := CWaylandInputThread.LeaveKeys_spec uKey
      self.m_uScancodesHeld
      ⟨{ self with m_bKeyboardEntered := false, m_uKeyModifiers := 0 }, g, []⟩ i1 rfl
    simp only [KeyboardOp.perform, CWaylandInputThread.Wayland_Keyboard_Leave]
    refine ⟨⟨List.nodup_nil, fun _ => rfl, ?_, ?_, ?_⟩, ?_⟩
    · rw [forwardedKey_append, r5]
      by_cases hk : uKey ∈ self.m_uScancodesHeld
      · have hodd := i4.mp hk
        have hne : ¬ ((forwardedKey uKey pre).length % 2 = 0) := by omega
        simp only [hk, if_true, forwardedKey, List.filterMap_nil, List.nil_append]
        simp only [forwardedKey] at i3 hne
        rw [alternates_append, i3]
        simp [hne]
      · simp only [hk, if_false, forwardedKey, List.filterMap_nil, List.nil_append,
          List.append_nil]
        exact i3
    · rw [forwardedKey_append, r5]
      by_cases hk : uKey ∈ self.m_uScancodesHeld
      · have hodd := i4.mp hk
        simp only [hk, if_true, forwardedKey, List.filterMap_nil, List.nil_append,
          List.length_append, List.length_singleton, List.not_mem_nil, false_iff]
        simp only [forwardedKey] at hodd
        omega
      · have hev := i4.not.mp hk
        simp only [hk, if_false, forwardedKey, List.filterMap_nil, List.nil_append,
          List.append_nil, List.not_mem_nil, false_iff]
        exact hev
    · rcases i5 with i5 | ⟨i5, _⟩
      · exact Or.inl i5
      · right
        refine ⟨?_, ?_⟩
        · show (CWaylandInputThread.LeaveKeys _ _).self.m_uModMask
            GAMESCOPE_WAYLAND_MOD_META = uMetaMask
          rw [r4]
          exact i5
        · show Nat.land (CWaylandInputThread.LeaveKeys _ _).self.m_uKeyModifiers uMetaMask = 0
          rw [r3]
          exact Nat.zero_and _
    · show KeyboardOp.conforms (CWaylandInputThread.LeaveKeys _ _).self.m_bKeyboardEntered
        rest = true
      rw [r2]
      exact hc
  | Wayland_Keyboard_Key k uState =>
    simp only [KeyboardOp.conforms] at hc
    simp only [KeyboardOp.perform, CWaylandInputThread.Wayland_Keyboard_Key]
    cases hent : self.m_bKeyboardEntered with
    | false =>
      rw [hent] at hc
      simp only [Bool.not_false, if_true, List.append_nil, hent]
      exact ⟨h, hc⟩
    | true =>
      rw [hent] at hc
      simp only [Bool.not_true, Bool.false_eq_true, if_false]
      obtain ⟨f1, _, _, _⟩ := CWaylandInputThread.HandleKey_fields k
        (decide (uState = WL_KEYBOARD_KEY_STATE_PRESSED)) g self
      by_cases hsame : decide (k ∈ self.m_uScancodesHeld) =
          decide (uState = WL_KEYBOARD_KEY_STATE_PRESSED)
      · simp only [hsame, if_true, List.append_nil, hent]
        exact ⟨h, hc⟩
      · simp only [hsame, if_false]
        refine ⟨?_, by
          show KeyboardOp.conforms
            (CWaylandInputThread.HandleKey k _ g self).self.m_bKeyboardEntered rest = true
          rw [f1, hent]
          exact hc⟩
        by_cases hk : k ∈ self.m_uScancodesHeld
        · have hp : decide (uState = WL_KEYBOARD_KEY_STATE_PRESSED) = false := by
            cases hd : decide (uState = WL_KEYBOARD_KEY_STATE_PRESSED) with
            | false => rfl
            | true => rw [hd] at hsame; simp [hk] at hsame
          rw [hp]
          simp only [hk, if_true]
          exact CWaylandInputThread.KeyInv_release uKey uMetaMask k g self pre h hent hk
        · have hp : decide (uState = WL_KEYBOARD_KEY_STATE_PRESSED) = true := by
            cases hd : decide (uState = WL_KEYBOARD_KEY_STATE_PRESSED) with
            | true => rfl
            | false => rw [hd] at hsame; simp [hk] at hsame
          rw [hp]
          simp only [hk, if_false]
          exact CWaylandInputThread.KeyInv_press uKey uMetaMask k g self pre h hent hk
  | Wayland_Keyboard_Modifiers d l c =>
    simp only [KeyboardOp.conforms] at hc
    simp only [KeyboardOp.perform, CWaylandInputThread.Wayland_Keyboard_Modifiers,
      List.append_nil]
    obtain ⟨i1, i2, i3, i4, i5⟩ := h
    refine ⟨⟨i1, i2, i3, i4, ?_⟩, hc⟩
    rcases hm with hm | hm
    · exact Or.inl hm
    · rcases i5 with i5 | ⟨i5, _⟩
      · exact Or.inl i5
      · right
        simp only [KeyboardOp.withoutMeta, beq_iff_eq] at hm
        exact ⟨i5, hm⟩

theorem InputCall.run_KeyInv (uKey uMetaMask : Nat) (ops : List KeyboardOp) :
    ∀ (call : InputCall), call.self.KeyInv uKey uMetaMask call.events →
      KeyboardOp.conforms call.self.m_bKeyboardEntered ops = true →
      (uKey ∉ hotkeys ∨ ∀ op ∈ ops, op.withoutMeta uMetaMask = true) →
      (call.run ops).self.KeyInv uKey uMetaMask (call.run ops).events := by
  induction ops with
  | nil => intro call h _ _; exact h
  | cons op rest ih =>
    intro call h hc hm
    obtain ⟨s1, s2⟩ := KeyboardOp.perform_KeyInv uKey uMetaMask op rest call.g call.self
      call.events h hc (hm.imp id (fun hm => hm op (List.mem_cons_self _ _)))
    exact ih _ s1 s2 (hm.imp id (fun hm o ho => hm o (List.mem_cons_of_mem _ ho)))

theorem InputCall.run_snoc (ops : List KeyboardOp) (op : KeyboardOp) :
    ∀ (call : InputCall), call.run (ops ++ [op]) =
      ⟨(op.perform (call.run ops).g (call.run ops).self).self,
        (op.perform (call.run ops).g (call.run ops).self).g,
        (call.run ops).events ++ (op.perform (call.run ops).g (call.run ops).self).events⟩ := by
  induction ops with
  | nil => intro call; rfl
  | cons o rest ih =>
    intro call
    show InputCall.run _ (rest ++ [op]) = _
    rw [ih]
    rfl

theorem KeyboardOp.conforms_snoc_Leave (ops : List KeyboardOp) :
    ∀ bEntered, KeyboardOp.conforms bEntered ops = true →
      KeyboardOp.conforms bEntered (ops ++ [KeyboardOp.Wayland_Keyboard_Leave]) = true := by
  induction ops with
  | nil => intro b _; rfl
  | cons o rest ih =>
    intro b h
    cases o with
    | Wayland_Keyboard_Enter pKeys bPendingMotion =>
      simp only [List.cons_append, KeyboardOp.conforms, Bool.and_eq_true] at h ⊢
      exact ⟨h.1, ih true h.2⟩
    | Wayland_Keyboard_Leave => exact ih false h
    | Wayland_Keyboard_Key k s => exact ih b h
    | Wayland_Keyboard_Modifiers d l c => exact ih b h

/-- C30, amended: the input thread starts with the keyboard not entered and no
key held, and receives a sequence of enter, key, modifiers and leave events in
which an enter event comes only while the keyboard is not entered and names no
key twice.  For every key that is none of the eight hotkeys, and for every key
at all when no modifiers event of the sequence sets the Meta modifier, the
forwarded presses and releases of the key alternate, starting with a press;
and after a `Wayland_Keyboard_Leave` that follows the sequence no key is held
and as many releases as presses of the key have been forwarded. -/
theorem C30_forwarded_keys_balanced (uKey : Nat) (ops : List KeyboardOp) (g : InputGlobals)
    (self : CWaylandInputThread)
    (hent : self.m_bKeyboardEntered = false) (hheld : self.m_uScancodesHeld = [])
    (hc : KeyboardOp.conforms false ops = true)
    (hk : uKey ∉ hotkeys ∨
      (Nat.land self.m_uKeyModifiers (self.m_uModMask GAMESCOPE_WAYLAND_MOD_META) = 0 ∧
        ∀ op ∈ ops, op.withoutMeta (self.m_uModMask GAMESCOPE_WAYLAND_MOD_META) = true)) :
    alternates true (forwardedKey uKey ((InputCall.mk self g []).run ops).events) = true ∧
    ((InputCall.mk self g []).run
      (ops ++ [KeyboardOp.Wayland_Keyboard_Leave])).self.m_uScancodesHeld = [] ∧
    (forwardedKey uKey ((InputCall.mk self g []).run
        (ops ++ [KeyboardOp.Wayland_Keyboard_Leave])).events).count true =
      (forwardedKey uKey ((InputCall.mk self g []).run
        (ops ++ [KeyboardOp.Wayland_Keyboard_Leave])).events).count false := by
  have h0 : self.KeyInv uKey (self.m_uModMask GAMESCOPE_WAYLAND_MOD_META) [] := by
    refine ⟨by rw [hheld]; exact List.nodup_nil, fun _ => hheld, rfl, ?_, ?_⟩
    · rw [hheld]
      simp [forwardedKey]
    · rcases hk with hk | hk
      · exact Or.inl hk
      · exact Or.inr ⟨rfl, hk.1⟩
  have hc0 : KeyboardOp.conforms (InputCall.mk self g []).self.m_bKeyboardEntered ops = true := by
    show KeyboardOp.conforms self.m_bKeyboardEntered ops = true
    rw [hent]
    exact hc
  have h1 := InputCall.run_KeyInv uKey (self.m_uModMask GAMESCOPE_WAYLAND_MOD_META) ops
    ⟨self, g, []⟩ h0 hc0 (hk.imp id (fun hk => hk.2))
  have h2 := InputCall.run_KeyInv uKey (self.m_uModMask GAMESCOPE_WAYLAND_MOD_META)
    (ops ++ [KeyboardOp.Wayland_Keyboard_Leave]) ⟨self, g, []⟩ h0
    (by
      show KeyboardOp.conforms self.m_bKeyboardEntered _ = true
      rw [hent]
      exact KeyboardOp.conforms_snoc_Leave ops false hc)
    (hk.imp id (fun hk op hop => by
      rcases List.mem_append.mp hop with hop | hop
      · exact hk.2 op hop
      · rw [List.mem_singleton.mp hop]
        rfl))
  have hempty : ((InputCall.mk self g []).run
      (ops ++ [KeyboardOp.Wayland_Keyboard_Leave])).self.m_uScancodesHeld = [] := by
    rw [InputCall.run_snoc]
    rfl
  refine ⟨h1.2.2.1, hempty, ?_⟩
  obtain ⟨_, _, a3, a4, _⟩ := h2
  rw [hempty] at a4
  have heven : (forwardedKey uKey ((InputCall.mk self g []).run
      (ops ++ [KeyboardOp.Wayland_Keyboard_Leave])).events).length % 2 = 0 := by
    have := a4.not.mp (List.not_mem_nil _)
    omega
  obtain ⟨c1, c2⟩ := alternates_count _ true a3
  rw [c1]
  simp only [Bool.not_true] at c2
  rw [c2]
  omega

/-- C30 on a concrete sequence: the key 30 is pressed, the keyboard leaves. -/
theorem C30_forwarded_keys_balanced_witness :
    forwardedKey 30
      ((InputCall.mk (plainInputThread 0) plainInputGlobals []).run
        [KeyboardOp.Wayland_Keyboard_Enter [] false, KeyboardOp.Wayland_Keyboard_Key 30 1,
          KeyboardOp.Wayland_Keyboard_Leave]).events = [true, false] ∧
    alternates true (forwardedKey 30
      ((InputCall.mk (plainInputThread 0) plainInputGlobals []).run
        [KeyboardOp.Wayland_Keyboard_Enter [] false, KeyboardOp.Wayland_Keyboard_Key 30 1,
          KeyboardOp.Wayland_Keyboard_Leave]).events) = true :=
  ⟨by decide,
    (C30_forwarded_keys_balanced 30
      [KeyboardOp.Wayland_Keyboard_Enter [] false, KeyboardOp.Wayland_Keyboard_Key 30 1,
        KeyboardOp.Wayland_Keyboard_Leave] plainInputGlobals (plainInputThread 0) rfl rfl
      (by decide) (Or.inl (by decide))).1⟩
/-- C30, counterexample: three sequences of keyboard events.  F is pressed,
the Meta modifier is set, F is released: the press is forwarded and the
release is taken by the hotkey, so that after `Wayland_Keyboard_Leave` the key
F has a forwarded press without release.  With Meta set before the press and
cleared before the release, the first forwarded event of F is a release.  Two
enter events that name the key 30, without leave between them, forward two
presses of it in a row. -/
theorem C30_counterexample_swallowed_release :
    KeyboardOp.conforms false
      [KeyboardOp.Wayland_Keyboard_Enter [] false, KeyboardOp.Wayland_Keyboard_Key KEY_F 1,
        KeyboardOp.Wayland_Keyboard_Modifiers 64 0 0, KeyboardOp.Wayland_Keyboard_Key KEY_F 0,
        KeyboardOp.Wayland_Keyboard_Leave] = true ∧
    forwardedKey KEY_F
      ((InputCall.mk (plainInputThread 0) plainInputGlobals []).run
        [KeyboardOp.Wayland_Keyboard_Enter [] false, KeyboardOp.Wayland_Keyboard_Key KEY_F 1,
          KeyboardOp.Wayland_Keyboard_Modifiers 64 0 0, KeyboardOp.Wayland_Keyboard_Key KEY_F 0,
          KeyboardOp.Wayland_Keyboard_Leave]).events = [true] ∧
    forwardedKey KEY_F
      ((InputCall.mk (plainInputThread 0) plainInputGlobals []).run
        [KeyboardOp.Wayland_Keyboard_Enter [] false,
          KeyboardOp.Wayland_Keyboard_Modifiers 64 0 0, KeyboardOp.Wayland_Keyboard_Key KEY_F 1,
          KeyboardOp.Wayland_Keyboard_Modifiers 0 0 0, KeyboardOp.Wayland_Keyboard_Key KEY_F 0,
          KeyboardOp.Wayland_Keyboard_Leave]).events = [false] ∧
    forwardedKey 30
      ((InputCall.mk (plainInputThread 0) plainInputGlobals []).run
        [KeyboardOp.Wayland_Keyboard_Enter [30] false,
          KeyboardOp.Wayland_Keyboard_Enter [30] false]).events = [true, true] := by
  decide

end gamescope
